import Mathlib

/-!
# Hardware barrier offload (coll/gba_barrier, coll/switch_barrier)

A shallow embedding of the control plane of the two barrier-offload
components and the properties of their group allocator, their group
configurator, their barrier entry points, their module lifecycle, their
rendezvous state and the IOMMU table.

Conventions of the embedding:

* C unsigned integers are `Nat`; a reduction `% 2 ^ w` is written where the C
  arithmetic can wrap.  C `int` is `Int`.
* A pointer argument that the C code tests against `NULL` is an `Option`:
  `none` is `NULL`, `some v` is a valid pointer whose pointee currently holds
  `v`.  A function returns its C return value together with the new pointees.
* Raw addresses (`void *`) are `Nat`, with `NULL = 0` and
  `MAP_FAILED = (void *) -1`.
* The register space of a device is a byte map `regs`, indexed by the byte
  offset from `base_addr`; it is the state of the hardware, which the process
  reaches only through the mapping.  A register access is an 8-byte
  little-endian load or store.  `writes` records the stores in program order.
* The device lock and the memory fences are not modelled (single thread).
* A `for (i = 0; i < N; i++)` loop is a recursion on the number of remaining
  iterations `N - i`.
* A module points to the device and the DMA or IOMMU context of its component.
  The module records whether the pointer is set; the state of the object is an
  argument and a result of each function that reaches it.
* `sysconf`, `mmap`, `munmap` and `memset` act on an explicit host state
  `host_t`.
* The switch allocator evaluates `1ULL << i` for `i` up to `num_groups`; the
  value of the shift for `i >= 64`, which C leaves undefined, is the parameter
  `shl_ub` of the functions that reach it.
* Function pointers and module pointers are addresses (`Nat`).  The addresses
  of a component's own functions are the parameter `fns`, the address of the
  module is `module_addr`.  A call through a saved function pointer is answered
  by the environment `coll_env`; a call through `NULL` does not return.
* The functions of a module act on a world (`gba_world`,
  `switch_barrier_world`): the module, its communicator, the device and the DMA
  or IOMMU context of the component, and the host.
* The release flag lives in host memory and is written by the hardware.  A
  barrier call takes the list of the values that the flag holds at its
  successive reads; a call that is still polling when the list ends has not
  returned (`ret = none`).
-/

/-! ## Constants -/

/-- Modelled from the spec: the return codes of `ompi/constants.h`, which is
not among the sources.  The values are those of Open MPI; the development only
uses that they are pairwise distinct. -/
def OMPI_SUCCESS : Int := 0
/-- Modelled from the spec: `OutOfResource` of `ompi/constants.h`. -/
def OMPI_ERR_OUT_OF_RESOURCE : Int := -2
/-- Modelled from the spec: `BadParameter` of `ompi/constants.h`. -/
def OMPI_ERR_BAD_PARAM : Int := -5
/-- Modelled from the spec: `NotSupported` of `ompi/constants.h`. -/
def OMPI_ERR_NOT_SUPPORTED : Int := -8
/-- Modelled from the spec: the not-found code of `ompi/constants.h`. -/
def OMPI_ERR_NOT_FOUND : Int := -13
/-- Modelled from the spec: `NotAvailable` of `ompi/constants.h`. -/
def OMPI_ERR_NOT_AVAILABLE : Int := -16

/-- The null pointer. -/
def NULL : Nat := 0
/-- The value `(void *) -1` returned by a failed `mmap`. -/
def MAP_FAILED : Nat := 2 ^ 64 - 1

def GBA_MAX_GROUPS : Nat := 32
def GBA_MAX_MEMBERS : Nat := 708
def GBA_MEMBER_MASK_WORDS : Nat := (GBA_MAX_MEMBERS + 63) / 64
def GBA_GROUP_REG_SIZE : Nat := 0x1000
def GBA_GROUP_REG_BASE (gid : Nat) : Nat := gid * GBA_GROUP_REG_SIZE

def GBA_REG_GROUP_ID : Nat := 0x0000
def GBA_REG_MEMBER_COUNT : Nat := 0x0004
def GBA_REG_CONTROL : Nat := 0x0008
def GBA_REG_STATUS : Nat := 0x000C
def GBA_REG_ARRIVAL_COUNT : Nat := 0x0010
def GBA_REG_SEQUENCE : Nat := 0x0014
def GBA_REG_MEMBER_MASK_BASE : Nat := 0x0020
def GBA_REG_ARRIVED_MASK_BASE : Nat := 0x0080
def GBA_REG_RELEASE_FLAG_BASE : Nat := 0x0100

def GBA_CTRL_ENABLE : Nat := 1 <<< 0
def GBA_CTRL_RESET : Nat := 1 <<< 1
def GBA_CTRL_ARM : Nat := 1 <<< 2

/-! ## Byte-addressed register window -/

/-- An 8-byte little-endian store `*(uint64_t *)(base + a) = v`. -/
def store64 (m : Nat → Nat) (a v : Nat) : Nat → Nat :=
  fun x => if a ≤ x ∧ x < a + 8 then (v / 256 ^ (x - a)) % 256 else m x

/-- An 8-byte little-endian load `*(uint64_t *)(base + a)`. -/
def load64 (m : Nat → Nat) (a : Nat) : Nat :=
  (List.range 8).foldr (fun k acc => m (a + k) % 256 + 256 * acc) 0

/-- The stores of a trace, applied in order. -/
def replay (m : Nat → Nat) : List (Nat × Nat) → Nat → Nat
  | [] => m
  | w :: ws => replay (store64 m w.1 w.2) ws

/-! ## GBA device and register access (coll_gba_barrier_control.c) -/

/-- The device handle `gba_device_t`.  `regs` is the content of the register
space that `base_addr` maps and `writes` the register stores issued so far, as
pairs of byte offset and value. -/
structure gba_device_t where
  base_addr : Nat
  device_fd : Int
  num_groups : Int
  group_alloc_mask : Nat
  regs : Nat → Nat
  writes : List (Nat × Nat)

/-- Device teardown `gba_device_fini`: the return code and the new device.
Unmapping does not change the registers of the hardware. -/
def gba_device_fini (device : Option gba_device_t) : Int × Option gba_device_t :=
  match device with
  | none => (OMPI_ERR_BAD_PARAM, device)
  | some d =>
    let d1 := if d.base_addr ≠ NULL ∧ d.base_addr ≠ MAP_FAILED then
      { d with base_addr := NULL } else d
    let d2 := if d1.device_fd ≥ 0 then { d1 with device_fd := -1 } else d1
    (OMPI_SUCCESS, some { d2 with num_groups := 0, group_alloc_mask := 0 })

/-- Register read `gba_reg_read`: the return code and the new `*value`. -/
def gba_reg_read (device : Option gba_device_t) (group_id offset : Nat)
    (value : Option Nat) : Int × Option Nat :=
  match device, value with
  | some d, some _ =>
    if group_id ≥ GBA_MAX_GROUPS then (OMPI_ERR_BAD_PARAM, value)
    else if d.base_addr = NULL ∨ d.base_addr = MAP_FAILED then
      (OMPI_ERR_NOT_AVAILABLE, value)
    else
      let addr := (GBA_GROUP_REG_BASE group_id + offset) % 2 ^ 32
      (OMPI_SUCCESS, some (load64 d.regs addr))
  | _, _ => (OMPI_ERR_BAD_PARAM, value)

/-- Register write `gba_reg_write`: the return code and the new device. -/
def gba_reg_write (device : Option gba_device_t) (group_id offset value : Nat) :
    Int × Option gba_device_t :=
  match device with
  | none => (OMPI_ERR_BAD_PARAM, device)
  | some d =>
    if group_id ≥ GBA_MAX_GROUPS then (OMPI_ERR_BAD_PARAM, device)
    else if d.base_addr = NULL ∨ d.base_addr = MAP_FAILED then
      (OMPI_ERR_NOT_AVAILABLE, device)
    else
      let addr := (GBA_GROUP_REG_BASE group_id + offset) % 2 ^ 32
      (OMPI_SUCCESS,
        some { d with regs := store64 d.regs addr value,
                      writes := d.writes ++ [(addr, value)] })

/-- The scan of `gba_allocate_group`: `n` iterations remain, starting at `i`;
the result is the first `i` whose bit is clear in `mask`. -/
def gba_allocate_group_scan (mask : Nat) : Nat → Nat → Option Nat
  | 0, _ => none
  | n + 1, i =>
    if mask &&& (1 <<< i) = 0 then some i
    else gba_allocate_group_scan mask n (i + 1)

/-- Group allocation `gba_allocate_group`: the return code, the new device and
the new `*group_id`. -/
def gba_allocate_group (device : Option gba_device_t) (group_id : Option Nat) :
    Int × Option gba_device_t × Option Nat :=
  match device, group_id with
  | some d, some _ =>
    match gba_allocate_group_scan d.group_alloc_mask GBA_MAX_GROUPS 0 with
    | some i =>
      (OMPI_SUCCESS,
        some { d with group_alloc_mask := d.group_alloc_mask ||| (1 <<< i) },
        some i)
    | none => (OMPI_ERR_OUT_OF_RESOURCE, device, group_id)
  | _, _ => (OMPI_ERR_BAD_PARAM, device, group_id)

/-- Group release `gba_free_group`: the return code and the new device.  The
result of the register write is discarded, as in the source. -/
def gba_free_group (device : Option gba_device_t) (group_id : Nat) :
    Int × Option gba_device_t :=
  match device with
  | none => (OMPI_ERR_BAD_PARAM, device)
  | some _ =>
    if group_id ≥ GBA_MAX_GROUPS then (OMPI_ERR_BAD_PARAM, device)
    else
      match (gba_reg_write device group_id GBA_REG_CONTROL GBA_CTRL_RESET).2 with
      | none => (OMPI_SUCCESS, none)
      | some d1 =>
        (OMPI_SUCCESS,
          some { d1 with group_alloc_mask :=
            d1.group_alloc_mask &&& ((2 ^ 32 - 1) ^^^ (1 <<< group_id)) })

/-- A run of `n` consecutive `gba_allocate_group` calls on one device and one
output cell, with no free in between: the return code and output of each call
in order, then the final device and output cell. -/
def gba_allocate_group_calls : Nat → Option gba_device_t → Option Nat →
    List (Int × Option Nat) × Option gba_device_t × Option Nat
  | 0, device, group_id => ([], device, group_id)
  | n + 1, device, group_id =>
    let r := gba_allocate_group device group_id
    let rest := gba_allocate_group_calls n r.2.1 r.2.2
    ((r.1, r.2.2) :: rest.1, rest.2)

/-- The configuration `gba_group_config_t`; `member_mask` holds the
`GBA_MEMBER_MASK_WORDS` words of the C array, lowest word first. -/
structure gba_group_config_t where
  group_id : Nat
  member_count : Nat
  local_member_id : Nat
  member_mask : List Nat

/-- The member-mask loop of `gba_configure_group` (step 4): `n` iterations
remain, starting at word `i`; it stops at the first failing write. -/
def gba_configure_group_mask_loop (config : gba_group_config_t) :
    Nat → Nat → Option gba_device_t → Int × Option gba_device_t
  | 0, _, device => (OMPI_SUCCESS, device)
  | n + 1, i, device =>
    let r := gba_reg_write device config.group_id
      ((GBA_REG_MEMBER_MASK_BASE + i * 8) % 2 ^ 32) (config.member_mask.getD i 0)
    if r.1 ≠ OMPI_SUCCESS then r
    else gba_configure_group_mask_loop config n (i + 1) r.2

/-- Group programming `gba_configure_group`: the return code and the new
device.  Each `goto unlock` is an early return of the failing write's code. -/
def gba_configure_group (device : Option gba_device_t)
    (config : Option gba_group_config_t) : Int × Option gba_device_t :=
  match device, config with
  | some _, some c =>
    let r1 := gba_reg_write device c.group_id GBA_REG_CONTROL 0
    if r1.1 ≠ OMPI_SUCCESS then r1 else
    let r2 := gba_reg_write r1.2 c.group_id GBA_REG_CONTROL GBA_CTRL_RESET
    if r2.1 ≠ OMPI_SUCCESS then r2 else
    let r3 := gba_reg_write r2.2 c.group_id GBA_REG_GROUP_ID c.group_id
    if r3.1 ≠ OMPI_SUCCESS then r3 else
    let r4 := gba_reg_write r3.2 c.group_id GBA_REG_MEMBER_COUNT c.member_count
    if r4.1 ≠ OMPI_SUCCESS then r4 else
    let r5 := gba_configure_group_mask_loop c GBA_MEMBER_MASK_WORDS 0 r4.2
    if r5.1 ≠ OMPI_SUCCESS then r5 else
    gba_reg_write r5.2 c.group_id GBA_REG_CONTROL (GBA_CTRL_ENABLE ||| GBA_CTRL_ARM)
  | _, _ => (OMPI_ERR_BAD_PARAM, device)

/-! ## Switch device, register access, allocator and configurator
(coll_switch_barrier_control_plane.c) -/

def SWITCH_BARRIER_REG_NETWORK_ADDR : Nat := 0x0000
def SWITCH_BARRIER_REG_GROUP_ID : Nat := 0x0008
def SWITCH_BARRIER_REG_MEMBER_MASK_LO : Nat := 0x0010
def SWITCH_BARRIER_REG_MEMBER_MASK_HI : Nat := 0x0018
def SWITCH_BARRIER_REG_MEMBER_COUNT : Nat := 0x0020
def SWITCH_BARRIER_REG_CONTROL : Nat := 0x0028
def SWITCH_BARRIER_REG_STATUS : Nat := 0x0030
def SWITCH_BARRIER_REG_ARRIVED_MASK_LO : Nat := 0x0038
def SWITCH_BARRIER_REG_ARRIVED_MASK_HI : Nat := 0x0040
def SWITCH_BARRIER_REG_LOCAL_MEMBER_ID : Nat := 0x0048
def SWITCH_BARRIER_REG_RELEASE_ADDR : Nat := 0x0050
def SWITCH_BARRIER_REG_ARRIVAL_ADDR : Nat := 0x0058

def SWITCH_BARRIER_CTRL_ENABLE : Nat := 1 <<< 0
def SWITCH_BARRIER_CTRL_RESET : Nat := 1 <<< 1
def SWITCH_BARRIER_CTRL_ARM : Nat := 1 <<< 2
def SWITCH_BARRIER_CTRL_INTERRUPT_EN : Nat := 1 <<< 3

def SWITCH_BARRIER_MAX_GROUPS : Nat := 256
def SWITCH_BARRIER_MAX_MEMBERS : Nat := 128
def SWITCH_BARRIER_REG_SPACE_SIZE : Nat := 0x10000
def SWITCH_BARRIER_GROUP_REG_STRIDE : Nat := 0x100

/-- The conversion `(uint32_t) x` of an `int`. -/
def uint32_of_int (x : Int) : Nat := (x % 2 ^ 32).toNat

/-- The conversion `(int) x` of a `uint32_t`. -/
def int_of_uint32 (x : Nat) : Int := if x < 2 ^ 31 then (x : Int) else (x : Int) - 2 ^ 32

/-- The expression `1ULL << i`.  For `i < 64` it is `2 ^ i`.  For `i >= 64` C
leaves the shift undefined; `shl_ub i` stands for the 64-bit value the target
then produces (x86-64 and AArch64 take the count modulo 64, see
`shl_ub_mod64`). -/
def shl_1ULL (shl_ub : Nat → Nat) (i : Nat) : Nat :=
  if i < 64 then 1 <<< i else shl_ub i % 2 ^ 64

/-- The out-of-range shift of x86-64 and AArch64: the count is taken modulo
64. -/
def shl_ub_mod64 (i : Nat) : Nat := 1 <<< (i % 64)

/-- The device handle `switch_barrier_device_t`, with the register window
`regs` and the store trace `writes` as for `gba_device_t`. -/
structure switch_barrier_device_t where
  base_addr : Nat
  control_plane_handle : Nat
  network_addr : Nat
  device_fd : Int
  num_groups : Int
  group_allocation_mask : Nat
  regs : Nat → Nat
  writes : List (Nat × Nat)

/-- The configuration `switch_barrier_group_config_t`; `member_mask` holds the
two words and `network_addrs` the `SWITCH_BARRIER_MAX_MEMBERS` entries of the
C arrays. -/
structure switch_barrier_group_config_t where
  group_id : Nat
  member_count : Nat
  member_mask : List Nat
  network_addrs : List Nat
  local_member_id : Nat

/-- The register address `switch_barrier_calc_reg_addr`, computed in 32-bit
unsigned arithmetic. -/
def switch_barrier_calc_reg_addr (group_id reg_offset : Nat) : Nat :=
  (group_id * SWITCH_BARRIER_GROUP_REG_STRIDE + reg_offset) % 2 ^ 32

/-- Register read `switch_barrier_reg_read`: the return code and the new
`*value`. -/
def switch_barrier_reg_read (device : Option switch_barrier_device_t)
    (group_id reg_offset : Nat) (value : Option Nat) : Int × Option Nat :=
  match device, value with
  | some d, some _ =>
    if group_id ≥ uint32_of_int d.num_groups then (OMPI_ERR_BAD_PARAM, value)
    else if NULL = d.base_addr ∨ d.base_addr = MAP_FAILED then
      (OMPI_ERR_NOT_AVAILABLE, value)
    else
      let addr := switch_barrier_calc_reg_addr group_id reg_offset
      (OMPI_SUCCESS, some (load64 d.regs addr))
  | _, _ => (OMPI_ERR_BAD_PARAM, value)

/-- Register write `switch_barrier_reg_write`: the return code and the new
device. -/
def switch_barrier_reg_write (device : Option switch_barrier_device_t)
    (group_id reg_offset value : Nat) : Int × Option switch_barrier_device_t :=
  match device with
  | none => (OMPI_ERR_BAD_PARAM, device)
  | some d =>
    if group_id ≥ uint32_of_int d.num_groups then (OMPI_ERR_BAD_PARAM, device)
    else if NULL = d.base_addr ∨ d.base_addr = MAP_FAILED then
      (OMPI_ERR_NOT_AVAILABLE, device)
    else
      let addr := switch_barrier_calc_reg_addr group_id reg_offset
      (OMPI_SUCCESS,
        some { d with regs := store64 d.regs addr value,
                      writes := d.writes ++ [(addr, value)] })

/-- The per-member address loop of `switch_barrier_configure_group`, bounded
by `(int) member_count` and `SWITCH_BARRIER_MAX_MEMBERS`: `n` iterations remain
at most, starting at member `i`. -/
def switch_barrier_configure_group_addr_loop (config : switch_barrier_group_config_t) :
    Nat → Nat → Option switch_barrier_device_t →
      Int × Option switch_barrier_device_t
  | 0, _, device => (OMPI_SUCCESS, device)
  | n + 1, i, device =>
    if (i : Int) < int_of_uint32 config.member_count ∧ i < SWITCH_BARRIER_MAX_MEMBERS then
      let member_addr_offset := (SWITCH_BARRIER_REG_ARRIVAL_ADDR + i * 8) % 2 ^ 32
      let r := switch_barrier_reg_write device config.group_id member_addr_offset
        (config.network_addrs.getD i 0)
      if r.1 ≠ OMPI_SUCCESS then r
      else switch_barrier_configure_group_addr_loop config n (i + 1) r.2
    else (OMPI_SUCCESS, device)

/-- Group programming `switch_barrier_configure_group`: the return code and
the new device. -/
def switch_barrier_configure_group (device : Option switch_barrier_device_t)
    (config : Option switch_barrier_group_config_t) :
    Int × Option switch_barrier_device_t :=
  match device, config with
  | some _, some c =>
    let r1 := switch_barrier_reg_write device c.group_id SWITCH_BARRIER_REG_CONTROL 0
    if r1.1 ≠ OMPI_SUCCESS then r1 else
    let r2 := switch_barrier_reg_write r1.2 c.group_id SWITCH_BARRIER_REG_CONTROL
      SWITCH_BARRIER_CTRL_RESET
    if r2.1 ≠ OMPI_SUCCESS then r2 else
    let r3 := switch_barrier_reg_write r2.2 c.group_id SWITCH_BARRIER_REG_GROUP_ID
      c.group_id
    if r3.1 ≠ OMPI_SUCCESS then r3 else
    let r4 := switch_barrier_reg_write r3.2 c.group_id SWITCH_BARRIER_REG_MEMBER_COUNT
      c.member_count
    if r4.1 ≠ OMPI_SUCCESS then r4 else
    let r5 := switch_barrier_reg_write r4.2 c.group_id SWITCH_BARRIER_REG_MEMBER_MASK_LO
      (c.member_mask.getD 0 0)
    if r5.1 ≠ OMPI_SUCCESS then r5 else
    let r6 := switch_barrier_reg_write r5.2 c.group_id SWITCH_BARRIER_REG_MEMBER_MASK_HI
      (c.member_mask.getD 1 0)
    if r6.1 ≠ OMPI_SUCCESS then r6 else
    let r7 := switch_barrier_reg_write r6.2 c.group_id SWITCH_BARRIER_REG_LOCAL_MEMBER_ID
      c.local_member_id
    if r7.1 ≠ OMPI_SUCCESS then r7 else
    let r8 := switch_barrier_configure_group_addr_loop c SWITCH_BARRIER_MAX_MEMBERS 0 r7.2
    if r8.1 ≠ OMPI_SUCCESS then r8 else
    switch_barrier_reg_write r8.2 c.group_id SWITCH_BARRIER_REG_CONTROL
      (SWITCH_BARRIER_CTRL_ENABLE ||| SWITCH_BARRIER_CTRL_ARM)
  | _, _ => (OMPI_ERR_BAD_PARAM, device)

/-- The scan of `switch_barrier_allocate_group`: `n` iterations remain,
starting at `i`. -/
def switch_barrier_allocate_group_scan (shl_ub : Nat → Nat) (mask : Nat) :
    Nat → Nat → Option Nat
  | 0, _ => none
  | n + 1, i =>
    if mask &&& shl_1ULL shl_ub i = 0 then some i
    else switch_barrier_allocate_group_scan shl_ub mask n (i + 1)

/-- Group allocation `switch_barrier_allocate_group`: the return code, the new
device and the new `*group_id`.  The loop runs `i` from 0 up to
`device->num_groups`. -/
def switch_barrier_allocate_group (shl_ub : Nat → Nat)
    (device : Option switch_barrier_device_t) (group_id : Option Nat) :
    Int × Option switch_barrier_device_t × Option Nat :=
  match device, group_id with
  | some d, some _ =>
    match switch_barrier_allocate_group_scan shl_ub d.group_allocation_mask
        d.num_groups.toNat 0 with
    | some i =>
      (OMPI_SUCCESS,
        some { d with group_allocation_mask :=
          d.group_allocation_mask ||| shl_1ULL shl_ub i },
        some i)
    | none => (OMPI_ERR_OUT_OF_RESOURCE, device, group_id)
  | _, _ => (OMPI_ERR_BAD_PARAM, device, group_id)

/-- Group release `switch_barrier_free_group`: the return code and the new
device.  The result of the register write is discarded, as in the source. -/
def switch_barrier_free_group (shl_ub : Nat → Nat)
    (device : Option switch_barrier_device_t) (group_id : Nat) :
    Int × Option switch_barrier_device_t :=
  match device with
  | none => (OMPI_ERR_BAD_PARAM, device)
  | some d =>
    if group_id ≥ uint32_of_int d.num_groups then (OMPI_ERR_BAD_PARAM, device)
    else
      match (switch_barrier_reg_write device group_id SWITCH_BARRIER_REG_CONTROL 0).2 with
      | none => (OMPI_SUCCESS, none)
      | some d1 =>
        (OMPI_SUCCESS,
          some { d1 with group_allocation_mask :=
            d1.group_allocation_mask &&& ((2 ^ 64 - 1) ^^^ shl_1ULL shl_ub group_id) })

/-- A run of `n` consecutive `switch_barrier_allocate_group` calls on one
device and one output cell, with no free in between: the return code and
output of each call in order, then the final device and output cell. -/
def switch_barrier_allocate_group_calls (shl_ub : Nat → Nat) :
    Nat → Option switch_barrier_device_t → Option Nat →
      List (Int × Option Nat) × Option switch_barrier_device_t × Option Nat
  | 0, device, group_id => ([], device, group_id)
  | n + 1, device, group_id =>
    let r := switch_barrier_allocate_group shl_ub device group_id
    let rest := switch_barrier_allocate_group_calls shl_ub n r.2.1 r.2.2
    ((r.1, r.2.2) :: rest.1, rest.2)

/-! ## Host services used by the rendezvous state -/

/-- The operating-system services behind `sysconf`, `mmap`, `munmap` and
`memset`, as an environment: `page_size` is `sysconf (_SC_PAGESIZE)`,
`mmap_results` the results of the coming `mmap` calls in order (`MAP_FAILED`
for a call that fails), `mem` the byte-addressed process memory, `mapped` the
live mappings as (address, length) and `unmapped` the `munmap` calls so far. -/
structure host_t where
  page_size : Nat
  mmap_results : List Nat
  mem : Nat → Nat
  mapped : List (Nat × Nat)
  unmapped : List (Nat × Nat)

/-- The call `mmap (NULL, length, ..., MAP_PRIVATE | MAP_ANONYMOUS, -1, 0)`. -/
def host_t.mmap (h : host_t) (length : Nat) : Nat × host_t :=
  match h.mmap_results with
  | [] => (MAP_FAILED, h)
  | a :: rest =>
    if a = MAP_FAILED then (MAP_FAILED, { h with mmap_results := rest })
    else (a, { h with mmap_results := rest, mapped := h.mapped ++ [(a, length)] })

/-- The call `munmap (addr, length)`. -/
def host_t.munmap (h : host_t) (addr length : Nat) : host_t :=
  { h with mapped := h.mapped.erase (addr, length),
           unmapped := h.unmapped ++ [(addr, length)] }

/-- The call `memset (addr, 0, length)`. -/
def host_t.memset_zero (h : host_t) (addr length : Nat) : host_t :=
  { h with mem := fun x => if addr ≤ x ∧ x < addr + length then 0 else h.mem x }

/-- The protection `PROT_READ | PROT_WRITE` of `sys/mman.h`. -/
def PROT_READ_WRITE : Int := 3

/-! ## GBA DMA context and rendezvous state (coll_gba_barrier_control.c) -/

/-- The DMA context `gba_dma_context_t`.  `unmap_calls` records the device
addresses passed to `gba_dma_unmap` so far; the C structure has no such
field. -/
structure gba_dma_context_t where
  dma_fd : Int
  dma_handle : Nat
  unmap_calls : List Nat

/-- The rendezvous state `gba_local_state_t`; `release_flag` and `flag_memory`
are addresses in host memory. -/
structure gba_local_state_t where
  release_flag : Nat
  expected_seq : Nat
  flag_memory : Nat
  flag_size : Nat
  dma_addr : Nat

/-- DMA mapping `gba_dma_map` (identity mapping): the return code and the new
`*dma_addr`. -/
def gba_dma_map (ctx : Option gba_dma_context_t) (vaddr size : Nat)
    (dma_addr : Option Nat) : Int × Option Nat :=
  match ctx, dma_addr with
  | some _, some _ =>
    if vaddr = NULL ∨ size = 0 then (OMPI_ERR_BAD_PARAM, dma_addr)
    else (OMPI_SUCCESS, some vaddr)
  | _, _ => (OMPI_ERR_BAD_PARAM, dma_addr)

/-- DMA unmapping `gba_dma_unmap` (a placeholder in the source): the return
code and the context, with the call recorded. -/
def gba_dma_unmap (ctx : Option gba_dma_context_t) (dma_addr : Nat) :
    Int × Option gba_dma_context_t :=
  match ctx with
  | none => (OMPI_ERR_BAD_PARAM, none)
  | some c => (OMPI_SUCCESS, some { c with unmap_calls := c.unmap_calls ++ [dma_addr] })

/-- Rendezvous-state setup `gba_local_state_init`: the return code, the new
state and the new host. -/
def gba_local_state_init (state : Option gba_local_state_t)
    (ctx : Option gba_dma_context_t) (host : host_t) :
    Int × Option gba_local_state_t × host_t :=
  match state with
  | none => (OMPI_ERR_BAD_PARAM, none, host)
  | some _ =>
    let s0 : gba_local_state_t := ⟨0, 0, 0, 0, 0⟩
    let s1 := { s0 with flag_size := host.page_size }
    let m := host.mmap s1.flag_size
    let s2 := { s1 with flag_memory := m.1 }
    if s2.flag_memory = MAP_FAILED then (OMPI_ERR_OUT_OF_RESOURCE, some s2, m.2)
    else
      let h1 := m.2.memset_zero s2.flag_memory s2.flag_size
      let s3 := { s2 with release_flag := s2.flag_memory, expected_seq := 1 }
      match ctx with
      | some _ =>
        let r := gba_dma_map ctx s3.flag_memory s3.flag_size (some s3.dma_addr)
        let s4 := { s3 with dma_addr := r.2.getD s3.dma_addr }
        if r.1 ≠ OMPI_SUCCESS then
          (r.1, some { s4 with flag_memory := NULL }, h1.munmap s4.flag_memory s4.flag_size)
        else (OMPI_SUCCESS, some s4, h1)
      | none => (OMPI_SUCCESS, some { s3 with dma_addr := s3.flag_memory }, h1)

/-- Rendezvous-state teardown `gba_local_state_fini`: the return code, the new
state, the new DMA context and the new host. -/
def gba_local_state_fini (state : Option gba_local_state_t)
    (ctx : Option gba_dma_context_t) (host : host_t) :
    Int × Option gba_local_state_t × Option gba_dma_context_t × host_t :=
  match state with
  | none => (OMPI_ERR_BAD_PARAM, none, ctx, host)
  | some s =>
    let u := if ctx.isSome ∧ s.dma_addr ≠ 0 then
      ({ s with dma_addr := 0 }, (gba_dma_unmap ctx s.dma_addr).2)
      else (s, ctx)
    let r := if u.1.flag_memory ≠ NULL ∧ u.1.flag_memory ≠ MAP_FAILED then
      ({ u.1 with flag_memory := NULL }, host.munmap u.1.flag_memory u.1.flag_size)
      else (u.1, host)
    (OMPI_SUCCESS, some { r.1 with release_flag := NULL }, u.2, r.2)

/-! ## Communicator and GBA module (coll_gba_barrier_module.c) -/

/-- Modelled from the spec: the communicator `ompi_communicator_t` of
`ompi/communicator/communicator.h`, which is not among the sources, reduced to
what the components query: the size, the local rank, whether it is an
inter-communicator, the process pointer of each member as
`ompi_comm_peer_lookup` returns it (`NULL` when the lookup fails), and the
barrier and non-blocking barrier entries of its dispatch table (function and
module pointers). -/
structure ompi_communicator_t where
  size : Int
  rank : Int
  is_inter : Bool
  procs : List Nat
  coll_barrier : Nat
  coll_barrier_module : Nat
  coll_ibarrier : Nat
  coll_ibarrier_module : Nat

/-- Modelled from the spec: the base module `mca_coll_base_module_t` of
`ompi/mca/coll/coll.h`, which is not among the sources, reduced to the four
function pointers that the components set: the lifecycle hooks and the two
collective entry points. -/
structure mca_coll_base_module_t where
  coll_module_enable : Nat
  coll_module_disable : Nat
  coll_barrier : Nat
  coll_ibarrier : Nat

/-- The per-communicator module `mca_coll_gba_module_t`.  `device` tells
whether the device pointer is set: it is either `NULL` (`false`) or the address
of the component's device (`true`), whose state the functions take and return
separately.  Function and module pointers are addresses. -/
structure mca_coll_gba_module_t where
  super : mca_coll_base_module_t
  device : Bool
  config : gba_group_config_t
  local_state : gba_local_state_t
  barrier_seq : Nat
  offload_enabled : Bool
  previous_barrier : Nat
  previous_barrier_module : Nat
  previous_ibarrier : Nat
  previous_ibarrier_module : Nat

/-- The member-mask loop of `gba_configure_comm_domain`: `n` iterations
remain, starting at member `i`. -/
def gba_configure_comm_domain_mask_loop : Nat → Nat → List Nat → List Nat
  | 0, _, member_mask => member_mask
  | n + 1, i, member_mask =>
    let word_idx := i / 64
    let bit_idx := i % 64
    gba_configure_comm_domain_mask_loop n (i + 1)
      (member_mask.set word_idx (member_mask.getD word_idx 0 ||| (1 <<< bit_idx)))

/-- Communicator-domain setup `gba_configure_comm_domain`: the return code,
the new module, and the new states of the component's device, of the
component's DMA context and of the host.  The local `group_id` starts at 0;
its initial value is never read. -/
def gba_configure_comm_domain (module : mca_coll_gba_module_t)
    (comm : ompi_communicator_t) (device : gba_device_t) (dma_ctx : gba_dma_context_t)
    (host : host_t) :
    Int × mca_coll_gba_module_t × gba_device_t × gba_dma_context_t × host_t :=
  let comm_size := comm.size
  let my_rank := comm.rank
  if comm_size > GBA_MAX_MEMBERS then
    (OMPI_ERR_NOT_SUPPORTED, module, device, dma_ctx, host)
  else
    let devp := if module.device then some device else none
    let a := gba_allocate_group devp (some 0)
    if a.1 ≠ OMPI_SUCCESS then (a.1, module, (a.2.1).getD device, dma_ctx, host)
    else
      let group_id := (a.2.2).getD 0
      let member_mask := gba_configure_comm_domain_mask_loop comm_size.toNat 0
        (List.replicate GBA_MEMBER_MASK_WORDS 0)
      let config : gba_group_config_t :=
        { module.config with group_id := group_id,
                             member_count := uint32_of_int comm_size,
                             local_member_id := uint32_of_int my_rank,
                             member_mask := member_mask }
      let m1 := { module with config := config }
      let l := gba_local_state_init (some m1.local_state) (some dma_ctx) host
      let m2 := { m1 with local_state := (l.2.1).getD m1.local_state }
      if l.1 ≠ OMPI_SUCCESS then
        let f := gba_free_group a.2.1 group_id
        (l.1, m2, (f.2).getD device, dma_ctx, l.2.2)
      else
        let c := gba_configure_group a.2.1 (some m2.config)
        if c.1 ≠ OMPI_SUCCESS then
          let t := gba_local_state_fini (some m2.local_state) (some dma_ctx) l.2.2
          let m3 := { m2 with local_state := (t.2.1).getD m2.local_state }
          let f := gba_free_group c.2 group_id
          (c.1, m3, (f.2).getD device, (t.2.2.1).getD dma_ctx, t.2.2.2)
        else
          (OMPI_SUCCESS, { m2 with barrier_seq := 0, offload_enabled := true },
            (c.2).getD device, dma_ctx, l.2.2)

/-! ## Switch IOMMU table (coll_switch_barrier_iommu.c) -/

def IOMMU_DEFAULT_MAX_MAPPINGS : Nat := 64

/-- The table entry `switch_barrier_iommu_mapping_t`. -/
structure switch_barrier_iommu_mapping_t where
  vaddr : Nat
  iova : Nat
  size : Nat
  prot : Int
  valid : Int
deriving DecidableEq

/-- The context `switch_barrier_iommu_context_t`; `mappings` is the content of
the array that `switch_barrier_iommu_init` allocates. -/
structure switch_barrier_iommu_context_t where
  iommu_fd : Int
  domain_id : Int
  iommu_handle : Nat
  mappings : List switch_barrier_iommu_mapping_t
  num_mappings : Int
  max_mappings : Int
deriving DecidableEq

/-- The entry `ctx->mappings[i]`; an entry that `calloc` zeroed stands for an
index outside the list. -/
def switch_barrier_iommu_context_t.entry (ctx : switch_barrier_iommu_context_t)
    (i : Nat) : switch_barrier_iommu_mapping_t :=
  ctx.mappings.getD i ⟨0, 0, 0, 0, 0⟩

/-- The slot search of `switch_barrier_iommu_map`: `n` iterations remain,
starting at `i`; `none` is `slot = -1`. -/
def switch_barrier_iommu_map_scan (ctx : switch_barrier_iommu_context_t) :
    Nat → Nat → Option Nat
  | 0, _ => none
  | n + 1, i =>
    if (ctx.entry i).valid = 0 then some i
    else switch_barrier_iommu_map_scan ctx n (i + 1)

/-- IOMMU mapping `switch_barrier_iommu_map` (identity mapping): the return
code, the new context and the new `*iova`. -/
def switch_barrier_iommu_map (ctx : Option switch_barrier_iommu_context_t)
    (vaddr size : Nat) (iova : Option Nat) :
    Int × Option switch_barrier_iommu_context_t × Option Nat :=
  match ctx, iova with
  | some c, some _ =>
    if vaddr = NULL ∨ size = 0 then (OMPI_ERR_BAD_PARAM, ctx, iova)
    else
      match switch_barrier_iommu_map_scan c c.max_mappings.toNat 0 with
      | none => (OMPI_ERR_OUT_OF_RESOURCE, ctx, iova)
      | some slot =>
        let e : switch_barrier_iommu_mapping_t :=
          { vaddr := vaddr, iova := vaddr, size := size, prot := PROT_READ_WRITE,
            valid := 1 }
        let c1 := { c with mappings := c.mappings.set slot e }
        let c2 := if (slot : Int) ≥ c1.num_mappings then
          { c1 with num_mappings := slot + 1 } else c1
        (OMPI_SUCCESS, some c2, some e.iova)
  | _, _ => (OMPI_ERR_BAD_PARAM, ctx, iova)

/-- The search of `switch_barrier_iommu_unmap`: `n` iterations remain,
starting at `i`. -/
def switch_barrier_iommu_unmap_scan (ctx : switch_barrier_iommu_context_t) (iova : Nat) :
    Nat → Nat → Option Nat
  | 0, _ => none
  | n + 1, i =>
    if (ctx.entry i).valid ≠ 0 ∧ (ctx.entry i).iova = iova then some i
    else switch_barrier_iommu_unmap_scan ctx iova n (i + 1)

/-- IOMMU unmapping `switch_barrier_iommu_unmap`: the return code and the new
context. -/
def switch_barrier_iommu_unmap (ctx : Option switch_barrier_iommu_context_t)
    (iova : Nat) : Int × Option switch_barrier_iommu_context_t :=
  match ctx with
  | none => (OMPI_ERR_BAD_PARAM, none)
  | some c =>
    match switch_barrier_iommu_unmap_scan c iova c.num_mappings.toNat 0 with
    | some i =>
      let e := c.entry i
      let e1 := { e with valid := 0, vaddr := NULL, iova := 0, size := 0 }
      (OMPI_SUCCESS, some { c with mappings := c.mappings.set i e1 })
    | none => (OMPI_ERR_NOT_FOUND, ctx)

/-! ## Switch rendezvous state (coll_switch_barrier_control_plane.c) -/

/-- The rendezvous state `switch_barrier_local_state_t`; the flags and
`flag_memory` are addresses in host memory. -/
structure switch_barrier_local_state_t where
  arrival_flag : Nat
  release_flag : Nat
  expected_sequence : Nat
  flag_memory : Nat
  flag_memory_size : Nat
  iommu_iova : Nat

/-- Rendezvous-state setup `switch_barrier_init_local_state`: the return code,
the new state, the new IOMMU context and the new host. -/
def switch_barrier_init_local_state (local_state : Option switch_barrier_local_state_t)
    (iommu_ctx : Option switch_barrier_iommu_context_t) (host : host_t) :
    Int × Option switch_barrier_local_state_t ×
      Option switch_barrier_iommu_context_t × host_t :=
  match local_state with
  | none => (OMPI_ERR_BAD_PARAM, none, iommu_ctx, host)
  | some _ =>
    let s0 : switch_barrier_local_state_t := ⟨0, 0, 0, 0, 0, 0⟩
    let s1 := { s0 with flag_memory_size := host.page_size }
    let m := host.mmap s1.flag_memory_size
    let s2 := { s1 with flag_memory := m.1 }
    if s2.flag_memory = MAP_FAILED then
      (OMPI_ERR_OUT_OF_RESOURCE, some s2, iommu_ctx, m.2)
    else
      let h1 := m.2.memset_zero s2.flag_memory s2.flag_memory_size
      let s3 := { s2 with arrival_flag := s2.flag_memory,
                          release_flag := s2.flag_memory + 64,
                          expected_sequence := 1 }
      match iommu_ctx with
      | some _ =>
        let r := switch_barrier_iommu_map iommu_ctx s3.flag_memory s3.flag_memory_size
          (some s3.iommu_iova)
        let s4 := { s3 with iommu_iova := (r.2.2).getD s3.iommu_iova }
        if r.1 ≠ OMPI_SUCCESS then
          (r.1, some { s4 with flag_memory := NULL }, r.2.1,
            h1.munmap s4.flag_memory s4.flag_memory_size)
        else (OMPI_SUCCESS, some s4, r.2.1, h1)
      | none => (OMPI_SUCCESS, some s3, none, h1)

/-- Rendezvous-state teardown `switch_barrier_fini_local_state`: the return
code, the new state, the new IOMMU context and the new host. -/
def switch_barrier_fini_local_state (local_state : Option switch_barrier_local_state_t)
    (iommu_ctx : Option switch_barrier_iommu_context_t) (host : host_t) :
    Int × Option switch_barrier_local_state_t ×
      Option switch_barrier_iommu_context_t × host_t :=
  match local_state with
  | none => (OMPI_ERR_BAD_PARAM, none, iommu_ctx, host)
  | some s =>
    let u := if iommu_ctx.isSome ∧ s.iommu_iova ≠ 0 then
      ({ s with iommu_iova := 0 }, (switch_barrier_iommu_unmap iommu_ctx s.iommu_iova).2)
      else (s, iommu_ctx)
    let r := if u.1.flag_memory ≠ NULL ∧ u.1.flag_memory ≠ MAP_FAILED then
      ({ u.1 with flag_memory := NULL },
        host.munmap u.1.flag_memory u.1.flag_memory_size)
      else (u.1, host)
    (OMPI_SUCCESS, some { r.1 with arrival_flag := NULL, release_flag := NULL }, u.2, r.2)

/-! ## Switch module (coll_switch_barrier_module.c) -/

/-- Modelled from the spec: the barrier entries of the dispatch table
`mca_coll_base_comm_coll_t` of `ompi/mca/coll/coll.h`, which is not among the
sources: the installed barrier and non-blocking barrier functions and their
modules, as addresses. -/
structure mca_coll_base_comm_coll_t where
  coll_barrier : Nat
  coll_barrier_module : Nat
  coll_ibarrier : Nat
  coll_ibarrier_module : Nat

/-- The per-communicator module `mca_coll_switch_barrier_module_t`.  `device`
and `iommu_ctx` tell whether the pointer is set: `NULL` (`false`) or the
address of the component's device or IOMMU context (`true`), whose states the
functions take and return separately. -/
structure mca_coll_switch_barrier_module_t where
  super : mca_coll_base_module_t
  c_coll : mca_coll_base_comm_coll_t
  device : Bool
  group_config : switch_barrier_group_config_t
  local_state : switch_barrier_local_state_t
  iommu_ctx : Bool
  barrier_sequence : Nat
  offload_enabled : Bool

/-- The member-mask loop of `switch_barrier_configure_comm_domain`: `n`
iterations remain, starting at member `i`.  The caller has checked
`comm_size <= 128`, so both shift counts are below 64. -/
def switch_barrier_configure_comm_domain_mask_loop : Nat → Nat → List Nat → List Nat
  | 0, _, member_mask => member_mask
  | n + 1, i, member_mask =>
    switch_barrier_configure_comm_domain_mask_loop n (i + 1)
      (if i < 64 then member_mask.set 0 (member_mask.getD 0 0 ||| (1 <<< i))
       else member_mask.set 1 (member_mask.getD 1 0 ||| (1 <<< (i - 64))))

/-- The peer-lookup loop of `switch_barrier_configure_comm_domain`: `n`
iterations remain, starting at member `i`.  The result tells whether every
lookup succeeded and holds the addresses stored so far. -/
def switch_barrier_configure_comm_domain_peer_loop (comm : ompi_communicator_t) :
    Nat → Nat → List Nat → Bool × List Nat
  | 0, _, network_addrs => (true, network_addrs)
  | n + 1, i, network_addrs =>
    let proc := comm.procs.getD i NULL
    if proc = NULL then (false, network_addrs)
    else switch_barrier_configure_comm_domain_peer_loop comm n (i + 1)
      (network_addrs.set i proc)

/-- Communicator-domain setup `switch_barrier_configure_comm_domain`: the
return code, the new module, and the new states of the component's device, of
the component's IOMMU context and of the host.  The local `group_id` starts at
0; its initial value is never read. -/
def switch_barrier_configure_comm_domain (shl_ub : Nat → Nat)
    (module : mca_coll_switch_barrier_module_t) (comm : ompi_communicator_t)
    (device : switch_barrier_device_t) (iommu_ctx : switch_barrier_iommu_context_t)
    (host : host_t) :
    Int × mca_coll_switch_barrier_module_t × switch_barrier_device_t ×
      switch_barrier_iommu_context_t × host_t :=
  let comm_size := comm.size
  let my_rank := comm.rank
  if comm_size > SWITCH_BARRIER_MAX_MEMBERS then
    (OMPI_ERR_NOT_SUPPORTED, module, device, iommu_ctx, host)
  else
    let devp := if module.device then some device else none
    let ctxp := if module.iommu_ctx then some iommu_ctx else none
    let a := switch_barrier_allocate_group shl_ub devp (some 0)
    if a.1 ≠ OMPI_SUCCESS then (a.1, module, (a.2.1).getD device, iommu_ctx, host)
    else
      let group_id := (a.2.2).getD 0
      let member_mask :=
        switch_barrier_configure_comm_domain_mask_loop comm_size.toNat 0 [0, 0]
      let g1 : switch_barrier_group_config_t :=
        { module.group_config with group_id := group_id,
                                   member_count := uint32_of_int comm_size,
                                   local_member_id := uint32_of_int my_rank,
                                   member_mask := member_mask }
      let p := switch_barrier_configure_comm_domain_peer_loop comm comm_size.toNat 0
        g1.network_addrs
      let g2 := { g1 with network_addrs := p.2 }
      let m1 := { module with group_config := g2 }
      if p.1 = false then
        let f := switch_barrier_free_group shl_ub a.2.1 group_id
        (OMPI_ERR_NOT_FOUND, m1, (f.2).getD device, iommu_ctx, host)
      else
        let l := switch_barrier_init_local_state (some m1.local_state) ctxp host
        let m2 := { m1 with local_state := (l.2.1).getD m1.local_state }
        let ctx1 := (l.2.2.1).getD iommu_ctx
        if l.1 ≠ OMPI_SUCCESS then
          let f := switch_barrier_free_group shl_ub a.2.1 group_id
          (l.1, m2, (f.2).getD device, ctx1, l.2.2.2)
        else
          let c := switch_barrier_configure_group a.2.1 (some m2.group_config)
          if c.1 ≠ OMPI_SUCCESS then
            let t := switch_barrier_fini_local_state (some m2.local_state) l.2.2.1
              l.2.2.2
            let m3 := { m2 with local_state := (t.2.1).getD m2.local_state }
            let f := switch_barrier_free_group shl_ub c.2 group_id
            (c.1, m3, (f.2).getD device, (t.2.2.1).getD iommu_ctx, t.2.2.2)
          else
            (OMPI_SUCCESS,
              { m2 with barrier_sequence := 0, offload_enabled := true },
              (c.2).getD device, ctx1, l.2.2.2)

/-! ## Host collective dispatch -/

/-- The value `MPI_SUCCESS` of `mpi.h`. -/
def MPI_SUCCESS : Int := 0

/-- Modelled from the spec: the collective implementations that other
components installed on a communicator, which the modules call through saved
function pointers.  `barrier fn comm module` is what the call `fn (comm,
module)` returns and `ibarrier fn comm request module` what `fn (comm, request,
module)` returns.  The called function is outside the component: it is taken to
leave the module, the device and the flag memory alone. -/
structure coll_env where
  barrier : Nat → ompi_communicator_t → Nat → Int
  ibarrier : Nat → ompi_communicator_t → Nat → Nat → Int

/-- A call `fn (comm, module)` through a barrier function pointer; `none`, no
return, when `fn` is `NULL`. -/
def coll_env.call_barrier (env : coll_env) (fn : Nat) (comm : ompi_communicator_t)
    (module : Nat) : Option Int :=
  if fn = NULL then none else some (env.barrier fn comm module)

/-- A call `fn (comm, request, module)` through a non-blocking barrier function
pointer; `none`, no return, when `fn` is `NULL`. -/
def coll_env.call_ibarrier (env : coll_env) (fn : Nat) (comm : ompi_communicator_t)
    (request module : Nat) : Option Int :=
  if fn = NULL then none else some (env.ibarrier fn comm request module)

/-- The addresses of the four functions that a component puts into its modules
and into the dispatch table: `module_enable`, `module_disable`, `barrier` and
`ibarrier` of that component. -/
structure coll_entry_points where
  module_enable : Nat
  module_disable : Nat
  barrier : Nat
  ibarrier : Nat

/-- Modelled from the spec: the macro `MCA_COLL_SAVE_API (comm, barrier, fct,
bmodule, name)` of `ompi/mca/coll/base/coll_base_util.h`, which is not among
the sources: it captures the currently installed barrier function and its
module. -/
def MCA_COLL_SAVE_API_barrier (comm : ompi_communicator_t) : Nat × Nat :=
  (comm.coll_barrier, comm.coll_barrier_module)

/-- Modelled from the spec: `MCA_COLL_SAVE_API (comm, ibarrier, fct, bmodule,
name)`, which captures the currently installed non-blocking barrier function
and its module. -/
def MCA_COLL_SAVE_API_ibarrier (comm : ompi_communicator_t) : Nat × Nat :=
  (comm.coll_ibarrier, comm.coll_ibarrier_module)

/-- Modelled from the spec: the macro `MCA_COLL_INSTALL_API (comm, barrier,
fct, bmodule, name)` of `ompi/mca/coll/base/coll_base_util.h`, which installs
`fct` and `bmodule` as the active barrier of the communicator. -/
def MCA_COLL_INSTALL_API_barrier (comm : ompi_communicator_t) (fct bmodule : Nat) :
    ompi_communicator_t :=
  { comm with coll_barrier := fct, coll_barrier_module := bmodule }

/-- Modelled from the spec: `MCA_COLL_INSTALL_API (comm, ibarrier, fct,
bmodule, name)`, which installs `fct` and `bmodule` as the active non-blocking
barrier of the communicator. -/
def MCA_COLL_INSTALL_API_ibarrier (comm : ompi_communicator_t) (fct bmodule : Nat) :
    ompi_communicator_t :=
  { comm with coll_ibarrier := fct, coll_ibarrier_module := bmodule }

/-! ## GBA component, admission and lifecycle (coll_gba_barrier_module.c) -/

/-- The component data `mca_coll_gba_component_t`, without the base component
and the device path. -/
structure mca_coll_gba_component_t where
  priority : Int
  disable : Int
  min_comm_size : Int
  device : gba_device_t
  dma_ctx : gba_dma_context_t
  initialized : Bool

/-- The objects that the functions of a GBA module reach: the module, its
communicator, and the device and DMA context of the component (their states),
and the host. -/
structure gba_world where
  module : mca_coll_gba_module_t
  comm : ompi_communicator_t
  device : gba_device_t
  dma_ctx : gba_dma_context_t
  host : host_t

/-- The constructor `mca_coll_gba_module_construct`. -/
def mca_coll_gba_module_construct (module : mca_coll_gba_module_t) :
    mca_coll_gba_module_t :=
  { module with config := ⟨0, 0, 0, List.replicate GBA_MEMBER_MASK_WORDS 0⟩,
                local_state := ⟨0, 0, 0, 0, 0⟩,
                device := false,
                barrier_seq := 0,
                offload_enabled := false,
                previous_barrier := NULL,
                previous_barrier_module := NULL,
                previous_ibarrier := NULL,
                previous_ibarrier_module := NULL }

/-- Modelled from the spec: `OBJ_NEW (mca_coll_gba_module_t)` of
`opal/class/opal_object.h`, which is not among the sources: `none` when the
allocation fails, else a new object on which the constructor of the base class,
which clears the function pointers, and then `mca_coll_gba_module_construct`
have run. -/
def OBJ_NEW_mca_coll_gba_module_t (alloc_ok : Bool) : Option mca_coll_gba_module_t :=
  if alloc_ok then
    some (mca_coll_gba_module_construct
      { super := ⟨NULL, NULL, NULL, NULL⟩, device := false, config := ⟨0, 0, 0, []⟩,
        local_state := ⟨0, 0, 0, 0, 0⟩, barrier_seq := 0, offload_enabled := false,
        previous_barrier := NULL, previous_barrier_module := NULL,
        previous_ibarrier := NULL, previous_ibarrier_module := NULL })
  else none

/-- The destructor `mca_coll_gba_module_destruct`. -/
def mca_coll_gba_module_destruct (w : gba_world) : gba_world :=
  if w.module.offload_enabled = true ∧ w.module.device = true then
    let f := gba_free_group (some w.device) w.module.config.group_id
    let t := gba_local_state_fini (some w.module.local_state) (some w.dma_ctx) w.host
    let m1 := { w.module with local_state := (t.2.1).getD w.module.local_state,
                              offload_enabled := false }
    { w with module := m1, device := (f.2).getD w.device,
             dma_ctx := (t.2.2.1).getD w.dma_ctx, host := t.2.2.2 }
  else w

/-- The admission query `mca_coll_gba_comm_query`: the module it returns
(`none` for `NULL`) and the new `*priority`.  `fns` holds the addresses of the
component's functions and `alloc_ok` tells whether `OBJ_NEW` can allocate. -/
def mca_coll_gba_comm_query (fns : coll_entry_points)
    (component : mca_coll_gba_component_t) (alloc_ok : Bool)
    (comm : ompi_communicator_t) (priority : Int) :
    Option mca_coll_gba_module_t × Int :=
  if ¬ component.initialized = true then (none, priority)
  else if comm.is_inter = true then (none, priority)
  else
    let comm_size := comm.size
    if comm_size < component.min_comm_size then (none, priority)
    else if comm_size > GBA_MAX_MEMBERS then (none, priority)
    else
      match OBJ_NEW_mca_coll_gba_module_t alloc_ok with
      | none => (none, priority)
      | some module =>
        let m1 := { module with device := true }
        let super1 : mca_coll_base_module_t :=
          { m1.super with coll_module_enable := fns.module_enable,
                          coll_module_disable := fns.module_disable,
                          coll_barrier := fns.barrier,
                          coll_ibarrier := fns.ibarrier }
        (some { m1 with super := super1 }, component.priority)

/-- The hook `mca_coll_gba_module_enable`: the return code and the new world.
`module_addr` is the address `&m->super` of the module. -/
def mca_coll_gba_module_enable (fns : coll_entry_points) (module_addr : Nat)
    (w : gba_world) : Int × gba_world :=
  let sb := MCA_COLL_SAVE_API_barrier w.comm
  let si := MCA_COLL_SAVE_API_ibarrier w.comm
  let m1 := { w.module with previous_barrier := sb.1, previous_barrier_module := sb.2,
                            previous_ibarrier := si.1, previous_ibarrier_module := si.2 }
  let c := gba_configure_comm_domain m1 w.comm w.device w.dma_ctx w.host
  let comm1 := MCA_COLL_INSTALL_API_barrier w.comm fns.barrier module_addr
  let comm2 := MCA_COLL_INSTALL_API_ibarrier comm1 fns.ibarrier module_addr
  (OMPI_SUCCESS,
    { module := c.2.1, comm := comm2, device := c.2.2.1, dma_ctx := c.2.2.2.1,
      host := c.2.2.2.2 })

/-- The hook `mca_coll_gba_module_disable`: the return code and the new
world. -/
def mca_coll_gba_module_disable (w : gba_world) : Int × gba_world :=
  let comm1 := if w.module.previous_barrier_module ≠ NULL then
    MCA_COLL_INSTALL_API_barrier w.comm w.module.previous_barrier
      w.module.previous_barrier_module
    else w.comm
  let comm2 := if w.module.previous_ibarrier_module ≠ NULL then
    MCA_COLL_INSTALL_API_ibarrier comm1 w.module.previous_ibarrier
      w.module.previous_ibarrier_module
    else comm1
  (OMPI_SUCCESS, { w with comm := comm2 })

/-! ## Switch component, admission and lifecycle (coll_switch_barrier_module.c) -/

/-- The component data `mca_coll_switch_barrier_component_t`, without the base
component and the device path. -/
structure mca_coll_switch_barrier_component_t where
  priority : Int
  disable_switch_barrier : Int
  min_comm_size : Int
  device : switch_barrier_device_t
  iommu_ctx : switch_barrier_iommu_context_t
  initialized : Bool

/-- The objects that the functions of a switch module reach: the module, its
communicator, and the device and IOMMU context of the component (their
states), and the host. -/
structure switch_barrier_world where
  module : mca_coll_switch_barrier_module_t
  comm : ompi_communicator_t
  device : switch_barrier_device_t
  iommu_ctx : switch_barrier_iommu_context_t
  host : host_t

/-- The constructor `mca_coll_switch_barrier_module_construct`. -/
def mca_coll_switch_barrier_module_construct (module : mca_coll_switch_barrier_module_t) :
    mca_coll_switch_barrier_module_t :=
  { module with c_coll := ⟨NULL, NULL, NULL, NULL⟩,
                device := false,
                group_config := ⟨0, 0, [0, 0], List.replicate SWITCH_BARRIER_MAX_MEMBERS 0, 0⟩,
                local_state := ⟨0, 0, 0, 0, 0, 0⟩,
                iommu_ctx := false,
                barrier_sequence := 0,
                offload_enabled := false }

/-- Modelled from the spec: `OBJ_NEW (mca_coll_switch_barrier_module_t)` of
`opal/class/opal_object.h`, which is not among the sources: `none` when the
allocation fails, else a new object on which the constructor of the base class,
which clears the function pointers, and then
`mca_coll_switch_barrier_module_construct` have run. -/
def OBJ_NEW_mca_coll_switch_barrier_module_t (alloc_ok : Bool) :
    Option mca_coll_switch_barrier_module_t :=
  if alloc_ok then
    some (mca_coll_switch_barrier_module_construct
      { super := ⟨NULL, NULL, NULL, NULL⟩, c_coll := ⟨NULL, NULL, NULL, NULL⟩,
        device := false, group_config := ⟨0, 0, [], [], 0⟩,
        local_state := ⟨0, 0, 0, 0, 0, 0⟩, iommu_ctx := false, barrier_sequence := 0,
        offload_enabled := false })
  else none

/-- The destructor `mca_coll_switch_barrier_module_destruct`. -/
def mca_coll_switch_barrier_module_destruct (shl_ub : Nat → Nat)
    (w : switch_barrier_world) : switch_barrier_world :=
  if w.module.offload_enabled = true ∧ w.module.device = true then
    let f := switch_barrier_free_group shl_ub (some w.device) w.module.group_config.group_id
    let ctxp := if w.module.iommu_ctx then some w.iommu_ctx else none
    let t := switch_barrier_fini_local_state (some w.module.local_state) ctxp w.host
    let m1 := { w.module with local_state := (t.2.1).getD w.module.local_state }
    { w with module := m1, device := (f.2).getD w.device,
             iommu_ctx := (t.2.2.1).getD w.iommu_ctx, host := t.2.2.2 }
  else w

/-- The admission query `mca_coll_switch_barrier_comm_query`: the module it
returns (`none` for `NULL`) and the new `*priority`.  `fns` holds the addresses
of the component's functions and `alloc_ok` tells whether `OBJ_NEW` can
allocate. -/
def mca_coll_switch_barrier_comm_query (fns : coll_entry_points)
    (component : mca_coll_switch_barrier_component_t) (alloc_ok : Bool)
    (comm : ompi_communicator_t) (priority : Int) :
    Option mca_coll_switch_barrier_module_t × Int :=
  if ¬ component.initialized = true then (none, priority)
  else if comm.is_inter = true then (none, priority)
  else
    let comm_size := comm.size
    if comm_size < component.min_comm_size then (none, priority)
    else if comm_size > SWITCH_BARRIER_MAX_MEMBERS then (none, priority)
    else
      match OBJ_NEW_mca_coll_switch_barrier_module_t alloc_ok with
      | none => (none, priority)
      | some module =>
        let m1 := { module with device := true, iommu_ctx := true }
        let super1 : mca_coll_base_module_t :=
          { m1.super with coll_module_enable := fns.module_enable,
                          coll_module_disable := fns.module_disable,
                          coll_barrier := fns.barrier,
                          coll_ibarrier := fns.ibarrier }
        (some { m1 with super := super1 }, component.priority)

/-- The macro `SWITCH_BARRIER_INSTALL_COLL_API (comm, module, barrier)`. -/
def SWITCH_BARRIER_INSTALL_COLL_API_barrier (fns : coll_entry_points) (module_addr : Nat)
    (w : switch_barrier_world) : switch_barrier_world :=
  if w.comm.coll_barrier ≠ NULL then
    let sv := MCA_COLL_SAVE_API_barrier w.comm
    let c1 := { w.module.c_coll with coll_barrier := sv.1, coll_barrier_module := sv.2 }
    let m1 := { w.module with c_coll := c1 }
    { w with module := m1,
             comm := MCA_COLL_INSTALL_API_barrier w.comm fns.barrier module_addr }
  else w

/-- The macro `SWITCH_BARRIER_INSTALL_COLL_API (comm, module, ibarrier)`. -/
def SWITCH_BARRIER_INSTALL_COLL_API_ibarrier (fns : coll_entry_points) (module_addr : Nat)
    (w : switch_barrier_world) : switch_barrier_world :=
  if w.comm.coll_ibarrier ≠ NULL then
    let sv := MCA_COLL_SAVE_API_ibarrier w.comm
    let c1 := { w.module.c_coll with coll_ibarrier := sv.1, coll_ibarrier_module := sv.2 }
    let m1 := { w.module with c_coll := c1 }
    { w with module := m1,
             comm := MCA_COLL_INSTALL_API_ibarrier w.comm fns.ibarrier module_addr }
  else w

/-- The macro `SWITCH_BARRIER_UNINSTALL_COLL_API (comm, module, barrier)`. -/
def SWITCH_BARRIER_UNINSTALL_COLL_API_barrier (module_addr : Nat)
    (w : switch_barrier_world) : switch_barrier_world :=
  if module_addr = w.comm.coll_barrier_module then
    let comm1 := MCA_COLL_INSTALL_API_barrier w.comm w.module.c_coll.coll_barrier
      w.module.c_coll.coll_barrier_module
    let c1 := { w.module.c_coll with coll_barrier_module := NULL, coll_barrier := NULL }
    let m1 := { w.module with c_coll := c1 }
    { w with module := m1, comm := comm1 }
  else w

/-- The macro `SWITCH_BARRIER_UNINSTALL_COLL_API (comm, module, ibarrier)`. -/
def SWITCH_BARRIER_UNINSTALL_COLL_API_ibarrier (module_addr : Nat)
    (w : switch_barrier_world) : switch_barrier_world :=
  if module_addr = w.comm.coll_ibarrier_module then
    let comm1 := MCA_COLL_INSTALL_API_ibarrier w.comm w.module.c_coll.coll_ibarrier
      w.module.c_coll.coll_ibarrier_module
    let c1 := { w.module.c_coll with coll_ibarrier_module := NULL, coll_ibarrier := NULL }
    let m1 := { w.module with c_coll := c1 }
    { w with module := m1, comm := comm1 }
  else w

/-- The hook `mca_coll_switch_barrier_module_enable`: the return code and the
new world.  `module_addr` is the address `&s->super` of the module. -/
def mca_coll_switch_barrier_module_enable (shl_ub : Nat → Nat) (fns : coll_entry_points)
    (module_addr : Nat) (w : switch_barrier_world) : Int × switch_barrier_world :=
  let c := switch_barrier_configure_comm_domain shl_ub w.module w.comm w.device
    w.iommu_ctx w.host
  let w1 := { w with module := c.2.1, device := c.2.2.1, iommu_ctx := c.2.2.2.1,
                     host := c.2.2.2.2 }
  if c.1 ≠ OMPI_SUCCESS then (c.1, w1)
  else
    let w2 := SWITCH_BARRIER_INSTALL_COLL_API_barrier fns module_addr w1
    let w3 := SWITCH_BARRIER_INSTALL_COLL_API_ibarrier fns module_addr w2
    (OMPI_SUCCESS, w3)

/-- The hook `mca_coll_switch_barrier_module_disable`: the return code and the
new world. -/
def mca_coll_switch_barrier_module_disable (module_addr : Nat)
    (w : switch_barrier_world) : Int × switch_barrier_world :=
  let w1 := SWITCH_BARRIER_UNINSTALL_COLL_API_barrier module_addr w
  let w2 := SWITCH_BARRIER_UNINSTALL_COLL_API_ibarrier module_addr w1
  (OMPI_SUCCESS, w2)

/-! ## Barrier protocol (coll_gba_barrier.h, coll_gba_barrier_module.c,
coll_switch_barrier_control_plane.c, coll_switch_barrier_module.c) -/

/-- The outcome of a barrier call.  `ret` is the value returned, `none` when
the call does not return: a call through a `NULL` function pointer, a store
through an invalid device mapping, or a poll loop that is still waiting when
the observed flag values end.  `sequence` is the sequence value of the round
(`none` when the call takes none), `progress_calls` the number of
`opal_progress ()` calls and `observed` the flag values not yet consumed. -/
structure barrier_result (W : Type) where
  ret : Option Int
  world : W
  sequence : Option Nat
  progress_calls : Nat
  observed : List Nat

/-- Arrival signal `gba_send_arrival` (inline in the header): the return code
and the new device.  The function checks nothing: `none`, no return, when the
store has no valid target (a `NULL` device or a device without a mapping). -/
def gba_send_arrival (device : Option gba_device_t) (group_id member_id sequence : Nat) :
    Option (Int × Option gba_device_t) :=
  match device with
  | none => none
  | some d =>
    if d.base_addr = NULL ∨ d.base_addr = MAP_FAILED then none
    else
      let arrival_val := ((sequence <<< 32) % 2 ^ 64) ||| member_id
      let addr := GBA_GROUP_REG_BASE group_id % 2 ^ 32 + GBA_REG_ARRIVAL_COUNT
      some (OMPI_SUCCESS,
        some { d with regs := store64 d.regs addr arrival_val,
                      writes := d.writes ++ [(addr, arrival_val)] })

/-- Release test `gba_poll_release` (inline in the header), reading the flag
from the process memory. -/
def gba_poll_release (state : gba_local_state_t) (sequence : Nat) (host : host_t) : Bool :=
  decide (load64 host.mem state.release_flag ≥ sequence)

/-- The poll loop of `mca_coll_gba_barrier` together with the return that
follows it.  The list holds the values that the hardware has stored in the
release flag by the time of each successive read; `n` counts the
`opal_progress ()` calls made so far.  The result is the return value (`none`
while still waiting when the list ends), the new host, the number of
`opal_progress ()` calls and the values not consumed. -/
def mca_coll_gba_barrier_poll_loop (state : gba_local_state_t) (sequence : Nat) :
    List Nat → host_t → Nat → Option Int × host_t × Nat × List Nat
  | [], host, n => (none, host, n, [])
  | v :: rest, host, n =>
    let host1 := { host with mem := store64 host.mem state.release_flag v }
    if gba_poll_release state sequence host1 = true then (some MPI_SUCCESS, host1, n, rest)
    else mca_coll_gba_barrier_poll_loop state sequence rest host1 (n + 1)

/-- The body of `mca_coll_gba_barrier` with the arrival signal as a parameter,
so that the branch taken when the signal fails can be exercised. -/
def mca_coll_gba_barrier_with
    (send_arrival : Option gba_device_t → Nat → Nat → Nat →
      Option (Int × Option gba_device_t))
    (env : coll_env) (w : gba_world) (observed : List Nat) : barrier_result gba_world :=
  let m := w.module
  if ¬ m.offload_enabled = true then
    { ret := env.call_barrier m.previous_barrier w.comm m.previous_barrier_module,
      world := w, sequence := none, progress_calls := 0, observed := observed }
  else
    let sequence := (m.barrier_seq + 1) % 2 ^ 32
    let m1 := { m with barrier_seq := sequence }
    let devp := if m1.device then some w.device else none
    match send_arrival devp m1.config.group_id m1.config.local_member_id sequence with
    | none =>
      { ret := none, world := { w with module := m1 }, sequence := some sequence,
        progress_calls := 0, observed := observed }
    | some r =>
      let w1 := { w with module := m1, device := (r.2).getD w.device }
      if r.1 ≠ OMPI_SUCCESS then
        { ret := env.call_barrier m1.previous_barrier w1.comm m1.previous_barrier_module,
          world := w1, sequence := some sequence, progress_calls := 0,
          observed := observed }
      else
        let p := mca_coll_gba_barrier_poll_loop m1.local_state sequence observed w1.host 0
        { ret := p.1, world := { w1 with host := p.2.1 }, sequence := some sequence,
          progress_calls := p.2.2.1, observed := p.2.2.2 }

/-- The blocking barrier `mca_coll_gba_barrier`. -/
def mca_coll_gba_barrier (env : coll_env) (w : gba_world) (observed : List Nat) :
    barrier_result gba_world :=
  mca_coll_gba_barrier_with gba_send_arrival env w observed

/-- The non-blocking barrier `mca_coll_gba_ibarrier`: the value returned
(`none` for a call through `NULL`) and the new world. -/
def mca_coll_gba_ibarrier (env : coll_env) (w : gba_world) (request : Nat) :
    Option Int × gba_world :=
  (env.call_ibarrier w.module.previous_ibarrier w.comm request
    w.module.previous_ibarrier_module, w)

/-- Consecutive `mca_coll_gba_barrier` calls on one module, one list of
observed flag values for each call: the outcomes in order.  A call that does
not return is the last one. -/
def mca_coll_gba_barrier_calls (env : coll_env) :
    List (List Nat) → gba_world → List (barrier_result gba_world)
  | [], _ => []
  | observed :: rest, w =>
    let r := mca_coll_gba_barrier env w observed
    match r.ret with
    | none => [r]
    | some _ => r :: mca_coll_gba_barrier_calls env rest r.world

/-- Arrival signal `switch_barrier_send_arrival`: the return code and the new
device.  `none`, no return, when the store has no valid target (a device
without a mapping, which the function does not check). -/
def switch_barrier_send_arrival (device : Option switch_barrier_device_t)
    (group_id member_id sequence : Nat) : Option (Int × Option switch_barrier_device_t) :=
  match device with
  | none => some (OMPI_ERR_BAD_PARAM, none)
  | some d =>
    if d.base_addr = NULL ∨ d.base_addr = MAP_FAILED then none
    else
      let arrival_value := ((member_id <<< 32) % 2 ^ 64) ||| sequence
      let addr := switch_barrier_calc_reg_addr group_id SWITCH_BARRIER_REG_ARRIVAL_ADDR
      some (OMPI_SUCCESS,
        some { d with regs := store64 d.regs addr arrival_value,
                      writes := d.writes ++ [(addr, arrival_value)] })

/-- Release test `switch_barrier_poll_release` (inline in the header), reading
the flag from the process memory. -/
def switch_barrier_poll_release (local_state : switch_barrier_local_state_t)
    (sequence : Nat) (host : host_t) : Bool :=
  decide (load64 host.mem local_state.release_flag ≥ sequence)

/-- The poll loop of `mca_coll_switch_barrier_barrier` together with the return
that follows it, as `mca_coll_gba_barrier_poll_loop`. -/
def mca_coll_switch_barrier_barrier_poll_loop (local_state : switch_barrier_local_state_t)
    (sequence : Nat) : List Nat → host_t → Nat → Option Int × host_t × Nat × List Nat
  | [], host, n => (none, host, n, [])
  | v :: rest, host, n =>
    let host1 := { host with mem := store64 host.mem local_state.release_flag v }
    if switch_barrier_poll_release local_state sequence host1 = true then
      (some MPI_SUCCESS, host1, n, rest)
    else mca_coll_switch_barrier_barrier_poll_loop local_state sequence rest host1 (n + 1)

/-- The body of `mca_coll_switch_barrier_barrier` with the arrival signal as a
parameter, so that the branch taken when the signal fails can be exercised for
every error code. -/
def mca_coll_switch_barrier_barrier_with
    (send_arrival : Option switch_barrier_device_t → Nat → Nat → Nat →
      Option (Int × Option switch_barrier_device_t))
    (env : coll_env) (w : switch_barrier_world) (observed : List Nat) :
    barrier_result switch_barrier_world :=
  let s := w.module
  if ¬ s.offload_enabled = true then
    { ret := env.call_barrier s.c_coll.coll_barrier w.comm s.c_coll.coll_barrier_module,
      world := w, sequence := none, progress_calls := 0, observed := observed }
  else
    let sequence := (s.barrier_sequence + 1) % 2 ^ 32
    let s1 := { s with barrier_sequence := sequence }
    let devp := if s1.device then some w.device else none
    match send_arrival devp s1.group_config.group_id s1.group_config.local_member_id
        sequence with
    | none =>
      { ret := none, world := { w with module := s1 }, sequence := some sequence,
        progress_calls := 0, observed := observed }
    | some r =>
      let w1 := { w with module := s1, device := (r.2).getD w.device }
      if r.1 ≠ OMPI_SUCCESS then
        { ret := env.call_barrier s1.c_coll.coll_barrier w1.comm
            s1.c_coll.coll_barrier_module,
          world := w1, sequence := some sequence, progress_calls := 0,
          observed := observed }
      else
        let p := mca_coll_switch_barrier_barrier_poll_loop s1.local_state sequence observed
          w1.host 0
        { ret := p.1, world := { w1 with host := p.2.1 }, sequence := some sequence,
          progress_calls := p.2.2.1, observed := p.2.2.2 }

/-- The blocking barrier `mca_coll_switch_barrier_barrier`. -/
def mca_coll_switch_barrier_barrier (env : coll_env) (w : switch_barrier_world)
    (observed : List Nat) : barrier_result switch_barrier_world :=
  mca_coll_switch_barrier_barrier_with switch_barrier_send_arrival env w observed

/-- The non-blocking barrier `mca_coll_switch_barrier_ibarrier`: the value
returned (`none` for a call through `NULL`) and the new world. -/
def mca_coll_switch_barrier_ibarrier (env : coll_env) (w : switch_barrier_world)
    (request : Nat) : Option Int × switch_barrier_world :=
  let s := w.module
  if ¬ s.offload_enabled = true then
    (env.call_ibarrier s.c_coll.coll_ibarrier w.comm request s.c_coll.coll_ibarrier_module,
      w)
  else
    (env.call_ibarrier s.c_coll.coll_ibarrier w.comm request s.c_coll.coll_ibarrier_module,
      w)

/-! ## Member-present query -/

/-- The member-present query of the specification: ordinal `k` is bit
`k mod 64` of word `k div 64` of the mask. -/
def member_present (member_mask : List Nat) (k : Nat) : Bool :=
  (member_mask.getD (k / 64) 0).testBit (k % 64)

/-! ## Traces of register stores -/

/-- The GBA device after the register stores `ws`, issued in order. -/
def gba_device_t.after_writes (d : gba_device_t) (ws : List (Nat × Nat)) :
    gba_device_t :=
  { d with regs := replay d.regs ws, writes := d.writes ++ ws }

/-- The switch device after the register stores `ws`, issued in order. -/
def switch_barrier_device_t.after_writes (d : switch_barrier_device_t)
    (ws : List (Nat × Nat)) : switch_barrier_device_t :=
  { d with regs := replay d.regs ws, writes := d.writes ++ ws }

/-- The programming sequence that the specification prescribes for the GBA
variant, as (byte offset in the register window, value) pairs: control = 0,
control = RESET, group id, member count, the twelve mask words in increasing
word order, control = ENABLE | ARM. -/
def gba_configure_group_sequence (c : gba_group_config_t) : List (Nat × Nat) :=
  [(GBA_GROUP_REG_BASE c.group_id + GBA_REG_CONTROL, 0),
   (GBA_GROUP_REG_BASE c.group_id + GBA_REG_CONTROL, GBA_CTRL_RESET),
   (GBA_GROUP_REG_BASE c.group_id + GBA_REG_GROUP_ID, c.group_id),
   (GBA_GROUP_REG_BASE c.group_id + GBA_REG_MEMBER_COUNT, c.member_count)] ++
  (List.range 12).map (fun i =>
    (GBA_GROUP_REG_BASE c.group_id + (GBA_REG_MEMBER_MASK_BASE + 8 * i),
      c.member_mask.getD i 0)) ++
  [(GBA_GROUP_REG_BASE c.group_id + GBA_REG_CONTROL, GBA_CTRL_ENABLE ||| GBA_CTRL_ARM)]

/-- The number of per-member address stores of
`switch_barrier_configure_group`: `min (member_count, SWITCH_BARRIER_MAX_MEMBERS)`,
and none when `(int) member_count` is negative. -/
def switch_barrier_addr_count (member_count : Nat) : Nat :=
  if member_count < 2 ^ 31 then min member_count SWITCH_BARRIER_MAX_MEMBERS else 0

/-- The programming sequence that the specification prescribes for the switch
variant, as (byte offset in the register window, value) pairs: control = 0,
control = RESET, group id, member count, the two mask words, the local member
id, one network address per member in member order, control = ENABLE | ARM. -/
def switch_barrier_configure_group_sequence (c : switch_barrier_group_config_t) :
    List (Nat × Nat) :=
  [(switch_barrier_calc_reg_addr c.group_id SWITCH_BARRIER_REG_CONTROL, 0),
   (switch_barrier_calc_reg_addr c.group_id SWITCH_BARRIER_REG_CONTROL,
      SWITCH_BARRIER_CTRL_RESET),
   (switch_barrier_calc_reg_addr c.group_id SWITCH_BARRIER_REG_GROUP_ID, c.group_id),
   (switch_barrier_calc_reg_addr c.group_id SWITCH_BARRIER_REG_MEMBER_COUNT,
      c.member_count),
   (switch_barrier_calc_reg_addr c.group_id SWITCH_BARRIER_REG_MEMBER_MASK_LO,
      c.member_mask.getD 0 0),
   (switch_barrier_calc_reg_addr c.group_id SWITCH_BARRIER_REG_MEMBER_MASK_HI,
      c.member_mask.getD 1 0),
   (switch_barrier_calc_reg_addr c.group_id SWITCH_BARRIER_REG_LOCAL_MEMBER_ID,
      c.local_member_id)] ++
  (List.range (switch_barrier_addr_count c.member_count)).map (fun i =>
    (switch_barrier_calc_reg_addr c.group_id
        ((SWITCH_BARRIER_REG_ARRIVAL_ADDR + i * 8) % 2 ^ 32),
      c.network_addrs.getD i 0)) ++
  [(switch_barrier_calc_reg_addr c.group_id SWITCH_BARRIER_REG_CONTROL,
      SWITCH_BARRIER_CTRL_ENABLE ||| SWITCH_BARRIER_CTRL_ARM)]

/-- A store leaves the low bit of byte `a` clear when it does not cover `a` or
writes an even byte there. -/
def store_keeps_even (a : Nat) (w : Nat × Nat) : Prop :=
  w.1 ≤ a → a < w.1 + 8 → (w.2 / 256 ^ (a - w.1)) % 256 % 2 = 0

/-- The stores of the GBA sequence between the first (control = 0) and the
last (control = ENABLE | ARM). -/
def gba_configure_group_body (c : gba_group_config_t) : List (Nat × Nat) :=
  [(GBA_GROUP_REG_BASE c.group_id + GBA_REG_CONTROL, GBA_CTRL_RESET),
   (GBA_GROUP_REG_BASE c.group_id + GBA_REG_GROUP_ID, c.group_id),
   (GBA_GROUP_REG_BASE c.group_id + GBA_REG_MEMBER_COUNT, c.member_count)] ++
  (List.range 12).map (fun i =>
    (GBA_GROUP_REG_BASE c.group_id + (GBA_REG_MEMBER_MASK_BASE + 8 * i),
      c.member_mask.getD i 0))

/-- The stores of the switch sequence between the first (control = 0) and the
last (control = ENABLE | ARM). -/
def switch_barrier_configure_group_body (c : switch_barrier_group_config_t) :
    List (Nat × Nat) :=
  [(switch_barrier_calc_reg_addr c.group_id SWITCH_BARRIER_REG_CONTROL,
      SWITCH_BARRIER_CTRL_RESET),
   (switch_barrier_calc_reg_addr c.group_id SWITCH_BARRIER_REG_GROUP_ID, c.group_id),
   (switch_barrier_calc_reg_addr c.group_id SWITCH_BARRIER_REG_MEMBER_COUNT,
      c.member_count),
   (switch_barrier_calc_reg_addr c.group_id SWITCH_BARRIER_REG_MEMBER_MASK_LO,
      c.member_mask.getD 0 0),
   (switch_barrier_calc_reg_addr c.group_id SWITCH_BARRIER_REG_MEMBER_MASK_HI,
      c.member_mask.getD 1 0),
   (switch_barrier_calc_reg_addr c.group_id SWITCH_BARRIER_REG_LOCAL_MEMBER_ID,
      c.local_member_id)] ++
  (List.range (switch_barrier_addr_count c.member_count)).map (fun i =>
    (switch_barrier_calc_reg_addr c.group_id
        ((SWITCH_BARRIER_REG_ARRIVAL_ADDR + i * 8) % 2 ^ 32),
      c.network_addrs.getD i 0))

/-! ## Runs of the IOMMU table -/

/-- Context setup `switch_barrier_iommu_init`: the return code and the new
context.  `calloc_ok` tells whether `calloc` returns the zeroed array of
`max_mappings` entries or NULL (the empty list); `device` is not read. -/
def switch_barrier_iommu_init (ctx : Option switch_barrier_iommu_context_t)
    (_device : Option switch_barrier_device_t) (calloc_ok : Bool) :
    Int × Option switch_barrier_iommu_context_t :=
  match ctx with
  | none => (OMPI_ERR_BAD_PARAM, none)
  | some _ =>
    let c0 : switch_barrier_iommu_context_t := ⟨0, 0, 0, [], 0, 0⟩
    let c1 := { c0 with iommu_fd := -1, domain_id := -1, iommu_handle := NULL }
    let c2 := { c1 with max_mappings := IOMMU_DEFAULT_MAX_MAPPINGS }
    if calloc_ok then
      let c3 := { c2 with mappings := List.replicate c2.max_mappings.toNat ⟨0, 0, 0, 0, 0⟩ }
      (OMPI_SUCCESS, some { c3 with num_mappings := 0 })
    else (OMPI_ERR_OUT_OF_RESOURCE, some c2)

/-- One call on an IOMMU context: `switch_barrier_iommu_map` with its address,
size and output pointer, or `switch_barrier_iommu_unmap` with its IOVA. -/
inductive switch_barrier_iommu_call where
  | map (vaddr size : Nat) (iova : Option Nat)
  | unmap (iova : Nat)
deriving DecidableEq

/-- The context after the calls `cs`, issued in order on the context `ctx`. -/
def switch_barrier_iommu_calls (ctx : switch_barrier_iommu_context_t) :
    List switch_barrier_iommu_call → switch_barrier_iommu_context_t
  | [] => ctx
  | switch_barrier_iommu_call.map vaddr size iova :: cs =>
    switch_barrier_iommu_calls
      (((switch_barrier_iommu_map (some ctx) vaddr size iova).2.1).getD ctx) cs
  | switch_barrier_iommu_call.unmap iova :: cs =>
    switch_barrier_iommu_calls
      (((switch_barrier_iommu_unmap (some ctx) iova).2).getD ctx) cs

/-- The valid mappings of a context, as `(vaddr, iova, size)` in slot order. -/
def switch_barrier_iommu_valid_mappings (ctx : switch_barrier_iommu_context_t) :
    List (Nat × Nat × Nat) :=
  (ctx.mappings.filter (fun e => e.valid ≠ 0)).map (fun e => (e.vaddr, e.iova, e.size))

/-- The bounds of an IOMMU table: the array has `max_mappings` entries,
`0 ≤ num_mappings ≤ max_mappings`, and every valid slot lies below
`num_mappings`. -/
def switch_barrier_iommu_table_bounds (ctx : switch_barrier_iommu_context_t) : Prop :=
  ctx.mappings.length = ctx.max_mappings.toNat ∧
  0 ≤ ctx.num_mappings ∧ ctx.num_mappings ≤ ctx.max_mappings ∧
  ∀ i, (ctx.entry i).valid ≠ 0 → (i : Int) < ctx.num_mappings

/-! ## A GBA component with several modules -/

/-- Device setup `gba_device_init`: the return code and the new device.
`open_result` is what `open (dev_path, O_RDWR)` returns and `mmap_result` what
the `mmap` of the register space returns.  The `memset` clears the fields of
the C structure; the registers of the hardware and the store trace are not
among them. -/
def gba_device_init (device : Option gba_device_t) (dev_path : Option Nat)
    (open_result : Int) (mmap_result : Nat) : Int × Option gba_device_t :=
  match device, dev_path with
  | some d, some _ =>
    let d0 : gba_device_t := ⟨0, 0, 0, 0, d.regs, d.writes⟩
    let d1 := { d0 with device_fd := open_result }
    if d1.device_fd < 0 then (OMPI_ERR_NOT_AVAILABLE, some d1)
    else
      let d2 := { d1 with base_addr := mmap_result }
      if d2.base_addr = MAP_FAILED then
        (OMPI_ERR_NOT_AVAILABLE, some { d2 with device_fd := -1 })
      else
        (OMPI_SUCCESS, some { d2 with num_groups := GBA_MAX_GROUPS, group_alloc_mask := 0 })
  | _, _ => (OMPI_ERR_BAD_PARAM, device)

/-- The GBA component at run time: its device, its DMA context, the host, and
the modules created so far, each with its communicator. -/
structure gba_system where
  device : gba_device_t
  dma_ctx : gba_dma_context_t
  host : host_t
  modules : List (mca_coll_gba_module_t × ompi_communicator_t)

/-- One call on module `i` of a GBA component: `mca_coll_gba_module_enable`,
`mca_coll_gba_barrier` (with the flag values its polls observe),
`mca_coll_gba_ibarrier` (with its request), `mca_coll_gba_module_disable` or
`mca_coll_gba_module_destruct`. -/
inductive gba_system_call where
  | enable (i : Nat)
  | barrier (i : Nat) (observed : List Nat)
  | ibarrier (i : Nat) (request : Nat)
  | disable (i : Nat)
  | destruct (i : Nat)

/-- The module that a call is made on. -/
def gba_system_call.index : gba_system_call → Nat
  | gba_system_call.enable i => i
  | gba_system_call.barrier i _ => i
  | gba_system_call.ibarrier i _ => i
  | gba_system_call.disable i => i
  | gba_system_call.destruct i => i

/-- The objects that a function of the module `mc` reaches. -/
def gba_system.world (s : gba_system) (mc : mca_coll_gba_module_t × ompi_communicator_t) :
    gba_world :=
  ⟨mc.1, mc.2, s.device, s.dma_ctx, s.host⟩

/-- The component after a function of module `i` has left the world `w`. -/
def gba_system.put (s : gba_system) (i : Nat) (w : gba_world) : gba_system :=
  { device := w.device, dma_ctx := w.dma_ctx, host := w.host,
    modules := s.modules.set i (w.module, w.comm) }

/-- The world that one call leaves, started in the world `w` of its module;
`module_addr` is the address of the module. -/
def gba_system_call.run (env : coll_env) (fns : coll_entry_points) (module_addr : Nat)
    (w : gba_world) : gba_system_call → gba_world
  | gba_system_call.enable _ => (mca_coll_gba_module_enable fns module_addr w).2
  | gba_system_call.barrier _ observed => (mca_coll_gba_barrier env w observed).world
  | gba_system_call.ibarrier _ request => (mca_coll_gba_ibarrier env w request).2
  | gba_system_call.disable _ => (mca_coll_gba_module_disable w).2
  | gba_system_call.destruct _ => mca_coll_gba_module_destruct w

/-- One call on a GBA component; a call on a module that does not exist does
nothing.  `module_addr i` is the address of module `i`. -/
def gba_system_step (env : coll_env) (fns : coll_entry_points) (module_addr : Nat → Nat)
    (s : gba_system) (c : gba_system_call) : gba_system :=
  match s.modules.get? c.index with
  | none => s
  | some mc => s.put c.index (c.run env fns (module_addr c.index) (s.world mc))

/-- The component after the calls `cs`, made in order. -/
def gba_system_calls (env : coll_env) (fns : coll_entry_points) (module_addr : Nat → Nat) :
    gba_system → List gba_system_call → gba_system
  | s, [] => s
  | s, c :: cs => gba_system_calls env fns module_addr (gba_system_step env fns module_addr s c) cs

/-- Whether a call is not an enable of a module that is offload-enabled. -/
def gba_system_enable_fresh (s : gba_system) : gba_system_call → Bool
  | gba_system_call.enable i =>
    match s.modules.get? i with
    | some mc => !mc.1.offload_enabled
    | none => true
  | _ => true

/-- Whether, in the run of the calls `cs`, every enable is made on a module
that is not offload-enabled at that point. -/
def gba_system_calls_enable_fresh (env : coll_env) (fns : coll_entry_points)
    (module_addr : Nat → Nat) : gba_system → List gba_system_call → Bool
  | _, [] => true
  | s, c :: cs =>
    gba_system_enable_fresh s c &&
      gba_system_calls_enable_fresh env fns module_addr
        (gba_system_step env fns module_addr s c) cs

/-- The group ownership of a GBA component: each offload-enabled module has a
group id below 32 whose bit is set in the allocation mask and a member count of
at most 708, and no two offload-enabled modules hold the same group id. -/
def gba_group_ownership (s : gba_system) : Prop :=
  (∀ i m c, s.modules.get? i = some (m, c) → m.offload_enabled = true →
    m.config.group_id < 32 ∧
    s.device.group_alloc_mask.testBit m.config.group_id = true ∧
    m.config.member_count ≤ 708) ∧
  (∀ i j mi ci mj cj, i ≠ j → s.modules.get? i = some (mi, ci) →
    s.modules.get? j = some (mj, cj) → mi.offload_enabled = true →
    mj.offload_enabled = true → mi.config.group_id ≠ mj.config.group_id)

/-! ## Two participants and a device test double -/

/-- Modelled from the spec: the test of the device test double whether member
`member_id` of group `group_id` has stored an arrival for `sequence`, that is,
whether the store that `gba_send_arrival` makes for them is in the store trace
of the device. -/
def gba_double_arrived (d : gba_device_t) (group_id member_id sequence : Nat) : Bool :=
  decide ((GBA_GROUP_REG_BASE group_id % 2 ^ 32 + GBA_REG_ARRIVAL_COUNT,
    ((sequence <<< 32) % 2 ^ 64) ||| member_id) ∈ d.writes)

/-- Modelled from the spec: the value that a member's release flag holds under
the device test double when the device is in state `d`: once every member of
`members` has stored an arrival for `sequence` the double has written
`sequence` to the flag, before that the flag holds `old`. -/
def gba_double_release (d : gba_device_t) (group_id : Nat) (members : List Nat)
    (sequence old : Nat) : Nat :=
  if members.all (fun m => gba_double_arrived d group_id m sequence) = true then sequence
  else old

/-- Modelled from the spec: one round of two participants on one device with
the test double.  Participant `a` calls `mca_coll_gba_barrier` first and polls
`k` times before participant `b` calls it on the device that `a` has signalled;
each poll reads what the double has put in the flag by then.  The device after
a participant's arrival is the device that its call leaves when it has made no
poll yet.  The result is the outcome of both calls. -/
def gba_double_round (env : coll_env) (wa wb : gba_world) (k : Nat) :
    barrier_result gba_world × barrier_result gba_world :=
  let g := wa.module.config.group_id
  let s := (wa.module.barrier_seq + 1) % 2 ^ 32
  let members := [wa.module.config.local_member_id, wb.module.config.local_member_id]
  let da := (mca_coll_gba_barrier env wa []).world.device
  let dab := (mca_coll_gba_barrier env { wb with device := da } []).world.device
  let old_a := load64 wa.host.mem wa.module.local_state.release_flag
  let old_b := load64 wb.host.mem wb.module.local_state.release_flag
  (mca_coll_gba_barrier env wa
      (List.replicate k (gba_double_release da g members s old_a) ++
        [gba_double_release dab g members s old_a]),
    mca_coll_gba_barrier env { wb with device := da }
      [gba_double_release dab g members s old_b])

/-! ## Sample inputs -/

/-- A mapped GBA device with group 0 claimed and a zeroed register window. -/
def gba_device_sample : gba_device_t := ⟨4096, 3, 32, 1, fun _ => 0, []⟩

/-- A GBA device after `gba_device_fini`: no mapping. -/
def gba_device_unmapped_sample : gba_device_t := ⟨NULL, -1, 0, 0, fun _ => 0, []⟩

/-- The configuration of a two-member communicator on group 0. -/
def gba_group_config_sample : gba_group_config_t :=
  ⟨0, 2, 0, [3, 0, 0, 0, 0, 0, 0, 0, 0, 0, 0, 0]⟩

/-- A mapped switch device with group 0 claimed and a zeroed register window. -/
def switch_barrier_device_sample : switch_barrier_device_t :=
  ⟨4096, 0, 0, 3, 256, 1, fun _ => 0, []⟩

/-- A switch device after `switch_barrier_control_plane_fini`: no mapping. -/
def switch_barrier_device_unmapped_sample : switch_barrier_device_t :=
  ⟨NULL, 0, 0, -1, 256, 0, fun _ => 0, []⟩

/-- The configuration of a two-member communicator on group 0. -/
def switch_barrier_group_config_sample : switch_barrier_group_config_t :=
  ⟨0, 2, [3, 0], 4096 :: 8192 :: List.replicate 126 0, 0⟩

/-- A sample GBA module as `mca_coll_gba_comm_query` leaves it: constructed,
with the device pointer set. -/
def mca_coll_gba_module_sample : mca_coll_gba_module_t :=
  { super := ⟨0, 0, 0, 0⟩, device := true, config := ⟨0, 0, 0, List.replicate 12 0⟩,
    local_state := ⟨0, 0, 0, 0, 0⟩, barrier_seq := 0, offload_enabled := false,
    previous_barrier := 0, previous_barrier_module := 0, previous_ibarrier := 0,
    previous_ibarrier_module := 0 }

/-- A sample switch module as `mca_coll_switch_barrier_comm_query` leaves it. -/
def mca_coll_switch_barrier_module_sample : mca_coll_switch_barrier_module_t :=
  { super := ⟨0, 0, 0, 0⟩, c_coll := ⟨0, 0, 0, 0⟩, device := true,
    group_config := ⟨0, 0, [0, 0], List.replicate 128 0, 0⟩,
    local_state := ⟨0, 0, 0, 0, 0, 0⟩, iommu_ctx := true, barrier_sequence := 0,
    offload_enabled := false }

/-- A sample intra-communicator of three processes; the local rank is 1. -/
def ompi_communicator_sample : ompi_communicator_t :=
  { size := 3, rank := 1, is_inter := false, procs := [4096, 8192, 12288],
    coll_barrier := 1, coll_barrier_module := 2, coll_ibarrier := 3,
    coll_ibarrier_module := 4 }

/-- A sample host with 4 KiB pages whose next `mmap` returns `0x7000`. -/
def host_sample : host_t :=
  { page_size := 4096, mmap_results := [0x7000], mem := fun _ => 0, mapped := [],
    unmapped := [] }

/-- The DMA context after `gba_dma_init`. -/
def gba_dma_context_sample : gba_dma_context_t := ⟨-1, NULL, []⟩

/-- The IOMMU context after `switch_barrier_iommu_init`. -/
def switch_barrier_iommu_context_sample : switch_barrier_iommu_context_t :=
  { iommu_fd := -1, domain_id := -1, iommu_handle := NULL,
    mappings := List.replicate 64 ⟨0, 0, 0, 0, 0⟩, num_mappings := 0,
    max_mappings := IOMMU_DEFAULT_MAX_MAPPINGS }

/-- The addresses of the four functions of a component in a sample process
image. -/
def coll_entry_points_sample : coll_entry_points := ⟨101, 102, 103, 104⟩

/-- The address of the sample module in that image. -/
def module_addr_sample : Nat := 500

/-- A sample environment: the barrier at address `fn` called with module `m`
returns `10 * fn + m`, and the non-blocking barrier returns the same plus the
request address. -/
def coll_env_sample : coll_env :=
  { barrier := fun fn _ m => 10 * (fn : Int) + (m : Int),
    ibarrier := fun fn _ request m => 10 * (fn : Int) + (m : Int) + (request : Int) }

/-- An initialised GBA component with priority 90 that admits communicators of
two processes and more. -/
def mca_coll_gba_component_sample : mca_coll_gba_component_t :=
  { priority := 90, disable := 0, min_comm_size := 2, device := gba_device_sample,
    dma_ctx := gba_dma_context_sample, initialized := true }

/-- An initialised switch component with priority 80 that admits communicators
of two processes and more. -/
def mca_coll_switch_barrier_component_sample : mca_coll_switch_barrier_component_t :=
  { priority := 80, disable_switch_barrier := 0, min_comm_size := 2,
    device := switch_barrier_device_sample,
    iommu_ctx := switch_barrier_iommu_context_sample, initialized := true }

/-- The sample GBA module with its communicator, device, DMA context and
host, before `mca_coll_gba_module_enable`. -/
def gba_world_sample : gba_world :=
  ⟨mca_coll_gba_module_sample, ompi_communicator_sample, gba_device_sample,
    gba_dma_context_sample, host_sample⟩

/-- The sample GBA world after `mca_coll_gba_module_enable`: group 1 is
configured and the flag memory is at `0x7000`. -/
def gba_world_enabled_sample : gba_world :=
  (mca_coll_gba_module_enable coll_entry_points_sample module_addr_sample
    gba_world_sample).2

/-- The sample GBA world on a device without a mapping. -/
def gba_world_unmapped_sample : gba_world :=
  { gba_world_sample with device := gba_device_unmapped_sample }

/-- The sample switch module with its communicator, device, IOMMU context and
host, before `mca_coll_switch_barrier_module_enable`. -/
def switch_barrier_world_sample : switch_barrier_world :=
  ⟨mca_coll_switch_barrier_module_sample, ompi_communicator_sample,
    switch_barrier_device_sample, switch_barrier_iommu_context_sample, host_sample⟩

/-- The sample switch world after `mca_coll_switch_barrier_module_enable`. -/
def switch_barrier_world_enabled_sample : switch_barrier_world :=
  (mca_coll_switch_barrier_module_enable shl_ub_mod64 coll_entry_points_sample
    module_addr_sample switch_barrier_world_sample).2

/-- The sample switch world on a device without a mapping. -/
def switch_barrier_world_unmapped_sample : switch_barrier_world :=
  { switch_barrier_world_sample with device := switch_barrier_device_unmapped_sample }

/-- The sample switch world on a device whose 64 mask bits are all claimed. -/
def switch_barrier_world_full_sample : switch_barrier_world :=
  { switch_barrier_world_sample with
    device := { switch_barrier_device_sample with group_allocation_mask := 2 ^ 64 - 1 } }

/-- The sample communicator with no barrier and no non-blocking barrier
installed: the four dispatch entries are `NULL`. -/
def ompi_communicator_empty_sample : ompi_communicator_t :=
  { ompi_communicator_sample with coll_barrier := NULL, coll_barrier_module := NULL,
                                  coll_ibarrier := NULL, coll_ibarrier_module := NULL }

/-- The sample GBA world on the communicator with empty dispatch entries. -/
def gba_world_empty_sample : gba_world :=
  { gba_world_sample with comm := ompi_communicator_empty_sample }

/-- An IOMMU context whose 64 slots are all in use. -/
def switch_barrier_iommu_context_full_sample : switch_barrier_iommu_context_t :=
  { switch_barrier_iommu_context_sample with
    mappings := List.replicate 64 ⟨4096, 4096, 4096, PROT_READ_WRITE, 1⟩,
    num_mappings := 64 }

/-- An IOMMU context whose slots 0 and 1 are in use. -/
def switch_barrier_iommu_context_used_sample : switch_barrier_iommu_context_t :=
  { switch_barrier_iommu_context_sample with
    mappings := ⟨4096, 4096, 4096, PROT_READ_WRITE, 1⟩ ::
      ⟨8192, 8192, 4096, PROT_READ_WRITE, 1⟩ :: List.replicate 62 ⟨0, 0, 0, 0, 0⟩,
    num_mappings := 2 }

/-- A switch configuration of group 0 with 27 members whose network addresses
are `0x1001`, `0x1002`, and so on. -/
def switch_barrier_group_config_wide_sample : switch_barrier_group_config_t :=
  ⟨0, 27, [2 ^ 27 - 1, 0], (List.range 128).map (fun i => 0x1001 + i), 0⟩

/-- A switch configuration of the last group, 255, with 22 members. -/
def switch_barrier_group_config_last_sample : switch_barrier_group_config_t :=
  ⟨255, 22, [2 ^ 22 - 1, 0], (List.range 128).map (fun i => 0x1001 + i), 0⟩

/-- A GBA device as `gba_device_init` leaves it: mapped at 4096, no group
claimed. -/
def gba_device_fresh_sample : gba_device_t := ⟨4096, 3, 32, 0, fun _ => 0, []⟩

/-- A sample host with 4 KiB pages whose next two `mmap` calls return `0x7000`
and `0x9000`. -/
def host_two_pages_sample : host_t :=
  { page_size := 4096, mmap_results := [0x7000, 0x9000], mem := fun _ => 0, mapped := [],
    unmapped := [] }

/-- A GBA component with a fresh device and one module that is not enabled; the
host can map one page. -/
def gba_system_sample : gba_system :=
  ⟨gba_device_fresh_sample, gba_dma_context_sample, host_sample,
    [(mca_coll_gba_module_sample, ompi_communicator_sample)]⟩

/-- A GBA component with a fresh device and two modules that are not enabled;
the host can map two pages. -/
def gba_system_pair_sample : gba_system :=
  ⟨gba_device_fresh_sample, gba_dma_context_sample, host_two_pages_sample,
    [(mca_coll_gba_module_sample, ompi_communicator_sample),
     (mca_coll_gba_module_sample, ompi_communicator_sample)]⟩

/-- The peer of the enabled sample module in another process: the same group
and sequence counter, member 2. -/
def gba_world_enabled_peer_sample : gba_world :=
  let w := gba_world_enabled_sample
  let config := { w.module.config with local_member_id := 2 }
  let module := { w.module with config := config }
  { w with module := module }

/-! ## Bit-level facts -/

theorem and_one_shiftLeft_eq_zero (mask i : Nat) :
    mask &&& (1 <<< i) = 0 ↔ mask.testBit i = false := by
  rw [Nat.one_shiftLeft]
  constructor
  · intro h
    have := congrArg (fun x => Nat.testBit x i) h
    simpa [Nat.testBit_two_pow_self] using this
  · intro h
    apply Nat.eq_of_testBit_eq
    intro j
    by_cases hj : i = j
    · subst hj; simp [h]
    · simp [Nat.testBit_two_pow_of_ne hj]

theorem testBit_or_one_shiftLeft (mask g j : Nat) :
    (mask ||| (1 <<< g)).testBit j = (decide (j = g) || mask.testBit j) := by
  rw [Nat.one_shiftLeft, Nat.testBit_or, Nat.testBit_two_pow, Bool.or_comm]
  congr 1
  simp [eq_comm]

theorem testBit_and_not_one_shiftLeft (mask g j : Nat) (hj : j < 32) :
    (mask &&& ((2 ^ 32 - 1) ^^^ (1 <<< g))).testBit j
      = (decide (j ≠ g) && mask.testBit j) := by
  rw [Nat.one_shiftLeft, Nat.testBit_and, Nat.testBit_xor, Nat.testBit_two_pow_sub_one,
    Nat.testBit_two_pow, Bool.and_comm]
  congr 1
  by_cases h : g = j <;> simp [h, hj, eq_comm]

theorem and_not_one_shiftLeft_lt (mask g : Nat) (hg : g < 32) :
    mask &&& ((2 ^ 32 - 1) ^^^ (1 <<< g)) < 2 ^ 32 := by
  apply Nat.and_lt_two_pow
  apply Nat.xor_lt_two_pow (by decide)
  rw [Nat.one_shiftLeft]
  exact Nat.pow_lt_pow_right (by decide) hg

/-! ## The allocation scan -/

theorem gba_allocate_group_scan_some (mask : Nat) (n i g : Nat) :
    gba_allocate_group_scan mask n i = some g ↔
      i ≤ g ∧ g < i + n ∧ mask.testBit g = false ∧
        ∀ j, i ≤ j → j < g → mask.testBit j = true := by
  induction n generalizing i with
  | zero => simp [gba_allocate_group_scan]; omega
  | succ n ih =>
    unfold gba_allocate_group_scan
    by_cases hb : mask.testBit i = false
    · rw [if_pos ((and_one_shiftLeft_eq_zero mask i).2 hb)]
      constructor
      · intro h
        have hg : i = g := by simpa using h
        subst hg
        exact ⟨le_refl _, by omega, hb, fun j h1 h2 => by omega⟩
      · rintro ⟨h1, _, _, h4⟩
        rcases Nat.eq_or_lt_of_le h1 with h | h
        · simp [h]
        · have := h4 i (le_refl _) h
          simp [this] at hb
    · rw [if_neg (fun h => hb ((and_one_shiftLeft_eq_zero mask i).1 h)), ih]
      have hb1 : mask.testBit i = true := by simpa using hb
      constructor
      · rintro ⟨h1, h2, h3, h4⟩
        refine ⟨by omega, by omega, h3, fun j hj1 hj2 => ?_⟩
        rcases Nat.eq_or_lt_of_le hj1 with h | h
        · rw [← h]; exact hb1
        · exact h4 j h hj2
      · rintro ⟨h1, h2, h3, h4⟩
        have hne : i ≠ g := by
          intro h; rw [h] at hb1; simp [hb1] at h3
        exact ⟨by omega, by omega, h3, fun j hj1 hj2 => h4 j (by omega) hj2⟩

theorem gba_allocate_group_scan_none (mask : Nat) (n i : Nat) :
    gba_allocate_group_scan mask n i = none ↔
      ∀ j, i ≤ j → j < i + n → mask.testBit j = true := by
  induction n generalizing i with
  | zero => simp [gba_allocate_group_scan]; intro j h1 h2; omega
  | succ n ih =>
    unfold gba_allocate_group_scan
    by_cases hb : mask.testBit i = false
    · rw [if_pos ((and_one_shiftLeft_eq_zero mask i).2 hb)]
      simp only [reduceCtorEq, false_iff]
      intro h
      have := h i (le_refl _) (by omega)
      simp [this] at hb
    · rw [if_neg (fun h => hb ((and_one_shiftLeft_eq_zero mask i).1 h)), ih]
      have hb1 : mask.testBit i = true := by simpa using hb
      constructor
      · intro h j hj1 hj2
        rcases Nat.eq_or_lt_of_le hj1 with h' | h'
        · rw [← h']; exact hb1
        · exact h j h' (by omega)
      · intro h j hj1 hj2
        exact h j (by omega) (by omega)

/-! ## Group allocator (GBA) -/

/-- C1. For every device whose allocation mask has a clear bit among groups
0..31, `gba_allocate_group` returns `OMPI_SUCCESS` with `group_id` the
lowest-numbered clear bit, sets exactly that bit and leaves every other bit of
the mask, and every other field of the device, unchanged. -/
theorem gba_allocate_group_lowest_clear (d : gba_device_t) (gid0 : Nat)
    (h : ∃ i, i < 32 ∧ d.group_alloc_mask.testBit i = false) :
    ∃ g, g < 32 ∧ d.group_alloc_mask.testBit g = false ∧
      (∀ j, j < g → d.group_alloc_mask.testBit j = true) ∧
      gba_allocate_group (some d) (some gid0) =
        (OMPI_SUCCESS,
          some { d with group_alloc_mask := d.group_alloc_mask ||| (1 <<< g) },
          some g) ∧
      ∀ j, (d.group_alloc_mask ||| (1 <<< g)).testBit j =
        (decide (j = g) || d.group_alloc_mask.testBit j) := by
  obtain ⟨i, hi, hbit⟩ := h
  cases hs : gba_allocate_group_scan d.group_alloc_mask GBA_MAX_GROUPS 0 with
  | none =>
    have := (gba_allocate_group_scan_none _ _ _).1 hs i (Nat.zero_le _)
      (by simpa [GBA_MAX_GROUPS] using hi)
    simp [this] at hbit
  | some g =>
    obtain ⟨_, h2, h3, h4⟩ := (gba_allocate_group_scan_some _ _ _ _).1 hs
    refine ⟨g, by simpa [GBA_MAX_GROUPS] using h2, h3,
      fun j hj => h4 j (Nat.zero_le _) hj, ?_, testBit_or_one_shiftLeft _ _⟩
    simp [gba_allocate_group, hs]

/-- Witness for C1: mask `0b0111`, the lowest clear bit is 3. -/
theorem gba_allocate_group_lowest_clear_witness :
    (∃ i, i < 32 ∧ (7 : Nat).testBit i = false) ∧
    ∃ g, g < 32 ∧ (7 : Nat).testBit g = false ∧
      (∀ j, j < g → (7 : Nat).testBit j = true) ∧
      gba_allocate_group
          (some ⟨4096, 3, 32, 7, fun _ => 0, []⟩) (some 0) =
        (OMPI_SUCCESS, some ⟨4096, 3, 32, 7 ||| (1 <<< g), fun _ => 0, []⟩, some g) ∧
      ∀ j, ((7 : Nat) ||| (1 <<< g)).testBit j =
        (decide (j = g) || (7 : Nat).testBit j) :=
  ⟨⟨3, by decide, by decide⟩,
    gba_allocate_group_lowest_clear ⟨4096, 3, 32, 7, fun _ => 0, []⟩ 0
      ⟨3, by decide, by decide⟩⟩

theorem gba_allocate_group_scan_low_ones (k : Nat) (hk : k < 32) :
    gba_allocate_group_scan (2 ^ k - 1) GBA_MAX_GROUPS 0 = some k := by
  rw [gba_allocate_group_scan_some]
  refine ⟨Nat.zero_le _, by simpa [GBA_MAX_GROUPS] using hk, by simp, ?_⟩
  intro j _ hj
  simpa using hj

theorem low_ones_or_next (k : Nat) : (2 ^ k - 1) ||| (1 <<< k) = 2 ^ (k + 1) - 1 := by
  apply Nat.eq_of_testBit_eq
  intro j
  rw [testBit_or_one_shiftLeft, Nat.testBit_two_pow_sub_one, Nat.testBit_two_pow_sub_one]
  by_cases h1 : j = k
  · simp [h1]
  · by_cases h2 : j < k
    · simp [h1, h2, Nat.lt_succ_of_lt h2]
    · have : ¬ j < k + 1 := by omega
      simp [h1, h2, this]

theorem gba_allocate_group_low_ones (d : gba_device_t) (k gid0 : Nat) (hk : k < 32) :
    gba_allocate_group (some { d with group_alloc_mask := 2 ^ k - 1 }) (some gid0) =
      (OMPI_SUCCESS, some { d with group_alloc_mask := 2 ^ (k + 1) - 1 }, some k) := by
  simp [gba_allocate_group, gba_allocate_group_scan_low_ones k hk, low_ones_or_next]

theorem gba_allocate_group_of_scan_none (d : gba_device_t) (gid0 : Nat)
    (hs : gba_allocate_group_scan d.group_alloc_mask GBA_MAX_GROUPS 0 = none) :
    gba_allocate_group (some d) (some gid0) =
      (OMPI_ERR_OUT_OF_RESOURCE, some d, some gid0) := by
  simp only [gba_allocate_group, hs]

theorem gba_allocate_group_full (d : gba_device_t) (gid0 : Nat) :
    gba_allocate_group (some { d with group_alloc_mask := 2 ^ 32 - 1 }) (some gid0) =
      (OMPI_ERR_OUT_OF_RESOURCE,
        some { d with group_alloc_mask := 2 ^ 32 - 1 }, some gid0) := by
  apply gba_allocate_group_of_scan_none
  rw [gba_allocate_group_scan_none]
  intro j _ hj
  show (2 ^ 32 - 1).testBit j = true
  rw [Nat.testBit_two_pow_sub_one]
  simpa [GBA_MAX_GROUPS] using hj

theorem gba_allocate_group_calls_low_ones (d : gba_device_t) (n : Nat) :
    ∀ k gid0, k + n ≤ 32 →
      gba_allocate_group_calls n
          (some { d with group_alloc_mask := 2 ^ k - 1 }) (some gid0) =
        ((List.range n).map (fun i => (OMPI_SUCCESS, some (k + i))),
          some { d with group_alloc_mask := 2 ^ (k + n) - 1 },
          some (if n = 0 then gid0 else k + n - 1)) := by
  induction n with
  | zero => intro k gid0 _; simp [gba_allocate_group_calls]
  | succ n ih =>
    intro k gid0 hk
    have h1 := gba_allocate_group_low_ones d k gid0 (by omega)
    have h2 := ih (k + 1) k (by omega)
    simp only [gba_allocate_group_calls, h1, h2, List.range_succ_eq_map, List.map_cons,
      List.map_map]
    refine Prod.ext ?_ (Prod.ext ?_ ?_)
    · simp only [Nat.add_zero, List.cons.injEq, true_and]
      apply List.map_congr_left
      intro i _
      simp [Nat.add_assoc, Nat.add_comm 1 i]
    · simp [Nat.add_assoc, Nat.add_comm 1 n]
    · by_cases hn : n = 0
      · simp [hn]
      · simp only [hn, if_false, Nat.succ_ne_zero]
        congr 1
        omega

/-- C2. Starting from an empty allocation mask, 32 consecutive
`gba_allocate_group` calls with no frees all return `OMPI_SUCCESS` (with ids
0, 1, ..., 31 in order), and the next call returns `OMPI_ERR_OUT_OF_RESOURCE`
and leaves the device, in particular the mask, and the output `group_id`
unchanged. -/
theorem gba_allocate_group_exhaustion (d : gba_device_t) (gid0 : Nat) :
    (gba_allocate_group_calls 32
        (some { d with group_alloc_mask := 0 }) (some gid0)).1 =
      (List.range 32).map (fun i => (OMPI_SUCCESS, some i)) ∧
    (gba_allocate_group_calls 32
        (some { d with group_alloc_mask := 0 }) (some gid0)).2 =
      (some { d with group_alloc_mask := 2 ^ 32 - 1 }, some 31) ∧
    ∀ gid1, gba_allocate_group
        (gba_allocate_group_calls 32
          (some { d with group_alloc_mask := 0 }) (some gid0)).2.1 (some gid1) =
      (OMPI_ERR_OUT_OF_RESOURCE,
        (gba_allocate_group_calls 32
          (some { d with group_alloc_mask := 0 }) (some gid0)).2.1, some gid1) := by
  have h := gba_allocate_group_calls_low_ones d 32 0 gid0 (by decide)
  simp only [Nat.pow_zero, Nat.sub_self, Nat.zero_add] at h
  rw [h]
  refine ⟨rfl, rfl, fun gid1 => ?_⟩
  exact gba_allocate_group_full d gid1

/-! ## Register window: load after store -/

theorem load64_eq (m : Nat → Nat) (a : Nat) :
    load64 m a = m a % 256 + 256 * (m (a + 1) % 256 + 256 * (m (a + 2) % 256 +
      256 * (m (a + 3) % 256 + 256 * (m (a + 4) % 256 + 256 * (m (a + 5) % 256 +
      256 * (m (a + 6) % 256 + 256 * (m (a + 7) % 256))))))) := by
  simp [load64, List.range, List.range.loop]

theorem load64_store64_same (m : Nat → Nat) (a v : Nat) :
    load64 (store64 m a v) a = v % 2 ^ 64 := by
  simp only [load64_eq, store64]
  simp
  omega

theorem load64_store64_disjoint (m : Nat → Nat) (a b v : Nat)
    (h : b + 8 ≤ a ∨ a + 8 ≤ b) :
    load64 (store64 m a v) b = load64 m b := by
  simp only [load64_eq, store64]
  have h0 : ¬ (a ≤ b ∧ b < a + 8) := by omega
  have h1 : ¬ (a ≤ b + 1 ∧ b + 1 < a + 8) := by omega
  have h2 : ¬ (a ≤ b + 2 ∧ b + 2 < a + 8) := by omega
  have h3 : ¬ (a ≤ b + 3 ∧ b + 3 < a + 8) := by omega
  have h4 : ¬ (a ≤ b + 4 ∧ b + 4 < a + 8) := by omega
  have h5 : ¬ (a ≤ b + 5 ∧ b + 5 < a + 8) := by omega
  have h6 : ¬ (a ≤ b + 6 ∧ b + 6 < a + 8) := by omega
  have h7 : ¬ (a ≤ b + 7 ∧ b + 7 < a + 8) := by omega
  simp only [h0, h1, h2, h3, h4, h5, h6, h7, if_false]

/-! ## Group release (GBA) -/

theorem gba_free_group_mapped (d : gba_device_t) (g : Nat) (hg : g < 32)
    (hm : ¬ (d.base_addr = NULL ∨ d.base_addr = MAP_FAILED)) :
    gba_free_group (some d) g =
      (OMPI_SUCCESS,
        some { d with
          regs := store64 d.regs
            ((GBA_GROUP_REG_BASE g + GBA_REG_CONTROL) % 2 ^ 32) GBA_CTRL_RESET,
          writes := d.writes ++
            [((GBA_GROUP_REG_BASE g + GBA_REG_CONTROL) % 2 ^ 32, GBA_CTRL_RESET)],
          group_alloc_mask :=
            d.group_alloc_mask &&& ((2 ^ 32 - 1) ^^^ (1 <<< g)) }) := by
  have h1 : ¬ g ≥ GBA_MAX_GROUPS := by simp [GBA_MAX_GROUPS]; omega
  simp only [gba_free_group, gba_reg_write, h1, hm, if_false]

theorem gba_free_group_unmapped (d : gba_device_t) (g : Nat) (hg : g < 32)
    (hm : d.base_addr = NULL ∨ d.base_addr = MAP_FAILED) :
    gba_free_group (some d) g =
      (OMPI_SUCCESS,
        some { d with group_alloc_mask :=
          d.group_alloc_mask &&& ((2 ^ 32 - 1) ^^^ (1 <<< g)) }) := by
  have h1 : ¬ g ≥ GBA_MAX_GROUPS := by simp [GBA_MAX_GROUPS]; omega
  simp only [gba_free_group, gba_reg_write, h1, hm, if_false, if_true]

theorem gba_free_group_mask (d : gba_device_t) (g : Nat) (hg : g < 32) :
    ∃ d1, gba_free_group (some d) g = (OMPI_SUCCESS, some d1) ∧
      d1.base_addr = d.base_addr ∧
      d1.group_alloc_mask = d.group_alloc_mask &&& ((2 ^ 32 - 1) ^^^ (1 <<< g)) := by
  by_cases hm : d.base_addr = NULL ∨ d.base_addr = MAP_FAILED
  · exact ⟨_, gba_free_group_unmapped d g hg hm, rfl, rfl⟩
  · exact ⟨_, gba_free_group_mapped d g hg hm, rfl, rfl⟩

/-- C4. For every group id `g < 32` such that all ids below `g` are claimed
(in particular for every claimed such `g`), `gba_free_group (g)` succeeds and
the `gba_allocate_group` call that follows returns `OMPI_SUCCESS` with
`group_id = g`. -/
theorem gba_free_then_allocate_reuses (d : gba_device_t) (g gid0 : Nat) (hg : g < 32)
    (hbelow : ∀ j, j < g → d.group_alloc_mask.testBit j = true) :
    ∃ d1, gba_free_group (some d) g = (OMPI_SUCCESS, some d1) ∧
      (gba_allocate_group (some d1) (some gid0)).1 = OMPI_SUCCESS ∧
      (gba_allocate_group (some d1) (some gid0)).2.2 = some g := by
  obtain ⟨d1, h1, _, h3⟩ := gba_free_group_mask d g hg
  refine ⟨d1, h1, ?_⟩
  have hs : gba_allocate_group_scan d1.group_alloc_mask GBA_MAX_GROUPS 0 = some g := by
    rw [gba_allocate_group_scan_some, h3]
    refine ⟨Nat.zero_le _, by simpa [GBA_MAX_GROUPS] using hg, ?_, ?_⟩
    · rw [testBit_and_not_one_shiftLeft _ _ _ hg]; simp
    · intro j _ hj
      rw [testBit_and_not_one_shiftLeft _ _ _ (by omega), hbelow j hj]
      simp; omega
  simp only [gba_allocate_group, hs, and_self]

/-- Witness for C4: ids 0..2 and 4..7 stay claimed, id 3 is freed and reused. -/
theorem gba_free_then_allocate_reuses_witness :
    (3 < 32 ∧ ∀ j, j < 3 → (255 : Nat).testBit j = true) ∧
    ∃ d1, gba_free_group (some ⟨4096, 3, 32, 255, fun _ => 0, []⟩) 3 =
        (OMPI_SUCCESS, some d1) ∧
      (gba_allocate_group (some d1) (some 0)).1 = OMPI_SUCCESS ∧
      (gba_allocate_group (some d1) (some 0)).2.2 = some 3 :=
  ⟨⟨by decide, by decide⟩,
    gba_free_then_allocate_reuses ⟨4096, 3, 32, 255, fun _ => 0, []⟩ 3 0
      (by decide) (by decide)⟩

/-- C5. For every `group_id < 32`, `gba_free_group` returns `OMPI_SUCCESS` and
clears exactly bit `group_id` of the allocation mask.  On a mapped device the
group's control register then reads `GBA_CTRL_RESET`, so its ENABLE bit is
clear; on an unmapped device the register write fails, the call still returns
success and only the mask changes.  For `group_id >= 32` the call returns
`OMPI_ERR_BAD_PARAM` and the device is unchanged. -/
theorem gba_free_group_effect (d : gba_device_t) (group_id : Nat) :
    (group_id < 32 →
      ∃ d1, gba_free_group (some d) group_id = (OMPI_SUCCESS, some d1) ∧
        d1.group_alloc_mask < 2 ^ 32 ∧
        (∀ j, j < 32 → d1.group_alloc_mask.testBit j =
          (decide (j ≠ group_id) && d.group_alloc_mask.testBit j)) ∧
        (¬ (d.base_addr = NULL ∨ d.base_addr = MAP_FAILED) →
          ∀ v0, gba_reg_read (some d1) group_id GBA_REG_CONTROL (some v0) =
            (OMPI_SUCCESS, some GBA_CTRL_RESET)) ∧
        (∀ v0 v, gba_reg_read (some d1) group_id GBA_REG_CONTROL (some v0) =
            (OMPI_SUCCESS, some v) → v &&& GBA_CTRL_ENABLE = 0) ∧
        ((d.base_addr = NULL ∨ d.base_addr = MAP_FAILED) →
          (gba_reg_write (some d) group_id GBA_REG_CONTROL GBA_CTRL_RESET).1 ≠
            OMPI_SUCCESS ∧
          d1 = { d with group_alloc_mask :=
            d.group_alloc_mask &&& ((2 ^ 32 - 1) ^^^ (1 <<< group_id)) })) ∧
    (32 ≤ group_id → gba_free_group (some d) group_id = (OMPI_ERR_BAD_PARAM, some d)) := by
  constructor
  · intro hg
    have h1 : ¬ group_id ≥ GBA_MAX_GROUPS := by simp [GBA_MAX_GROUPS]; omega
    by_cases hm : d.base_addr = NULL ∨ d.base_addr = MAP_FAILED
    · refine ⟨_, gba_free_group_unmapped d group_id hg hm,
        and_not_one_shiftLeft_lt _ _ hg,
        fun j hj => testBit_and_not_one_shiftLeft _ _ _ hj,
        fun h => absurd hm h, ?_, fun _ => ⟨?_, rfl⟩⟩
      · intro v0 v h
        simp [gba_reg_read, h1, hm, OMPI_ERR_NOT_AVAILABLE, OMPI_SUCCESS] at h
      · simp [gba_reg_write, h1, hm, OMPI_ERR_NOT_AVAILABLE, OMPI_SUCCESS]
    · have hrd : ∀ v0, gba_reg_read (some { d with
            regs := store64 d.regs
              ((GBA_GROUP_REG_BASE group_id + GBA_REG_CONTROL) % 2 ^ 32) GBA_CTRL_RESET,
            writes := d.writes ++
              [((GBA_GROUP_REG_BASE group_id + GBA_REG_CONTROL) % 2 ^ 32, GBA_CTRL_RESET)],
            group_alloc_mask :=
              d.group_alloc_mask &&& ((2 ^ 32 - 1) ^^^ (1 <<< group_id)) })
          group_id GBA_REG_CONTROL (some v0) = (OMPI_SUCCESS, some GBA_CTRL_RESET) := by
        intro v0
        simp only [gba_reg_read, h1, hm, if_false, load64_store64_same]
        rfl
      refine ⟨_, gba_free_group_mapped d group_id hg hm,
        and_not_one_shiftLeft_lt _ _ hg,
        fun j hj => testBit_and_not_one_shiftLeft _ _ _ hj,
        fun _ => hrd, ?_, fun h => absurd h hm⟩
      intro v0 v h
      rw [hrd v0] at h
      have : v = GBA_CTRL_RESET := by
        have := (Prod.mk.inj h).2
        exact (Option.some.inj this).symm
      rw [this]
      decide
  · intro hg
    have h1 : group_id ≥ GBA_MAX_GROUPS := by simpa [GBA_MAX_GROUPS] using hg
    simp only [gba_free_group, h1, if_true]

/-- Witness for C5: group 0 of the mapped sample device is freed, and group id
40 is rejected. -/
theorem gba_free_group_effect_witness :
    (∃ d1, gba_free_group (some gba_device_sample) 0 = (OMPI_SUCCESS, some d1) ∧
      d1.group_alloc_mask.testBit 0 = false ∧
      ∀ v0, gba_reg_read (some d1) 0 GBA_REG_CONTROL (some v0) =
        (OMPI_SUCCESS, some GBA_CTRL_RESET)) ∧
    gba_free_group (some gba_device_sample) 40 =
      (OMPI_ERR_BAD_PARAM, some gba_device_sample) := by
  obtain ⟨d1, h1, _, h3, h4, _⟩ := (gba_free_group_effect gba_device_sample 0).1 (by decide)
  exact ⟨⟨d1, h1, by rw [h3 0 (by decide)]; rfl, h4 (by decide)⟩,
    (gba_free_group_effect gba_device_sample 40).2 (by decide)⟩

/-! ## Group allocator (switch) -/

theorem switch_barrier_allocate_group_scan_some (shl_ub : Nat → Nat) (mask : Nat)
    (n i g : Nat) :
    switch_barrier_allocate_group_scan shl_ub mask n i = some g ↔
      i ≤ g ∧ g < i + n ∧ mask &&& shl_1ULL shl_ub g = 0 ∧
        ∀ j, i ≤ j → j < g → mask &&& shl_1ULL shl_ub j ≠ 0 := by
  induction n generalizing i with
  | zero => simp [switch_barrier_allocate_group_scan]; omega
  | succ n ih =>
    unfold switch_barrier_allocate_group_scan
    by_cases hb : mask &&& shl_1ULL shl_ub i = 0
    · rw [if_pos hb]
      constructor
      · intro h
        have hg : i = g := by simpa using h
        subst hg
        exact ⟨le_refl _, by omega, hb, fun j h1 h2 => by omega⟩
      · rintro ⟨h1, _, _, h4⟩
        rcases Nat.eq_or_lt_of_le h1 with h | h
        · simp [h]
        · exact absurd hb (h4 i (le_refl _) h)
    · rw [if_neg hb, ih]
      constructor
      · rintro ⟨h1, h2, h3, h4⟩
        refine ⟨by omega, by omega, h3, fun j hj1 hj2 => ?_⟩
        rcases Nat.eq_or_lt_of_le hj1 with h | h
        · rw [← h]; exact hb
        · exact h4 j h hj2
      · rintro ⟨h1, h2, h3, h4⟩
        have hne : i ≠ g := by
          intro h; rw [h] at hb; exact hb h3
        exact ⟨by omega, by omega, h3, fun j hj1 hj2 => h4 j (by omega) hj2⟩

theorem switch_barrier_allocate_group_scan_none (shl_ub : Nat → Nat) (mask : Nat)
    (n i : Nat) :
    switch_barrier_allocate_group_scan shl_ub mask n i = none ↔
      ∀ j, i ≤ j → j < i + n → mask &&& shl_1ULL shl_ub j ≠ 0 := by
  induction n generalizing i with
  | zero => simp [switch_barrier_allocate_group_scan]; intro j h1 h2; omega
  | succ n ih =>
    unfold switch_barrier_allocate_group_scan
    by_cases hb : mask &&& shl_1ULL shl_ub i = 0
    · rw [if_pos hb]
      simp only [reduceCtorEq, false_iff]
      intro h
      exact h i (le_refl _) (by omega) hb
    · rw [if_neg hb, ih]
      constructor
      · intro h j hj1 hj2
        rcases Nat.eq_or_lt_of_le hj1 with h' | h'
        · rw [← h']; exact hb
        · exact h j h' (by omega)
      · intro h j hj1 hj2
        exact h j (by omega) (by omega)

theorem shl_1ULL_lt (shl_ub : Nat → Nat) (i : Nat) : shl_1ULL shl_ub i < 2 ^ 64 := by
  unfold shl_1ULL
  split
  · rw [Nat.one_shiftLeft]
    exact Nat.pow_lt_pow_right (by decide) (by assumption)
  · exact Nat.mod_lt _ (by decide)

theorem full_and_shl_1ULL (shl_ub : Nat → Nat) (i : Nat) :
    (2 ^ 64 - 1) &&& shl_1ULL shl_ub i = shl_1ULL shl_ub i := by
  rw [Nat.and_comm, Nat.and_pow_two_sub_one_eq_mod, Nat.mod_eq_of_lt (shl_1ULL_lt _ _)]

theorem switch_barrier_allocate_group_scan_low_ones (shl_ub : Nat → Nat) (k : Nat)
    (hk : k < 64) :
    switch_barrier_allocate_group_scan shl_ub (2 ^ k - 1) 256 0 = some k := by
  rw [switch_barrier_allocate_group_scan_some]
  have hsh : ∀ j, j < 64 → shl_1ULL shl_ub j = 1 <<< j := by
    intro j hj; simp [shl_1ULL, hj]
  refine ⟨Nat.zero_le _, by omega, ?_, ?_⟩
  · rw [hsh k hk, and_one_shiftLeft_eq_zero]; simp
  · intro j _ hj
    rw [hsh j (by omega), Ne, and_one_shiftLeft_eq_zero]
    simpa using hj

theorem switch_barrier_allocate_group_low_ones (shl_ub : Nat → Nat)
    (d : switch_barrier_device_t) (k gid0 : Nat) (hk : k < 64) :
    switch_barrier_allocate_group shl_ub
        (some { d with num_groups := 256, group_allocation_mask := 2 ^ k - 1 })
        (some gid0) =
      (OMPI_SUCCESS,
        some { d with num_groups := 256, group_allocation_mask := 2 ^ (k + 1) - 1 },
        some k) := by
  have hsh : shl_1ULL shl_ub k = 1 <<< k := by simp [shl_1ULL, hk]
  simp [switch_barrier_allocate_group,
    switch_barrier_allocate_group_scan_low_ones shl_ub k hk, hsh, low_ones_or_next]

theorem switch_barrier_allocate_group_calls_low_ones (shl_ub : Nat → Nat)
    (d : switch_barrier_device_t) (n : Nat) :
    ∀ k gid0, k + n ≤ 64 →
      switch_barrier_allocate_group_calls shl_ub n
          (some { d with num_groups := 256, group_allocation_mask := 2 ^ k - 1 })
          (some gid0) =
        ((List.range n).map (fun i => (OMPI_SUCCESS, some (k + i))),
          some { d with num_groups := 256, group_allocation_mask := 2 ^ (k + n) - 1 },
          some (if n = 0 then gid0 else k + n - 1)) := by
  induction n with
  | zero => intro k gid0 _; simp [switch_barrier_allocate_group_calls]
  | succ n ih =>
    intro k gid0 hk
    have h1 := switch_barrier_allocate_group_low_ones shl_ub d k gid0 (by omega)
    have h2 := ih (k + 1) k (by omega)
    simp only [switch_barrier_allocate_group_calls, h1, h2, List.range_succ_eq_map,
      List.map_cons, List.map_map]
    refine Prod.ext ?_ (Prod.ext ?_ ?_)
    · simp only [Nat.add_zero, List.cons.injEq, true_and]
      apply List.map_congr_left
      intro i _
      simp [Nat.add_assoc, Nat.add_comm 1 i]
    · simp [Nat.add_assoc, Nat.add_comm 1 n]
    · by_cases hn : n = 0
      · simp [hn]
      · simp only [hn, if_false, Nat.succ_ne_zero]
        congr 1
        omega

/-- With all 64 mask bits set, a call either finds nothing, or stops at an
index `i >= 64` whose shift evaluates to 0: then it succeeds with `i` and
leaves the mask as it is. -/
theorem switch_barrier_allocate_group_full (shl_ub : Nat → Nat)
    (d : switch_barrier_device_t)
    (hmask : d.group_allocation_mask = 2 ^ 64 - 1) :
    (∀ gid0, switch_barrier_allocate_group shl_ub (some d) (some gid0) =
        (OMPI_ERR_OUT_OF_RESOURCE, some d, some gid0)) ∨
      ∃ i, ∀ gid0, switch_barrier_allocate_group shl_ub (some d) (some gid0) =
        (OMPI_SUCCESS, some d, some i) := by
  cases hs : switch_barrier_allocate_group_scan shl_ub d.group_allocation_mask
      d.num_groups.toNat 0 with
  | none => left; intro gid0; simp only [switch_barrier_allocate_group, hs]
  | some i =>
    right
    refine ⟨i, fun gid0 => ?_⟩
    obtain ⟨_, _, h3, _⟩ := (switch_barrier_allocate_group_scan_some _ _ _ _ _).1 hs
    rw [hmask, full_and_shl_1ULL] at h3
    simp only [switch_barrier_allocate_group, hs, h3, Nat.or_zero]

theorem switch_barrier_allocate_group_calls_add (shl_ub : Nat → Nat) (m n : Nat) :
    ∀ (device : Option switch_barrier_device_t) (group_id : Option Nat),
      switch_barrier_allocate_group_calls shl_ub (m + n) device group_id =
        ((switch_barrier_allocate_group_calls shl_ub m device group_id).1 ++
          (switch_barrier_allocate_group_calls shl_ub n
            (switch_barrier_allocate_group_calls shl_ub m device group_id).2.1
            (switch_barrier_allocate_group_calls shl_ub m device group_id).2.2).1,
         (switch_barrier_allocate_group_calls shl_ub n
            (switch_barrier_allocate_group_calls shl_ub m device group_id).2.1
            (switch_barrier_allocate_group_calls shl_ub m device group_id).2.2).2) := by
  induction m with
  | zero => intro device group_id; simp [switch_barrier_allocate_group_calls]
  | succ m ih =>
    intro device group_id
    rw [Nat.succ_add]
    simp only [switch_barrier_allocate_group_calls, ih, List.cons_append]

theorem shl_1ULL_mod64_ne_zero (i : Nat) : shl_1ULL shl_ub_mod64 i ≠ 0 := by
  unfold shl_1ULL shl_ub_mod64
  split
  · rw [Nat.one_shiftLeft]; exact Nat.pos_iff_ne_zero.1 (Nat.two_pow_pos _)
  · rw [Nat.one_shiftLeft,
      Nat.mod_eq_of_lt (Nat.pow_lt_pow_right (by decide) (Nat.mod_lt _ (by decide)))]
    exact Nat.pos_iff_ne_zero.1 (Nat.two_pow_pos _)

theorem switch_barrier_allocate_group_full_mod64 (d : switch_barrier_device_t)
    (gid0 : Nat) (hmask : d.group_allocation_mask = 2 ^ 64 - 1) :
    switch_barrier_allocate_group shl_ub_mod64 (some d) (some gid0) =
      (OMPI_ERR_OUT_OF_RESOURCE, some d, some gid0) := by
  have hs : switch_barrier_allocate_group_scan shl_ub_mod64 d.group_allocation_mask
      d.num_groups.toNat 0 = none := by
    rw [switch_barrier_allocate_group_scan_none]
    intro j _ _
    rw [hmask, full_and_shl_1ULL]
    exact shl_1ULL_mod64_ne_zero j
  simp only [switch_barrier_allocate_group, hs]

/-- C3 (the code at the failing input). On a switch device with
`num_groups = 256` and an empty 64-bit allocation mask, the first 64
`switch_barrier_allocate_group` calls return ids 0..63 and fill the mask.
Whatever value the target gives the out-of-range shift `1ULL << i`, the 65th
call then either returns `OMPI_ERR_OUT_OF_RESOURCE`, or succeeds with an id
that the 66th call returns again; with the shift count taken modulo 64 it
returns `OMPI_ERR_OUT_OF_RESOURCE`.  So 256 calls never succeed with pairwise
distinct ids. -/
theorem switch_barrier_allocate_group_capacity_is_64 (shl_ub : Nat → Nat)
    (d : switch_barrier_device_t) (gid0 : Nat) :
    (∃ r65 r66,
      (switch_barrier_allocate_group_calls shl_ub 66
          (some { d with num_groups := 256, group_allocation_mask := 0 })
          (some gid0)).1 =
        (List.range 64).map (fun i => (OMPI_SUCCESS, some i)) ++ [r65, r66] ∧
      (r65 = (OMPI_ERR_OUT_OF_RESOURCE, some 63) ∨
        ∃ i, r65 = (OMPI_SUCCESS, some i) ∧ r66 = (OMPI_SUCCESS, some i))) ∧
    (switch_barrier_allocate_group_calls shl_ub_mod64 65
        (some { d with num_groups := 256, group_allocation_mask := 0 })
        (some gid0)).1 =
      (List.range 64).map (fun i => (OMPI_SUCCESS, some i)) ++
        [(OMPI_ERR_OUT_OF_RESOURCE, some 63)] := by
  have h64 : ∀ ub, switch_barrier_allocate_group_calls ub 64
      (some { d with num_groups := 256, group_allocation_mask := 0 }) (some gid0) =
      ((List.range 64).map (fun i => (OMPI_SUCCESS, some i)),
        some { d with num_groups := 256, group_allocation_mask := 2 ^ 64 - 1 },
        some 63) := by
    intro ub
    have h := switch_barrier_allocate_group_calls_low_ones ub d 64 0 gid0 (by decide)
    simp only [Nat.pow_zero, Nat.sub_self, Nat.zero_add] at h
    rw [h]
    rfl
  constructor
  · rw [show 66 = 64 + 2 from rfl, switch_barrier_allocate_group_calls_add, h64]
    rcases switch_barrier_allocate_group_full shl_ub
        { d with num_groups := 256, group_allocation_mask := 2 ^ 64 - 1 } rfl with h | ⟨i, h⟩
    · refine ⟨(OMPI_ERR_OUT_OF_RESOURCE, some 63), (OMPI_ERR_OUT_OF_RESOURCE, some 63),
        ?_, Or.inl rfl⟩
      simp only [switch_barrier_allocate_group_calls, h]
    · refine ⟨(OMPI_SUCCESS, some i), (OMPI_SUCCESS, some i), ?_, Or.inr ⟨i, rfl, rfl⟩⟩
      simp only [switch_barrier_allocate_group_calls, h]
  · rw [show 65 = 64 + 1 from rfl, switch_barrier_allocate_group_calls_add, h64]
    have h := switch_barrier_allocate_group_full_mod64
      { d with num_groups := 256, group_allocation_mask := 2 ^ 64 - 1 } 63 rfl
    simp only [switch_barrier_allocate_group_calls, h]

/-! ## Group configurator (GBA) -/

theorem replay_append (m : Nat → Nat) (ws ws' : List (Nat × Nat)) :
    replay m (ws ++ ws') = replay (replay m ws) ws' := by
  induction ws generalizing m with
  | nil => rfl
  | cons w ws ih =>
    show replay (store64 m w.1 w.2) (ws ++ ws') = replay (replay (store64 m w.1 w.2) ws) ws'
    exact ih _

theorem gba_after_writes_nil (d : gba_device_t) : d.after_writes [] = d := by
  simp [gba_device_t.after_writes, replay]

theorem gba_after_writes_append (d : gba_device_t) (ws ws' : List (Nat × Nat)) :
    (d.after_writes ws).after_writes ws' = d.after_writes (ws ++ ws') := by
  simp [gba_device_t.after_writes, replay_append, List.append_assoc]

theorem gba_reg_write_ok (d : gba_device_t) (g off v : Nat) (hg : g < 32)
    (hm : ¬ (d.base_addr = NULL ∨ d.base_addr = MAP_FAILED)) :
    gba_reg_write (some d) g off v =
      (OMPI_SUCCESS,
        some (d.after_writes [((GBA_GROUP_REG_BASE g + off) % 2 ^ 32, v)])) := by
  have h1 : ¬ g ≥ GBA_MAX_GROUPS := by simp [GBA_MAX_GROUPS]; omega
  simp only [gba_reg_write, h1, hm, if_false, gba_device_t.after_writes, replay]

theorem gba_reg_write_fails (d : gba_device_t) (g off v : Nat)
    (h : ¬ (g < 32 ∧ ¬ (d.base_addr = NULL ∨ d.base_addr = MAP_FAILED))) :
    (gba_reg_write (some d) g off v).1 ≠ OMPI_SUCCESS ∧
      (gba_reg_write (some d) g off v).2 = some d ∧
      (gba_reg_write (some d) g off v).1 =
        (if g ≥ 32 then OMPI_ERR_BAD_PARAM else OMPI_ERR_NOT_AVAILABLE) := by
  by_cases hg : g ≥ GBA_MAX_GROUPS
  · have hg' : g ≥ 32 := hg
    simp [gba_reg_write, hg, hg', OMPI_ERR_BAD_PARAM, OMPI_SUCCESS]
  · have hg' : ¬ g ≥ 32 := hg
    have hm : d.base_addr = NULL ∨ d.base_addr = MAP_FAILED := by
      by_contra hm
      exact h ⟨by omega, hm⟩
    simp [gba_reg_write, hg, hg', hm, OMPI_ERR_NOT_AVAILABLE, OMPI_SUCCESS]

theorem gba_configure_group_mask_loop_ok (c : gba_group_config_t) (hg : c.group_id < 32)
    (n : Nat) : ∀ (i : Nat) (d : gba_device_t),
      ¬ (d.base_addr = NULL ∨ d.base_addr = MAP_FAILED) →
      gba_configure_group_mask_loop c n i (some d) =
        (OMPI_SUCCESS,
          some (d.after_writes ((List.range n).map (fun k =>
            ((GBA_GROUP_REG_BASE c.group_id +
                (GBA_REG_MEMBER_MASK_BASE + (i + k) * 8) % 2 ^ 32) % 2 ^ 32,
              c.member_mask.getD (i + k) 0))))) := by
  induction n with
  | zero => intro i d _; simp [gba_configure_group_mask_loop, gba_after_writes_nil]
  | succ n ih =>
    intro i d hm
    have hm' : ∀ ws, ¬ ((d.after_writes ws).base_addr = NULL ∨
        (d.after_writes ws).base_addr = MAP_FAILED) := fun _ => hm
    simp only [gba_configure_group_mask_loop, gba_reg_write_ok d _ _ _ hg hm, ne_eq,
      not_true_eq_false, if_false, ih (i + 1) _ (hm' _), gba_after_writes_append,
      List.range_succ_eq_map, List.map_cons, List.map_map, Nat.add_zero,
      List.singleton_append]
    congr 4
    apply List.map_congr_left
    intro k _
    simp [Nat.add_assoc, Nat.add_comm 1 k]

theorem gba_reg_write_after (d : gba_device_t) (ws : List (Nat × Nat)) (g off v : Nat)
    (hg : g < 32) (hm : ¬ (d.base_addr = NULL ∨ d.base_addr = MAP_FAILED)) :
    gba_reg_write (some (d.after_writes ws)) g off v =
      (OMPI_SUCCESS,
        some (d.after_writes (ws ++ [((GBA_GROUP_REG_BASE g + off) % 2 ^ 32, v)]))) := by
  have hm' : ¬ ((d.after_writes ws).base_addr = NULL ∨
      (d.after_writes ws).base_addr = MAP_FAILED) := hm
  rw [gba_reg_write_ok _ g off v hg hm', gba_after_writes_append]

theorem gba_configure_group_mask_loop_after (c : gba_group_config_t)
    (hg : c.group_id < 32) (d : gba_device_t) (ws : List (Nat × Nat)) (n i : Nat)
    (hm : ¬ (d.base_addr = NULL ∨ d.base_addr = MAP_FAILED)) :
    gba_configure_group_mask_loop c n i (some (d.after_writes ws)) =
      (OMPI_SUCCESS,
        some (d.after_writes (ws ++ (List.range n).map (fun k =>
          ((GBA_GROUP_REG_BASE c.group_id +
              (GBA_REG_MEMBER_MASK_BASE + (i + k) * 8) % 2 ^ 32) % 2 ^ 32,
            c.member_mask.getD (i + k) 0))))) := by
  have hm' : ¬ ((d.after_writes ws).base_addr = NULL ∨
      (d.after_writes ws).base_addr = MAP_FAILED) := hm
  rw [gba_configure_group_mask_loop_ok c hg n i _ hm', gba_after_writes_append]

/-- On a mapped device and for a group id below 32, `gba_configure_group`
succeeds and its stores are exactly the prescribed sequence. -/
theorem gba_configure_group_ok (d : gba_device_t) (c : gba_group_config_t)
    (hg : c.group_id < 32) (hm : ¬ (d.base_addr = NULL ∨ d.base_addr = MAP_FAILED)) :
    gba_configure_group (some d) (some c) =
      (OMPI_SUCCESS, some (d.after_writes (gba_configure_group_sequence c))) := by
  have e : gba_reg_write (some d) c.group_id GBA_REG_CONTROL 0 =
      (OMPI_SUCCESS, some (d.after_writes
        ([] ++ [((GBA_GROUP_REG_BASE c.group_id + GBA_REG_CONTROL) % 2 ^ 32, 0)]))) := by
    have := gba_reg_write_after d [] c.group_id GBA_REG_CONTROL 0 hg hm
    rwa [gba_after_writes_nil] at this
  simp only [gba_configure_group, e, gba_reg_write_after d _ _ _ _ hg hm,
    gba_configure_group_mask_loop_after c hg d _ _ _ hm, ne_eq, not_true_eq_false,
    if_false]
  congr 3
  have hb : GBA_GROUP_REG_BASE c.group_id = c.group_id * 4096 := rfl
  simp only [gba_configure_group_sequence, GBA_MEMBER_MASK_WORDS, GBA_MAX_MEMBERS,
    GBA_REG_CONTROL, GBA_REG_GROUP_ID, GBA_REG_MEMBER_COUNT, GBA_REG_MEMBER_MASK_BASE, hb,
    List.nil_append, List.append_assoc, List.cons_append, List.singleton_append]
  have h1 : ∀ off, off < 4096 → (c.group_id * 4096 + off) % 2 ^ 32 = c.group_id * 4096 + off := by
    intro off hoff; omega
  rw [h1 8 (by decide), h1 0 (by decide), h1 4 (by decide)]
  congr 5
  apply List.map_congr_left
  intro k hk
  have hk' : k < 12 := by simpa using hk
  rw [Nat.zero_add]
  congr 1
  omega

/-! ## Group configurator (switch) -/

theorem switch_after_writes_nil (d : switch_barrier_device_t) : d.after_writes [] = d := by
  simp [switch_barrier_device_t.after_writes, replay]

theorem switch_after_writes_append (d : switch_barrier_device_t)
    (ws ws' : List (Nat × Nat)) :
    (d.after_writes ws).after_writes ws' = d.after_writes (ws ++ ws') := by
  simp [switch_barrier_device_t.after_writes, replay_append, List.append_assoc]

theorem switch_barrier_reg_write_ok (d : switch_barrier_device_t) (g off v : Nat)
    (hg : g < uint32_of_int d.num_groups)
    (hm : ¬ (NULL = d.base_addr ∨ d.base_addr = MAP_FAILED)) :
    switch_barrier_reg_write (some d) g off v =
      (OMPI_SUCCESS,
        some (d.after_writes [(switch_barrier_calc_reg_addr g off, v)])) := by
  have h1 : ¬ g ≥ uint32_of_int d.num_groups := by omega
  simp only [switch_barrier_reg_write, h1, hm, if_false,
    switch_barrier_device_t.after_writes, replay]

theorem switch_barrier_reg_write_fails (d : switch_barrier_device_t) (g off v : Nat)
    (h : ¬ (g < uint32_of_int d.num_groups ∧
      ¬ (NULL = d.base_addr ∨ d.base_addr = MAP_FAILED))) :
    (switch_barrier_reg_write (some d) g off v).1 ≠ OMPI_SUCCESS ∧
      (switch_barrier_reg_write (some d) g off v).2 = some d ∧
      (switch_barrier_reg_write (some d) g off v).1 =
        (if g ≥ uint32_of_int d.num_groups then OMPI_ERR_BAD_PARAM
          else OMPI_ERR_NOT_AVAILABLE) := by
  by_cases hg : g ≥ uint32_of_int d.num_groups
  · simp [switch_barrier_reg_write, hg, OMPI_ERR_BAD_PARAM, OMPI_SUCCESS]
  · have hm : NULL = d.base_addr ∨ d.base_addr = MAP_FAILED := by
      by_contra hm
      exact h ⟨by omega, hm⟩
    simp [switch_barrier_reg_write, hg, hm, OMPI_ERR_NOT_AVAILABLE, OMPI_SUCCESS]

theorem switch_barrier_reg_write_after (d : switch_barrier_device_t)
    (ws : List (Nat × Nat)) (g off v : Nat) (hg : g < uint32_of_int d.num_groups)
    (hm : ¬ (NULL = d.base_addr ∨ d.base_addr = MAP_FAILED)) :
    switch_barrier_reg_write (some (d.after_writes ws)) g off v =
      (OMPI_SUCCESS,
        some (d.after_writes (ws ++ [(switch_barrier_calc_reg_addr g off, v)]))) := by
  have hm' : ¬ (NULL = (d.after_writes ws).base_addr ∨
      (d.after_writes ws).base_addr = MAP_FAILED) := hm
  have hg' : g < uint32_of_int (d.after_writes ws).num_groups := hg
  rw [switch_barrier_reg_write_ok _ g off v hg' hm', switch_after_writes_append]

theorem switch_barrier_addr_loop_cond (mc i : Nat) (hmc : mc < 2 ^ 32) :
    ((i : Int) < int_of_uint32 mc ∧ i < SWITCH_BARRIER_MAX_MEMBERS) ↔
      i < switch_barrier_addr_count mc := by
  unfold int_of_uint32 switch_barrier_addr_count SWITCH_BARRIER_MAX_MEMBERS
  split <;> omega

theorem switch_barrier_configure_group_addr_loop_ok (c : switch_barrier_group_config_t)
    (hmc : c.member_count < 2 ^ 32) (n : Nat) : ∀ (i : Nat) (d : switch_barrier_device_t),
      c.group_id < uint32_of_int d.num_groups →
      ¬ (NULL = d.base_addr ∨ d.base_addr = MAP_FAILED) →
      switch_barrier_configure_group_addr_loop c n i (some d) =
        (OMPI_SUCCESS,
          some (d.after_writes
            ((List.range (min n (switch_barrier_addr_count c.member_count - i))).map
              (fun k =>
                (switch_barrier_calc_reg_addr c.group_id
                    ((SWITCH_BARRIER_REG_ARRIVAL_ADDR + (i + k) * 8) % 2 ^ 32),
                  c.network_addrs.getD (i + k) 0))))) := by
  induction n with
  | zero =>
    intro i d _ _
    simp [switch_barrier_configure_group_addr_loop, switch_after_writes_nil]
  | succ n ih =>
    intro i d hg hm
    unfold switch_barrier_configure_group_addr_loop
    by_cases hc : i < switch_barrier_addr_count c.member_count
    · rw [if_pos ((switch_barrier_addr_loop_cond _ _ hmc).2 hc)]
      have hg' : ∀ ws, c.group_id < uint32_of_int (d.after_writes ws).num_groups :=
        fun _ => hg
      have hm' : ∀ ws, ¬ (NULL = (d.after_writes ws).base_addr ∨
          (d.after_writes ws).base_addr = MAP_FAILED) := fun _ => hm
      have hmin : min (n + 1) (switch_barrier_addr_count c.member_count - i) =
          min n (switch_barrier_addr_count c.member_count - (i + 1)) + 1 := by omega
      simp only [switch_barrier_reg_write_ok d _ _ _ hg hm, ne_eq, not_true_eq_false,
        if_false, ih (i + 1) _ (hg' _) (hm' _), switch_after_writes_append, hmin,
        List.range_succ_eq_map, List.map_cons, List.map_map, Nat.add_zero,
        List.singleton_append]
      congr 4
      apply List.map_congr_left
      intro k _
      simp [Nat.add_assoc, Nat.add_comm 1 k]
    · rw [if_neg (fun h => hc ((switch_barrier_addr_loop_cond _ _ hmc).1 h))]
      have hmin : min (n + 1) (switch_barrier_addr_count c.member_count - i) = 0 := by omega
      simp [hmin, switch_after_writes_nil]

theorem switch_barrier_configure_group_addr_loop_after (c : switch_barrier_group_config_t)
    (hmc : c.member_count < 2 ^ 32)
    (d : switch_barrier_device_t) (ws : List (Nat × Nat)) (n i : Nat)
    (hg : c.group_id < uint32_of_int d.num_groups)
    (hm : ¬ (NULL = d.base_addr ∨ d.base_addr = MAP_FAILED)) :
    switch_barrier_configure_group_addr_loop c n i (some (d.after_writes ws)) =
      (OMPI_SUCCESS,
        some (d.after_writes (ws ++
          (List.range (min n (switch_barrier_addr_count c.member_count - i))).map
            (fun k =>
              (switch_barrier_calc_reg_addr c.group_id
                  ((SWITCH_BARRIER_REG_ARRIVAL_ADDR + (i + k) * 8) % 2 ^ 32),
                c.network_addrs.getD (i + k) 0))))) := by
  have hm' : ¬ (NULL = (d.after_writes ws).base_addr ∨
      (d.after_writes ws).base_addr = MAP_FAILED) := hm
  have hg' : c.group_id < uint32_of_int (d.after_writes ws).num_groups := hg
  rw [switch_barrier_configure_group_addr_loop_ok c hmc n i _ hg' hm',
    switch_after_writes_append]

/-- On a mapped device and for a group id below `(uint32_t) num_groups`,
`switch_barrier_configure_group` succeeds and its stores are exactly the
prescribed sequence. -/
theorem switch_barrier_configure_group_ok (d : switch_barrier_device_t)
    (c : switch_barrier_group_config_t) (hmc : c.member_count < 2 ^ 32)
    (hg : c.group_id < uint32_of_int d.num_groups)
    (hm : ¬ (NULL = d.base_addr ∨ d.base_addr = MAP_FAILED)) :
    switch_barrier_configure_group (some d) (some c) =
      (OMPI_SUCCESS,
        some (d.after_writes (switch_barrier_configure_group_sequence c))) := by
  have e : switch_barrier_reg_write (some d) c.group_id SWITCH_BARRIER_REG_CONTROL 0 =
      (OMPI_SUCCESS, some (d.after_writes
        ([] ++ [(switch_barrier_calc_reg_addr c.group_id SWITCH_BARRIER_REG_CONTROL, 0)]))) := by
    have := switch_barrier_reg_write_after d [] c.group_id SWITCH_BARRIER_REG_CONTROL 0 hg hm
    rwa [switch_after_writes_nil] at this
  have hcnt : min SWITCH_BARRIER_MAX_MEMBERS (switch_barrier_addr_count c.member_count - 0) =
      switch_barrier_addr_count c.member_count := by
    unfold switch_barrier_addr_count SWITCH_BARRIER_MAX_MEMBERS
    split <;> omega
  simp only [switch_barrier_configure_group, e,
    switch_barrier_reg_write_after d _ _ _ _ hg hm,
    switch_barrier_configure_group_addr_loop_after c hmc d _ _ _ hg hm, ne_eq,
    not_true_eq_false, if_false, hcnt, Nat.zero_add]
  rfl

/-! ## The ENABLE bit along a programming sequence -/

theorem load64_and_one (m : Nat → Nat) (a : Nat) : load64 m a &&& 1 = m a % 2 := by
  rw [Nat.and_one_is_mod, load64_eq]
  omega

theorem replay_keeps_even (a : Nat) (ws : List (Nat × Nat))
    (hws : ∀ w, w ∈ ws → store_keeps_even a w) :
    ∀ m : Nat → Nat, m a % 2 = 0 → replay m ws a % 2 = 0 := by
  induction ws with
  | nil => intro m hm; exact hm
  | cons w ws ih =>
    intro m hm
    show replay (store64 m w.1 w.2) ws a % 2 = 0
    apply ih (fun w' hw' => hws w' (List.mem_cons_of_mem _ hw'))
    unfold store64
    by_cases h : w.1 ≤ a ∧ a < w.1 + 8
    · rw [if_pos h]; exact hws w (List.mem_cons_self _ _) h.1 h.2
    · rw [if_neg h]; exact hm

/-- After a first store of 0 at `a`, every later prefix of stores that keep
byte `a` even leaves bit 0 of the word at `a` clear. -/
theorem replay_prefix_enable_clear (a : Nat) (body : List (Nat × Nat))
    (hbody : ∀ w, w ∈ body → store_keeps_even a w) (m : Nat → Nat) (k : Nat)
    (hk : 0 < k) :
    load64 (replay m (((a, 0) :: body).take k)) a &&& 1 = 0 := by
  obtain ⟨k', rfl⟩ : ∃ k', k = k' + 1 := ⟨k - 1, by omega⟩
  rw [load64_and_one, List.take_succ_cons]
  show replay (store64 m a 0) (body.take k') a % 2 = 0
  apply replay_keeps_even a _ (fun w hw => hbody w (List.mem_of_mem_take hw))
  simp [store64]

theorem gba_configure_group_sequence_split (c : gba_group_config_t) :
    gba_configure_group_sequence c =
      ((GBA_GROUP_REG_BASE c.group_id + GBA_REG_CONTROL, 0) ::
        gba_configure_group_body c) ++
      [(GBA_GROUP_REG_BASE c.group_id + GBA_REG_CONTROL,
        GBA_CTRL_ENABLE ||| GBA_CTRL_ARM)] := rfl

theorem gba_configure_group_body_keeps_even (c : gba_group_config_t)
    (hmc : c.member_count < 2 ^ 32) :
    ∀ w, w ∈ gba_configure_group_body c →
      store_keeps_even (GBA_GROUP_REG_BASE c.group_id + GBA_REG_CONTROL) w := by
  intro w hw
  simp only [gba_configure_group_body, List.mem_append, List.mem_cons, List.mem_singleton,
    List.mem_map, List.mem_range, List.not_mem_nil, or_false] at hw
  unfold store_keeps_even
  simp only [GBA_REG_CONTROL, GBA_REG_GROUP_ID, GBA_REG_MEMBER_COUNT,
    GBA_REG_MEMBER_MASK_BASE, GBA_CTRL_RESET] at hw ⊢
  rcases hw with (rfl | rfl | rfl) | ⟨i, _, rfl⟩
  · intro _ _; simp
  · intro _ h; simp only at h; omega
  · intro _ _
    have e : GBA_GROUP_REG_BASE c.group_id + 8 - (GBA_GROUP_REG_BASE c.group_id + 4) = 4 := by
      omega
    simp only [e]
    omega
  · intro h _; simp only at h; omega

theorem gba_configure_group_fails (d : gba_device_t) (c : gba_group_config_t)
    (h : ¬ (c.group_id < 32 ∧ ¬ (d.base_addr = NULL ∨ d.base_addr = MAP_FAILED))) :
    gba_configure_group (some d) (some c) =
      ((gba_reg_write (some d) c.group_id GBA_REG_CONTROL 0).1, some d) ∧
    (gba_reg_write (some d) c.group_id GBA_REG_CONTROL 0).1 ≠ OMPI_SUCCESS := by
  obtain ⟨h1, h2, _⟩ := gba_reg_write_fails d c.group_id GBA_REG_CONTROL 0 h
  refine ⟨?_, h1⟩
  simp only [gba_configure_group, ne_eq, h1, not_false_eq_true, if_true]
  exact Prod.ext rfl h2

theorem gba_configure_group_success_iff (d : gba_device_t) (c : gba_group_config_t) :
    (gba_configure_group (some d) (some c)).1 = OMPI_SUCCESS ↔
      (c.group_id < 32 ∧ ¬ (d.base_addr = NULL ∨ d.base_addr = MAP_FAILED)) := by
  constructor
  · intro hs
    by_contra h
    obtain ⟨h1, h2⟩ := gba_configure_group_fails d c h
    rw [h1] at hs
    exact h2 hs
  · rintro ⟨hg, hm⟩
    rw [gba_configure_group_ok d c hg hm]

theorem switch_barrier_configure_group_sequence_split (c : switch_barrier_group_config_t) :
    switch_barrier_configure_group_sequence c =
      ((switch_barrier_calc_reg_addr c.group_id SWITCH_BARRIER_REG_CONTROL, 0) ::
        switch_barrier_configure_group_body c) ++
      [(switch_barrier_calc_reg_addr c.group_id SWITCH_BARRIER_REG_CONTROL,
        SWITCH_BARRIER_CTRL_ENABLE ||| SWITCH_BARRIER_CTRL_ARM)] := rfl

theorem switch_barrier_addr_count_le (mc : Nat) : switch_barrier_addr_count mc ≤ 128 := by
  unfold switch_barrier_addr_count SWITCH_BARRIER_MAX_MEMBERS
  split <;> omega

theorem switch_barrier_configure_group_body_keeps_even (c : switch_barrier_group_config_t) :
    ∀ w, w ∈ switch_barrier_configure_group_body c →
      store_keeps_even
        (switch_barrier_calc_reg_addr c.group_id SWITCH_BARRIER_REG_CONTROL) w := by
  intro w hw
  simp only [switch_barrier_configure_group_body, List.mem_append, List.mem_cons,
    List.mem_singleton, List.mem_map, List.mem_range, List.not_mem_nil, or_false] at hw
  unfold store_keeps_even
  simp only [switch_barrier_calc_reg_addr, SWITCH_BARRIER_GROUP_REG_STRIDE,
    SWITCH_BARRIER_REG_CONTROL, SWITCH_BARRIER_REG_GROUP_ID,
    SWITCH_BARRIER_REG_MEMBER_COUNT, SWITCH_BARRIER_REG_MEMBER_MASK_LO,
    SWITCH_BARRIER_REG_MEMBER_MASK_HI, SWITCH_BARRIER_REG_LOCAL_MEMBER_ID,
    SWITCH_BARRIER_REG_ARRIVAL_ADDR, SWITCH_BARRIER_CTRL_RESET] at hw ⊢
  rcases hw with (rfl | rfl | rfl | rfl | rfl | rfl) | ⟨i, hi, rfl⟩
  · intro _ _; simp
  · intro h1 h2; simp only at h1 h2; omega
  · intro h1 h2; simp only at h1 h2; omega
  · intro h1 h2; simp only at h1 h2; omega
  · intro h1 h2; simp only at h1 h2; omega
  · intro h1 h2; simp only at h1 h2; omega
  · intro h1 h2
    have := switch_barrier_addr_count_le c.member_count
    simp only at h1 h2
    omega

theorem switch_barrier_configure_group_fails (d : switch_barrier_device_t)
    (c : switch_barrier_group_config_t)
    (h : ¬ (c.group_id < uint32_of_int d.num_groups ∧
      ¬ (NULL = d.base_addr ∨ d.base_addr = MAP_FAILED))) :
    switch_barrier_configure_group (some d) (some c) =
      ((switch_barrier_reg_write (some d) c.group_id SWITCH_BARRIER_REG_CONTROL 0).1,
        some d) ∧
    (switch_barrier_reg_write (some d) c.group_id SWITCH_BARRIER_REG_CONTROL 0).1 ≠
      OMPI_SUCCESS := by
  obtain ⟨h1, h2, _⟩ :=
    switch_barrier_reg_write_fails d c.group_id SWITCH_BARRIER_REG_CONTROL 0 h
  refine ⟨?_, h1⟩
  simp only [switch_barrier_configure_group, ne_eq, h1, not_false_eq_true, if_true]
  exact Prod.ext rfl h2

theorem switch_barrier_configure_group_success_iff (d : switch_barrier_device_t)
    (c : switch_barrier_group_config_t) (hmc : c.member_count < 2 ^ 32) :
    (switch_barrier_configure_group (some d) (some c)).1 = OMPI_SUCCESS ↔
      (c.group_id < uint32_of_int d.num_groups ∧
        ¬ (NULL = d.base_addr ∨ d.base_addr = MAP_FAILED)) := by
  constructor
  · intro hs
    by_contra h
    obtain ⟨h1, h2⟩ := switch_barrier_configure_group_fails d c h
    rw [h1] at hs
    exact h2 hs
  · rintro ⟨hg, hm⟩
    rw [switch_barrier_configure_group_ok d c hmc hg hm]

theorem gba_reg_read_after (d : gba_device_t) (ws : List (Nat × Nat)) (g off v0 : Nat)
    (hg : g < 32) (hm : ¬ (d.base_addr = NULL ∨ d.base_addr = MAP_FAILED)) :
    gba_reg_read (some (d.after_writes ws)) g off (some v0) =
      (OMPI_SUCCESS,
        some (load64 (replay d.regs ws) ((GBA_GROUP_REG_BASE g + off) % 2 ^ 32))) := by
  have h1 : ¬ g ≥ GBA_MAX_GROUPS := by simp [GBA_MAX_GROUPS]; omega
  have hm' : ¬ ((d.after_writes ws).base_addr = NULL ∨
      (d.after_writes ws).base_addr = MAP_FAILED) := hm
  simp only [gba_reg_read, h1, hm', if_false]
  rfl

theorem switch_barrier_reg_read_after (d : switch_barrier_device_t)
    (ws : List (Nat × Nat)) (g off v0 : Nat) (hg : g < uint32_of_int d.num_groups)
    (hm : ¬ (NULL = d.base_addr ∨ d.base_addr = MAP_FAILED)) :
    switch_barrier_reg_read (some (d.after_writes ws)) g off (some v0) =
      (OMPI_SUCCESS,
        some (load64 (replay d.regs ws) (switch_barrier_calc_reg_addr g off))) := by
  have h1 : ¬ g ≥ uint32_of_int (d.after_writes ws).num_groups := Nat.not_le.2 hg
  have hm' : ¬ (NULL = (d.after_writes ws).base_addr ∨
      (d.after_writes ws).base_addr = MAP_FAILED) := hm
  simp only [switch_barrier_reg_read, h1, hm', if_false]
  rfl

/-! ## Write sequence, commit point and failure of the configurator -/

/-- C8. On a mapped device and with `config.group_id < 32`,
`gba_configure_group` returns `OMPI_SUCCESS` and appends to the store trace
exactly 17 stores, all inside the register block of that group, in this order:
CONTROL = 0, CONTROL = RESET, GROUP_ID = group_id, MEMBER_COUNT = member_count,
`member_mask[i]` at MEMBER_MASK_BASE + 8 * i for i = 0..11 in increasing i, and
CONTROL = ENABLE | ARM. -/
theorem gba_configure_group_write_sequence (d : gba_device_t) (c : gba_group_config_t)
    (hm : ¬ (d.base_addr = NULL ∨ d.base_addr = MAP_FAILED)) (hg : c.group_id < 32) :
    ∃ d', gba_configure_group (some d) (some c) = (OMPI_SUCCESS, some d') ∧
      d'.writes = d.writes ++
        ([(GBA_GROUP_REG_BASE c.group_id + GBA_REG_CONTROL, 0),
          (GBA_GROUP_REG_BASE c.group_id + GBA_REG_CONTROL, GBA_CTRL_RESET),
          (GBA_GROUP_REG_BASE c.group_id + GBA_REG_GROUP_ID, c.group_id),
          (GBA_GROUP_REG_BASE c.group_id + GBA_REG_MEMBER_COUNT, c.member_count)] ++
        (List.range 12).map (fun i =>
          (GBA_GROUP_REG_BASE c.group_id + (GBA_REG_MEMBER_MASK_BASE + 8 * i),
            c.member_mask.getD i 0)) ++
        [(GBA_GROUP_REG_BASE c.group_id + GBA_REG_CONTROL,
          GBA_CTRL_ENABLE ||| GBA_CTRL_ARM)]) ∧
      d'.writes.length = d.writes.length + 17 ∧
      d'.regs = replay d.regs (d'.writes.drop d.writes.length) ∧
      ∀ w, w ∈ d'.writes.drop d.writes.length →
        GBA_GROUP_REG_BASE c.group_id ≤ w.1 ∧
          w.1 + 8 ≤ GBA_GROUP_REG_BASE c.group_id + GBA_GROUP_REG_SIZE := by
  refine ⟨_, gba_configure_group_ok d c hg hm, rfl, ?_, ?_, ?_⟩
  · simp [gba_device_t.after_writes, gba_configure_group_sequence]
  · simp [gba_device_t.after_writes]
  · intro w hw
    simp only [gba_device_t.after_writes, List.drop_left, gba_configure_group_sequence,
      List.mem_append, List.mem_cons, List.mem_singleton, List.mem_map, List.mem_range,
      List.not_mem_nil, or_false] at hw
    simp only [GBA_REG_CONTROL, GBA_REG_GROUP_ID, GBA_REG_MEMBER_COUNT,
      GBA_REG_MEMBER_MASK_BASE, GBA_GROUP_REG_SIZE] at hw ⊢
    rcases hw with ((rfl | rfl | rfl | rfl) | ⟨i, hi, rfl⟩) | rfl <;>
      constructor <;> simp only <;> omega

/-- Witness for C8: the sample configuration on the sample mapped device. -/
theorem gba_configure_group_write_sequence_witness :
    ¬ (gba_device_sample.base_addr = NULL ∨ gba_device_sample.base_addr = MAP_FAILED) ∧
    gba_group_config_sample.group_id < 32 ∧
    ∃ d', gba_configure_group (some gba_device_sample) (some gba_group_config_sample) =
        (OMPI_SUCCESS, some d') ∧
      d'.writes = [(8, 0), (8, 2), (0, 0), (4, 2), (32, 3), (40, 0), (48, 0), (56, 0),
        (64, 0), (72, 0), (80, 0), (88, 0), (96, 0), (104, 0), (112, 0), (120, 0),
        (8, 5)] := by
  obtain ⟨d', h1, h2, _⟩ :=
    gba_configure_group_write_sequence gba_device_sample gba_group_config_sample
      (by decide) (by decide)
  exact ⟨by decide, by decide, d', h1, by rw [h2]; decide⟩

/-- C9. In both variants, a successful configure call issues CONTROL =
ENABLE | ARM as its last store, and after each earlier store of the call (the
first `k` stores, for every `k` from 1 up to the number of earlier stores) a
read of the configured group's control register succeeds with the ENABLE bit
clear.  `member_count` is a `uint32_t`. -/
theorem configure_group_commit_point :
    (∀ (d : gba_device_t) (c : gba_group_config_t), c.member_count < 2 ^ 32 →
      (gba_configure_group (some d) (some c)).1 = OMPI_SUCCESS →
      ∃ ws, gba_configure_group (some d) (some c) =
          (OMPI_SUCCESS, some (d.after_writes (ws ++
            [(GBA_GROUP_REG_BASE c.group_id + GBA_REG_CONTROL,
              GBA_CTRL_ENABLE ||| GBA_CTRL_ARM)]))) ∧
        ∀ k v0, 0 < k → k ≤ ws.length →
          ∃ v, gba_reg_read (some (d.after_writes (ws.take k))) c.group_id
              GBA_REG_CONTROL (some v0) = (OMPI_SUCCESS, some v) ∧
            v &&& GBA_CTRL_ENABLE = 0) ∧
    (∀ (d : switch_barrier_device_t) (c : switch_barrier_group_config_t),
      c.member_count < 2 ^ 32 →
      (switch_barrier_configure_group (some d) (some c)).1 = OMPI_SUCCESS →
      ∃ ws, switch_barrier_configure_group (some d) (some c) =
          (OMPI_SUCCESS, some (d.after_writes (ws ++
            [(switch_barrier_calc_reg_addr c.group_id SWITCH_BARRIER_REG_CONTROL,
              SWITCH_BARRIER_CTRL_ENABLE ||| SWITCH_BARRIER_CTRL_ARM)]))) ∧
        ∀ k v0, 0 < k → k ≤ ws.length →
          ∃ v, switch_barrier_reg_read (some (d.after_writes (ws.take k))) c.group_id
              SWITCH_BARRIER_REG_CONTROL (some v0) = (OMPI_SUCCESS, some v) ∧
            v &&& SWITCH_BARRIER_CTRL_ENABLE = 0) := by
  constructor
  · intro d c hmc hs
    obtain ⟨hg, hm⟩ := (gba_configure_group_success_iff d c).1 hs
    refine ⟨(GBA_GROUP_REG_BASE c.group_id + GBA_REG_CONTROL, 0) ::
      gba_configure_group_body c, ?_, ?_⟩
    · rw [gba_configure_group_ok d c hg hm, gba_configure_group_sequence_split]
    · intro k v0 hk _
      have ha : (GBA_GROUP_REG_BASE c.group_id + GBA_REG_CONTROL) % 2 ^ 32 =
          GBA_GROUP_REG_BASE c.group_id + GBA_REG_CONTROL := by
        simp only [GBA_GROUP_REG_BASE, GBA_GROUP_REG_SIZE, GBA_REG_CONTROL]; omega
      refine ⟨_, gba_reg_read_after d _ _ _ v0 hg hm, ?_⟩
      rw [ha]
      exact replay_prefix_enable_clear _ _
        (gba_configure_group_body_keeps_even c hmc) d.regs k hk
  · intro d c hmc hs
    obtain ⟨hg, hm⟩ := (switch_barrier_configure_group_success_iff d c hmc).1 hs
    refine ⟨(switch_barrier_calc_reg_addr c.group_id SWITCH_BARRIER_REG_CONTROL, 0) ::
      switch_barrier_configure_group_body c, ?_, ?_⟩
    · rw [switch_barrier_configure_group_ok d c hmc hg hm,
        switch_barrier_configure_group_sequence_split]
    · intro k v0 hk _
      refine ⟨_, switch_barrier_reg_read_after d _ _ _ v0 hg hm, ?_⟩
      exact replay_prefix_enable_clear _ _
        (switch_barrier_configure_group_body_keeps_even c) d.regs k hk

/-- Witness for C9: both sample calls succeed, so the commit-point property
holds for the sample GBA and switch configurations. -/
theorem configure_group_commit_point_witness :
    (∃ ws, gba_configure_group (some gba_device_sample) (some gba_group_config_sample) =
          (OMPI_SUCCESS, some (gba_device_sample.after_writes (ws ++
            [(GBA_GROUP_REG_BASE gba_group_config_sample.group_id + GBA_REG_CONTROL,
              GBA_CTRL_ENABLE ||| GBA_CTRL_ARM)]))) ∧
        ∀ k v0, 0 < k → k ≤ ws.length →
          ∃ v, gba_reg_read (some (gba_device_sample.after_writes (ws.take k)))
              gba_group_config_sample.group_id GBA_REG_CONTROL (some v0) =
                (OMPI_SUCCESS, some v) ∧
            v &&& GBA_CTRL_ENABLE = 0) ∧
    (∃ ws, switch_barrier_configure_group (some switch_barrier_device_sample)
            (some switch_barrier_group_config_sample) =
          (OMPI_SUCCESS, some (switch_barrier_device_sample.after_writes (ws ++
            [(switch_barrier_calc_reg_addr switch_barrier_group_config_sample.group_id
                SWITCH_BARRIER_REG_CONTROL,
              SWITCH_BARRIER_CTRL_ENABLE ||| SWITCH_BARRIER_CTRL_ARM)]))) ∧
        ∀ k v0, 0 < k → k ≤ ws.length →
          ∃ v, switch_barrier_reg_read
              (some (switch_barrier_device_sample.after_writes (ws.take k)))
              switch_barrier_group_config_sample.group_id SWITCH_BARRIER_REG_CONTROL
              (some v0) = (OMPI_SUCCESS, some v) ∧
            v &&& SWITCH_BARRIER_CTRL_ENABLE = 0) :=
  ⟨configure_group_commit_point.1 gba_device_sample gba_group_config_sample (by decide)
      (by rw [gba_configure_group_ok _ _ (by decide) (by decide)]),
    configure_group_commit_point.2 switch_barrier_device_sample
      switch_barrier_group_config_sample (by decide)
      (by rw [switch_barrier_configure_group_ok _ _ (by decide) (by decide) (by decide)])⟩

/-- C10 (amended). In both variants, whenever a configure call fails (one of
its register writes returned an error), the failing write is the first one:
the call returns the error code of that write and the device is exactly as
before, so no store was issued (in particular not ENABLE | ARM) and every
register of the group holds what it held before the call; a read of the
group's control register through the accessor then fails with the same code.
`member_count` is a `uint32_t`. -/
theorem configure_group_failure :
    (∀ (d : gba_device_t) (c : gba_group_config_t),
      (gba_configure_group (some d) (some c)).1 ≠ OMPI_SUCCESS →
      (gba_reg_write (some d) c.group_id GBA_REG_CONTROL 0).1 ≠ OMPI_SUCCESS ∧
      gba_configure_group (some d) (some c) =
        ((gba_reg_write (some d) c.group_id GBA_REG_CONTROL 0).1, some d) ∧
      ∀ v0, gba_reg_read (some d) c.group_id GBA_REG_CONTROL (some v0) =
        ((gba_reg_write (some d) c.group_id GBA_REG_CONTROL 0).1, some v0)) ∧
    (∀ (d : switch_barrier_device_t) (c : switch_barrier_group_config_t),
      c.member_count < 2 ^ 32 →
      (switch_barrier_configure_group (some d) (some c)).1 ≠ OMPI_SUCCESS →
      (switch_barrier_reg_write (some d) c.group_id SWITCH_BARRIER_REG_CONTROL 0).1 ≠
        OMPI_SUCCESS ∧
      switch_barrier_configure_group (some d) (some c) =
        ((switch_barrier_reg_write (some d) c.group_id SWITCH_BARRIER_REG_CONTROL 0).1,
          some d) ∧
      ∀ v0, switch_barrier_reg_read (some d) c.group_id SWITCH_BARRIER_REG_CONTROL
          (some v0) =
        ((switch_barrier_reg_write (some d) c.group_id SWITCH_BARRIER_REG_CONTROL 0).1,
          some v0)) := by
  constructor
  · intro d c hf
    have h : ¬ (c.group_id < 32 ∧ ¬ (d.base_addr = NULL ∨ d.base_addr = MAP_FAILED)) :=
      fun h => hf ((gba_configure_group_success_iff d c).2 h)
    obtain ⟨h1, h2⟩ := gba_configure_group_fails d c h
    refine ⟨h2, h1, fun v0 => ?_⟩
    by_cases hg : c.group_id ≥ GBA_MAX_GROUPS
    · simp only [gba_reg_read, gba_reg_write, hg, if_true]
    · have hm : d.base_addr = NULL ∨ d.base_addr = MAP_FAILED := by
        by_contra hm
        exact h ⟨by simpa [GBA_MAX_GROUPS] using hg, hm⟩
      simp only [gba_reg_read, gba_reg_write, hg, hm, if_true, if_false]
  · intro d c hmc hf
    have h : ¬ (c.group_id < uint32_of_int d.num_groups ∧
        ¬ (NULL = d.base_addr ∨ d.base_addr = MAP_FAILED)) :=
      fun h => hf ((switch_barrier_configure_group_success_iff d c hmc).2 h)
    obtain ⟨h1, h2⟩ := switch_barrier_configure_group_fails d c h
    refine ⟨h2, h1, fun v0 => ?_⟩
    by_cases hg : c.group_id ≥ uint32_of_int d.num_groups
    · simp only [switch_barrier_reg_read, switch_barrier_reg_write, hg, if_true]
    · have hm : NULL = d.base_addr ∨ d.base_addr = MAP_FAILED := by
        by_contra hm
        exact h ⟨by omega, hm⟩
      simp only [switch_barrier_reg_read, switch_barrier_reg_write, hg, hm, if_true,
        if_false]

/-- Witness for C10: on the unmapped sample devices the first write fails
with `OMPI_ERR_NOT_AVAILABLE`, which the call returns without any store. -/
theorem configure_group_failure_witness :
    ((gba_configure_group (some gba_device_unmapped_sample)
        (some gba_group_config_sample)).1 ≠ OMPI_SUCCESS ∧
      gba_configure_group (some gba_device_unmapped_sample)
          (some gba_group_config_sample) =
        (OMPI_ERR_NOT_AVAILABLE, some gba_device_unmapped_sample)) ∧
    ((switch_barrier_configure_group (some switch_barrier_device_unmapped_sample)
        (some switch_barrier_group_config_sample)).1 ≠ OMPI_SUCCESS ∧
      switch_barrier_configure_group (some switch_barrier_device_unmapped_sample)
          (some switch_barrier_group_config_sample) =
        (OMPI_ERR_NOT_AVAILABLE, some switch_barrier_device_unmapped_sample)) := by
  have hg : (gba_configure_group (some gba_device_unmapped_sample)
      (some gba_group_config_sample)).1 ≠ OMPI_SUCCESS := by
    rw [(gba_configure_group_fails _ _ (by decide)).1]
    decide
  have hs : (switch_barrier_configure_group (some switch_barrier_device_unmapped_sample)
      (some switch_barrier_group_config_sample)).1 ≠ OMPI_SUCCESS := by
    rw [(switch_barrier_configure_group_fails _ _ (by decide)).1]
    decide
  exact ⟨⟨hg, (configure_group_failure.1 _ _ hg).2.1⟩,
    ⟨hs, (configure_group_failure.2 _ _ (by decide) hs).2.1⟩⟩

/-- C10 (counterexample). Group 0 of the sample device is configured and
armed, then the device is finalised, which removes the mapping and leaves the
hardware registers alone.  A further `gba_configure_group` on group 0 fails at
its first write with `OMPI_ERR_NOT_AVAILABLE` and stores nothing, and the
control register of the group still holds ENABLE | ARM: the failing call did
not leave the group disabled. -/
theorem configure_group_failure_counterexample :
    ∃ d1 d2 d3,
      gba_configure_group (some gba_device_sample) (some gba_group_config_sample) =
        (OMPI_SUCCESS, some d1) ∧
      gba_device_fini (some d1) = (OMPI_SUCCESS, some d2) ∧
      gba_configure_group (some d2) (some gba_group_config_sample) =
        (OMPI_ERR_NOT_AVAILABLE, some d3) ∧
      d3.writes = d2.writes ∧
      load64 d3.regs (GBA_GROUP_REG_BASE gba_group_config_sample.group_id + GBA_REG_CONTROL) =
        GBA_CTRL_ENABLE ||| GBA_CTRL_ARM ∧
      load64 d3.regs (GBA_GROUP_REG_BASE gba_group_config_sample.group_id + GBA_REG_CONTROL)
        &&& GBA_CTRL_ENABLE ≠ 0 := by
  refine ⟨_, _, _, gba_configure_group_ok _ _ (by decide) (by decide), rfl,
    (gba_configure_group_fails _ _ (fun h => h.2 (Or.inl rfl))).1, rfl, ?_, ?_⟩
  · decide
  · decide

/-! ## Member mask -/

theorem member_present_set (mask : List Nat) (w b k : Nat) (hw : w < mask.length)
    (hb : b < 64) :
    member_present (mask.set w (mask.getD w 0 ||| (1 <<< b))) k =
      (decide (k = 64 * w + b) || member_present mask k) := by
  unfold member_present
  by_cases h : k / 64 = w
  · subst h
    simp only [List.getD_eq_getElem?_getD, List.getElem?_set_self hw, Option.getD_some,
      testBit_or_one_shiftLeft]
    congr 1
    apply decide_eq_decide.2
    omega
  · have hne : w ≠ k / 64 := fun e => h e.symm
    simp only [List.getD_eq_getElem?_getD, List.getElem?_set_ne hne]
    have : ¬ k = 64 * w + b := by omega
    simp [this]

theorem mask_word_set_lt (mask : List Nat) (w b : Nat) (hb : b < 64)
    (hm : ∀ x, x ∈ mask → x < 2 ^ 64) :
    ∀ x, x ∈ mask.set w (mask.getD w 0 ||| (1 <<< b)) → x < 2 ^ 64 := by
  intro x hx
  rcases List.mem_or_eq_of_mem_set hx with h | h
  · exact hm x h
  · rw [h]
    apply Nat.or_lt_two_pow
    · by_cases hw : w < mask.length
      · rw [List.getD_eq_getElem?_getD, List.getElem?_eq_getElem hw]
        exact hm _ (List.getElem_mem _)
      · rw [List.getD_eq_getElem?_getD, List.getElem?_eq_none (by omega)]
        exact Nat.two_pow_pos 64
    · rw [Nat.one_shiftLeft]
      exact Nat.pow_lt_pow_right (by decide) hb

theorem gba_configure_comm_domain_mask_loop_spec (n : Nat) :
    ∀ (i : Nat) (mask : List Nat), i + n ≤ 64 * mask.length →
      (∀ x, x ∈ mask → x < 2 ^ 64) →
      (gba_configure_comm_domain_mask_loop n i mask).length = mask.length ∧
      (∀ x, x ∈ gba_configure_comm_domain_mask_loop n i mask → x < 2 ^ 64) ∧
      ∀ k, member_present (gba_configure_comm_domain_mask_loop n i mask) k =
        (decide (i ≤ k ∧ k < i + n) || member_present mask k) := by
  induction n with
  | zero =>
    intro i mask _ hm
    refine ⟨rfl, hm, fun k => ?_⟩
    have : ¬ (i ≤ k ∧ k < i + 0) := by omega
    simp [gba_configure_comm_domain_mask_loop, this]
  | succ n ih =>
    intro i mask hlen hm
    have hw : i / 64 < mask.length := by omega
    have hb : i % 64 < 64 := Nat.mod_lt _ (by decide)
    obtain ⟨h1, h2, h3⟩ := ih (i + 1)
      (mask.set (i / 64) (mask.getD (i / 64) 0 ||| (1 <<< (i % 64))))
      (by rw [List.length_set]; omega) (mask_word_set_lt mask _ _ hb hm)
    refine ⟨by rw [gba_configure_comm_domain_mask_loop, h1, List.length_set],
      by rw [gba_configure_comm_domain_mask_loop]; exact h2, fun k => ?_⟩
    rw [gba_configure_comm_domain_mask_loop, h3, member_present_set _ _ _ _ hw hb,
      ← Bool.or_assoc]
    congr 1
    rw [Bool.eq_iff_iff]
    simp only [Bool.or_eq_true, decide_eq_true_eq]
    omega

theorem member_present_zero (n k : Nat) : member_present (List.replicate n 0) k = false := by
  unfold member_present
  by_cases h : k / 64 < n
  · simp [List.getD_eq_getElem?_getD, List.getElem?_replicate, h]
  · simp [List.getD_eq_getElem?_getD, List.getElem?_replicate, h]

theorem filter_lt_range_length (m n : Nat) :
    ((List.range m).filter (fun k => decide (k < n))).length = min n m := by
  induction m with
  | zero => simp
  | succ m ih =>
    rw [List.range_succ, List.filter_append, List.length_append, ih]
    by_cases h : m < n
    · simp [List.filter, h]; omega
    · simp [List.filter, h]; omega

theorem switch_mask_loop_eq_gba (n : Nat) : ∀ (i : Nat) (mask : List Nat), i + n ≤ 128 →
    switch_barrier_configure_comm_domain_mask_loop n i mask =
      gba_configure_comm_domain_mask_loop n i mask := by
  induction n with
  | zero => intro i mask _; rfl
  | succ n ih =>
    intro i mask h
    rw [switch_barrier_configure_comm_domain_mask_loop, gba_configure_comm_domain_mask_loop,
      ih (i + 1) _ (by omega)]
    congr 1
    by_cases hi : i < 64
    · have h1 : i / 64 = 0 := by omega
      have h2 : i % 64 = i := by omega
      simp [hi, h1, h2]
    · have h1 : i / 64 = 1 := by omega
      have h2 : i % 64 = i - 64 := by omega
      simp [hi, h1, h2]

theorem gba_allocate_group_success_shape (d : gba_device_t) (g0 : Nat)
    (h : (gba_allocate_group (some d) (some g0)).1 = OMPI_SUCCESS) :
    ∃ d1 g, gba_allocate_group (some d) (some g0) = (OMPI_SUCCESS, some d1, some g) := by
  cases hs : gba_allocate_group_scan d.group_alloc_mask GBA_MAX_GROUPS 0 with
  | none =>
    rw [gba_allocate_group_of_scan_none d g0 hs] at h
    simp [OMPI_ERR_OUT_OF_RESOURCE, OMPI_SUCCESS] at h
  | some i =>
    exact ⟨{ d with group_alloc_mask := d.group_alloc_mask ||| (1 <<< i) }, i,
      by simp only [gba_allocate_group, hs]⟩

theorem gba_configure_comm_domain_config (module : mca_coll_gba_module_t)
    (comm : ompi_communicator_t) (device : gba_device_t) (dma_ctx : gba_dma_context_t)
    (host : host_t) (hdev : module.device = true) (hsz : ¬ comm.size > GBA_MAX_MEMBERS)
    (ha : (gba_allocate_group (some device) (some 0)).1 = OMPI_SUCCESS) :
    (gba_configure_comm_domain module comm device dma_ctx host).2.1.config.member_mask =
        gba_configure_comm_domain_mask_loop comm.size.toNat 0
          (List.replicate GBA_MEMBER_MASK_WORDS 0) ∧
      (gba_configure_comm_domain module comm device dma_ctx host).2.1.config.member_count =
        uint32_of_int comm.size := by
  obtain ⟨d1, g, hag⟩ := gba_allocate_group_success_shape device 0 ha
  simp only [gba_configure_comm_domain, hsz, if_false, hdev, if_true, hag, ne_eq,
    not_true_eq_false]
  split_ifs <;> exact ⟨rfl, rfl⟩

/-- C6. For every communicator size `c` with `0 <= c <= 708`, whenever
`gba_configure_comm_domain` gets a group (the device pointer is set and the
allocation succeeds), the mask it leaves in the module configuration has 12
words below `2 ^ 64`, bit `k mod 64` of word `k div 64` is set iff `k < c` for
every ordinal `k` in 0..767, and so exactly `c` ordinals are present. -/
theorem gba_member_mask_roundtrip (module : mca_coll_gba_module_t)
    (comm : ompi_communicator_t) (device : gba_device_t) (dma_ctx : gba_dma_context_t)
    (host : host_t) (hc0 : 0 ≤ comm.size) (hc1 : comm.size ≤ 708)
    (hdev : module.device = true)
    (ha : (gba_allocate_group (some device) (some 0)).1 = OMPI_SUCCESS) :
    (gba_configure_comm_domain module comm device dma_ctx host).2.1.config.member_mask.length
        = 12 ∧
    (∀ x, x ∈ (gba_configure_comm_domain module comm device dma_ctx host).2.1.config.member_mask
        → x < 2 ^ 64) ∧
    (∀ k, k < 768 →
      (((gba_configure_comm_domain module comm device dma_ctx host).2.1.config.member_mask.getD
        (k / 64) 0).testBit (k % 64) = true ↔ (k : Int) < comm.size)) ∧
    ((List.range 768).filter (member_present
      (gba_configure_comm_domain module comm device dma_ctx host).2.1.config.member_mask)).length
        = comm.size.toNat := by
  have hsz : ¬ comm.size > GBA_MAX_MEMBERS := by
    simp only [GBA_MAX_MEMBERS]; omega
  rw [(gba_configure_comm_domain_config module comm device dma_ctx host hdev hsz ha).1]
  have hlen : (List.replicate GBA_MEMBER_MASK_WORDS 0).length = 12 := by
    simp [GBA_MEMBER_MASK_WORDS, GBA_MAX_MEMBERS]
  obtain ⟨h1, h2, h3⟩ := gba_configure_comm_domain_mask_loop_spec comm.size.toNat 0
    (List.replicate GBA_MEMBER_MASK_WORDS 0) (by rw [hlen]; omega)
    (fun x hx => by rw [List.eq_of_mem_replicate hx]; exact Nat.two_pow_pos 64)
  have hp : ∀ k, member_present (gba_configure_comm_domain_mask_loop comm.size.toNat 0
      (List.replicate GBA_MEMBER_MASK_WORDS 0)) k = decide (k < comm.size.toNat) := by
    intro k
    rw [h3, member_present_zero, Bool.or_false]
    apply decide_eq_decide.2
    omega
  refine ⟨by rw [h1, hlen], h2, fun k _ => ?_, ?_⟩
  · have := hp k
    unfold member_present at this
    rw [this, decide_eq_true_eq]
    omega
  · rw [List.filter_congr (fun k _ => hp k), filter_lt_range_length]
    omega

/-- Witness for C6: the sample module on the sample three-process
communicator. -/
theorem gba_member_mask_roundtrip_witness :
    (0 : Int) ≤ ompi_communicator_sample.size ∧ ompi_communicator_sample.size ≤ 708 ∧
    mca_coll_gba_module_sample.device = true ∧
    (gba_allocate_group (some gba_device_sample) (some 0)).1 = OMPI_SUCCESS ∧
    (gba_configure_comm_domain mca_coll_gba_module_sample ompi_communicator_sample
        gba_device_sample gba_dma_context_sample host_sample).2.1.config.member_mask.length
      = 12 ∧
    ((List.range 768).filter (member_present
      (gba_configure_comm_domain mca_coll_gba_module_sample ompi_communicator_sample
        gba_device_sample gba_dma_context_sample host_sample).2.1.config.member_mask)).length
      = 3 :=
  have h := gba_member_mask_roundtrip mca_coll_gba_module_sample ompi_communicator_sample
    gba_device_sample gba_dma_context_sample host_sample (by decide) (by decide) rfl
    (by decide)
  ⟨by decide, by decide, rfl, by decide, h.1, h.2.2.2⟩

theorem switch_barrier_allocate_group_success_shape (shl_ub : Nat → Nat)
    (d : switch_barrier_device_t) (g0 : Nat)
    (h : (switch_barrier_allocate_group shl_ub (some d) (some g0)).1 = OMPI_SUCCESS) :
    ∃ d1 g, switch_barrier_allocate_group shl_ub (some d) (some g0) =
      (OMPI_SUCCESS, some d1, some g) := by
  cases hs : switch_barrier_allocate_group_scan shl_ub d.group_allocation_mask
      d.num_groups.toNat 0 with
  | none =>
    have : switch_barrier_allocate_group shl_ub (some d) (some g0) =
        (OMPI_ERR_OUT_OF_RESOURCE, some d, some g0) := by
      simp only [switch_barrier_allocate_group, hs]
    rw [this] at h
    simp [OMPI_ERR_OUT_OF_RESOURCE, OMPI_SUCCESS] at h
  | some i =>
    exact ⟨{ d with group_allocation_mask :=
        d.group_allocation_mask ||| shl_1ULL shl_ub i }, i,
      by simp only [switch_barrier_allocate_group, hs]⟩

theorem switch_barrier_configure_comm_domain_config (shl_ub : Nat → Nat)
    (module : mca_coll_switch_barrier_module_t) (comm : ompi_communicator_t)
    (device : switch_barrier_device_t) (iommu_ctx : switch_barrier_iommu_context_t)
    (host : host_t) (hdev : module.device = true)
    (hsz : ¬ comm.size > SWITCH_BARRIER_MAX_MEMBERS)
    (ha : (switch_barrier_allocate_group shl_ub (some device) (some 0)).1 = OMPI_SUCCESS) :
    (switch_barrier_configure_comm_domain shl_ub module comm device iommu_ctx
        host).2.1.group_config.member_mask =
      switch_barrier_configure_comm_domain_mask_loop comm.size.toNat 0 [0, 0] ∧
    (switch_barrier_configure_comm_domain shl_ub module comm device iommu_ctx
        host).2.1.group_config.member_count = uint32_of_int comm.size := by
  obtain ⟨d1, g, hag⟩ := switch_barrier_allocate_group_success_shape shl_ub device 0 ha
  simp only [switch_barrier_configure_comm_domain, hsz, if_false, hdev, if_true, hag, ne_eq,
    not_true_eq_false]
  split_ifs <;> exact ⟨rfl, rfl⟩

/-- C7. For every communicator size `c` with `0 <= c <= 128`, whenever
`switch_barrier_configure_comm_domain` gets a group (the device pointer is set
and the allocation succeeds), the mask it leaves in the module configuration
has two words below `2 ^ 64`, ordinal `k` (bit `k` of word 0 for `k < 64`, bit
`k - 64` of word 1 otherwise) is present iff `k < c`, and the number of set
bits equals `member_count`. -/
theorem switch_member_mask_roundtrip (shl_ub : Nat → Nat)
    (module : mca_coll_switch_barrier_module_t) (comm : ompi_communicator_t)
    (device : switch_barrier_device_t) (iommu_ctx : switch_barrier_iommu_context_t)
    (host : host_t) (hc0 : 0 ≤ comm.size) (hc1 : comm.size ≤ 128)
    (hdev : module.device = true)
    (ha : (switch_barrier_allocate_group shl_ub (some device) (some 0)).1 = OMPI_SUCCESS) :
    (switch_barrier_configure_comm_domain shl_ub module comm device iommu_ctx
        host).2.1.group_config.member_mask.length = 2 ∧
    (∀ x, x ∈ (switch_barrier_configure_comm_domain shl_ub module comm device iommu_ctx
        host).2.1.group_config.member_mask → x < 2 ^ 64) ∧
    (∀ k, k < 128 →
      ((if k < 64 then
          ((switch_barrier_configure_comm_domain shl_ub module comm device iommu_ctx
            host).2.1.group_config.member_mask.getD 0 0).testBit k
        else
          ((switch_barrier_configure_comm_domain shl_ub module comm device iommu_ctx
            host).2.1.group_config.member_mask.getD 1 0).testBit (k - 64)) = true ↔
        (k : Int) < comm.size)) ∧
    ((List.range 128).filter (member_present
      (switch_barrier_configure_comm_domain shl_ub module comm device iommu_ctx
        host).2.1.group_config.member_mask)).length =
      (switch_barrier_configure_comm_domain shl_ub module comm device iommu_ctx
        host).2.1.group_config.member_count := by
  have hsz : ¬ comm.size > SWITCH_BARRIER_MAX_MEMBERS := by
    simp only [SWITCH_BARRIER_MAX_MEMBERS]; omega
  obtain ⟨hmask, hcount⟩ := switch_barrier_configure_comm_domain_config shl_ub module comm
    device iommu_ctx host hdev hsz ha
  rw [hmask, hcount, switch_mask_loop_eq_gba _ _ _ (by omega)]
  obtain ⟨h1, h2, h3⟩ := gba_configure_comm_domain_mask_loop_spec comm.size.toNat 0
    [0, 0] (by simp only [List.length_cons, List.length_nil]; omega)
    (fun x hx => by
      have : x = 0 := by simpa using hx
      rw [this]; exact Nat.two_pow_pos 64)
  have hz : ∀ k, member_present [0, 0] k = false := member_present_zero 2
  have hp : ∀ k, member_present (gba_configure_comm_domain_mask_loop comm.size.toNat 0
      [0, 0]) k = decide (k < comm.size.toNat) := by
    intro k
    rw [h3, hz, Bool.or_false]
    apply decide_eq_decide.2
    omega
  refine ⟨by rw [h1]; rfl, h2, fun k hk => ?_, ?_⟩
  · have := hp k
    unfold member_present at this
    by_cases hk64 : k < 64
    · have e1 : k / 64 = 0 := by omega
      have e2 : k % 64 = k := by omega
      rw [e1, e2] at this
      rw [if_pos hk64, this, decide_eq_true_eq]
      omega
    · have e1 : k / 64 = 1 := by omega
      have e2 : k % 64 = k - 64 := by omega
      rw [e1, e2] at this
      rw [if_neg hk64, this, decide_eq_true_eq]
      omega
  · rw [List.filter_congr (fun k _ => hp k), filter_lt_range_length]
    unfold uint32_of_int
    omega

/-- Witness for C7: the sample switch module on the sample three-process
communicator. -/
theorem switch_member_mask_roundtrip_witness :
    (0 : Int) ≤ ompi_communicator_sample.size ∧ ompi_communicator_sample.size ≤ 128 ∧
    mca_coll_switch_barrier_module_sample.device = true ∧
    (switch_barrier_allocate_group shl_ub_mod64 (some switch_barrier_device_sample)
      (some 0)).1 = OMPI_SUCCESS ∧
    ((List.range 128).filter (member_present
      (switch_barrier_configure_comm_domain shl_ub_mod64
        mca_coll_switch_barrier_module_sample ompi_communicator_sample
        switch_barrier_device_sample switch_barrier_iommu_context_sample
        host_sample).2.1.group_config.member_mask)).length =
      (switch_barrier_configure_comm_domain shl_ub_mod64
        mca_coll_switch_barrier_module_sample ompi_communicator_sample
        switch_barrier_device_sample switch_barrier_iommu_context_sample
        host_sample).2.1.group_config.member_count :=
  have h := switch_member_mask_roundtrip shl_ub_mod64 mca_coll_switch_barrier_module_sample
    ompi_communicator_sample switch_barrier_device_sample
    switch_barrier_iommu_context_sample host_sample (by decide) (by decide) rfl (by decide)
  ⟨by decide, by decide, rfl, by decide, h.2.2.2⟩

/-! ## Admission gate -/

/-- C16. `mca_coll_gba_comm_query` returns a module iff the allocation succeeds,
the component is initialised, the communicator is not an inter-communicator and
`min_comm_size <= size <= 708`; the priority output equals the component
priority when a module is returned and keeps its previous value when `NULL` is
returned.  The same holds for `mca_coll_switch_barrier_comm_query` with the
maximum 128. -/
theorem comm_query_admission_gate :
    (∀ (fns : coll_entry_points) (component : mca_coll_gba_component_t) (alloc_ok : Bool)
        (comm : ompi_communicator_t) (priority : Int),
      ((mca_coll_gba_comm_query fns component alloc_ok comm priority).1.isSome = true ↔
        (alloc_ok = true ∧ component.initialized = true ∧ comm.is_inter = false ∧
          component.min_comm_size ≤ comm.size ∧ comm.size ≤ 708)) ∧
      ((mca_coll_gba_comm_query fns component alloc_ok comm priority).1.isSome = true →
        (mca_coll_gba_comm_query fns component alloc_ok comm priority).2 =
          component.priority) ∧
      ((mca_coll_gba_comm_query fns component alloc_ok comm priority).1 = none →
        (mca_coll_gba_comm_query fns component alloc_ok comm priority).2 = priority)) ∧
    (∀ (fns : coll_entry_points) (component : mca_coll_switch_barrier_component_t)
        (alloc_ok : Bool) (comm : ompi_communicator_t) (priority : Int),
      ((mca_coll_switch_barrier_comm_query fns component alloc_ok comm priority).1.isSome
          = true ↔
        (alloc_ok = true ∧ component.initialized = true ∧ comm.is_inter = false ∧
          component.min_comm_size ≤ comm.size ∧ comm.size ≤ 128)) ∧
      ((mca_coll_switch_barrier_comm_query fns component alloc_ok comm priority).1.isSome
          = true →
        (mca_coll_switch_barrier_comm_query fns component alloc_ok comm priority).2 =
          component.priority) ∧
      ((mca_coll_switch_barrier_comm_query fns component alloc_ok comm priority).1 = none →
        (mca_coll_switch_barrier_comm_query fns component alloc_ok comm priority).2 =
          priority)) := by
  constructor
  · intro fns component alloc_ok comm priority
    simp only [mca_coll_gba_comm_query, OBJ_NEW_mca_coll_gba_module_t, GBA_MAX_MEMBERS]
    cases alloc_ok <;> cases hi : component.initialized <;> cases hc : comm.is_inter <;>
      by_cases h1 : comm.size < component.min_comm_size <;>
      by_cases h2 : (708 : Int) < comm.size <;>
      (simp [h1, h2, hi, hc]; try omega)
  · intro fns component alloc_ok comm priority
    simp only [mca_coll_switch_barrier_comm_query, OBJ_NEW_mca_coll_switch_barrier_module_t,
      SWITCH_BARRIER_MAX_MEMBERS]
    cases alloc_ok <;> cases hi : component.initialized <;> cases hc : comm.is_inter <;>
      by_cases h1 : comm.size < component.min_comm_size <;>
      by_cases h2 : (128 : Int) < comm.size <;>
      (simp [h1, h2, hi, hc]; try omega)

/-- Witness for C16: the sample components admit the sample communicator of
three processes and report their priorities, 90 and 80, in place of the
previous value 0. -/
theorem comm_query_admission_gate_witness :
    ((mca_coll_gba_comm_query coll_entry_points_sample mca_coll_gba_component_sample true
        ompi_communicator_sample 0).1.isSome = true ∧
      (mca_coll_gba_comm_query coll_entry_points_sample mca_coll_gba_component_sample true
        ompi_communicator_sample 0).2 = mca_coll_gba_component_sample.priority) ∧
    ((mca_coll_switch_barrier_comm_query coll_entry_points_sample
        mca_coll_switch_barrier_component_sample true ompi_communicator_sample 0).1.isSome
        = true ∧
      (mca_coll_switch_barrier_comm_query coll_entry_points_sample
        mca_coll_switch_barrier_component_sample true ompi_communicator_sample 0).2 =
        mca_coll_switch_barrier_component_sample.priority) :=
  ⟨⟨(comm_query_admission_gate.1 coll_entry_points_sample mca_coll_gba_component_sample true
        ompi_communicator_sample 0).1.2 (by decide),
      (comm_query_admission_gate.1 coll_entry_points_sample mca_coll_gba_component_sample true
        ompi_communicator_sample 0).2.1
        ((comm_query_admission_gate.1 coll_entry_points_sample mca_coll_gba_component_sample
          true ompi_communicator_sample 0).1.2 (by decide))⟩,
    (comm_query_admission_gate.2 coll_entry_points_sample
      mca_coll_switch_barrier_component_sample true ompi_communicator_sample 0).1.2
      (by decide),
    (comm_query_admission_gate.2 coll_entry_points_sample
      mca_coll_switch_barrier_component_sample true ompi_communicator_sample 0).2.1
      ((comm_query_admission_gate.2 coll_entry_points_sample
        mca_coll_switch_barrier_component_sample true ompi_communicator_sample 0).1.2
        (by decide))⟩

/-! ## Barrier protocol -/

theorem mca_coll_gba_barrier_with_disabled
    (send_arrival : Option gba_device_t → Nat → Nat → Nat →
      Option (Int × Option gba_device_t))
    (env : coll_env) (w : gba_world) (observed : List Nat)
    (h : w.module.offload_enabled = false) :
    mca_coll_gba_barrier_with send_arrival env w observed =
      { ret := env.call_barrier w.module.previous_barrier w.comm
          w.module.previous_barrier_module,
        world := w, sequence := none, progress_calls := 0, observed := observed } := by
  simp [mca_coll_gba_barrier_with, h]

theorem mca_coll_switch_barrier_barrier_with_disabled
    (send_arrival : Option switch_barrier_device_t → Nat → Nat → Nat →
      Option (Int × Option switch_barrier_device_t))
    (env : coll_env) (w : switch_barrier_world) (observed : List Nat)
    (h : w.module.offload_enabled = false) :
    mca_coll_switch_barrier_barrier_with send_arrival env w observed =
      { ret := env.call_barrier w.module.c_coll.coll_barrier w.comm
          w.module.c_coll.coll_barrier_module,
        world := w, sequence := none, progress_calls := 0, observed := observed } := by
  simp [mca_coll_switch_barrier_barrier_with, h]

/-- C12. When `offload_enabled` is false, `mca_coll_gba_barrier` and
`mca_coll_switch_barrier_barrier` return exactly what the saved previous barrier
returns when called with the communicator and the saved module; the module, the
device (its registers and its store trace) and the host are unchanged, so no
arrival store is issued and the sequence counter keeps its value; no sequence
value is taken and the release flag is not polled. -/
theorem barrier_disabled_delegates :
    (∀ (env : coll_env) (w : gba_world) (observed : List Nat),
      w.module.offload_enabled = false →
      (mca_coll_gba_barrier env w observed).ret =
          env.call_barrier w.module.previous_barrier w.comm
            w.module.previous_barrier_module ∧
        (mca_coll_gba_barrier env w observed).world = w ∧
        (mca_coll_gba_barrier env w observed).world.device.writes = w.device.writes ∧
        (mca_coll_gba_barrier env w observed).world.module.barrier_seq =
          w.module.barrier_seq ∧
        (mca_coll_gba_barrier env w observed).sequence = none ∧
        (mca_coll_gba_barrier env w observed).progress_calls = 0 ∧
        (mca_coll_gba_barrier env w observed).observed = observed) ∧
    (∀ (env : coll_env) (w : switch_barrier_world) (observed : List Nat),
      w.module.offload_enabled = false →
      (mca_coll_switch_barrier_barrier env w observed).ret =
          env.call_barrier w.module.c_coll.coll_barrier w.comm
            w.module.c_coll.coll_barrier_module ∧
        (mca_coll_switch_barrier_barrier env w observed).world = w ∧
        (mca_coll_switch_barrier_barrier env w observed).world.device.writes =
          w.device.writes ∧
        (mca_coll_switch_barrier_barrier env w observed).world.module.barrier_sequence =
          w.module.barrier_sequence ∧
        (mca_coll_switch_barrier_barrier env w observed).sequence = none ∧
        (mca_coll_switch_barrier_barrier env w observed).progress_calls = 0 ∧
        (mca_coll_switch_barrier_barrier env w observed).observed = observed) := by
  constructor
  · intro env w observed h
    rw [mca_coll_gba_barrier, mca_coll_gba_barrier_with_disabled _ env w observed h]
    exact ⟨rfl, rfl, rfl, rfl, rfl, rfl, rfl⟩
  · intro env w observed h
    rw [mca_coll_switch_barrier_barrier,
      mca_coll_switch_barrier_barrier_with_disabled _ env w observed h]
    exact ⟨rfl, rfl, rfl, rfl, rfl, rfl, rfl⟩

/-- Witness for C12: the sample modules before enable are offload-disabled;
their barrier calls return what the saved barrier returns and store nothing. -/
theorem barrier_disabled_delegates_witness :
    (gba_world_sample.module.offload_enabled = false ∧
      (mca_coll_gba_barrier coll_env_sample
          { gba_world_sample with
            module := (mca_coll_gba_module_enable coll_entry_points_sample
              module_addr_sample gba_world_unmapped_sample).2.module } [5]).ret
        = some 12 ∧
      (mca_coll_gba_barrier coll_env_sample gba_world_sample [5]).world.device.writes
        = []) ∧
    (switch_barrier_world_sample.module.offload_enabled = false ∧
      (mca_coll_switch_barrier_barrier coll_env_sample switch_barrier_world_sample
        [5]).world.module.barrier_sequence = 0) :=
  ⟨⟨rfl,
      (barrier_disabled_delegates.1 coll_env_sample
        { gba_world_sample with
          module := (mca_coll_gba_module_enable coll_entry_points_sample
            module_addr_sample gba_world_unmapped_sample).2.module } [5] (by decide)).1.trans
        (by decide),
      (barrier_disabled_delegates.1 coll_env_sample gba_world_sample [5] rfl).2.2.1⟩,
    rfl,
    (barrier_disabled_delegates.2 coll_env_sample switch_barrier_world_sample [5]
      rfl).2.2.2.1⟩

/-- C14. For every module state, `mca_coll_gba_ibarrier` and
`mca_coll_switch_barrier_ibarrier` return exactly what the saved previous
non-blocking barrier returns when called with the communicator, the request and
the saved module; the world is unchanged: no device register is read or
written and the sequence counter keeps its value. -/
theorem ibarrier_always_delegates :
    (∀ (env : coll_env) (w : gba_world) (request : Nat),
      (mca_coll_gba_ibarrier env w request).1 =
          env.call_ibarrier w.module.previous_ibarrier w.comm request
            w.module.previous_ibarrier_module ∧
        (mca_coll_gba_ibarrier env w request).2 = w ∧
        (mca_coll_gba_ibarrier env w request).2.device.regs = w.device.regs ∧
        (mca_coll_gba_ibarrier env w request).2.device.writes = w.device.writes ∧
        (mca_coll_gba_ibarrier env w request).2.module.barrier_seq =
          w.module.barrier_seq) ∧
    (∀ (env : coll_env) (w : switch_barrier_world) (request : Nat),
      (mca_coll_switch_barrier_ibarrier env w request).1 =
          env.call_ibarrier w.module.c_coll.coll_ibarrier w.comm request
            w.module.c_coll.coll_ibarrier_module ∧
        (mca_coll_switch_barrier_ibarrier env w request).2 = w ∧
        (mca_coll_switch_barrier_ibarrier env w request).2.device.regs = w.device.regs ∧
        (mca_coll_switch_barrier_ibarrier env w request).2.device.writes =
          w.device.writes ∧
        (mca_coll_switch_barrier_ibarrier env w request).2.module.barrier_sequence =
          w.module.barrier_sequence) := by
  constructor
  · intro env w request
    exact ⟨rfl, rfl, rfl, rfl, rfl⟩
  · intro env w request
    have h : mca_coll_switch_barrier_ibarrier env w request =
        (env.call_ibarrier w.module.c_coll.coll_ibarrier w.comm request
          w.module.c_coll.coll_ibarrier_module, w) := by
      simp [mca_coll_switch_barrier_ibarrier]
    rw [h]
    exact ⟨rfl, rfl, rfl, rfl, rfl⟩

theorem gba_poll_release_after_store (state : gba_local_state_t) (sequence : Nat)
    (host : host_t) (v : Nat) :
    gba_poll_release state sequence
        { host with mem := store64 host.mem state.release_flag v } =
      decide (sequence ≤ v % 2 ^ 64) := by
  simp only [gba_poll_release, load64_store64_same, ge_iff_le]

theorem mca_coll_gba_barrier_poll_loop_stops (state : gba_local_state_t)
    (sequence v : Nat) (post : List Nat) (hv : sequence ≤ v) (hv64 : v < 2 ^ 64) :
    ∀ (pre : List Nat) (host : host_t) (n : Nat), (∀ x ∈ pre, x < sequence) →
      ∃ host1, mca_coll_gba_barrier_poll_loop state sequence (pre ++ v :: post) host n =
        (some MPI_SUCCESS, host1, n + pre.length, post) := by
  intro pre
  induction pre with
  | nil =>
    intro host n _
    refine ⟨{ host with mem := store64 host.mem state.release_flag v }, ?_⟩
    have h : sequence ≤ v % 2 ^ 64 := by rw [Nat.mod_eq_of_lt hv64]; exact hv
    simp only [List.nil_append, mca_coll_gba_barrier_poll_loop,
      gba_poll_release_after_store, decide_eq_true_eq, h, if_true, List.length_nil,
      Nat.add_zero]
  | cons x pre ih =>
    intro host n hpre
    have hx : x < sequence := hpre x (List.mem_cons_self _ _)
    have hx64 : x < 2 ^ 64 := by omega
    have h : ¬ sequence ≤ x % 2 ^ 64 := by rw [Nat.mod_eq_of_lt hx64]; omega
    obtain ⟨host1, h1⟩ := ih { host with mem := store64 host.mem state.release_flag x }
      (n + 1) (fun y hy => hpre y (List.mem_cons_of_mem _ hy))
    refine ⟨host1, ?_⟩
    have e : n + 1 + pre.length = n + (x :: pre).length := by
      simp only [List.length_cons]
      omega
    rw [← e, ← h1]
    simp only [List.cons_append, mca_coll_gba_barrier_poll_loop,
      gba_poll_release_after_store, decide_eq_true_eq, h, if_false]
    rfl

theorem mca_coll_gba_barrier_poll_loop_returns (state : gba_local_state_t)
    (sequence : Nat) :
    ∀ (observed : List Nat) (host : host_t) (n : Nat),
      (∃ v ∈ observed, sequence ≤ v % 2 ^ 64) →
      (mca_coll_gba_barrier_poll_loop state sequence observed host n).1 =
        some MPI_SUCCESS := by
  intro observed
  induction observed with
  | nil =>
    intro host n h
    obtain ⟨v, hv, _⟩ := h
    cases hv
  | cons x rest ih =>
    intro host n h
    by_cases hx : sequence ≤ x % 2 ^ 64
    · simp only [mca_coll_gba_barrier_poll_loop, gba_poll_release_after_store,
        decide_eq_true_eq, hx, if_true]
    · simp only [mca_coll_gba_barrier_poll_loop, gba_poll_release_after_store,
        decide_eq_true_eq, hx, if_false]
      apply ih
      obtain ⟨v, hv, hs⟩ := h
      rcases List.mem_cons.1 hv with rfl | hv1
      · exact absurd hs hx
      · exact ⟨v, hv1, hs⟩

theorem gba_send_arrival_mapped (d : gba_device_t) (g m s : Nat)
    (hm : ¬ (d.base_addr = NULL ∨ d.base_addr = MAP_FAILED)) :
    gba_send_arrival (some d) g m s =
      some (OMPI_SUCCESS,
        some { d with
          regs := store64 d.regs (GBA_GROUP_REG_BASE g % 2 ^ 32 + GBA_REG_ARRIVAL_COUNT)
            (((s <<< 32) % 2 ^ 64) ||| m),
          writes := d.writes ++
            [(GBA_GROUP_REG_BASE g % 2 ^ 32 + GBA_REG_ARRIVAL_COUNT,
              ((s <<< 32) % 2 ^ 64) ||| m)] }) := by
  simp only [gba_send_arrival, hm, if_false]

theorem gba_send_arrival_never_fails (device : Option gba_device_t) (g m s : Nat)
    (r : Int × Option gba_device_t) (h : gba_send_arrival device g m s = some r) :
    r.1 = OMPI_SUCCESS := by
  cases device with
  | none => simp [gba_send_arrival] at h
  | some d =>
    by_cases hm : d.base_addr = NULL ∨ d.base_addr = MAP_FAILED
    · simp [gba_send_arrival, hm] at h
    · rw [gba_send_arrival_mapped d g m s hm] at h
      cases h
      rfl

theorem mca_coll_gba_barrier_enabled (env : coll_env) (w : gba_world)
    (observed : List Nat) (he : w.module.offload_enabled = true)
    (hd : w.module.device = true)
    (hm : ¬ (w.device.base_addr = NULL ∨ w.device.base_addr = MAP_FAILED)) :
    ∃ w1 : gba_world,
      w1.module = { w.module with barrier_seq := (w.module.barrier_seq + 1) % 2 ^ 32 } ∧
      w1.comm = w.comm ∧ w1.dma_ctx = w.dma_ctx ∧ w1.host = w.host ∧
      w1.device.base_addr = w.device.base_addr ∧
      w1.device.group_alloc_mask = w.device.group_alloc_mask ∧
      w1.device.writes = w.device.writes ++
        [(GBA_GROUP_REG_BASE w.module.config.group_id % 2 ^ 32 + GBA_REG_ARRIVAL_COUNT,
          ((((w.module.barrier_seq + 1) % 2 ^ 32) <<< 32) % 2 ^ 64) |||
            w.module.config.local_member_id)] ∧
      mca_coll_gba_barrier env w observed =
        { ret := (mca_coll_gba_barrier_poll_loop w.module.local_state
            ((w.module.barrier_seq + 1) % 2 ^ 32) observed w.host 0).1,
          world := { w1 with host := (mca_coll_gba_barrier_poll_loop w.module.local_state
            ((w.module.barrier_seq + 1) % 2 ^ 32) observed w.host 0).2.1 },
          sequence := some ((w.module.barrier_seq + 1) % 2 ^ 32),
          progress_calls := (mca_coll_gba_barrier_poll_loop w.module.local_state
            ((w.module.barrier_seq + 1) % 2 ^ 32) observed w.host 0).2.2.1,
          observed := (mca_coll_gba_barrier_poll_loop w.module.local_state
            ((w.module.barrier_seq + 1) % 2 ^ 32) observed w.host 0).2.2.2 } := by
  refine ⟨{ w with
      module := { w.module with barrier_seq := (w.module.barrier_seq + 1) % 2 ^ 32 },
      device := { w.device with
        regs := store64 w.device.regs
          (GBA_GROUP_REG_BASE w.module.config.group_id % 2 ^ 32 + GBA_REG_ARRIVAL_COUNT)
          (((((w.module.barrier_seq + 1) % 2 ^ 32) <<< 32) % 2 ^ 64) |||
            w.module.config.local_member_id),
        writes := w.device.writes ++
          [(GBA_GROUP_REG_BASE w.module.config.group_id % 2 ^ 32 + GBA_REG_ARRIVAL_COUNT,
            ((((w.module.barrier_seq + 1) % 2 ^ 32) <<< 32) % 2 ^ 64) |||
              w.module.config.local_member_id)] } },
    rfl, rfl, rfl, rfl, rfl, rfl, rfl, ?_⟩
  simp only [mca_coll_gba_barrier, mca_coll_gba_barrier_with, he, hd, not_true_eq_false,
    if_false, if_true, gba_send_arrival_mapped _ _ _ _ hm, ne_eq, Option.getD_some]

/-- C15. The release test `gba_poll_release (state, s)` is true iff the release
flag read from memory is at least `s`.  For an offload-enabled module on a
mapped device, let `s` be the sequence value of the round (the counter plus one,
modulo `2 ^ 32`): when the successive reads of the release flag see `n` values
below `s` and then a 64-bit value `v >= s`, `mca_coll_gba_barrier` uses sequence
`s`, calls `opal_progress` exactly `n` times, returns `MPI_SUCCESS` and reads
the flag no further. -/
theorem gba_poll_to_release :
    (∀ (state : gba_local_state_t) (s : Nat) (host : host_t),
      gba_poll_release state s host = true ↔ load64 host.mem state.release_flag ≥ s) ∧
    (∀ (env : coll_env) (w : gba_world) (pre post : List Nat) (v : Nat),
      w.module.offload_enabled = true → w.module.device = true →
      ¬ (w.device.base_addr = NULL ∨ w.device.base_addr = MAP_FAILED) →
      (∀ x ∈ pre, x < (w.module.barrier_seq + 1) % 2 ^ 32) →
      (w.module.barrier_seq + 1) % 2 ^ 32 ≤ v → v < 2 ^ 64 →
      (mca_coll_gba_barrier env w (pre ++ v :: post)).sequence =
          some ((w.module.barrier_seq + 1) % 2 ^ 32) ∧
        (mca_coll_gba_barrier env w (pre ++ v :: post)).progress_calls = pre.length ∧
        (mca_coll_gba_barrier env w (pre ++ v :: post)).ret = some MPI_SUCCESS ∧
        (mca_coll_gba_barrier env w (pre ++ v :: post)).observed = post) := by
  constructor
  · intro state s host
    simp only [gba_poll_release, decide_eq_true_eq]
  · intro env w pre post v he hd hm hpre hv hv64
    obtain ⟨w1, _, _, _, _, _, _, _, hb⟩ :=
      mca_coll_gba_barrier_enabled env w (pre ++ v :: post) he hd hm
    obtain ⟨host1, hp⟩ := mca_coll_gba_barrier_poll_loop_stops w.module.local_state
      ((w.module.barrier_seq + 1) % 2 ^ 32) v post hv hv64 pre w.host 0 hpre
    rw [hb, hp]
    exact ⟨rfl, by simp, rfl, rfl⟩

/-- Witness for C15: on the enabled sample module the first round has sequence
1; with the flag read as 0, 0, 1 the barrier makes two progress calls and
returns `MPI_SUCCESS`, leaving the value 9 unread. -/
theorem gba_poll_to_release_witness :
    gba_world_enabled_sample.module.offload_enabled = true ∧
    gba_world_enabled_sample.module.device = true ∧
    ¬ (gba_world_enabled_sample.device.base_addr = NULL ∨
      gba_world_enabled_sample.device.base_addr = MAP_FAILED) ∧
    (mca_coll_gba_barrier coll_env_sample gba_world_enabled_sample
      ([0, 0] ++ 1 :: [9])).sequence = some 1 ∧
    (mca_coll_gba_barrier coll_env_sample gba_world_enabled_sample
      ([0, 0] ++ 1 :: [9])).progress_calls = 2 ∧
    (mca_coll_gba_barrier coll_env_sample gba_world_enabled_sample
      ([0, 0] ++ 1 :: [9])).ret = some MPI_SUCCESS ∧
    (mca_coll_gba_barrier coll_env_sample gba_world_enabled_sample
      ([0, 0] ++ 1 :: [9])).observed = [9] :=
  ⟨by decide, by decide, by decide,
    gba_poll_to_release.2 coll_env_sample gba_world_enabled_sample [0, 0] [9] 1
      (by decide) (by decide) (by decide) (by decide) (by decide) (by decide)⟩

theorem mca_coll_gba_barrier_with_arrival_error
    (send_arrival : Option gba_device_t → Nat → Nat → Nat →
      Option (Int × Option gba_device_t))
    (env : coll_env) (w : gba_world) (observed : List Nat) (rc : Int)
    (dev1 : Option gba_device_t) (he : w.module.offload_enabled = true)
    (hs : send_arrival (if w.module.device then some w.device else none)
      w.module.config.group_id w.module.config.local_member_id
      ((w.module.barrier_seq + 1) % 2 ^ 32) = some (rc, dev1))
    (hrc : rc ≠ OMPI_SUCCESS) :
    mca_coll_gba_barrier_with send_arrival env w observed =
      { ret := env.call_barrier w.module.previous_barrier w.comm
          w.module.previous_barrier_module,
        world := { w with
          module := { w.module with barrier_seq := (w.module.barrier_seq + 1) % 2 ^ 32 },
          device := dev1.getD w.device },
        sequence := some ((w.module.barrier_seq + 1) % 2 ^ 32),
        progress_calls := 0, observed := observed } := by
  simp only [mca_coll_gba_barrier_with, he, not_true_eq_false, if_false, hs, ne_eq, hrc,
    not_false_eq_true, if_true]

theorem mca_coll_switch_barrier_barrier_with_arrival_error
    (send_arrival : Option switch_barrier_device_t → Nat → Nat → Nat →
      Option (Int × Option switch_barrier_device_t))
    (env : coll_env) (w : switch_barrier_world) (observed : List Nat) (rc : Int)
    (dev1 : Option switch_barrier_device_t) (he : w.module.offload_enabled = true)
    (hs : send_arrival (if w.module.device then some w.device else none)
      w.module.group_config.group_id w.module.group_config.local_member_id
      ((w.module.barrier_sequence + 1) % 2 ^ 32) = some (rc, dev1))
    (hrc : rc ≠ OMPI_SUCCESS) :
    mca_coll_switch_barrier_barrier_with send_arrival env w observed =
      { ret := env.call_barrier w.module.c_coll.coll_barrier w.comm
          w.module.c_coll.coll_barrier_module,
        world := { w with
          module := { w.module with
            barrier_sequence := (w.module.barrier_sequence + 1) % 2 ^ 32 },
          device := dev1.getD w.device },
        sequence := some ((w.module.barrier_sequence + 1) % 2 ^ 32),
        progress_calls := 0, observed := observed } := by
  simp only [mca_coll_switch_barrier_barrier_with, he, not_true_eq_false, if_false, hs,
    ne_eq, hrc, not_false_eq_true, if_true]

/-- C13. For an offload-enabled module, when the arrival signal of the round
returns an error code, the barrier returns exactly what the saved previous
barrier returns when called with the communicator and the saved module; it
makes no progress call and reads no release flag value (the poll loop is not
entered), and it leaves `offload_enabled` true and the group configuration
unchanged.  This holds for the bodies of `mca_coll_gba_barrier` and
`mca_coll_switch_barrier_barrier` with any arrival signal in place of theirs,
and for `mca_coll_switch_barrier_barrier` itself, whose arrival signal fails
when the device pointer is `NULL`. -/
theorem barrier_arrival_failure_falls_back :
    (∀ (send_arrival : Option gba_device_t → Nat → Nat → Nat →
          Option (Int × Option gba_device_t))
        (env : coll_env) (w : gba_world) (observed : List Nat) (rc : Int)
        (dev1 : Option gba_device_t),
      w.module.offload_enabled = true →
      send_arrival (if w.module.device then some w.device else none)
        w.module.config.group_id w.module.config.local_member_id
        ((w.module.barrier_seq + 1) % 2 ^ 32) = some (rc, dev1) →
      rc ≠ OMPI_SUCCESS →
      (mca_coll_gba_barrier_with send_arrival env w observed).ret =
          env.call_barrier w.module.previous_barrier w.comm
            w.module.previous_barrier_module ∧
        (mca_coll_gba_barrier_with send_arrival env w observed).progress_calls = 0 ∧
        (mca_coll_gba_barrier_with send_arrival env w observed).observed = observed ∧
        (mca_coll_gba_barrier_with send_arrival env w observed).world.host = w.host ∧
        (mca_coll_gba_barrier_with send_arrival env w
          observed).world.module.offload_enabled = true ∧
        (mca_coll_gba_barrier_with send_arrival env w observed).world.module.config =
          w.module.config) ∧
    (∀ (send_arrival : Option switch_barrier_device_t → Nat → Nat → Nat →
          Option (Int × Option switch_barrier_device_t))
        (env : coll_env) (w : switch_barrier_world) (observed : List Nat) (rc : Int)
        (dev1 : Option switch_barrier_device_t),
      w.module.offload_enabled = true →
      send_arrival (if w.module.device then some w.device else none)
        w.module.group_config.group_id w.module.group_config.local_member_id
        ((w.module.barrier_sequence + 1) % 2 ^ 32) = some (rc, dev1) →
      rc ≠ OMPI_SUCCESS →
      (mca_coll_switch_barrier_barrier_with send_arrival env w observed).ret =
          env.call_barrier w.module.c_coll.coll_barrier w.comm
            w.module.c_coll.coll_barrier_module ∧
        (mca_coll_switch_barrier_barrier_with send_arrival env w observed).progress_calls
          = 0 ∧
        (mca_coll_switch_barrier_barrier_with send_arrival env w observed).observed =
          observed ∧
        (mca_coll_switch_barrier_barrier_with send_arrival env w observed).world.host =
          w.host ∧
        (mca_coll_switch_barrier_barrier_with send_arrival env w
          observed).world.module.offload_enabled = true ∧
        (mca_coll_switch_barrier_barrier_with send_arrival env w
          observed).world.module.group_config = w.module.group_config) ∧
    (∀ (env : coll_env) (w : switch_barrier_world) (observed : List Nat),
      w.module.offload_enabled = true → w.module.device = false →
      (mca_coll_switch_barrier_barrier env w observed).ret =
          env.call_barrier w.module.c_coll.coll_barrier w.comm
            w.module.c_coll.coll_barrier_module ∧
        (mca_coll_switch_barrier_barrier env w observed).progress_calls = 0 ∧
        (mca_coll_switch_barrier_barrier env w observed).observed = observed ∧
        (mca_coll_switch_barrier_barrier env w observed).world.device = w.device ∧
        (mca_coll_switch_barrier_barrier env w observed).world.module.offload_enabled
          = true ∧
        (mca_coll_switch_barrier_barrier env w observed).world.module.group_config =
          w.module.group_config) := by
  refine ⟨?_, ?_, ?_⟩
  · intro send_arrival env w observed rc dev1 he hs hrc
    rw [mca_coll_gba_barrier_with_arrival_error send_arrival env w observed rc dev1 he hs hrc]
    exact ⟨rfl, rfl, rfl, rfl, he, rfl⟩
  · intro send_arrival env w observed rc dev1 he hs hrc
    rw [mca_coll_switch_barrier_barrier_with_arrival_error send_arrival env w observed rc
      dev1 he hs hrc]
    exact ⟨rfl, rfl, rfl, rfl, he, rfl⟩
  · intro env w observed he hd
    have hs : switch_barrier_send_arrival (if w.module.device then some w.device else none)
        w.module.group_config.group_id w.module.group_config.local_member_id
        ((w.module.barrier_sequence + 1) % 2 ^ 32) = some (OMPI_ERR_BAD_PARAM, none) := by
      simp [hd, switch_barrier_send_arrival]
    rw [mca_coll_switch_barrier_barrier,
      mca_coll_switch_barrier_barrier_with_arrival_error switch_barrier_send_arrival env w
        observed OMPI_ERR_BAD_PARAM none he hs (by decide)]
    exact ⟨rfl, rfl, rfl, rfl, he, rfl⟩

/-- Witness for C13: on the enabled sample modules an arrival signal that
returns `OMPI_ERR_BAD_PARAM` makes the barrier return what the saved barrier
returns (12 for function 1 and module 2), and so does the switch arrival signal
itself when the device pointer is `NULL`. -/
theorem barrier_arrival_failure_falls_back_witness :
    (gba_world_enabled_sample.module.offload_enabled = true ∧
      (mca_coll_gba_barrier_with (fun _ _ _ _ => some (OMPI_ERR_BAD_PARAM, none))
        coll_env_sample gba_world_enabled_sample [7]).ret = some 12) ∧
    (switch_barrier_world_enabled_sample.module.offload_enabled = true ∧
      (mca_coll_switch_barrier_barrier_with (fun _ _ _ _ => some (OMPI_ERR_BAD_PARAM, none))
        coll_env_sample switch_barrier_world_enabled_sample [7]).progress_calls = 0) ∧
    (mca_coll_switch_barrier_barrier coll_env_sample
      { switch_barrier_world_enabled_sample with
        module := { switch_barrier_world_enabled_sample.module with device := false } }
      [7]).ret = some 12 :=
  ⟨⟨by decide,
      (barrier_arrival_failure_falls_back.1 (fun _ _ _ _ => some (OMPI_ERR_BAD_PARAM, none))
        coll_env_sample gba_world_enabled_sample [7] OMPI_ERR_BAD_PARAM none (by decide) rfl
        (by decide)).1.trans (by decide)⟩,
    ⟨by decide,
      (barrier_arrival_failure_falls_back.2.1
        (fun _ _ _ _ => some (OMPI_ERR_BAD_PARAM, none))
        coll_env_sample switch_barrier_world_enabled_sample [7] OMPI_ERR_BAD_PARAM none
        (by decide) rfl (by decide)).2.1⟩,
    (barrier_arrival_failure_falls_back.2.2 coll_env_sample
      { switch_barrier_world_enabled_sample with
        module := { switch_barrier_world_enabled_sample.module with device := false } }
      [7] (by decide) rfl).1.trans (by decide)⟩

/-! ## Sequence counter -/

theorem gba_allocate_group_success_device (d : gba_device_t) (g0 : Nat)
    (h : (gba_allocate_group (some d) (some g0)).1 = OMPI_SUCCESS) :
    ∃ g, gba_allocate_group (some d) (some g0) =
      (OMPI_SUCCESS, some { d with group_alloc_mask := d.group_alloc_mask ||| (1 <<< g) },
        some g) := by
  cases hs : gba_allocate_group_scan d.group_alloc_mask GBA_MAX_GROUPS 0 with
  | none =>
    rw [gba_allocate_group_of_scan_none d g0 hs] at h
    simp [OMPI_ERR_OUT_OF_RESOURCE, OMPI_SUCCESS] at h
  | some i =>
    exact ⟨i, by simp only [gba_allocate_group, hs]⟩

theorem gba_configure_comm_domain_success (module : mca_coll_gba_module_t)
    (comm : ompi_communicator_t) (device : gba_device_t) (dma_ctx : gba_dma_context_t)
    (host : host_t)
    (h : (gba_configure_comm_domain module comm device dma_ctx host).1 = OMPI_SUCCESS) :
    (gba_configure_comm_domain module comm device dma_ctx host).2.1.offload_enabled = true ∧
    (gba_configure_comm_domain module comm device dma_ctx host).2.1.barrier_seq = 0 ∧
    (gba_configure_comm_domain module comm device dma_ctx host).2.1.device = true ∧
    (gba_configure_comm_domain module comm device dma_ctx host).2.1.config.group_id < 32 ∧
    ¬ ((gba_configure_comm_domain module comm device dma_ctx host).2.2.1.base_addr = NULL ∨
      (gba_configure_comm_domain module comm device dma_ctx host).2.2.1.base_addr =
        MAP_FAILED) := by
  by_cases hsz : comm.size > GBA_MAX_MEMBERS
  · simp [gba_configure_comm_domain, hsz, OMPI_ERR_NOT_SUPPORTED, OMPI_SUCCESS] at h
  cases hdev : module.device with
  | false =>
    simp [gba_configure_comm_domain, hsz, hdev, gba_allocate_group, OMPI_ERR_BAD_PARAM,
      OMPI_SUCCESS] at h
  | true =>
    by_cases ha : (gba_allocate_group (some device) (some 0)).1 = OMPI_SUCCESS
    · obtain ⟨g, hag⟩ := gba_allocate_group_success_device device 0 ha
      simp only [gba_configure_comm_domain, hsz, if_false, hdev, if_true, hag, ne_eq,
        not_true_eq_false, Option.getD_some] at h ⊢
      split_ifs at h ⊢ with h1 h2
      · have h3 := (gba_configure_group_success_iff _ _).1 h2
        rw [gba_configure_group_ok _ _ h3.1 h3.2]
        exact ⟨rfl, rfl, rfl, h3.1, h3.2⟩
      · exact absurd h h2
      · exact absurd h h1
    · simp only [gba_configure_comm_domain, hsz, if_false, hdev, if_true, ne_eq, ha,
        not_false_eq_true] at h

theorem barrier_seq_step (j i : Nat) :
    ((j + 1) % 2 ^ 32 + i + 1) % 2 ^ 32 = (j + (i + 1) + 1) % 2 ^ 32 := by
  omega

theorem mca_coll_gba_barrier_calls_sequence (env : coll_env) :
    ∀ (streams : List (List Nat)) (w : gba_world),
      w.module.offload_enabled = true → w.module.device = true →
      ¬ (w.device.base_addr = NULL ∨ w.device.base_addr = MAP_FAILED) →
      (∀ (i : Nat) (h : i < streams.length), ∃ v ∈ streams[i],
        (w.module.barrier_seq + i + 1) % 2 ^ 32 ≤ v % 2 ^ 64) →
      (mca_coll_gba_barrier_calls env streams w).length = streams.length ∧
      ∀ i, i < streams.length → ∃ r,
        (mca_coll_gba_barrier_calls env streams w)[i]? = some r ∧
        r.ret = some MPI_SUCCESS ∧
        r.sequence = some ((w.module.barrier_seq + i + 1) % 2 ^ 32) ∧
        r.world.module.barrier_seq = (w.module.barrier_seq + i + 1) % 2 ^ 32 := by
  intro streams
  induction streams with
  | nil =>
    intro w _ _ _ _
    exact ⟨rfl, fun i hi => absurd hi (Nat.not_lt_zero i)⟩
  | cons o rest ih =>
    intro w he hd hm hrel
    obtain ⟨w1, hw1m, _, _, _, hw1b, _, _, hb⟩ := mca_coll_gba_barrier_enabled env w o he hd hm
    have hret : (mca_coll_gba_barrier env w o).ret = some MPI_SUCCESS := by
      rw [hb]
      exact mca_coll_gba_barrier_poll_loop_returns _ _ o w.host 0
        (by simpa using hrel 0 (Nat.succ_pos _))
    have hseq : (mca_coll_gba_barrier env w o).sequence =
        some ((w.module.barrier_seq + 1) % 2 ^ 32) := by rw [hb]
    have hmod : (mca_coll_gba_barrier env w o).world.module =
        { w.module with barrier_seq := (w.module.barrier_seq + 1) % 2 ^ 32 } := by
      rw [hb]; exact hw1m
    have hbase : (mca_coll_gba_barrier env w o).world.device.base_addr =
        w.device.base_addr := by
      rw [hb]; exact hw1b
    have hcalls : mca_coll_gba_barrier_calls env (o :: rest) w =
        mca_coll_gba_barrier env w o ::
          mca_coll_gba_barrier_calls env rest (mca_coll_gba_barrier env w o).world := by
      simp only [mca_coll_gba_barrier_calls, hret]
    have hseq1 : (mca_coll_gba_barrier env w o).world.module.barrier_seq =
        (w.module.barrier_seq + 1) % 2 ^ 32 := by rw [hmod]
    obtain ⟨hlen, hidx⟩ := ih (mca_coll_gba_barrier env w o).world
      (by rw [hmod]; exact he) (by rw [hmod]; exact hd) (by rw [hbase]; exact hm)
      (by
        intro i hi
        obtain ⟨v, hv, hs⟩ := hrel (i + 1) (Nat.succ_lt_succ hi)
        refine ⟨v, by simpa using hv, ?_⟩
        rw [hseq1, barrier_seq_step]
        exact hs)
    rw [hcalls]
    refine ⟨by simp only [List.length_cons, hlen], ?_⟩
    intro i hi
    cases i with
    | zero =>
      exact ⟨mca_coll_gba_barrier env w o, List.getElem?_cons_zero, hret, by rw [hseq],
        by rw [hseq1]⟩
    | succ i =>
      obtain ⟨r, hr, h1, h2, h3⟩ := hidx i (Nat.lt_of_succ_lt_succ hi)
      refine ⟨r, by simpa using hr, h1, ?_, ?_⟩
      · rw [h2, hseq1, barrier_seq_step]
      · rw [h3, hseq1, barrier_seq_step]

/-- C11 (amended). On a module that `gba_configure_comm_domain` has configured
successfully, for every number `k < 2 ^ 32` of consecutive
`mca_coll_gba_barrier` calls, each of which sees its release flag reach the
sequence value of its round, every call returns `MPI_SUCCESS`, the call number
`i` (counted from 1) uses the sequence value `i`, and the counter of the module
holds `i` after it: it is never reset between the calls. -/
theorem gba_barrier_sequence_monotone (env : coll_env) (module : mca_coll_gba_module_t)
    (comm : ompi_communicator_t) (device : gba_device_t) (dma_ctx : gba_dma_context_t)
    (host : host_t) (streams : List (List Nat))
    (hcfg : (gba_configure_comm_domain module comm device dma_ctx host).1 = OMPI_SUCCESS)
    (hk : streams.length < 2 ^ 32)
    (hrel : ∀ (i : Nat) (h : i < streams.length), ∃ v ∈ streams[i], i + 1 ≤ v ∧ v < 2 ^ 64) :
    (mca_coll_gba_barrier_calls env streams
        ⟨(gba_configure_comm_domain module comm device dma_ctx host).2.1, comm,
          (gba_configure_comm_domain module comm device dma_ctx host).2.2.1,
          (gba_configure_comm_domain module comm device dma_ctx host).2.2.2.1,
          (gba_configure_comm_domain module comm device dma_ctx host).2.2.2.2⟩).length =
      streams.length ∧
    ∀ i, i < streams.length → ∃ r,
      (mca_coll_gba_barrier_calls env streams
        ⟨(gba_configure_comm_domain module comm device dma_ctx host).2.1, comm,
          (gba_configure_comm_domain module comm device dma_ctx host).2.2.1,
          (gba_configure_comm_domain module comm device dma_ctx host).2.2.2.1,
          (gba_configure_comm_domain module comm device dma_ctx host).2.2.2.2⟩)[i]? =
        some r ∧
      r.ret = some MPI_SUCCESS ∧ r.sequence = some (i + 1) ∧
      r.world.module.barrier_seq = i + 1 := by
  obtain ⟨he, hz, hd, _, hm⟩ :=
    gba_configure_comm_domain_success module comm device dma_ctx host hcfg
  have hmod : ∀ i, i < streams.length →
      ((gba_configure_comm_domain module comm device dma_ctx host).2.1.barrier_seq + i + 1)
        % 2 ^ 32 = i + 1 := by
    intro i hi
    rw [hz]
    omega
  obtain ⟨hlen, hidx⟩ := mca_coll_gba_barrier_calls_sequence env streams
    ⟨(gba_configure_comm_domain module comm device dma_ctx host).2.1, comm,
      (gba_configure_comm_domain module comm device dma_ctx host).2.2.1,
      (gba_configure_comm_domain module comm device dma_ctx host).2.2.2.1,
      (gba_configure_comm_domain module comm device dma_ctx host).2.2.2.2⟩ he hd hm
    (by
      intro i hi
      obtain ⟨v, hv, h1, h2⟩ := hrel i hi
      refine ⟨v, hv, ?_⟩
      rw [Nat.mod_eq_of_lt h2]
      have := hmod i hi
      simp only at this ⊢
      omega)
  refine ⟨hlen, ?_⟩
  intro i hi
  obtain ⟨r, hr, h1, h2, h3⟩ := hidx i hi
  have := hmod i hi
  simp only at this h2 h3
  exact ⟨r, hr, h1, by rw [h2, this], by rw [h3, this]⟩

/-- Witness for C11: the sample module is configured successfully; three
consecutive barrier calls that see the flag values 1, then 0 and 2, then 5 all
return, and the third uses sequence value 3. -/
theorem gba_barrier_sequence_monotone_witness :
    (gba_configure_comm_domain mca_coll_gba_module_sample ompi_communicator_sample
      gba_device_sample gba_dma_context_sample host_sample).1 = OMPI_SUCCESS ∧
    ∃ r, (mca_coll_gba_barrier_calls coll_env_sample [[1], [0, 2], [5]]
        ⟨(gba_configure_comm_domain mca_coll_gba_module_sample ompi_communicator_sample
            gba_device_sample gba_dma_context_sample host_sample).2.1,
          ompi_communicator_sample,
          (gba_configure_comm_domain mca_coll_gba_module_sample ompi_communicator_sample
            gba_device_sample gba_dma_context_sample host_sample).2.2.1,
          (gba_configure_comm_domain mca_coll_gba_module_sample ompi_communicator_sample
            gba_device_sample gba_dma_context_sample host_sample).2.2.2.1,
          (gba_configure_comm_domain mca_coll_gba_module_sample ompi_communicator_sample
            gba_device_sample gba_dma_context_sample host_sample).2.2.2.2⟩)[2]? = some r ∧
      r.ret = some MPI_SUCCESS ∧ r.sequence = some (2 + 1) ∧
      r.world.module.barrier_seq = 2 + 1 :=
  ⟨by decide,
    (gba_barrier_sequence_monotone coll_env_sample mca_coll_gba_module_sample
      ompi_communicator_sample gba_device_sample gba_dma_context_sample host_sample
      [[1], [0, 2], [5]] (by decide) (by decide)
      (by
        intro i h
        have h3 : i < 3 := h
        interval_cases i
        · exact ⟨1, by simp, by decide, by decide⟩
        · exact ⟨2, by simp, by decide, by decide⟩
        · exact ⟨5, by simp, by decide, by decide⟩)).2 2 (by decide)⟩

/-- Counterexample for C11 as stated: the counter has 32 bits.  On the enabled
sample module, `2 ^ 32` consecutive barrier calls that each see the flag value
`2 ^ 32 - 1` all return, and the call number `2 ^ 32` uses the sequence value 0,
not `2 ^ 32`: the values are not strictly increasing for every `k`. -/
theorem gba_barrier_sequence_monotone_counterexample :
    gba_world_enabled_sample.module.offload_enabled = true ∧
    gba_world_enabled_sample.module.barrier_seq = 0 ∧
    ∃ r, (mca_coll_gba_barrier_calls coll_env_sample
        (List.replicate (2 ^ 32) [2 ^ 32 - 1]) gba_world_enabled_sample)[2 ^ 32 - 1]? =
        some r ∧
      r.ret = some MPI_SUCCESS ∧ r.sequence = some 0 ∧
      r.world.module.barrier_seq = 0 := by
  have hz : gba_world_enabled_sample.module.barrier_seq = 0 := by decide
  refine ⟨by decide, hz, ?_⟩
  obtain ⟨_, hidx⟩ := mca_coll_gba_barrier_calls_sequence coll_env_sample
    (List.replicate (2 ^ 32) [2 ^ 32 - 1]) gba_world_enabled_sample (by decide) (by decide)
    (by decide)
    (by
      intro i hi
      refine ⟨2 ^ 32 - 1, ?_, ?_⟩
      · rw [List.getElem_replicate]
        exact List.mem_singleton.2 rfl
      · rw [hz]
        omega)
  obtain ⟨r, hr, h1, h2, h3⟩ := hidx (2 ^ 32 - 1) (by rw [List.length_replicate]; omega)
  rw [hz] at h2 h3
  exact ⟨r, hr, h1, h2, h3⟩

/-! ## Module lifecycle -/

theorem gba_configure_comm_domain_keeps (module : mca_coll_gba_module_t)
    (comm : ompi_communicator_t) (device : gba_device_t) (dma_ctx : gba_dma_context_t)
    (host : host_t) :
    (gba_configure_comm_domain module comm device dma_ctx host).2.1.previous_barrier =
        module.previous_barrier ∧
      (gba_configure_comm_domain module comm device dma_ctx host).2.1.previous_barrier_module
        = module.previous_barrier_module ∧
      (gba_configure_comm_domain module comm device dma_ctx host).2.1.previous_ibarrier =
        module.previous_ibarrier ∧
      (gba_configure_comm_domain module comm device dma_ctx host).2.1.previous_ibarrier_module
        = module.previous_ibarrier_module := by
  simp only [gba_configure_comm_domain]
  split_ifs <;> exact ⟨rfl, rfl, rfl, rfl⟩

theorem gba_configure_comm_domain_failure_offload (module : mca_coll_gba_module_t)
    (comm : ompi_communicator_t) (device : gba_device_t) (dma_ctx : gba_dma_context_t)
    (host : host_t)
    (h : (gba_configure_comm_domain module comm device dma_ctx host).1 ≠ OMPI_SUCCESS) :
    (gba_configure_comm_domain module comm device dma_ctx host).2.1.offload_enabled =
      module.offload_enabled := by
  simp only [gba_configure_comm_domain] at h ⊢
  split_ifs at h ⊢
  all_goals first
    | rfl
    | exact absurd rfl h

/-- C18. On a module that is not yet offload-enabled (as the admission query
leaves it), `mca_coll_gba_module_enable` returns `OMPI_SUCCESS` whatever
`gba_configure_comm_domain` returns, and installs the GBA barrier and
non-blocking barrier with the module as the active entries of the
communicator.  When the configuration fails, `offload_enabled` is false
afterwards, and a later `mca_coll_gba_barrier` call returns what the barrier
captured at enable time returns and leaves everything as it was, so every later
call does the same. -/
theorem gba_module_enable_never_fails (fns : coll_entry_points) (module_addr : Nat)
    (w : gba_world) (hoff : w.module.offload_enabled = false) :
    (mca_coll_gba_module_enable fns module_addr w).1 = OMPI_SUCCESS ∧
    (mca_coll_gba_module_enable fns module_addr w).2.comm.coll_barrier = fns.barrier ∧
    (mca_coll_gba_module_enable fns module_addr w).2.comm.coll_barrier_module =
      module_addr ∧
    (mca_coll_gba_module_enable fns module_addr w).2.comm.coll_ibarrier = fns.ibarrier ∧
    (mca_coll_gba_module_enable fns module_addr w).2.comm.coll_ibarrier_module =
      module_addr ∧
    ((gba_configure_comm_domain
        { w.module with previous_barrier := w.comm.coll_barrier,
                        previous_barrier_module := w.comm.coll_barrier_module,
                        previous_ibarrier := w.comm.coll_ibarrier,
                        previous_ibarrier_module := w.comm.coll_ibarrier_module }
        w.comm w.device w.dma_ctx w.host).1 ≠ OMPI_SUCCESS →
      (mca_coll_gba_module_enable fns module_addr w).2.module.offload_enabled = false ∧
      ∀ (env : coll_env) (observed : List Nat),
        (mca_coll_gba_barrier env (mca_coll_gba_module_enable fns module_addr w).2
            observed).ret =
          env.call_barrier w.comm.coll_barrier
            (mca_coll_gba_module_enable fns module_addr w).2.comm
            w.comm.coll_barrier_module ∧
        (mca_coll_gba_barrier env (mca_coll_gba_module_enable fns module_addr w).2
            observed).world = (mca_coll_gba_module_enable fns module_addr w).2) := by
  refine ⟨rfl, rfl, rfl, rfl, rfl, ?_⟩
  intro hf
  have ho : (mca_coll_gba_module_enable fns module_addr w).2.module.offload_enabled =
      false := by
    have := gba_configure_comm_domain_failure_offload _ _ _ _ _ hf
    simp only [mca_coll_gba_module_enable, MCA_COLL_SAVE_API_barrier,
      MCA_COLL_SAVE_API_ibarrier]
    rw [this]
    exact hoff
  refine ⟨ho, ?_⟩
  intro env observed
  rw [mca_coll_gba_barrier, mca_coll_gba_barrier_with_disabled _ env _ observed ho]
  have hk := gba_configure_comm_domain_keeps
    { w.module with previous_barrier := w.comm.coll_barrier,
                    previous_barrier_module := w.comm.coll_barrier_module,
                    previous_ibarrier := w.comm.coll_ibarrier,
                    previous_ibarrier_module := w.comm.coll_ibarrier_module }
    w.comm w.device w.dma_ctx w.host
  refine ⟨?_, rfl⟩
  have h1 : (mca_coll_gba_module_enable fns module_addr w).2.module.previous_barrier =
      w.comm.coll_barrier := hk.1
  have h2 : (mca_coll_gba_module_enable fns module_addr w).2.module.previous_barrier_module
      = w.comm.coll_barrier_module := hk.2.1
  simp only [h1, h2]

/-- Witness for C18: on the sample device without a mapping the configuration
fails, yet enable returns `OMPI_SUCCESS`, installs the GBA barrier (function
103, module 500) and leaves the module offload-disabled. -/
theorem gba_module_enable_never_fails_witness :
    gba_world_unmapped_sample.module.offload_enabled = false ∧
    (mca_coll_gba_module_enable coll_entry_points_sample module_addr_sample
      gba_world_unmapped_sample).1 = OMPI_SUCCESS ∧
    (mca_coll_gba_module_enable coll_entry_points_sample module_addr_sample
      gba_world_unmapped_sample).2.comm.coll_barrier = 103 ∧
    (mca_coll_gba_module_enable coll_entry_points_sample module_addr_sample
      gba_world_unmapped_sample).2.module.offload_enabled = false :=
  ⟨rfl,
    (gba_module_enable_never_fails coll_entry_points_sample module_addr_sample
      gba_world_unmapped_sample rfl).1,
    (gba_module_enable_never_fails coll_entry_points_sample module_addr_sample
      gba_world_unmapped_sample rfl).2.1,
    ((gba_module_enable_never_fails coll_entry_points_sample module_addr_sample
      gba_world_unmapped_sample rfl).2.2.2.2.2 (by decide)).1⟩

theorem switch_barrier_configure_comm_domain_failure_offload (shl_ub : Nat → Nat)
    (module : mca_coll_switch_barrier_module_t) (comm : ompi_communicator_t)
    (device : switch_barrier_device_t) (iommu_ctx : switch_barrier_iommu_context_t)
    (host : host_t)
    (h : (switch_barrier_configure_comm_domain shl_ub module comm device iommu_ctx host).1 ≠
      OMPI_SUCCESS) :
    (switch_barrier_configure_comm_domain shl_ub module comm device iommu_ctx
      host).2.1.offload_enabled = module.offload_enabled := by
  simp only [switch_barrier_configure_comm_domain] at h ⊢
  split_ifs at h ⊢
  all_goals first
    | rfl
    | exact absurd rfl h

theorem mca_coll_switch_barrier_module_enable_ret (shl_ub : Nat → Nat)
    (fns : coll_entry_points) (module_addr : Nat) (w : switch_barrier_world) :
    (mca_coll_switch_barrier_module_enable shl_ub fns module_addr w).1 =
      (switch_barrier_configure_comm_domain shl_ub w.module w.comm w.device w.iommu_ctx
        w.host).1 := by
  simp only [mca_coll_switch_barrier_module_enable]
  split_ifs with h
  · rfl
  · exact (not_not.1 h).symm

theorem switch_barrier_configure_comm_domain_full_mod64
    (module : mca_coll_switch_barrier_module_t) (comm : ompi_communicator_t)
    (device : switch_barrier_device_t) (iommu_ctx : switch_barrier_iommu_context_t)
    (host : host_t) (hdev : module.device = true)
    (hsz : ¬ comm.size > SWITCH_BARRIER_MAX_MEMBERS)
    (hmask : device.group_allocation_mask = 2 ^ 64 - 1) :
    (switch_barrier_configure_comm_domain shl_ub_mod64 module comm device iommu_ctx
      host).1 = OMPI_ERR_OUT_OF_RESOURCE := by
  have hne : OMPI_ERR_OUT_OF_RESOURCE ≠ OMPI_SUCCESS := by decide
  simp only [switch_barrier_configure_comm_domain, hsz, if_false, hdev, if_true,
    switch_barrier_allocate_group_full_mod64 device 0 hmask, ne_eq, hne, not_false_eq_true]

/-- C17. What `mca_coll_switch_barrier_module_enable` does: it returns the code
of `switch_barrier_configure_comm_domain`.  When that code is an error, enable
returns the error, not `OMPI_SUCCESS`; the dispatch entries of the communicator
are left as they were and a module that was offload-disabled stays so.  On the
sample device whose 64 mask bits are claimed, enable returns
`OMPI_ERR_OUT_OF_RESOURCE`. -/
theorem switch_module_enable_propagates_failure :
    (∀ (shl_ub : Nat → Nat) (fns : coll_entry_points) (module_addr : Nat)
        (w : switch_barrier_world),
      (mca_coll_switch_barrier_module_enable shl_ub fns module_addr w).1 =
        (switch_barrier_configure_comm_domain shl_ub w.module w.comm w.device w.iommu_ctx
          w.host).1) ∧
    (∀ (shl_ub : Nat → Nat) (fns : coll_entry_points) (module_addr : Nat)
        (w : switch_barrier_world),
      w.module.offload_enabled = false →
      (switch_barrier_configure_comm_domain shl_ub w.module w.comm w.device w.iommu_ctx
        w.host).1 ≠ OMPI_SUCCESS →
      (mca_coll_switch_barrier_module_enable shl_ub fns module_addr w).1 ≠ OMPI_SUCCESS ∧
        (mca_coll_switch_barrier_module_enable shl_ub fns module_addr
          w).2.module.offload_enabled = false ∧
        (mca_coll_switch_barrier_module_enable shl_ub fns module_addr w).2.comm = w.comm) ∧
    (mca_coll_switch_barrier_module_enable shl_ub_mod64 coll_entry_points_sample
      module_addr_sample switch_barrier_world_full_sample).1 = OMPI_ERR_OUT_OF_RESOURCE ∧
    OMPI_ERR_OUT_OF_RESOURCE ≠ OMPI_SUCCESS := by
  refine ⟨mca_coll_switch_barrier_module_enable_ret, ?_, ?_, by decide⟩
  swap
  · rw [mca_coll_switch_barrier_module_enable_ret]
    exact switch_barrier_configure_comm_domain_full_mod64 _ _ _ _ _ rfl (by decide) rfl
  intro shl_ub fns module_addr w hoff hf
  refine ⟨by rw [mca_coll_switch_barrier_module_enable_ret]; exact hf, ?_, ?_⟩
  · have := switch_barrier_configure_comm_domain_failure_offload _ _ _ _ _ _ hf
    simp only [mca_coll_switch_barrier_module_enable, hf, ne_eq, not_false_eq_true, if_true]
    rw [this]
    exact hoff
  · simp only [mca_coll_switch_barrier_module_enable, hf, ne_eq, not_false_eq_true, if_true]

/-- Witness for C17: on the sample switch device without a mapping the
configuration fails with `OMPI_ERR_NOT_AVAILABLE`, and enable returns an
error. -/
theorem switch_module_enable_propagates_failure_witness :
    switch_barrier_world_unmapped_sample.module.offload_enabled = false ∧
    (switch_barrier_configure_comm_domain shl_ub_mod64
      switch_barrier_world_unmapped_sample.module switch_barrier_world_unmapped_sample.comm
      switch_barrier_world_unmapped_sample.device
      switch_barrier_world_unmapped_sample.iommu_ctx
      switch_barrier_world_unmapped_sample.host).1 = OMPI_ERR_NOT_AVAILABLE ∧
    (mca_coll_switch_barrier_module_enable shl_ub_mod64 coll_entry_points_sample
      module_addr_sample switch_barrier_world_unmapped_sample).1 ≠ OMPI_SUCCESS :=
  ⟨rfl, by decide,
    (switch_module_enable_propagates_failure.2.1 shl_ub_mod64 coll_entry_points_sample
      module_addr_sample switch_barrier_world_unmapped_sample rfl (by decide)).1⟩

/-! ## Teardown -/

theorem gba_free_group_writes (d : gba_device_t) (g : Nat) (hg : g < 32) :
    ∃ d1, gba_free_group (some d) g = (OMPI_SUCCESS, some d1) ∧
      d1.base_addr = d.base_addr ∧
      d1.group_alloc_mask = d.group_alloc_mask &&& ((2 ^ 32 - 1) ^^^ (1 <<< g)) ∧
      d1.writes = d.writes ++
        (if d.base_addr = NULL ∨ d.base_addr = MAP_FAILED then []
          else [((GBA_GROUP_REG_BASE g + GBA_REG_CONTROL) % 2 ^ 32, GBA_CTRL_RESET)]) := by
  by_cases hm : d.base_addr = NULL ∨ d.base_addr = MAP_FAILED
  · exact ⟨_, gba_free_group_unmapped d g hg hm, rfl, rfl, by simp [hm]⟩
  · exact ⟨_, gba_free_group_mapped d g hg hm, rfl, rfl, by simp [hm]⟩

theorem gba_local_state_fini_effect (s : gba_local_state_t) (c : gba_dma_context_t)
    (host : host_t) (hfm : s.flag_memory ≠ NULL ∧ s.flag_memory ≠ MAP_FAILED) :
    ∃ s1 c1, gba_local_state_fini (some s) (some c) host =
        (OMPI_SUCCESS, some s1, some c1, host.munmap s.flag_memory s.flag_size) ∧
      s1.flag_memory = NULL ∧ s1.release_flag = NULL ∧ s1.dma_addr = 0 ∧
      c1.unmap_calls = c.unmap_calls ++ (if s.dma_addr ≠ 0 then [s.dma_addr] else []) := by
  by_cases hd : s.dma_addr = 0
  · exact ⟨{ s with flag_memory := NULL, release_flag := NULL }, c,
      by simp [gba_local_state_fini, hd, hfm], rfl, rfl, hd, by simp [hd]⟩
  · exact ⟨{ s with dma_addr := 0, flag_memory := NULL, release_flag := NULL },
      { c with unmap_calls := c.unmap_calls ++ [s.dma_addr] },
      by simp [gba_local_state_fini, gba_dma_unmap, hd, hfm], rfl, rfl, rfl, by simp [hd]⟩

theorem mca_coll_gba_module_destruct_enabled (w : gba_world)
    (he : w.module.offload_enabled = true) (hd : w.module.device = true)
    (hg : w.module.config.group_id < 32)
    (hfm : w.module.local_state.flag_memory ≠ NULL ∧
      w.module.local_state.flag_memory ≠ MAP_FAILED) :
    (mca_coll_gba_module_destruct w).module.offload_enabled = false ∧
    (mca_coll_gba_module_destruct w).module.local_state.flag_memory = NULL ∧
    (mca_coll_gba_module_destruct w).module.local_state.release_flag = NULL ∧
    (mca_coll_gba_module_destruct w).module.local_state.dma_addr = 0 ∧
    (mca_coll_gba_module_destruct w).host =
      w.host.munmap w.module.local_state.flag_memory w.module.local_state.flag_size ∧
    (mca_coll_gba_module_destruct w).device.base_addr = w.device.base_addr ∧
    (mca_coll_gba_module_destruct w).device.group_alloc_mask =
      w.device.group_alloc_mask &&& ((2 ^ 32 - 1) ^^^ (1 <<< w.module.config.group_id)) ∧
    (mca_coll_gba_module_destruct w).device.writes = w.device.writes ++
      (if w.device.base_addr = NULL ∨ w.device.base_addr = MAP_FAILED then []
        else [((GBA_GROUP_REG_BASE w.module.config.group_id + GBA_REG_CONTROL) % 2 ^ 32,
          GBA_CTRL_RESET)]) ∧
    (mca_coll_gba_module_destruct w).dma_ctx.unmap_calls = w.dma_ctx.unmap_calls ++
      (if w.module.local_state.dma_addr ≠ 0 then [w.module.local_state.dma_addr]
        else []) := by
  obtain ⟨d1, hf, h1, h2, h3⟩ := gba_free_group_writes w.device w.module.config.group_id hg
  obtain ⟨s1, c1, ht, h4, h5, h6, h7⟩ :=
    gba_local_state_fini_effect w.module.local_state w.dma_ctx w.host hfm
  simp only [mca_coll_gba_module_destruct, he, hd, and_self, if_true, hf, ht,
    Option.getD_some]
  exact ⟨trivial, h4, h5, h6, trivial, h1, h2, h3, h7⟩

theorem testBit_and_not_shl_1ULL (shl_ub : Nat → Nat) (mask g : Nat) (hg : g < 64) :
    (mask &&& ((2 ^ 64 - 1) ^^^ shl_1ULL shl_ub g)).testBit g = false := by
  simp only [shl_1ULL, hg, if_true]
  rw [Nat.one_shiftLeft, Nat.testBit_and, Nat.testBit_xor, Nat.testBit_two_pow_sub_one,
    Nat.testBit_two_pow_self]
  simp [hg]

theorem switch_barrier_free_group_writes (shl_ub : Nat → Nat)
    (d : switch_barrier_device_t) (g : Nat) (hg : g < uint32_of_int d.num_groups) :
    ∃ d1, switch_barrier_free_group shl_ub (some d) g = (OMPI_SUCCESS, some d1) ∧
      d1.base_addr = d.base_addr ∧
      d1.group_allocation_mask =
        d.group_allocation_mask &&& ((2 ^ 64 - 1) ^^^ shl_1ULL shl_ub g) ∧
      d1.writes = d.writes ++
        (if NULL = d.base_addr ∨ d.base_addr = MAP_FAILED then []
          else [(switch_barrier_calc_reg_addr g SWITCH_BARRIER_REG_CONTROL, 0)]) := by
  have h1 : ¬ g ≥ uint32_of_int d.num_groups := by omega
  by_cases hm : NULL = d.base_addr ∨ d.base_addr = MAP_FAILED
  · exact ⟨{ d with group_allocation_mask :=
        d.group_allocation_mask &&& ((2 ^ 64 - 1) ^^^ shl_1ULL shl_ub g) },
      by simp only [switch_barrier_free_group, switch_barrier_reg_write, h1, hm, if_false,
        if_true],
      rfl, rfl, by simp [hm]⟩
  · exact ⟨{ d with
        regs := store64 d.regs (switch_barrier_calc_reg_addr g SWITCH_BARRIER_REG_CONTROL) 0,
        writes := d.writes ++ [(switch_barrier_calc_reg_addr g SWITCH_BARRIER_REG_CONTROL, 0)],
        group_allocation_mask :=
          d.group_allocation_mask &&& ((2 ^ 64 - 1) ^^^ shl_1ULL shl_ub g) },
      by simp only [switch_barrier_free_group, switch_barrier_reg_write, h1, hm, if_false],
      rfl, rfl, by simp [hm]⟩

theorem switch_barrier_fini_local_state_effect (s : switch_barrier_local_state_t)
    (ctxp : Option switch_barrier_iommu_context_t) (host : host_t)
    (hfm : s.flag_memory ≠ NULL ∧ s.flag_memory ≠ MAP_FAILED) :
    ∃ s1 c1, switch_barrier_fini_local_state (some s) ctxp host =
        (OMPI_SUCCESS, some s1, c1, host.munmap s.flag_memory s.flag_memory_size) ∧
      s1.flag_memory = NULL ∧ s1.arrival_flag = NULL ∧ s1.release_flag = NULL ∧
      (ctxp.isSome = true → s1.iommu_iova = 0) := by
  by_cases hd : ctxp.isSome = true ∧ s.iommu_iova ≠ 0
  · refine ⟨⟨NULL, NULL, s.expected_sequence, NULL, s.flag_memory_size, 0⟩,
      (switch_barrier_iommu_unmap ctxp s.iommu_iova).2, ?_⟩
    exact ⟨by simp [switch_barrier_fini_local_state, hd, hfm], rfl, rfl, rfl, fun _ => rfl⟩
  · refine ⟨{ s with flag_memory := NULL, arrival_flag := NULL, release_flag := NULL },
      ctxp, by simp [switch_barrier_fini_local_state, hd, hfm], rfl, rfl, rfl, ?_⟩
    intro hc
    by_contra h0
    exact hd ⟨hc, h0⟩

theorem mca_coll_switch_barrier_module_destruct_enabled (shl_ub : Nat → Nat)
    (w : switch_barrier_world)
    (he : w.module.offload_enabled = true) (hd : w.module.device = true)
    (hg : w.module.group_config.group_id < uint32_of_int w.device.num_groups)
    (hfm : w.module.local_state.flag_memory ≠ NULL ∧
      w.module.local_state.flag_memory ≠ MAP_FAILED) :
    (mca_coll_switch_barrier_module_destruct shl_ub w).module.local_state.flag_memory =
      NULL ∧
    (mca_coll_switch_barrier_module_destruct shl_ub w).module.local_state.arrival_flag =
      NULL ∧
    (mca_coll_switch_barrier_module_destruct shl_ub w).module.local_state.release_flag =
      NULL ∧
    (w.module.iommu_ctx = true →
      (mca_coll_switch_barrier_module_destruct shl_ub w).module.local_state.iommu_iova = 0) ∧
    (mca_coll_switch_barrier_module_destruct shl_ub w).host =
      w.host.munmap w.module.local_state.flag_memory
        w.module.local_state.flag_memory_size ∧
    (mca_coll_switch_barrier_module_destruct shl_ub w).device.base_addr =
      w.device.base_addr ∧
    (mca_coll_switch_barrier_module_destruct shl_ub w).device.group_allocation_mask =
      w.device.group_allocation_mask &&&
        ((2 ^ 64 - 1) ^^^ shl_1ULL shl_ub w.module.group_config.group_id) ∧
    (mca_coll_switch_barrier_module_destruct shl_ub w).device.writes = w.device.writes ++
      (if NULL = w.device.base_addr ∨ w.device.base_addr = MAP_FAILED then []
        else [(switch_barrier_calc_reg_addr w.module.group_config.group_id
          SWITCH_BARRIER_REG_CONTROL, 0)]) := by
  obtain ⟨d1, hf, h1, h2, h3⟩ :=
    switch_barrier_free_group_writes shl_ub w.device w.module.group_config.group_id hg
  obtain ⟨s1, c1, ht, h4, h5, h6, h7⟩ :=
    switch_barrier_fini_local_state_effect w.module.local_state
      (if w.module.iommu_ctx then some w.iommu_ctx else none) w.host hfm
  simp only [mca_coll_switch_barrier_module_destruct, he, hd, and_self, if_true, hf, ht,
    Option.getD_some]
  refine ⟨h4, h5, h6, ?_, trivial, h1, h2, h3⟩
  intro hc
  apply h7
  simp [hc]

theorem mca_coll_gba_module_destruct_disabled (w : gba_world)
    (h : w.module.offload_enabled = false) : mca_coll_gba_module_destruct w = w := by
  simp [mca_coll_gba_module_destruct, h]

theorem mca_coll_switch_barrier_module_disable_keeps (module_addr : Nat)
    (w : switch_barrier_world) :
    (mca_coll_switch_barrier_module_disable module_addr w).1 = OMPI_SUCCESS ∧
    (mca_coll_switch_barrier_module_disable module_addr w).2.module.offload_enabled =
      w.module.offload_enabled ∧
    (mca_coll_switch_barrier_module_disable module_addr w).2.module.device =
      w.module.device ∧
    (mca_coll_switch_barrier_module_disable module_addr w).2.module.iommu_ctx =
      w.module.iommu_ctx ∧
    (mca_coll_switch_barrier_module_disable module_addr w).2.module.group_config =
      w.module.group_config ∧
    (mca_coll_switch_barrier_module_disable module_addr w).2.module.local_state =
      w.module.local_state ∧
    (mca_coll_switch_barrier_module_disable module_addr w).2.device = w.device ∧
    (mca_coll_switch_barrier_module_disable module_addr w).2.iommu_ctx = w.iommu_ctx ∧
    (mca_coll_switch_barrier_module_disable module_addr w).2.host = w.host := by
  simp only [mca_coll_switch_barrier_module_disable,
    SWITCH_BARRIER_UNINSTALL_COLL_API_barrier, SWITCH_BARRIER_UNINSTALL_COLL_API_ibarrier]
  split_ifs <;> (refine ⟨?_, ?_, ?_, ?_, ?_, ?_, ?_, ?_, ?_⟩ <;> trivial)

/-- C19 (amended). Module disable of an offload-enabled module (either variant)
only restores dispatch entries: it leaves the device, its allocation mask, the
rendezvous state and the host as they were.  The hardware is released by the
destructor: after module disable followed by destruct, the group bit of the
module is clear in the device allocation mask and the rendezvous state is
unmapped and freed (the flag pointers are `NULL`, the DMA or IOMMU address is 0
and the flag memory has been passed to `munmap`). -/
theorem module_teardown_releases_hardware :
    (∀ (w : gba_world),
      w.module.offload_enabled = true → w.module.device = true →
      w.module.config.group_id < 32 →
      (w.module.local_state.flag_memory ≠ NULL ∧
        w.module.local_state.flag_memory ≠ MAP_FAILED) →
      (mca_coll_gba_module_disable w).2.module = w.module ∧
      (mca_coll_gba_module_disable w).2.device = w.device ∧
      (mca_coll_gba_module_disable w).2.host = w.host ∧
      (mca_coll_gba_module_destruct
        (mca_coll_gba_module_disable w).2).device.group_alloc_mask.testBit
          w.module.config.group_id = false ∧
      (mca_coll_gba_module_destruct
        (mca_coll_gba_module_disable w).2).module.local_state.flag_memory = NULL ∧
      (mca_coll_gba_module_destruct
        (mca_coll_gba_module_disable w).2).module.local_state.release_flag = NULL ∧
      (mca_coll_gba_module_destruct
        (mca_coll_gba_module_disable w).2).module.local_state.dma_addr = 0 ∧
      (mca_coll_gba_module_destruct (mca_coll_gba_module_disable w).2).host.mapped =
        w.host.mapped.erase
          (w.module.local_state.flag_memory, w.module.local_state.flag_size) ∧
      (mca_coll_gba_module_destruct (mca_coll_gba_module_disable w).2).host.unmapped =
        w.host.unmapped ++
          [(w.module.local_state.flag_memory, w.module.local_state.flag_size)]) ∧
    (∀ (shl_ub : Nat → Nat) (module_addr : Nat) (w : switch_barrier_world),
      w.module.offload_enabled = true → w.module.device = true →
      w.module.iommu_ctx = true →
      w.module.group_config.group_id < uint32_of_int w.device.num_groups →
      w.module.group_config.group_id < 64 →
      (w.module.local_state.flag_memory ≠ NULL ∧
        w.module.local_state.flag_memory ≠ MAP_FAILED) →
      (mca_coll_switch_barrier_module_disable module_addr w).2.module.local_state =
        w.module.local_state ∧
      (mca_coll_switch_barrier_module_disable module_addr w).2.device = w.device ∧
      (mca_coll_switch_barrier_module_disable module_addr w).2.host = w.host ∧
      (mca_coll_switch_barrier_module_destruct shl_ub
        (mca_coll_switch_barrier_module_disable module_addr
          w).2).device.group_allocation_mask.testBit
            w.module.group_config.group_id = false ∧
      (mca_coll_switch_barrier_module_destruct shl_ub
        (mca_coll_switch_barrier_module_disable module_addr
          w).2).module.local_state.flag_memory = NULL ∧
      (mca_coll_switch_barrier_module_destruct shl_ub
        (mca_coll_switch_barrier_module_disable module_addr
          w).2).module.local_state.arrival_flag = NULL ∧
      (mca_coll_switch_barrier_module_destruct shl_ub
        (mca_coll_switch_barrier_module_disable module_addr
          w).2).module.local_state.release_flag = NULL ∧
      (mca_coll_switch_barrier_module_destruct shl_ub
        (mca_coll_switch_barrier_module_disable module_addr
          w).2).module.local_state.iommu_iova = 0 ∧
      (mca_coll_switch_barrier_module_destruct shl_ub
        (mca_coll_switch_barrier_module_disable module_addr w).2).host.mapped =
        w.host.mapped.erase
          (w.module.local_state.flag_memory, w.module.local_state.flag_memory_size) ∧
      (mca_coll_switch_barrier_module_destruct shl_ub
        (mca_coll_switch_barrier_module_disable module_addr w).2).host.unmapped =
        w.host.unmapped ++
          [(w.module.local_state.flag_memory, w.module.local_state.flag_memory_size)]) := by
  constructor
  · intro w he hd hg hfm
    obtain ⟨_, h2, h3, h4, h5, _, h7, _, _⟩ :=
      mca_coll_gba_module_destruct_enabled (mca_coll_gba_module_disable w).2 he hd hg hfm
    refine ⟨rfl, rfl, rfl, ?_, h2, h3, h4, ?_, ?_⟩
    · rw [h7]
      show (w.device.group_alloc_mask &&&
        ((2 ^ 32 - 1) ^^^ (1 <<< w.module.config.group_id))).testBit
          w.module.config.group_id = false
      rw [testBit_and_not_one_shiftLeft _ _ _ hg]
      simp
    · rw [h5]; rfl
    · rw [h5]; rfl
  · intro shl_ub module_addr w he hd hc hg hg64 hfm
    obtain ⟨_, k1, k2, k3, k4, k5, k6, _, k8⟩ :=
      mca_coll_switch_barrier_module_disable_keeps module_addr w
    obtain ⟨h1, h2, h3, h4, h5, _, h7, _⟩ :=
      mca_coll_switch_barrier_module_destruct_enabled shl_ub
        (mca_coll_switch_barrier_module_disable module_addr w).2
        (by rw [k1]; exact he) (by rw [k2]; exact hd) (by rw [k4, k6]; exact hg)
        (by rw [k5]; exact hfm)
    refine ⟨k5, k6, k8, ?_, h1, h2, h3, h4 (by rw [k3]; exact hc), ?_, ?_⟩
    · rw [h7, k6, k4]
      exact testBit_and_not_shl_1ULL shl_ub _ _ hg64
    · rw [h5, k5, k8]; rfl
    · rw [h5, k5, k8]; rfl

/-- Witness for C19: the enabled sample modules satisfy the hypotheses; after
disable and destruct the bit of group 1 is clear and the flag memory at
`0x7000` has been unmapped. -/
theorem module_teardown_releases_hardware_witness :
    (gba_world_enabled_sample.module.offload_enabled = true ∧
      gba_world_enabled_sample.module.config.group_id = 1 ∧
      (mca_coll_gba_module_destruct
        (mca_coll_gba_module_disable
          gba_world_enabled_sample).2).device.group_alloc_mask.testBit
            gba_world_enabled_sample.module.config.group_id = false) ∧
    (switch_barrier_world_enabled_sample.module.offload_enabled = true ∧
      (mca_coll_switch_barrier_module_destruct shl_ub_mod64
        (mca_coll_switch_barrier_module_disable module_addr_sample
          switch_barrier_world_enabled_sample).2).module.local_state.flag_memory = NULL) :=
  ⟨⟨by decide, by decide,
      (module_teardown_releases_hardware.1 gba_world_enabled_sample (by decide) (by decide)
        (by decide) (by decide)).2.2.2.1⟩,
    by decide,
    (module_teardown_releases_hardware.2 shl_ub_mod64 module_addr_sample
      switch_barrier_world_enabled_sample (by decide) (by decide) (by decide) (by decide)
      (by decide) (by decide)).2.2.2.2.1⟩

/-- Counterexample for C19 as stated: after module disable alone of the enabled
sample modules, the bit of the module's group (group 1) is still set in the
device allocation mask and the flag memory at `0x7000` is still mapped; nothing
has been passed to `munmap`. -/
theorem module_disable_releases_hardware_counterexample :
    (gba_world_enabled_sample.module.offload_enabled = true ∧
      (mca_coll_gba_module_disable
        gba_world_enabled_sample).2.device.group_alloc_mask.testBit
          gba_world_enabled_sample.module.config.group_id = true ∧
      (mca_coll_gba_module_disable
        gba_world_enabled_sample).2.module.local_state.flag_memory = 0x7000 ∧
      (mca_coll_gba_module_disable gba_world_enabled_sample).2.host.mapped =
        [(0x7000, 4096)] ∧
      (mca_coll_gba_module_disable gba_world_enabled_sample).2.host.unmapped = []) ∧
    (switch_barrier_world_enabled_sample.module.offload_enabled = true ∧
      (mca_coll_switch_barrier_module_disable module_addr_sample
        switch_barrier_world_enabled_sample).2.device.group_allocation_mask.testBit
          switch_barrier_world_enabled_sample.module.group_config.group_id = true ∧
      (mca_coll_switch_barrier_module_disable module_addr_sample
        switch_barrier_world_enabled_sample).2.module.local_state.flag_memory = 0x7000 ∧
      (mca_coll_switch_barrier_module_disable module_addr_sample
        switch_barrier_world_enabled_sample).2.host.mapped = [(0x7000, 4096)] ∧
      (mca_coll_switch_barrier_module_disable module_addr_sample
        switch_barrier_world_enabled_sample).2.host.unmapped = []) := by
  refine ⟨⟨?_, ?_, ?_, ?_, ?_⟩, ?_, ?_, ?_, ?_, ?_⟩ <;> decide

/-- C20. For an offload-enabled module (either variant), module disable returns
`OMPI_SUCCESS` and frees nothing, and the destructor that follows (which
returns no code) frees exactly once: the allocation mask loses exactly the bit
of the module's group, the device sees exactly one reset store to the control
register of that group (none when the device has no mapping), `munmap` is
called exactly once, on the flag memory, and the DMA address is unmapped
exactly once (not at all when it is 0).  The GBA destructor leaves the module
offload-disabled, so running it again changes nothing. -/
theorem module_teardown_frees_once :
    (∀ (w : gba_world),
      w.module.offload_enabled = true → w.module.device = true →
      w.module.config.group_id < 32 →
      (w.module.local_state.flag_memory ≠ NULL ∧
        w.module.local_state.flag_memory ≠ MAP_FAILED) →
      (mca_coll_gba_module_disable w).1 = OMPI_SUCCESS ∧
      (mca_coll_gba_module_disable w).2.device.group_alloc_mask =
        w.device.group_alloc_mask ∧
      (mca_coll_gba_module_disable w).2.device.writes = w.device.writes ∧
      (mca_coll_gba_module_disable w).2.host.unmapped = w.host.unmapped ∧
      (mca_coll_gba_module_disable w).2.dma_ctx.unmap_calls = w.dma_ctx.unmap_calls ∧
      (mca_coll_gba_module_destruct (mca_coll_gba_module_disable w).2).device.group_alloc_mask
        = w.device.group_alloc_mask &&&
          ((2 ^ 32 - 1) ^^^ (1 <<< w.module.config.group_id)) ∧
      (mca_coll_gba_module_destruct (mca_coll_gba_module_disable w).2).device.writes =
        w.device.writes ++
          (if w.device.base_addr = NULL ∨ w.device.base_addr = MAP_FAILED then []
            else [((GBA_GROUP_REG_BASE w.module.config.group_id + GBA_REG_CONTROL) % 2 ^ 32,
              GBA_CTRL_RESET)]) ∧
      (mca_coll_gba_module_destruct (mca_coll_gba_module_disable w).2).host.unmapped =
        w.host.unmapped ++
          [(w.module.local_state.flag_memory, w.module.local_state.flag_size)] ∧
      (mca_coll_gba_module_destruct (mca_coll_gba_module_disable w).2).dma_ctx.unmap_calls =
        w.dma_ctx.unmap_calls ++
          (if w.module.local_state.dma_addr ≠ 0 then [w.module.local_state.dma_addr]
            else []) ∧
      mca_coll_gba_module_destruct
          (mca_coll_gba_module_destruct (mca_coll_gba_module_disable w).2) =
        mca_coll_gba_module_destruct (mca_coll_gba_module_disable w).2) ∧
    (∀ (shl_ub : Nat → Nat) (module_addr : Nat) (w : switch_barrier_world),
      w.module.offload_enabled = true → w.module.device = true →
      w.module.group_config.group_id < uint32_of_int w.device.num_groups →
      (w.module.local_state.flag_memory ≠ NULL ∧
        w.module.local_state.flag_memory ≠ MAP_FAILED) →
      (mca_coll_switch_barrier_module_disable module_addr w).1 = OMPI_SUCCESS ∧
      (mca_coll_switch_barrier_module_disable module_addr w).2.device = w.device ∧
      (mca_coll_switch_barrier_module_disable module_addr w).2.host = w.host ∧
      (mca_coll_switch_barrier_module_destruct shl_ub
        (mca_coll_switch_barrier_module_disable module_addr
          w).2).device.group_allocation_mask =
        w.device.group_allocation_mask &&&
          ((2 ^ 64 - 1) ^^^ shl_1ULL shl_ub w.module.group_config.group_id) ∧
      (mca_coll_switch_barrier_module_destruct shl_ub
        (mca_coll_switch_barrier_module_disable module_addr w).2).device.writes =
        w.device.writes ++
          (if NULL = w.device.base_addr ∨ w.device.base_addr = MAP_FAILED then []
            else [(switch_barrier_calc_reg_addr w.module.group_config.group_id
              SWITCH_BARRIER_REG_CONTROL, 0)]) ∧
      (mca_coll_switch_barrier_module_destruct shl_ub
        (mca_coll_switch_barrier_module_disable module_addr w).2).host.unmapped =
        w.host.unmapped ++
          [(w.module.local_state.flag_memory, w.module.local_state.flag_memory_size)]) := by
  constructor
  · intro w he hd hg hfm
    obtain ⟨h1, _, _, _, h5, _, h7, h8, h9⟩ :=
      mca_coll_gba_module_destruct_enabled (mca_coll_gba_module_disable w).2 he hd hg hfm
    refine ⟨rfl, rfl, rfl, rfl, rfl, h7, h8, ?_, h9, ?_⟩
    · rw [h5]; rfl
    · exact mca_coll_gba_module_destruct_disabled _ h1
  · intro shl_ub module_addr w he hd hg hfm
    obtain ⟨k0, k1, k2, _, k4, k5, k6, _, k8⟩ :=
      mca_coll_switch_barrier_module_disable_keeps module_addr w
    obtain ⟨_, _, _, _, h5, _, h7, h8⟩ :=
      mca_coll_switch_barrier_module_destruct_enabled shl_ub
        (mca_coll_switch_barrier_module_disable module_addr w).2
        (by rw [k1]; exact he) (by rw [k2]; exact hd) (by rw [k4, k6]; exact hg)
        (by rw [k5]; exact hfm)
    refine ⟨k0, k6, k8, ?_, ?_, ?_⟩
    · rw [h7, k6, k4]
    · rw [h8, k6, k4]
    · rw [h5, k5, k8]; rfl

/-- Witness for C20: on the enabled sample modules, disable followed by
destruct clears the bit of group 1 (the mask goes from 3 back to 1), issues one
reset store and calls `munmap` once on the page at `0x7000`. -/
theorem module_teardown_frees_once_witness :
    (gba_world_enabled_sample.module.offload_enabled = true ∧
      gba_world_enabled_sample.device.group_alloc_mask = 3 ∧
      (mca_coll_gba_module_destruct
        (mca_coll_gba_module_disable gba_world_enabled_sample).2).device.group_alloc_mask =
        gba_world_enabled_sample.device.group_alloc_mask &&&
          ((2 ^ 32 - 1) ^^^ (1 <<< gba_world_enabled_sample.module.config.group_id)) ∧
      (mca_coll_gba_module_destruct
        (mca_coll_gba_module_disable gba_world_enabled_sample).2).device.group_alloc_mask
        = 1 ∧
      (mca_coll_gba_module_destruct
        (mca_coll_gba_module_disable gba_world_enabled_sample).2).host.unmapped =
        [(0x7000, 4096)]) ∧
    (switch_barrier_world_enabled_sample.module.offload_enabled = true ∧
      (mca_coll_switch_barrier_module_destruct shl_ub_mod64
        (mca_coll_switch_barrier_module_disable module_addr_sample
          switch_barrier_world_enabled_sample).2).host.unmapped =
        switch_barrier_world_enabled_sample.host.unmapped ++
          [(switch_barrier_world_enabled_sample.module.local_state.flag_memory,
            switch_barrier_world_enabled_sample.module.local_state.flag_memory_size)]) :=
  ⟨⟨by decide, by decide,
      (module_teardown_frees_once.1 gba_world_enabled_sample (by decide) (by decide)
        (by decide) (by decide)).2.2.2.2.2.1,
      by decide, by decide⟩,
    by decide,
    (module_teardown_frees_once.2 shl_ub_mod64 module_addr_sample
      switch_barrier_world_enabled_sample (by decide) (by decide) (by decide)
      (by decide)).2.2.2.2.2⟩

/-! ## Dispatch entries across enable and disable -/

theorem mca_coll_gba_module_enable_saved (fns : coll_entry_points) (module_addr : Nat)
    (w : gba_world) :
    (mca_coll_gba_module_enable fns module_addr w).2.module.previous_barrier =
        w.comm.coll_barrier ∧
      (mca_coll_gba_module_enable fns module_addr w).2.module.previous_barrier_module =
        w.comm.coll_barrier_module ∧
      (mca_coll_gba_module_enable fns module_addr w).2.module.previous_ibarrier =
        w.comm.coll_ibarrier ∧
      (mca_coll_gba_module_enable fns module_addr w).2.module.previous_ibarrier_module =
        w.comm.coll_ibarrier_module :=
  gba_configure_comm_domain_keeps
    { w.module with previous_barrier := w.comm.coll_barrier,
                    previous_barrier_module := w.comm.coll_barrier_module,
                    previous_ibarrier := w.comm.coll_ibarrier,
                    previous_ibarrier_module := w.comm.coll_ibarrier_module }
    w.comm w.device w.dma_ctx w.host

theorem mca_coll_gba_module_disable_comm (w : gba_world) :
    ((mca_coll_gba_module_disable w).2.comm.coll_barrier =
        (if w.module.previous_barrier_module ≠ NULL then w.module.previous_barrier
          else w.comm.coll_barrier)) ∧
      ((mca_coll_gba_module_disable w).2.comm.coll_barrier_module =
        (if w.module.previous_barrier_module ≠ NULL then w.module.previous_barrier_module
          else w.comm.coll_barrier_module)) ∧
      ((mca_coll_gba_module_disable w).2.comm.coll_ibarrier =
        (if w.module.previous_ibarrier_module ≠ NULL then w.module.previous_ibarrier
          else w.comm.coll_ibarrier)) ∧
      ((mca_coll_gba_module_disable w).2.comm.coll_ibarrier_module =
        (if w.module.previous_ibarrier_module ≠ NULL then w.module.previous_ibarrier_module
          else w.comm.coll_ibarrier_module)) := by
  simp only [mca_coll_gba_module_disable, MCA_COLL_INSTALL_API_barrier,
    MCA_COLL_INSTALL_API_ibarrier]
  split_ifs <;> exact ⟨rfl, rfl, rfl, rfl⟩

/-- C21. What `mca_coll_gba_module_enable` followed by
`mca_coll_gba_module_disable` does to the barrier and non-blocking barrier
entries of the communicator.  An entry whose module was set before enable is
restored, function and module.  An entry whose module was `NULL` before enable
is not restored: it still holds the GBA function and the GBA module after
disable.  On the sample communicator with empty entries, the barrier entry is
`NULL` before enable and holds function 103 and module 500 after disable. -/
theorem gba_enable_disable_dispatch :
    (∀ (fns : coll_entry_points) (module_addr : Nat) (w : gba_world),
      (w.comm.coll_barrier_module ≠ NULL →
        (mca_coll_gba_module_disable
            (mca_coll_gba_module_enable fns module_addr w).2).2.comm.coll_barrier =
          w.comm.coll_barrier ∧
        (mca_coll_gba_module_disable
            (mca_coll_gba_module_enable fns module_addr w).2).2.comm.coll_barrier_module =
          w.comm.coll_barrier_module) ∧
      (w.comm.coll_ibarrier_module ≠ NULL →
        (mca_coll_gba_module_disable
            (mca_coll_gba_module_enable fns module_addr w).2).2.comm.coll_ibarrier =
          w.comm.coll_ibarrier ∧
        (mca_coll_gba_module_disable
            (mca_coll_gba_module_enable fns module_addr w).2).2.comm.coll_ibarrier_module =
          w.comm.coll_ibarrier_module) ∧
      (w.comm.coll_barrier_module = NULL →
        (mca_coll_gba_module_disable
            (mca_coll_gba_module_enable fns module_addr w).2).2.comm.coll_barrier =
          fns.barrier ∧
        (mca_coll_gba_module_disable
            (mca_coll_gba_module_enable fns module_addr w).2).2.comm.coll_barrier_module =
          module_addr) ∧
      (w.comm.coll_ibarrier_module = NULL →
        (mca_coll_gba_module_disable
            (mca_coll_gba_module_enable fns module_addr w).2).2.comm.coll_ibarrier =
          fns.ibarrier ∧
        (mca_coll_gba_module_disable
            (mca_coll_gba_module_enable fns module_addr w).2).2.comm.coll_ibarrier_module =
          module_addr)) ∧
    (gba_world_empty_sample.comm.coll_barrier = NULL ∧
      gba_world_empty_sample.comm.coll_barrier_module = NULL ∧
      (mca_coll_gba_module_disable
          (mca_coll_gba_module_enable coll_entry_points_sample module_addr_sample
            gba_world_empty_sample).2).2.comm.coll_barrier = 103 ∧
      (mca_coll_gba_module_disable
          (mca_coll_gba_module_enable coll_entry_points_sample module_addr_sample
            gba_world_empty_sample).2).2.comm.coll_barrier_module = 500) := by
  refine ⟨?_, by decide, by decide, by decide, by decide⟩
  intro fns module_addr w
  obtain ⟨s1, s2, s3, s4⟩ := mca_coll_gba_module_enable_saved fns module_addr w
  obtain ⟨d1, d2, d3, d4⟩ :=
    mca_coll_gba_module_disable_comm (mca_coll_gba_module_enable fns module_addr w).2
  rw [s1, s2] at d1
  rw [s2] at d2
  rw [s3, s4] at d3
  rw [s4] at d4
  refine ⟨fun h => ?_, fun h => ?_, fun h => ?_, fun h => ?_⟩
  · rw [d1, d2]; simp only [h, ne_eq, not_false_eq_true, if_true, and_self]
  · rw [d3, d4]; simp only [h, ne_eq, not_false_eq_true, if_true, and_self]
  · rw [d1, d2]; simp only [h, ne_eq, not_true_eq_false, if_false]; exact ⟨rfl, rfl⟩
  · rw [d3, d4]; simp only [h, ne_eq, not_true_eq_false, if_false]; exact ⟨rfl, rfl⟩

/-- Witness for C21: on the sample communicator, whose barrier entry holds
function 1 and module 2, enable followed by disable restores the entry. -/
theorem gba_enable_disable_dispatch_witness :
    gba_world_sample.comm.coll_barrier_module ≠ NULL ∧
    (mca_coll_gba_module_disable
        (mca_coll_gba_module_enable coll_entry_points_sample module_addr_sample
          gba_world_sample).2).2.comm.coll_barrier = gba_world_sample.comm.coll_barrier ∧
    (mca_coll_gba_module_disable
        (mca_coll_gba_module_enable coll_entry_points_sample module_addr_sample
          gba_world_sample).2).2.comm.coll_barrier_module =
      gba_world_sample.comm.coll_barrier_module :=
  ⟨by decide,
    (gba_enable_disable_dispatch.1 coll_entry_points_sample module_addr_sample
      gba_world_sample).1 (by decide)⟩

/-! ## Arrival encoding -/

theorem arrival_value_eq (hi lo : Nat) (hhi : hi < 2 ^ 32) (hlo : lo < 2 ^ 32) :
    ((hi <<< 32) % 2 ^ 64) ||| lo = 2 ^ 32 * hi + lo := by
  have h : hi * 2 ^ 32 < 2 ^ 64 := by omega
  rw [Nat.shiftLeft_eq, Nat.mod_eq_of_lt h, Nat.mul_comm, ← Nat.mul_add_lt_is_or hlo]

theorem arrival_value_fields (hi lo : Nat) (hhi : hi < 2 ^ 32) (hlo : lo < 2 ^ 32) :
    (((hi <<< 32) % 2 ^ 64) ||| lo) >>> 32 = hi ∧
      (((hi <<< 32) % 2 ^ 64) ||| lo) % 2 ^ 32 = lo ∧
      (((hi <<< 32) % 2 ^ 64) ||| lo) < 2 ^ 64 := by
  rw [arrival_value_eq hi lo hhi hlo, Nat.shiftRight_eq_div_pow]
  refine ⟨?_, ?_, ?_⟩ <;> omega

theorem switch_barrier_send_arrival_mapped (d : switch_barrier_device_t) (g m s : Nat)
    (hm : ¬ (d.base_addr = NULL ∨ d.base_addr = MAP_FAILED)) :
    switch_barrier_send_arrival (some d) g m s =
      some (OMPI_SUCCESS,
        some { d with
          regs := store64 d.regs
            (switch_barrier_calc_reg_addr g SWITCH_BARRIER_REG_ARRIVAL_ADDR)
            (((m <<< 32) % 2 ^ 64) ||| s),
          writes := d.writes ++
            [(switch_barrier_calc_reg_addr g SWITCH_BARRIER_REG_ARRIVAL_ADDR,
              ((m <<< 32) % 2 ^ 64) ||| s)] }) := by
  simp only [switch_barrier_send_arrival, hm, if_false]

/-- C22. For all 32-bit `member_id` and `sequence`, `gba_send_arrival` on a
mapped device stores one 64-bit value `v` in the arrival register of the group;
`v >> 32` is `sequence` and `v mod 2 ^ 32` is `member_id`, so the pair is
recovered from the value.  The encoding is injective: two calls that store the
same value were given the same `member_id` and the same `sequence`. -/
theorem gba_arrival_encoding_roundtrip :
    (∀ (d : gba_device_t) (g m s : Nat),
      ¬ (d.base_addr = NULL ∨ d.base_addr = MAP_FAILED) → m < 2 ^ 32 → s < 2 ^ 32 →
      ∃ d1 v, gba_send_arrival (some d) g m s = some (OMPI_SUCCESS, some d1) ∧
        d1.writes = d.writes ++
          [(GBA_GROUP_REG_BASE g % 2 ^ 32 + GBA_REG_ARRIVAL_COUNT, v)] ∧
        load64 d1.regs (GBA_GROUP_REG_BASE g % 2 ^ 32 + GBA_REG_ARRIVAL_COUNT) = v ∧
        v >>> 32 = s ∧ v % 2 ^ 32 = m) ∧
    (∀ (d d' d1 d1' : gba_device_t) (g g' m s m' s' : Nat),
      m < 2 ^ 32 → s < 2 ^ 32 → m' < 2 ^ 32 → s' < 2 ^ 32 →
      gba_send_arrival (some d) g m s = some (OMPI_SUCCESS, some d1) →
      gba_send_arrival (some d') g' m' s' = some (OMPI_SUCCESS, some d1') →
      d1.writes.getLast?.map Prod.snd = d1'.writes.getLast?.map Prod.snd →
      m = m' ∧ s = s') := by
  constructor
  · intro d g m s hm hm32 hs32
    obtain ⟨h1, h2, h3⟩ := arrival_value_fields s m hs32 hm32
    refine ⟨_, ((s <<< 32) % 2 ^ 64) ||| m, gba_send_arrival_mapped d g m s hm, rfl, ?_,
      h1, h2⟩
    show load64 (store64 d.regs _ _) _ = _
    rw [load64_store64_same, Nat.mod_eq_of_lt h3]
  · intro d d' d1 d1' g g' m s m' s' hm hs hm' hs' h1 h2 hv
    have hmap : ¬ (d.base_addr = NULL ∨ d.base_addr = MAP_FAILED) := by
      intro h
      simp [gba_send_arrival, h] at h1
    have hmap' : ¬ (d'.base_addr = NULL ∨ d'.base_addr = MAP_FAILED) := by
      intro h
      simp [gba_send_arrival, h] at h2
    rw [gba_send_arrival_mapped d g m s hmap] at h1
    rw [gba_send_arrival_mapped d' g' m' s' hmap'] at h2
    simp only [Option.some.injEq, Prod.mk.injEq, true_and] at h1 h2
    subst h1
    subst h2
    simp only [List.getLast?_concat, Option.map_some', Option.some.injEq] at hv
    obtain ⟨a1, a2, _⟩ := arrival_value_fields s m hs hm
    obtain ⟨b1, b2, _⟩ := arrival_value_fields s' m' hs' hm'
    rw [hv] at a1 a2
    exact ⟨a2.symm.trans b2, a1.symm.trans b1⟩

/-- Witness for C22: member 5 in round 7 on group 1 of the sample device stores
`7 * 2 ^ 32 + 5` at offset `0x1010`, from which 7 and 5 are read back. -/
theorem gba_arrival_encoding_roundtrip_witness :
    ∃ d1 v, gba_send_arrival (some gba_device_sample) 1 5 7 = some (OMPI_SUCCESS, some d1) ∧
      d1.writes = gba_device_sample.writes ++
        [(GBA_GROUP_REG_BASE 1 % 2 ^ 32 + GBA_REG_ARRIVAL_COUNT, v)] ∧
      load64 d1.regs (GBA_GROUP_REG_BASE 1 % 2 ^ 32 + GBA_REG_ARRIVAL_COUNT) = v ∧
      v >>> 32 = 7 ∧ v % 2 ^ 32 = 5 :=
  gba_arrival_encoding_roundtrip.1 gba_device_sample 1 5 7 (by decide) (by decide)
    (by decide)

/-- C23. For all 32-bit `m` and `s`, on mapped devices, the value that
`switch_barrier_send_arrival` stores for member `m` and sequence `s` is the
value that `gba_send_arrival` stores for member `s` and sequence `m`: the two
variants put the fields in opposite halves.  For the same member `m` and
sequence `s` the two stored values are equal iff `m = s`. -/
theorem arrival_encodings_swapped :
    (∀ (ds : switch_barrier_device_t) (dg : gba_device_t) (g g' m s : Nat),
      ¬ (ds.base_addr = NULL ∨ ds.base_addr = MAP_FAILED) →
      ¬ (dg.base_addr = NULL ∨ dg.base_addr = MAP_FAILED) → m < 2 ^ 32 → s < 2 ^ 32 →
      ∃ ds1 dg1 v,
        switch_barrier_send_arrival (some ds) g m s = some (OMPI_SUCCESS, some ds1) ∧
        gba_send_arrival (some dg) g' s m = some (OMPI_SUCCESS, some dg1) ∧
        ds1.writes = ds.writes ++
          [(switch_barrier_calc_reg_addr g SWITCH_BARRIER_REG_ARRIVAL_ADDR, v)] ∧
        dg1.writes = dg.writes ++
          [(GBA_GROUP_REG_BASE g' % 2 ^ 32 + GBA_REG_ARRIVAL_COUNT, v)]) ∧
    (∀ (ds : switch_barrier_device_t) (dg : gba_device_t) (g g' m s : Nat),
      ¬ (ds.base_addr = NULL ∨ ds.base_addr = MAP_FAILED) →
      ¬ (dg.base_addr = NULL ∨ dg.base_addr = MAP_FAILED) → m < 2 ^ 32 → s < 2 ^ 32 →
      ∃ ds1 dg1 v v',
        switch_barrier_send_arrival (some ds) g m s = some (OMPI_SUCCESS, some ds1) ∧
        gba_send_arrival (some dg) g' m s = some (OMPI_SUCCESS, some dg1) ∧
        ds1.writes = ds.writes ++
          [(switch_barrier_calc_reg_addr g SWITCH_BARRIER_REG_ARRIVAL_ADDR, v)] ∧
        dg1.writes = dg.writes ++
          [(GBA_GROUP_REG_BASE g' % 2 ^ 32 + GBA_REG_ARRIVAL_COUNT, v')] ∧
        (v = v' ↔ m = s)) := by
  constructor
  · intro ds dg g g' m s hs hg _ _
    exact ⟨_, _, ((m <<< 32) % 2 ^ 64) ||| s, switch_barrier_send_arrival_mapped ds g m s hs,
      gba_send_arrival_mapped dg g' s m hg, rfl, rfl⟩
  · intro ds dg g g' m s hs hg hm32 hs32
    refine ⟨_, _, ((m <<< 32) % 2 ^ 64) ||| s, ((s <<< 32) % 2 ^ 64) ||| m,
      switch_barrier_send_arrival_mapped ds g m s hs, gba_send_arrival_mapped dg g' m s hg,
      rfl, rfl, ?_⟩
    rw [arrival_value_eq m s hm32 hs32, arrival_value_eq s m hs32 hm32]
    constructor <;> intro h <;> omega

/-- Witness for C23: for member 5 and sequence 7 on the sample devices the
switch stores `5 * 2 ^ 32 + 7`, which is what the GBA variant stores for member
7 and sequence 5. -/
theorem arrival_encodings_swapped_witness :
    ∃ ds1 dg1 v,
      switch_barrier_send_arrival (some switch_barrier_device_sample) 1 5 7 =
        some (OMPI_SUCCESS, some ds1) ∧
      gba_send_arrival (some gba_device_sample) 1 7 5 = some (OMPI_SUCCESS, some dg1) ∧
      ds1.writes = switch_barrier_device_sample.writes ++
        [(switch_barrier_calc_reg_addr 1 SWITCH_BARRIER_REG_ARRIVAL_ADDR, v)] ∧
      dg1.writes = gba_device_sample.writes ++
        [(GBA_GROUP_REG_BASE 1 % 2 ^ 32 + GBA_REG_ARRIVAL_COUNT, v)] :=
  arrival_encodings_swapped.1 switch_barrier_device_sample gba_device_sample 1 1 5 7
    (by decide) (by decide) (by decide) (by decide)

/-! ## Register accessor errors -/

/-- C24. On non-null arguments, `gba_reg_write` and `gba_reg_read` return the
error `OMPI_ERR_BAD_PARAM` whenever `group_id >= 32`, whether the device is
mapped or not; they return `OMPI_ERR_NOT_AVAILABLE` whenever `group_id < 32` and
the device has no valid mapping; otherwise they succeed and access the address
`group_id * 0x1000 + offset`, computed in 32-bit arithmetic as in the source
(it is the plain sum whenever that is below `2 ^ 32`).  On every error the
device, with its registers and its store trace, is unchanged and the read
output keeps its value. -/
theorem gba_reg_accessor_errors :
    (OMPI_ERR_BAD_PARAM ≠ OMPI_SUCCESS ∧ OMPI_ERR_NOT_AVAILABLE ≠ OMPI_SUCCESS) ∧
    (∀ (d : gba_device_t) (g off v v0 : Nat), g ≥ 32 →
      gba_reg_write (some d) g off v = (OMPI_ERR_BAD_PARAM, some d) ∧
      gba_reg_read (some d) g off (some v0) = (OMPI_ERR_BAD_PARAM, some v0)) ∧
    (∀ (d : gba_device_t) (g off v v0 : Nat), g < 32 →
      (d.base_addr = NULL ∨ d.base_addr = MAP_FAILED) →
      gba_reg_write (some d) g off v = (OMPI_ERR_NOT_AVAILABLE, some d) ∧
      gba_reg_read (some d) g off (some v0) = (OMPI_ERR_NOT_AVAILABLE, some v0)) ∧
    (∀ (d : gba_device_t) (g off v v0 : Nat), g < 32 →
      ¬ (d.base_addr = NULL ∨ d.base_addr = MAP_FAILED) →
      gba_reg_write (some d) g off v =
        (OMPI_SUCCESS,
          some { d with regs := store64 d.regs ((g * 0x1000 + off) % 2 ^ 32) v,
                        writes := d.writes ++ [((g * 0x1000 + off) % 2 ^ 32, v)] }) ∧
      gba_reg_read (some d) g off (some v0) =
        (OMPI_SUCCESS, some (load64 d.regs ((g * 0x1000 + off) % 2 ^ 32)))) ∧
    (∀ (d : gba_device_t) (g off v v0 : Nat), g < 32 →
      ¬ (d.base_addr = NULL ∨ d.base_addr = MAP_FAILED) → g * 0x1000 + off < 2 ^ 32 →
      gba_reg_write (some d) g off v =
        (OMPI_SUCCESS,
          some { d with regs := store64 d.regs (g * 0x1000 + off) v,
                        writes := d.writes ++ [(g * 0x1000 + off, v)] }) ∧
      gba_reg_read (some d) g off (some v0) =
        (OMPI_SUCCESS, some (load64 d.regs (g * 0x1000 + off)))) := by
  have hb : ∀ g, GBA_GROUP_REG_BASE g = g * 0x1000 := fun _ => rfl
  refine ⟨⟨by decide, by decide⟩, ?_, ?_, ?_, ?_⟩
  · intro d g off v v0 hg
    have h1 : g ≥ GBA_MAX_GROUPS := hg
    simp only [gba_reg_write, gba_reg_read, h1, if_true, and_self]
  · intro d g off v v0 hg hm
    have h1 : ¬ g ≥ GBA_MAX_GROUPS := by simp only [GBA_MAX_GROUPS]; omega
    simp only [gba_reg_write, gba_reg_read, h1, hm, if_false, if_true, and_self]
  · intro d g off v v0 hg hm
    have h1 : ¬ g ≥ GBA_MAX_GROUPS := by simp only [GBA_MAX_GROUPS]; omega
    simp only [gba_reg_write, gba_reg_read, h1, hm, if_false, hb, and_self]
  · intro d g off v v0 hg hm hlt
    have h1 : ¬ g ≥ GBA_MAX_GROUPS := by simp only [GBA_MAX_GROUPS]; omega
    simp only [gba_reg_write, gba_reg_read, h1, hm, if_false, hb, Nat.mod_eq_of_lt hlt,
      and_self]

/-- Witness for C24: on the sample devices, group 32 is rejected, group 1 of
the unmapped device is not available, and a write of 9 to offset 8 of group 1 of
the mapped device succeeds at address `0x1008`. -/
theorem gba_reg_accessor_errors_witness :
    (gba_reg_write (some gba_device_sample) 32 8 9 =
        (OMPI_ERR_BAD_PARAM, some gba_device_sample) ∧
      gba_reg_read (some gba_device_sample) 32 8 (some 5) = (OMPI_ERR_BAD_PARAM, some 5)) ∧
    (gba_reg_write (some gba_device_unmapped_sample) 1 8 9 =
        (OMPI_ERR_NOT_AVAILABLE, some gba_device_unmapped_sample) ∧
      gba_reg_read (some gba_device_unmapped_sample) 1 8 (some 5) =
        (OMPI_ERR_NOT_AVAILABLE, some 5)) ∧
    (gba_reg_write (some gba_device_sample) 1 8 9 =
        (OMPI_SUCCESS,
          some { gba_device_sample with
            regs := store64 gba_device_sample.regs (1 * 0x1000 + 8) 9,
            writes := gba_device_sample.writes ++ [(1 * 0x1000 + 8, 9)] }) ∧
      gba_reg_read (some gba_device_sample) 1 8 (some 5) =
        (OMPI_SUCCESS, some (load64 gba_device_sample.regs (1 * 0x1000 + 8)))) :=
  ⟨gba_reg_accessor_errors.2.1 gba_device_sample 32 8 9 5 (by decide),
    gba_reg_accessor_errors.2.2.1 gba_device_unmapped_sample 1 8 9 5 (by decide)
      (by decide),
    gba_reg_accessor_errors.2.2.2.2 gba_device_sample 1 8 9 5 (by decide) (by decide)
      (by decide)⟩

/-! ## Rendezvous state -/

theorem gba_local_state_init_success (s0 : gba_local_state_t)
    (ctx : Option gba_dma_context_t) (host : host_t)
    (h : (gba_local_state_init (some s0) ctx host).1 = OMPI_SUCCESS) :
    (host.mmap host.page_size).1 ≠ MAP_FAILED ∧
    gba_local_state_init (some s0) ctx host =
      (OMPI_SUCCESS,
        some ⟨(host.mmap host.page_size).1, 1, (host.mmap host.page_size).1, host.page_size,
          (host.mmap host.page_size).1⟩,
        (host.mmap host.page_size).2.memset_zero (host.mmap host.page_size).1
          host.page_size) := by
  by_cases hf : (host.mmap host.page_size).1 = MAP_FAILED
  · simp [gba_local_state_init, hf, OMPI_ERR_OUT_OF_RESOURCE, OMPI_SUCCESS] at h
  refine ⟨hf, ?_⟩
  cases ctx with
  | none => simp only [gba_local_state_init, hf, if_false]
  | some c =>
    by_cases hb : (host.mmap host.page_size).1 = NULL ∨ host.page_size = 0
    · simp [gba_local_state_init, gba_dma_map, hf, hb, OMPI_ERR_BAD_PARAM, OMPI_SUCCESS] at h
    · simp only [gba_local_state_init, gba_dma_map, hf, hb, if_false, ne_eq,
        not_true_eq_false, Option.getD_some]

theorem load64_memset_zero (h : host_t) (a len : Nat) (hlen : 8 ≤ len) :
    load64 (h.memset_zero a len).mem a = 0 := by
  have hz : ∀ k, k < 8 → (h.memset_zero a len).mem (a + k) = 0 := by
    intro k hk
    have : a ≤ a + k ∧ a + k < a + len := by omega
    simp only [host_t.memset_zero, this, and_self, if_true]
  have h0 := hz 0 (by decide)
  rw [Nat.add_zero] at h0
  rw [load64_eq, h0, hz 1 (by decide), hz 2 (by decide), hz 3 (by decide),
    hz 4 (by decide), hz 5 (by decide), hz 6 (by decide), hz 7 (by decide)]

/-- C25. After a successful `gba_local_state_init` on a host whose page holds
at least the 8 bytes of the flag, `expected_seq` is 1 and the release flag
reads 0 in the zeroed page, so `gba_poll_release (state, s)` is false for every
sequence `s >= 1`. -/
theorem gba_local_state_fresh (s0 : gba_local_state_t) (ctx : Option gba_dma_context_t)
    (host : host_t) (hpage : 8 ≤ host.page_size)
    (h : (gba_local_state_init (some s0) ctx host).1 = OMPI_SUCCESS) :
    ∃ st, (gba_local_state_init (some s0) ctx host).2.1 = some st ∧
      st.expected_seq = 1 ∧
      load64 (gba_local_state_init (some s0) ctx host).2.2.mem st.release_flag = 0 ∧
      ∀ s, s ≥ 1 →
        gba_poll_release st s (gba_local_state_init (some s0) ctx host).2.2 = false := by
  obtain ⟨_, he⟩ := gba_local_state_init_success s0 ctx host h
  rw [he]
  have hz := load64_memset_zero (host.mmap host.page_size).2 (host.mmap host.page_size).1
    host.page_size hpage
  refine ⟨_, rfl, rfl, hz, ?_⟩
  intro s hs
  simp only [gba_poll_release, hz, ge_iff_le, decide_eq_false_iff_not]
  omega

/-- Witness for C25: on the sample host the initialisation succeeds with the
flag page at `0x7000`, and round 1 is not released. -/
theorem gba_local_state_fresh_witness :
    (gba_local_state_init (some ⟨0, 0, 0, 0, 0⟩) (some gba_dma_context_sample)
      host_sample).1 = OMPI_SUCCESS ∧
    ∃ st, (gba_local_state_init (some ⟨0, 0, 0, 0, 0⟩) (some gba_dma_context_sample)
        host_sample).2.1 = some st ∧
      st.expected_seq = 1 ∧
      load64 (gba_local_state_init (some ⟨0, 0, 0, 0, 0⟩) (some gba_dma_context_sample)
        host_sample).2.2.mem st.release_flag = 0 ∧
      ∀ s, s ≥ 1 →
        gba_poll_release st s (gba_local_state_init (some ⟨0, 0, 0, 0, 0⟩)
          (some gba_dma_context_sample) host_sample).2.2 = false :=
  ⟨by decide,
    gba_local_state_fresh ⟨0, 0, 0, 0, 0⟩ (some gba_dma_context_sample) host_sample
      (by decide) (by decide)⟩

/-- C28. For every successful `gba_local_state_init`, with a DMA context or
with `NULL`, the flag memory is the address that `mmap` returned and `dma_addr`
equals it.  `gba_dma_map` is the identity on the address: on valid arguments it
succeeds and writes `vaddr` to the output; for a `NULL` address or a zero size
it returns `OMPI_ERR_BAD_PARAM` and leaves the output as it was. -/
theorem gba_dma_addr_is_host_addr :
    (∀ (s0 : gba_local_state_t) (ctx : Option gba_dma_context_t) (host : host_t),
      (gba_local_state_init (some s0) ctx host).1 = OMPI_SUCCESS →
      ∃ st, (gba_local_state_init (some s0) ctx host).2.1 = some st ∧
        st.flag_memory = (host.mmap host.page_size).1 ∧
        st.flag_memory ≠ MAP_FAILED ∧
        st.dma_addr = st.flag_memory) ∧
    (∀ (c : gba_dma_context_t) (vaddr size out : Nat), vaddr ≠ NULL → size ≠ 0 →
      gba_dma_map (some c) vaddr size (some out) = (OMPI_SUCCESS, some vaddr)) ∧
    (∀ (ctx : Option gba_dma_context_t) (vaddr size : Nat) (out : Option Nat),
      (vaddr = NULL ∨ size = 0) →
      gba_dma_map ctx vaddr size out = (OMPI_ERR_BAD_PARAM, out)) ∧
    OMPI_ERR_BAD_PARAM ≠ OMPI_SUCCESS := by
  refine ⟨?_, ?_, ?_, by decide⟩
  · intro s0 ctx host h
    obtain ⟨hf, he⟩ := gba_local_state_init_success s0 ctx host h
    rw [he]
    exact ⟨_, rfl, rfl, hf, rfl⟩
  · intro c vaddr size out hv hs
    simp only [gba_dma_map, hv, hs, or_self, if_false]
  · intro ctx vaddr size out hb
    cases ctx <;> cases out <;> simp only [gba_dma_map, hb, if_true]

/-- Witness for C28: on the sample host, with the sample DMA context and with
`NULL`, the initialisation succeeds and `dma_addr` is the page address
`0x7000`; mapping the `NULL` address is rejected and leaves the output 5. -/
theorem gba_dma_addr_is_host_addr_witness :
    ((gba_local_state_init (some ⟨0, 0, 0, 0, 0⟩) (some gba_dma_context_sample)
        host_sample).1 = OMPI_SUCCESS ∧
      ∃ st, (gba_local_state_init (some ⟨0, 0, 0, 0, 0⟩) (some gba_dma_context_sample)
          host_sample).2.1 = some st ∧
        st.flag_memory = (host_sample.mmap host_sample.page_size).1 ∧
        st.flag_memory ≠ MAP_FAILED ∧ st.dma_addr = st.flag_memory) ∧
    ((gba_local_state_init (some ⟨0, 0, 0, 0, 0⟩) none host_sample).1 = OMPI_SUCCESS ∧
      ∃ st, (gba_local_state_init (some ⟨0, 0, 0, 0, 0⟩) none host_sample).2.1 = some st ∧
        st.flag_memory = (host_sample.mmap host_sample.page_size).1 ∧
        st.flag_memory ≠ MAP_FAILED ∧ st.dma_addr = st.flag_memory) ∧
    (host_sample.mmap host_sample.page_size).1 = 0x7000 ∧
    gba_dma_map (some gba_dma_context_sample) NULL 4096 (some 5) =
      (OMPI_ERR_BAD_PARAM, some 5) :=
  ⟨⟨by decide,
      gba_dma_addr_is_host_addr.1 ⟨0, 0, 0, 0, 0⟩ (some gba_dma_context_sample) host_sample
        (by decide)⟩,
    ⟨by decide, gba_dma_addr_is_host_addr.1 ⟨0, 0, 0, 0, 0⟩ none host_sample (by decide)⟩,
    by decide,
    gba_dma_addr_is_host_addr.2.2.1 (some gba_dma_context_sample) NULL 4096 (some 5)
      (Or.inl rfl)⟩

/-! ## IOMMU table -/

theorem switch_barrier_iommu_map_scan_some (ctx : switch_barrier_iommu_context_t)
    (n i g : Nat) :
    switch_barrier_iommu_map_scan ctx n i = some g ↔
      i ≤ g ∧ g < i + n ∧ (ctx.entry g).valid = 0 ∧
        ∀ j, i ≤ j → j < g → (ctx.entry j).valid ≠ 0 := by
  induction n generalizing i with
  | zero => simp [switch_barrier_iommu_map_scan]; omega
  | succ n ih =>
    unfold switch_barrier_iommu_map_scan
    by_cases hb : (ctx.entry i).valid = 0
    · rw [if_pos hb]
      constructor
      · intro h
        have hg : i = g := by simpa using h
        subst hg
        exact ⟨le_refl _, by omega, hb, fun j h1 h2 => by omega⟩
      · rintro ⟨h1, _, _, h4⟩
        rcases Nat.eq_or_lt_of_le h1 with h | h
        · simp [h]
        · exact absurd hb (h4 i (le_refl _) h)
    · rw [if_neg hb, ih]
      constructor
      · rintro ⟨h1, h2, h3, h4⟩
        refine ⟨by omega, by omega, h3, fun j hj1 hj2 => ?_⟩
        rcases Nat.eq_or_lt_of_le hj1 with h | h
        · rw [← h]; exact hb
        · exact h4 j h hj2
      · rintro ⟨h1, h2, h3, h4⟩
        have hne : i ≠ g := by
          intro h; rw [h] at hb; exact hb h3
        exact ⟨by omega, by omega, h3, fun j hj1 hj2 => h4 j (by omega) hj2⟩

theorem switch_barrier_iommu_map_scan_none (ctx : switch_barrier_iommu_context_t)
    (n i : Nat) :
    switch_barrier_iommu_map_scan ctx n i = none ↔
      ∀ j, i ≤ j → j < i + n → (ctx.entry j).valid ≠ 0 := by
  induction n generalizing i with
  | zero => simp [switch_barrier_iommu_map_scan]; intro j h1 h2; omega
  | succ n ih =>
    unfold switch_barrier_iommu_map_scan
    by_cases hb : (ctx.entry i).valid = 0
    · rw [if_pos hb]
      simp only [reduceCtorEq, false_iff]
      intro h
      exact h i (le_refl _) (by omega) hb
    · rw [if_neg hb, ih]
      constructor
      · intro h j hj1 hj2
        rcases Nat.eq_or_lt_of_le hj1 with h' | h'
        · rw [← h']; exact hb
        · exact h j h' (by omega)
      · intro h j hj1 hj2
        exact h j (by omega) (by omega)

theorem switch_barrier_iommu_map_slot (c : switch_barrier_iommu_context_t)
    (vaddr size out0 slot : Nat) (hv : vaddr ≠ NULL) (hs : size ≠ 0)
    (hscan : switch_barrier_iommu_map_scan c c.max_mappings.toNat 0 = some slot) :
    switch_barrier_iommu_map (some c) vaddr size (some out0) =
      (OMPI_SUCCESS,
        some (if (slot : Int) ≥ c.num_mappings then
          { c with mappings := c.mappings.set slot ⟨vaddr, vaddr, size, PROT_READ_WRITE, 1⟩,
                   num_mappings := slot + 1 }
          else
          { c with mappings :=
              c.mappings.set slot ⟨vaddr, vaddr, size, PROT_READ_WRITE, 1⟩ }),
        some vaddr) := by
  simp only [switch_barrier_iommu_map, hv, hs, or_self, if_false, hscan]

theorem switch_barrier_iommu_map_full (c : switch_barrier_iommu_context_t)
    (vaddr size out0 : Nat) (hv : vaddr ≠ NULL) (hs : size ≠ 0)
    (hscan : switch_barrier_iommu_map_scan c c.max_mappings.toNat 0 = none) :
    switch_barrier_iommu_map (some c) vaddr size (some out0) =
      (OMPI_ERR_OUT_OF_RESOURCE, some c, some out0) := by
  simp only [switch_barrier_iommu_map, hv, hs, or_self, if_false, hscan]

/-- C30. For a context as `switch_barrier_iommu_init` leaves its bounds (64
slots) and valid arguments, `switch_barrier_iommu_map` succeeds iff some slot
among the 64 is not valid.  It then fills the lowest-indexed free slot with
`vaddr`, `iova = vaddr` and `size`, marks it valid, leaves every other slot as
it was and returns `iova = vaddr`.  When all 64 slots are valid it returns
`OMPI_ERR_OUT_OF_RESOURCE` and leaves the context and the output unchanged. -/
theorem switch_barrier_iommu_map_bounded (c : switch_barrier_iommu_context_t)
    (vaddr size out0 : Nat) (hmax : c.max_mappings = 64) (hlen : c.mappings.length = 64)
    (hv : vaddr ≠ NULL) (hs : size ≠ 0) :
    ((switch_barrier_iommu_map (some c) vaddr size (some out0)).1 = OMPI_SUCCESS ↔
      ∃ i, i < 64 ∧ (c.entry i).valid = 0) ∧
    (∀ slot, slot < 64 → (c.entry slot).valid = 0 →
      (∀ j, j < slot → (c.entry j).valid ≠ 0) →
      ∃ c1, switch_barrier_iommu_map (some c) vaddr size (some out0) =
          (OMPI_SUCCESS, some c1, some vaddr) ∧
        c1.entry slot = ⟨vaddr, vaddr, size, PROT_READ_WRITE, 1⟩ ∧
        (∀ j, j ≠ slot → c1.entry j = c.entry j) ∧
        c1.max_mappings = 64 ∧ c1.mappings.length = 64) ∧
    ((∀ i, i < 64 → (c.entry i).valid ≠ 0) →
      switch_barrier_iommu_map (some c) vaddr size (some out0) =
        (OMPI_ERR_OUT_OF_RESOURCE, some c, some out0)) := by
  have h64 : c.max_mappings.toNat = 64 := by rw [hmax]; rfl
  have hslot : ∀ slot, slot < 64 → (c.entry slot).valid = 0 →
      (∀ j, j < slot → (c.entry j).valid ≠ 0) →
      switch_barrier_iommu_map_scan c c.max_mappings.toNat 0 = some slot := by
    intro slot h1 h2 h3
    rw [switch_barrier_iommu_map_scan_some, h64]
    exact ⟨Nat.zero_le _, by omega, h2, fun j _ hj => h3 j hj⟩
  have hfull : (∀ i, i < 64 → (c.entry i).valid ≠ 0) →
      switch_barrier_iommu_map_scan c c.max_mappings.toNat 0 = none := by
    intro h
    rw [switch_barrier_iommu_map_scan_none, h64]
    exact fun j _ hj => h j (by omega)
  refine ⟨?_, ?_, ?_⟩
  · constructor
    · intro hsucc
      by_contra hno
      have hall : ∀ i, i < 64 → (c.entry i).valid ≠ 0 := by
        intro i hi hz
        exact hno ⟨i, hi, hz⟩
      rw [switch_barrier_iommu_map_full c vaddr size out0 hv hs (hfull hall)] at hsucc
      have hne : OMPI_ERR_OUT_OF_RESOURCE ≠ OMPI_SUCCESS := by decide
      exact hne hsucc
    · rintro ⟨i, hi, hz⟩
      cases hsc : switch_barrier_iommu_map_scan c c.max_mappings.toNat 0 with
      | none =>
        rw [switch_barrier_iommu_map_scan_none, h64] at hsc
        exact absurd hz (hsc i (Nat.zero_le _) (by omega))
      | some slot =>
        rw [switch_barrier_iommu_map_slot c vaddr size out0 slot hv hs hsc]
  · intro slot h1 h2 h3
    have hsc := hslot slot h1 h2 h3
    have hget : ∀ j, (c.mappings.set slot
        (⟨vaddr, vaddr, size, PROT_READ_WRITE, 1⟩ : switch_barrier_iommu_mapping_t)).getD j
          ⟨0, 0, 0, 0, 0⟩ =
        if j = slot then ⟨vaddr, vaddr, size, PROT_READ_WRITE, 1⟩ else c.entry j := by
      intro j
      rw [List.getD_eq_getElem?_getD]
      by_cases hj : j = slot
      · subst hj
        rw [List.getElem?_set_self (by omega)]
        simp
      · rw [List.getElem?_set_ne (Ne.symm hj)]
        simp [hj, switch_barrier_iommu_context_t.entry, List.getD_eq_getElem?_getD]
    refine ⟨_, switch_barrier_iommu_map_slot c vaddr size out0 slot hv hs hsc, ?_, ?_, ?_, ?_⟩
    · have := hget slot
      split_ifs <;> simpa [switch_barrier_iommu_context_t.entry] using this
    · intro j hj
      have := hget j
      split_ifs <;> simpa [switch_barrier_iommu_context_t.entry, hj] using this
    · split_ifs <;> exact hmax
    · split_ifs <;> simp [hlen]
  · intro hall
    exact switch_barrier_iommu_map_full c vaddr size out0 hv hs (hfull hall)

/-- Witness for C30: in the sample context whose slots 0 and 1 are in use, the
page at `0x7000` goes to slot 2; in the sample context whose 64 slots are in
use, the mapping fails and the output keeps 5. -/
theorem switch_barrier_iommu_map_bounded_witness :
    (∃ c1, switch_barrier_iommu_map (some switch_barrier_iommu_context_used_sample)
          0x7000 4096 (some 5) = (OMPI_SUCCESS, some c1, some 0x7000) ∧
        c1.entry 2 = ⟨0x7000, 0x7000, 4096, PROT_READ_WRITE, 1⟩ ∧
        (∀ j, j ≠ 2 → c1.entry j = switch_barrier_iommu_context_used_sample.entry j) ∧
        c1.max_mappings = 64 ∧ c1.mappings.length = 64) ∧
    switch_barrier_iommu_map (some switch_barrier_iommu_context_full_sample) 0x7000 4096
        (some 5) =
      (OMPI_ERR_OUT_OF_RESOURCE, some switch_barrier_iommu_context_full_sample, some 5) :=
  ⟨(switch_barrier_iommu_map_bounded switch_barrier_iommu_context_used_sample 0x7000 4096 5
      (by decide) (by decide) (by decide) (by decide)).2.1 2 (by decide) (by decide)
      (by decide),
    (switch_barrier_iommu_map_bounded switch_barrier_iommu_context_full_sample 0x7000 4096 5
      (by decide) (by decide) (by decide) (by decide)).2.2 (by decide)⟩

/-! ## Switch rendezvous state -/

theorem switch_barrier_init_local_state_success (s0 : switch_barrier_local_state_t)
    (ctx : Option switch_barrier_iommu_context_t) (host : host_t)
    (h : (switch_barrier_init_local_state (some s0) ctx host).1 = OMPI_SUCCESS) :
    (host.mmap host.page_size).1 ≠ MAP_FAILED ∧
    ∃ st c1, switch_barrier_init_local_state (some s0) ctx host =
        (OMPI_SUCCESS, some st, c1,
          (host.mmap host.page_size).2.memset_zero (host.mmap host.page_size).1
            host.page_size) ∧
      st.arrival_flag = (host.mmap host.page_size).1 ∧
      st.release_flag = (host.mmap host.page_size).1 + 64 ∧
      st.expected_sequence = 1 ∧
      st.flag_memory = (host.mmap host.page_size).1 ∧
      st.flag_memory_size = host.page_size ∧
      (ctx = none → st.iommu_iova = 0) := by
  by_cases hf : (host.mmap host.page_size).1 = MAP_FAILED
  · simp [switch_barrier_init_local_state, hf, OMPI_ERR_OUT_OF_RESOURCE, OMPI_SUCCESS] at h
  refine ⟨hf, ?_⟩
  cases ctx with
  | none =>
    exact ⟨⟨(host.mmap host.page_size).1, (host.mmap host.page_size).1 + 64, 1,
        (host.mmap host.page_size).1, host.page_size, 0⟩, none,
      by simp only [switch_barrier_init_local_state, hf, if_false],
      rfl, rfl, rfl, rfl, rfl, fun _ => rfl⟩
  | some c =>
    simp only [switch_barrier_init_local_state, hf, if_false] at h ⊢
    split_ifs at h ⊢ with hr
    · exact absurd h hr
    · exact ⟨_, _, rfl, rfl, rfl, rfl, rfl, rfl, fun hc => by cases hc⟩

/-- C26 (amended). After a successful `switch_barrier_init_local_state`, the
arrival flag is the first 8-byte word of the flag memory (offset 0) and the
release flag is the word at byte offset 64. -/
theorem switch_flag_layout (s0 : switch_barrier_local_state_t)
    (ctx : Option switch_barrier_iommu_context_t) (host : host_t)
    (h : (switch_barrier_init_local_state (some s0) ctx host).1 = OMPI_SUCCESS) :
    ∃ st, (switch_barrier_init_local_state (some s0) ctx host).2.1 = some st ∧
      st.flag_memory = (host.mmap host.page_size).1 ∧
      st.arrival_flag = st.flag_memory ∧
      st.release_flag = st.flag_memory + 64 := by
  obtain ⟨_, st, c1, he, h1, h2, _, h4, _, _⟩ :=
    switch_barrier_init_local_state_success s0 ctx host h
  rw [he]
  exact ⟨st, rfl, h4, by rw [h1, h4], by rw [h2, h4]⟩

/-- Witness for C26: on the sample host and the sample IOMMU context the
initialisation succeeds, with the arrival flag at the start of the page and the
release flag 64 bytes further. -/
theorem switch_flag_layout_witness :
    (switch_barrier_init_local_state (some ⟨0, 0, 0, 0, 0, 0⟩)
      (some switch_barrier_iommu_context_sample) host_sample).1 = OMPI_SUCCESS ∧
    ∃ st, (switch_barrier_init_local_state (some ⟨0, 0, 0, 0, 0, 0⟩)
        (some switch_barrier_iommu_context_sample) host_sample).2.1 = some st ∧
      st.flag_memory = (host_sample.mmap host_sample.page_size).1 ∧
      st.arrival_flag = st.flag_memory ∧
      st.release_flag = st.flag_memory + 64 :=
  ⟨by decide,
    switch_flag_layout ⟨0, 0, 0, 0, 0, 0⟩ (some switch_barrier_iommu_context_sample)
      host_sample (by decide)⟩

/-- Counterexample for C26 as stated: on the sample host the initialisation
succeeds with the flag memory at `0x7000`; the release flag is at `0x7040`, not
at offset 0, and the arrival flag is at `0x7000`, not at offset 64. -/
theorem switch_flag_layout_counterexample :
    (switch_barrier_init_local_state (some ⟨0, 0, 0, 0, 0, 0⟩)
      (some switch_barrier_iommu_context_sample) host_sample).1 = OMPI_SUCCESS ∧
    (switch_barrier_init_local_state (some ⟨0, 0, 0, 0, 0, 0⟩)
      (some switch_barrier_iommu_context_sample) host_sample).2.1.map
        (fun st => (st.flag_memory, st.release_flag, st.arrival_flag)) =
      some (0x7000, 0x7040, 0x7000) ∧
    (0x7040 : Nat) ≠ 0x7000 ∧ (0x7000 : Nat) ≠ 0x7000 + 64 := by
  refine ⟨?_, ?_, ?_, ?_⟩ <;> decide

/-- C27. What `switch_barrier_init_local_state` does with a `NULL` IOMMU
context: when the page allocation succeeds it returns `OMPI_SUCCESS`, and
`iommu_iova` is 0 as `memset` left it; it is not set to the host virtual
address of the flag memory.  On the sample host the flag memory is at `0x7000`
and `iommu_iova` is 0. -/
theorem switch_init_local_state_null_ctx :
    (∀ (s0 : switch_barrier_local_state_t) (host : host_t),
      (host.mmap host.page_size).1 ≠ MAP_FAILED →
      switch_barrier_init_local_state (some s0) none host =
        (OMPI_SUCCESS,
          some ⟨(host.mmap host.page_size).1, (host.mmap host.page_size).1 + 64, 1,
            (host.mmap host.page_size).1, host.page_size, 0⟩,
          none,
          (host.mmap host.page_size).2.memset_zero (host.mmap host.page_size).1
            host.page_size)) ∧
    ((switch_barrier_init_local_state (some ⟨0, 0, 0, 0, 0, 0⟩) none host_sample).1 =
        OMPI_SUCCESS ∧
      (switch_barrier_init_local_state (some ⟨0, 0, 0, 0, 0, 0⟩) none host_sample).2.1.map
          (fun st => (st.flag_memory, st.iommu_iova)) = some (0x7000, 0)) := by
  refine ⟨?_, by decide, by decide⟩
  intro s0 host hf
  simp only [switch_barrier_init_local_state, hf, if_false]

/-- Witness for C27: the sample host satisfies the hypothesis, and the state
that results has `iommu_iova = 0`. -/
theorem switch_init_local_state_null_ctx_witness :
    (host_sample.mmap host_sample.page_size).1 ≠ MAP_FAILED ∧
    switch_barrier_init_local_state (some ⟨0, 0, 0, 0, 0, 0⟩) none host_sample =
      (OMPI_SUCCESS,
        some ⟨(host_sample.mmap host_sample.page_size).1,
          (host_sample.mmap host_sample.page_size).1 + 64, 1,
          (host_sample.mmap host_sample.page_size).1, host_sample.page_size, 0⟩,
        none,
        (host_sample.mmap host_sample.page_size).2.memset_zero
          (host_sample.mmap host_sample.page_size).1 host_sample.page_size) :=
  ⟨by decide,
    switch_init_local_state_null_ctx.1 ⟨0, 0, 0, 0, 0, 0⟩ host_sample (by decide)⟩

/-! ## Teardown of the rendezvous state, repeated -/

/-- C29. For every state and every DMA context (set or `NULL`),
`gba_local_state_fini` returns `OMPI_SUCCESS`, and a second call on the state,
the context and the host that it leaves returns `OMPI_SUCCESS` and changes
nothing: the state is the same, no DMA unmap is recorded in the context and no
`munmap` in the host.  The same holds for `switch_barrier_fini_local_state`
with the IOMMU context. -/
theorem local_state_fini_idempotent :
    (∀ (s : gba_local_state_t) (ctx : Option gba_dma_context_t) (host : host_t),
      (gba_local_state_fini (some s) ctx host).1 = OMPI_SUCCESS ∧
      ∃ s1, (gba_local_state_fini (some s) ctx host).2.1 = some s1 ∧
        gba_local_state_fini (some s1) (gba_local_state_fini (some s) ctx host).2.2.1
            (gba_local_state_fini (some s) ctx host).2.2.2 =
          (OMPI_SUCCESS, some s1, (gba_local_state_fini (some s) ctx host).2.2.1,
            (gba_local_state_fini (some s) ctx host).2.2.2)) ∧
    (∀ (s : switch_barrier_local_state_t) (ctx : Option switch_barrier_iommu_context_t)
        (host : host_t),
      (switch_barrier_fini_local_state (some s) ctx host).1 = OMPI_SUCCESS ∧
      ∃ s1, (switch_barrier_fini_local_state (some s) ctx host).2.1 = some s1 ∧
        switch_barrier_fini_local_state (some s1)
            (switch_barrier_fini_local_state (some s) ctx host).2.2.1
            (switch_barrier_fini_local_state (some s) ctx host).2.2.2 =
          (OMPI_SUCCESS, some s1,
            (switch_barrier_fini_local_state (some s) ctx host).2.2.1,
            (switch_barrier_fini_local_state (some s) ctx host).2.2.2)) := by
  constructor
  · intro s ctx host
    refine ⟨rfl, ?_⟩
    by_cases hd : ctx.isSome = true ∧ s.dma_addr ≠ 0 <;>
      by_cases hf : s.flag_memory ≠ NULL ∧ s.flag_memory ≠ MAP_FAILED
    · exact ⟨⟨NULL, s.expected_seq, NULL, s.flag_size, 0⟩,
        by simp [gba_local_state_fini, hd, hf],
        by simp [gba_local_state_fini, hd, hf]⟩
    · exact ⟨⟨NULL, s.expected_seq, s.flag_memory, s.flag_size, 0⟩,
        by simp [gba_local_state_fini, hd, hf],
        by simp [gba_local_state_fini, hd, hf]⟩
    · exact ⟨⟨NULL, s.expected_seq, NULL, s.flag_size, s.dma_addr⟩,
        by simp [gba_local_state_fini, hd, hf],
        by simp [gba_local_state_fini, hd, hf]⟩
    · exact ⟨⟨NULL, s.expected_seq, s.flag_memory, s.flag_size, s.dma_addr⟩,
        by simp [gba_local_state_fini, hd, hf],
        by simp [gba_local_state_fini, hd, hf]⟩
  · intro s ctx host
    refine ⟨rfl, ?_⟩
    by_cases hd : ctx.isSome = true ∧ s.iommu_iova ≠ 0 <;>
      by_cases hf : s.flag_memory ≠ NULL ∧ s.flag_memory ≠ MAP_FAILED
    · exact ⟨⟨NULL, NULL, s.expected_sequence, NULL, s.flag_memory_size, 0⟩,
        by simp [switch_barrier_fini_local_state, hd, hf],
        by simp [switch_barrier_fini_local_state, hd, hf]⟩
    · exact ⟨⟨NULL, NULL, s.expected_sequence, s.flag_memory, s.flag_memory_size, 0⟩,
        by simp [switch_barrier_fini_local_state, hd, hf],
        by simp [switch_barrier_fini_local_state, hd, hf]⟩
    · exact ⟨⟨NULL, NULL, s.expected_sequence, NULL, s.flag_memory_size, s.iommu_iova⟩,
        by simp [switch_barrier_fini_local_state, hd, hf],
        by simp [switch_barrier_fini_local_state, hd, hf]⟩
    · exact ⟨⟨NULL, NULL, s.expected_sequence, s.flag_memory, s.flag_memory_size,
          s.iommu_iova⟩,
        by simp [switch_barrier_fini_local_state, hd, hf],
        by simp [switch_barrier_fini_local_state, hd, hf]⟩

/-- Witness for C29: on an all-zero state, and on the state that
`gba_local_state_init` leaves when the DMA mapping fails (here because `mmap`
returned address 0), the teardown succeeds and leaves the sample context and the
host untouched; the same for an all-zero switch state. -/
theorem local_state_fini_idempotent_witness :
    (gba_local_state_fini (some ⟨0, 0, 0, 0, 0⟩) (some gba_dma_context_sample)
      host_sample).1 = OMPI_SUCCESS ∧
    (gba_local_state_init (some ⟨0, 0, 0, 0, 0⟩) (some gba_dma_context_sample)
      { host_sample with mmap_results := [0] }).1 = OMPI_ERR_BAD_PARAM ∧
    (∃ s1, (gba_local_state_fini
          (gba_local_state_init (some ⟨0, 0, 0, 0, 0⟩) (some gba_dma_context_sample)
            { host_sample with mmap_results := [0] }).2.1
          (some gba_dma_context_sample) host_sample).2.1 = some s1 ∧
        gba_local_state_fini (some s1) (some gba_dma_context_sample) host_sample =
          (OMPI_SUCCESS, some s1, some gba_dma_context_sample, host_sample)) ∧
    (switch_barrier_fini_local_state (some ⟨0, 0, 0, 0, 0, 0⟩)
      (some switch_barrier_iommu_context_sample) host_sample).1 = OMPI_SUCCESS :=
  ⟨(local_state_fini_idempotent.1 ⟨0, 0, 0, 0, 0⟩ (some gba_dma_context_sample)
      host_sample).1,
    by decide,
    (local_state_fini_idempotent.1 ⟨0, 1, 0, 4096, 0⟩ (some gba_dma_context_sample)
      host_sample).2,
    (local_state_fini_idempotent.2 ⟨0, 0, 0, 0, 0, 0⟩
      (some switch_barrier_iommu_context_sample) host_sample).1⟩

/-! ## Failure of the GBA configuration -/

/-- C35. On non-null arguments `gba_configure_group` returns an error iff
`config.group_id >= 32` or the device has no valid mapping; in that case it
performs no register write: the device, its registers and its store trace are
as before.  Otherwise it returns `OMPI_SUCCESS` after its 17 stores, and every
register write issued on the way succeeds. -/
theorem gba_configure_group_fails_before_first_write (d : gba_device_t)
    (c : gba_group_config_t) :
    ((gba_configure_group (some d) (some c)).1 ≠ OMPI_SUCCESS ↔
      (c.group_id ≥ 32 ∨ (d.base_addr = NULL ∨ d.base_addr = MAP_FAILED))) ∧
    ((gba_configure_group (some d) (some c)).1 ≠ OMPI_SUCCESS →
      (gba_configure_group (some d) (some c)).2 = some d) ∧
    ((c.group_id < 32 ∧ ¬ (d.base_addr = NULL ∨ d.base_addr = MAP_FAILED)) →
      gba_configure_group (some d) (some c) =
        (OMPI_SUCCESS, some (d.after_writes (gba_configure_group_sequence c))) ∧
      (gba_configure_group_sequence c).length = 17 ∧
      ∀ (ws : List (Nat × Nat)) (off v : Nat),
        (gba_reg_write (some (d.after_writes ws)) c.group_id off v).1 = OMPI_SUCCESS) := by
  refine ⟨?_, ?_, ?_⟩
  · rw [Ne, gba_configure_group_success_iff]
    constructor
    · intro h
      by_contra hn
      exact h ⟨by omega, fun hm => hn (Or.inr hm)⟩
    · rintro (h | h) ⟨h1, h2⟩
      · omega
      · exact h2 h
  · intro h
    have hn : ¬ (c.group_id < 32 ∧ ¬ (d.base_addr = NULL ∨ d.base_addr = MAP_FAILED)) :=
      fun hh => h ((gba_configure_group_success_iff d c).2 hh)
    rw [(gba_configure_group_fails d c hn).1]
  · rintro ⟨hg, hm⟩
    refine ⟨gba_configure_group_ok d c hg hm, by simp [gba_configure_group_sequence], ?_⟩
    intro ws off v
    rw [gba_reg_write_after d ws c.group_id off v hg hm]

/-- Witness for C35: on the sample device without a mapping the configuration
fails and leaves the device as it was; on the mapped sample device it succeeds
with its 17 stores. -/
theorem gba_configure_group_fails_before_first_write_witness :
    (gba_configure_group (some gba_device_unmapped_sample)
      (some gba_group_config_sample)).1 ≠ OMPI_SUCCESS ∧
    (gba_configure_group (some gba_device_unmapped_sample)
      (some gba_group_config_sample)).2 = some gba_device_unmapped_sample ∧
    gba_configure_group (some gba_device_sample) (some gba_group_config_sample) =
      (OMPI_SUCCESS,
        some (gba_device_sample.after_writes
          (gba_configure_group_sequence gba_group_config_sample))) :=
  ⟨(gba_configure_group_fails_before_first_write gba_device_unmapped_sample
      gba_group_config_sample).1.2 (Or.inr (Or.inl rfl)),
    (gba_configure_group_fails_before_first_write gba_device_unmapped_sample
      gba_group_config_sample).2.1
      ((gba_configure_group_fails_before_first_write gba_device_unmapped_sample
        gba_group_config_sample).1.2 (Or.inr (Or.inl rfl))),
    ((gba_configure_group_fails_before_first_write gba_device_sample
      gba_group_config_sample).2.2 ⟨by decide, by decide⟩).1⟩

/-! ## Sequence wraparound -/

/-- C34. The sequence of a round is the counter plus one modulo `2 ^ 32`.  On
the call made when `barrier_seq` is `2 ^ 32 - 1` (offload enabled, device
mapped) the sequence of the round is 0; `gba_poll_release` with sequence 0 is
true for every flag value, so the first poll ends the loop: the call returns
`MPI_SUCCESS` with no progress call, whatever value the release flag holds. -/
theorem gba_barrier_sequence_wraparound :
    (∀ (state : gba_local_state_t) (host : host_t), gba_poll_release state 0 host = true) ∧
    (∀ (env : coll_env) (w : gba_world) (v : Nat) (rest : List Nat),
      w.module.offload_enabled = true → w.module.device = true →
      ¬ (w.device.base_addr = NULL ∨ w.device.base_addr = MAP_FAILED) →
      w.module.barrier_seq = 2 ^ 32 - 1 →
      (mca_coll_gba_barrier env w (v :: rest)).sequence = some 0 ∧
      (mca_coll_gba_barrier env w (v :: rest)).world.module.barrier_seq = 0 ∧
      (mca_coll_gba_barrier env w (v :: rest)).ret = some MPI_SUCCESS ∧
      (mca_coll_gba_barrier env w (v :: rest)).progress_calls = 0 ∧
      (mca_coll_gba_barrier env w (v :: rest)).observed = rest) := by
  constructor
  · intro state host
    simp [gba_poll_release]
  · intro env w v rest he hd hm hseq
    obtain ⟨w1, hw1, _, _, _, _, _, _, hb⟩ :=
      mca_coll_gba_barrier_enabled env w (v :: rest) he hd hm
    have hs : (w.module.barrier_seq + 1) % 2 ^ 32 = 0 := by rw [hseq]; decide
    rw [hs] at hb hw1
    have hp : mca_coll_gba_barrier_poll_loop w.module.local_state 0 (v :: rest) w.host 0 =
        (some MPI_SUCCESS,
          { w.host with mem := store64 w.host.mem w.module.local_state.release_flag v },
          0, rest) := by
      simp [mca_coll_gba_barrier_poll_loop, gba_poll_release]
    rw [hb, hp]
    refine ⟨rfl, ?_, rfl, rfl, rfl⟩
    show w1.module.barrier_seq = 0
    rw [hw1]

/-- Witness for C34: the enabled sample module with its counter at
`2 ^ 32 - 1` returns at once although the flag still reads 0. -/
theorem gba_barrier_sequence_wraparound_witness :
    (mca_coll_gba_barrier coll_env_sample
        { gba_world_enabled_sample with
          module := { gba_world_enabled_sample.module with barrier_seq := 2 ^ 32 - 1 } }
        [0]).sequence = some 0 ∧
    (mca_coll_gba_barrier coll_env_sample
        { gba_world_enabled_sample with
          module := { gba_world_enabled_sample.module with barrier_seq := 2 ^ 32 - 1 } }
        [0]).ret = some MPI_SUCCESS ∧
    (mca_coll_gba_barrier coll_env_sample
        { gba_world_enabled_sample with
          module := { gba_world_enabled_sample.module with barrier_seq := 2 ^ 32 - 1 } }
        [0]).progress_calls = 0 :=
  ⟨(gba_barrier_sequence_wraparound.2 coll_env_sample
      { gba_world_enabled_sample with
        module := { gba_world_enabled_sample.module with barrier_seq := 2 ^ 32 - 1 } }
      0 [] (by decide) (by decide) (by decide) rfl).1,
    (gba_barrier_sequence_wraparound.2 coll_env_sample
      { gba_world_enabled_sample with
        module := { gba_world_enabled_sample.module with barrier_seq := 2 ^ 32 - 1 } }
      0 [] (by decide) (by decide) (by decide) rfl).2.2.1,
    (gba_barrier_sequence_wraparound.2 coll_env_sample
      { gba_world_enabled_sample with
        module := { gba_world_enabled_sample.module with barrier_seq := 2 ^ 32 - 1 } }
      0 [] (by decide) (by decide) (by decide) rfl).2.2.2.1⟩

/-! ## Width of the GBA register stores -/

theorem load64_replay_disjoint (a : Nat) (ws : List (Nat × Nat)) :
    ∀ (m : Nat → Nat), (∀ w ∈ ws, a + 8 ≤ w.1 ∨ w.1 + 8 ≤ a) →
      load64 (replay m ws) a = load64 m a := by
  induction ws with
  | nil => intro m _; rfl
  | cons w ws ih =>
    intro m h
    show load64 (replay (store64 m w.1 w.2) ws) a = load64 m a
    rw [ih _ (fun x hx => h x (List.mem_cons_of_mem _ hx)),
      load64_store64_disjoint m w.1 a w.2 (h w (List.mem_cons_self _ _))]

theorem load64_store64_overlap4 (m : Nat → Nat) (a x y : Nat) (hx : x < 2 ^ 32)
    (hy : y < 2 ^ 32) :
    load64 (store64 (store64 m a x) (a + 4) y) a = x + 2 ^ 32 * y := by
  have e' : ∀ k, a + k - a = k := fun k => by omega
  have c0 : ¬ (a + 4 ≤ a ∧ a < a + 4 + 8) := by omega
  have c1 : ¬ (a + 4 ≤ a + 1 ∧ a + 1 < a + 4 + 8) := by omega
  have c2 : ¬ (a + 4 ≤ a + 2 ∧ a + 2 < a + 4 + 8) := by omega
  have c3 : ¬ (a + 4 ≤ a + 3 ∧ a + 3 < a + 4 + 8) := by omega
  have c4 : (a + 4 ≤ a + 4 ∧ a + 4 < a + 4 + 8) := by omega
  have c5 : (a + 4 ≤ a + 5 ∧ a + 5 < a + 4 + 8) := by omega
  have c6 : (a + 4 ≤ a + 6 ∧ a + 6 < a + 4 + 8) := by omega
  have c7 : (a + 4 ≤ a + 7 ∧ a + 7 < a + 4 + 8) := by omega
  have b0 : (a ≤ a ∧ a < a + 8) := by omega
  have b1 : (a ≤ a + 1 ∧ a + 1 < a + 8) := by omega
  have b2 : (a ≤ a + 2 ∧ a + 2 < a + 8) := by omega
  have b3 : (a ≤ a + 3 ∧ a + 3 < a + 8) := by omega
  have s5 : a + 5 - (a + 4) = 1 := by omega
  have s6 : a + 6 - (a + 4) = 2 := by omega
  have s7 : a + 7 - (a + 4) = 3 := by omega
  rw [load64_eq]
  simp only [store64, c0, c1, c2, c3, c4, c5, c6, c7, b0, b1, b2, b3, if_true, if_false,
    e', Nat.sub_self, s5, s6, s7, and_self]
  norm_num
  omega

theorem gba_configure_group_sequence_group_id_readback (m : Nat → Nat)
    (c : gba_group_config_t) (hg : c.group_id < 2 ^ 32) (hmc : c.member_count < 2 ^ 32) :
    load64 (replay m (gba_configure_group_sequence c)) (c.group_id * 4096) =
      c.group_id + 2 ^ 32 * c.member_count := by
  have hb : GBA_GROUP_REG_BASE c.group_id = c.group_id * 4096 := rfl
  have hsplit : gba_configure_group_sequence c =
      [(c.group_id * 4096 + 8, 0), (c.group_id * 4096 + 8, GBA_CTRL_RESET)] ++
      ([(c.group_id * 4096, c.group_id), (c.group_id * 4096 + 4, c.member_count)] ++
      ((List.range 12).map (fun i =>
        (c.group_id * 4096 + (32 + 8 * i), c.member_mask.getD i 0)) ++
      [(c.group_id * 4096 + 8, GBA_CTRL_ENABLE ||| GBA_CTRL_ARM)])) := by
    simp only [gba_configure_group_sequence, hb, GBA_REG_CONTROL, GBA_REG_GROUP_ID,
      GBA_REG_MEMBER_COUNT, GBA_REG_MEMBER_MASK_BASE, Nat.add_zero, List.cons_append,
      List.nil_append, List.append_assoc]
  rw [hsplit, replay_append, replay_append, load64_replay_disjoint]
  · exact load64_store64_overlap4 _ _ _ _ hg hmc
  · intro w hw
    rcases List.mem_append.1 hw with h | h
    · obtain ⟨i, _, rfl⟩ := List.mem_map.1 h
      left
      show c.group_id * 4096 + 8 ≤ c.group_id * 4096 + (32 + 8 * i)
      omega
    · rw [List.mem_singleton] at h
      subst h
      left
      exact le_refl _

/-- C39. The 8-byte stores of `gba_reg_write` to the registers GROUP_ID
(`0x00`), MEMBER_COUNT (`0x04`) and CONTROL (`0x08`) overlap: the registers are
4 bytes apart.  On a mapped device, for 32-bit values, writing MEMBER_COUNT
after GROUP_ID changes what GROUP_ID reads back (the member count appears in
its upper half), writing CONTROL after MEMBER_COUNT changes what MEMBER_COUNT
reads back, and after a successful `gba_configure_group` the GROUP_ID register
reads `group_id + 2 ^ 32 * member_count`.  The stores to the twelve mask words
are 8 bytes apart and touch neither each other nor the three registers. -/
theorem gba_reg_writes_overlap :
    (∀ (d : gba_device_t) (g a b v0 : Nat), g < 32 →
      ¬ (d.base_addr = NULL ∨ d.base_addr = MAP_FAILED) → a < 2 ^ 32 → b < 2 ^ 32 →
      ∃ d1 d2, gba_reg_write (some d) g GBA_REG_GROUP_ID a = (OMPI_SUCCESS, some d1) ∧
        gba_reg_write (some d1) g GBA_REG_MEMBER_COUNT b = (OMPI_SUCCESS, some d2) ∧
        gba_reg_read (some d2) g GBA_REG_GROUP_ID (some v0) =
          (OMPI_SUCCESS, some (a + 2 ^ 32 * b))) ∧
    (∀ (d : gba_device_t) (g b c v0 : Nat), g < 32 →
      ¬ (d.base_addr = NULL ∨ d.base_addr = MAP_FAILED) → b < 2 ^ 32 → c < 2 ^ 32 →
      ∃ d1 d2, gba_reg_write (some d) g GBA_REG_MEMBER_COUNT b = (OMPI_SUCCESS, some d1) ∧
        gba_reg_write (some d1) g GBA_REG_CONTROL c = (OMPI_SUCCESS, some d2) ∧
        gba_reg_read (some d2) g GBA_REG_MEMBER_COUNT (some v0) =
          (OMPI_SUCCESS, some (b + 2 ^ 32 * c))) ∧
    (∀ (d : gba_device_t) (c : gba_group_config_t) (v0 : Nat), c.group_id < 32 →
      ¬ (d.base_addr = NULL ∨ d.base_addr = MAP_FAILED) → c.member_count < 2 ^ 32 →
      ∃ d1, gba_configure_group (some d) (some c) = (OMPI_SUCCESS, some d1) ∧
        gba_reg_read (some d1) c.group_id GBA_REG_GROUP_ID (some v0) =
          (OMPI_SUCCESS, some (c.group_id + 2 ^ 32 * c.member_count))) ∧
    (∀ (i j : Nat), i < 12 → j < 12 → i ≠ j →
      (GBA_REG_MEMBER_MASK_BASE + 8 * i + 8 ≤ GBA_REG_MEMBER_MASK_BASE + 8 * j ∨
        GBA_REG_MEMBER_MASK_BASE + 8 * j + 8 ≤ GBA_REG_MEMBER_MASK_BASE + 8 * i) ∧
      GBA_REG_CONTROL + 8 ≤ GBA_REG_MEMBER_MASK_BASE + 8 * i) := by
  have hb : ∀ g, GBA_GROUP_REG_BASE g = g * 4096 := fun _ => rfl
  refine ⟨?_, ?_, ?_, ?_⟩
  · intro d g a b v0 hg hm ha hb32
    have hA0 : (GBA_GROUP_REG_BASE g + GBA_REG_GROUP_ID) % 2 ^ 32 = g * 4096 := by
      simp only [hb, GBA_REG_GROUP_ID]; omega
    have hA4 : (GBA_GROUP_REG_BASE g + GBA_REG_MEMBER_COUNT) % 2 ^ 32 = g * 4096 + 4 := by
      simp only [hb, GBA_REG_MEMBER_COUNT]; omega
    refine ⟨_, _, gba_reg_write_ok d g _ a hg hm, gba_reg_write_after d _ g _ b hg hm, ?_⟩
    rw [gba_reg_read_after d _ g _ v0 hg hm, hA0, hA4]
    show (OMPI_SUCCESS, some (load64 (store64 (store64 d.regs (g * 4096) a)
      (g * 4096 + 4) b) (g * 4096))) = _
    rw [load64_store64_overlap4 _ _ _ _ ha hb32]
  · intro d g b c v0 hg hm hb32 hc
    have hA4 : (GBA_GROUP_REG_BASE g + GBA_REG_MEMBER_COUNT) % 2 ^ 32 = g * 4096 + 4 := by
      simp only [hb, GBA_REG_MEMBER_COUNT]; omega
    have hA8 : (GBA_GROUP_REG_BASE g + GBA_REG_CONTROL) % 2 ^ 32 = g * 4096 + 4 + 4 := by
      simp only [hb, GBA_REG_CONTROL]; omega
    refine ⟨_, _, gba_reg_write_ok d g _ b hg hm, gba_reg_write_after d _ g _ c hg hm, ?_⟩
    rw [gba_reg_read_after d _ g _ v0 hg hm, hA4, hA8]
    show (OMPI_SUCCESS, some (load64 (store64 (store64 d.regs (g * 4096 + 4) b)
      (g * 4096 + 4 + 4) c) (g * 4096 + 4))) = _
    rw [load64_store64_overlap4 _ _ _ _ hb32 hc]
  · intro d c v0 hg hm hmc
    have hA0 : (GBA_GROUP_REG_BASE c.group_id + GBA_REG_GROUP_ID) % 2 ^ 32 =
        c.group_id * 4096 := by
      simp only [hb, GBA_REG_GROUP_ID]; omega
    refine ⟨_, gba_configure_group_ok d c hg hm, ?_⟩
    rw [gba_reg_read_after d _ c.group_id _ v0 hg hm, hA0,
      gba_configure_group_sequence_group_id_readback d.regs c (by omega) hmc]
  · intro i j hi hj hij
    simp only [GBA_REG_MEMBER_MASK_BASE, GBA_REG_CONTROL]
    omega

/-- Witness for C39: on the sample device, writing group id 1 and then member
count 2 for group 1 makes the GROUP_ID register read `1 + 2 ^ 32 * 2`. -/
theorem gba_reg_writes_overlap_witness :
    ∃ d1 d2, gba_reg_write (some gba_device_sample) 1 GBA_REG_GROUP_ID 1 =
        (OMPI_SUCCESS, some d1) ∧
      gba_reg_write (some d1) 1 GBA_REG_MEMBER_COUNT 2 = (OMPI_SUCCESS, some d2) ∧
      gba_reg_read (some d2) 1 GBA_REG_GROUP_ID (some 0) =
        (OMPI_SUCCESS, some (1 + 2 ^ 32 * 2)) :=
  gba_reg_writes_overlap.1 gba_device_sample 1 1 2 0 (by decide) (by decide) (by decide)
    (by decide)

/-! ## Register window of a switch group -/

theorem load64_replay_only (a v : Nat) (ws : List (Nat × Nat)) :
    ∀ (m : Nat → Nat), (∀ w ∈ ws, w = (a, v) ∨ a + 8 ≤ w.1 ∨ w.1 + 8 ≤ a) →
      ((a, v) ∈ ws ∨ load64 m a = v % 2 ^ 64) →
      load64 (replay m ws) a = v % 2 ^ 64 := by
  induction ws with
  | nil =>
    intro m _ h
    rcases h with h | h
    · cases h
    · exact h
  | cons w ws ih =>
    intro m hall h
    show load64 (replay (store64 m w.1 w.2) ws) a = v % 2 ^ 64
    apply ih _ (fun x hx => hall x (List.mem_cons_of_mem _ hx))
    rcases hall w (List.mem_cons_self _ _) with hw | hw
    · right
      rw [hw]
      exact load64_store64_same m a v
    · rcases h with h | h
      · rcases List.mem_cons.1 h with h1 | h1
        · right
          rw [← h1]
          exact load64_store64_same m a v
        · exact Or.inl h1
      · right
        rw [load64_store64_disjoint m w.1 a w.2 hw]
        exact h

theorem switch_barrier_configure_group_sequence_mem (c : switch_barrier_group_config_t)
    (hg : c.group_id < 256) (w : Nat × Nat)
    (hw : w ∈ switch_barrier_configure_group_sequence c) :
    (w.1 = c.group_id * 256 + 8 ∨ w.1 = c.group_id * 256 + 16 ∨
      w.1 = c.group_id * 256 + 24 ∨ w.1 = c.group_id * 256 + 32 ∨
      w.1 = c.group_id * 256 + 40 ∨ w.1 = c.group_id * 256 + 72) ∨
    ∃ i, i < switch_barrier_addr_count c.member_count ∧
      w = (c.group_id * 256 + 88 + 8 * i, c.network_addrs.getD i 0) := by
  have hcnt : switch_barrier_addr_count c.member_count ≤ 128 :=
    switch_barrier_addr_count_le c.member_count
  simp only [switch_barrier_configure_group_sequence, List.mem_append, List.mem_cons,
    List.mem_map, List.mem_range, List.mem_singleton, List.not_mem_nil, or_false] at hw
  rcases hw with (h | h) | h
  · left
    rcases h with h | h | h | h | h | h | h <;>
      (rw [h]
       simp only [switch_barrier_calc_reg_addr, SWITCH_BARRIER_GROUP_REG_STRIDE,
         SWITCH_BARRIER_REG_CONTROL, SWITCH_BARRIER_REG_GROUP_ID,
         SWITCH_BARRIER_REG_MEMBER_COUNT, SWITCH_BARRIER_REG_MEMBER_MASK_LO,
         SWITCH_BARRIER_REG_MEMBER_MASK_HI, SWITCH_BARRIER_REG_LOCAL_MEMBER_ID]
       omega)
  · right
    obtain ⟨i, hi, rfl⟩ := h
    refine ⟨i, hi, ?_⟩
    simp only [switch_barrier_calc_reg_addr, SWITCH_BARRIER_GROUP_REG_STRIDE,
      SWITCH_BARRIER_REG_ARRIVAL_ADDR, Prod.mk.injEq, and_true]
    omega
  · left
    rw [h]
    simp only [switch_barrier_calc_reg_addr, SWITCH_BARRIER_GROUP_REG_STRIDE,
      SWITCH_BARRIER_REG_CONTROL]
    omega

theorem switch_barrier_configure_group_sequence_addr_mem
    (c : switch_barrier_group_config_t) (hg : c.group_id < 256) (i : Nat)
    (hi : i < switch_barrier_addr_count c.member_count) :
    (c.group_id * 256 + 88 + 8 * i, c.network_addrs.getD i 0) ∈
      switch_barrier_configure_group_sequence c := by
  have hcnt : switch_barrier_addr_count c.member_count ≤ 128 :=
    switch_barrier_addr_count_le c.member_count
  simp only [switch_barrier_configure_group_sequence, List.mem_append, List.mem_cons,
    List.mem_map, List.mem_range, List.mem_singleton]
  left
  right
  refine ⟨i, hi, ?_⟩
  simp only [switch_barrier_calc_reg_addr, SWITCH_BARRIER_GROUP_REG_STRIDE,
    SWITCH_BARRIER_REG_ARRIVAL_ADDR, Prod.mk.injEq, and_true]
  omega

/-- C33. Where the stores of `switch_barrier_configure_group` land.  For a
group `g < 256` with at most 21 members every store lies inside the window
`[g * 0x100, (g + 1) * 0x100)` of the group.  The per-member address stores
start at offset `0x58` and are 8 bytes apart, so only 21 of them fit: with 22
members or more the store for member 21 is at `(g + 1) * 0x100`, the first
register of the next group, and with 27 members or more the store for member
26 is at the CONTROL register of group `g + 1`, which reads that network
address afterwards.  For the last group, 255, the store for member 21 is at
`0x10000`, past the end of the register space. -/
theorem switch_configure_group_window :
    (∀ (c : switch_barrier_group_config_t), c.group_id < 256 → c.member_count ≤ 21 →
      ∀ w ∈ switch_barrier_configure_group_sequence c,
        c.group_id * 0x100 ≤ w.1 ∧ w.1 + 8 ≤ (c.group_id + 1) * 0x100) ∧
    (∀ (d : switch_barrier_device_t) (c : switch_barrier_group_config_t),
      ¬ (NULL = d.base_addr ∨ d.base_addr = MAP_FAILED) →
      c.group_id < uint32_of_int d.num_groups → c.group_id < 256 →
      22 ≤ c.member_count → c.member_count ≤ 128 →
      ∃ d1, switch_barrier_configure_group (some d) (some c) = (OMPI_SUCCESS, some d1) ∧
        ((c.group_id + 1) * 0x100, c.network_addrs.getD 21 0) ∈ d1.writes) ∧
    (∀ (d : switch_barrier_device_t) (c : switch_barrier_group_config_t),
      ¬ (NULL = d.base_addr ∨ d.base_addr = MAP_FAILED) →
      c.group_id < uint32_of_int d.num_groups → c.group_id < 256 →
      27 ≤ c.member_count → c.member_count ≤ 128 →
      ∃ d1, switch_barrier_configure_group (some d) (some c) = (OMPI_SUCCESS, some d1) ∧
        (switch_barrier_calc_reg_addr (c.group_id + 1) SWITCH_BARRIER_REG_CONTROL,
          c.network_addrs.getD 26 0) ∈ d1.writes ∧
        load64 d1.regs
            (switch_barrier_calc_reg_addr (c.group_id + 1) SWITCH_BARRIER_REG_CONTROL) =
          c.network_addrs.getD 26 0 % 2 ^ 64) ∧
    (∃ d1, switch_barrier_configure_group (some switch_barrier_device_sample)
          (some switch_barrier_group_config_last_sample) = (OMPI_SUCCESS, some d1) ∧
        (SWITCH_BARRIER_REG_SPACE_SIZE,
          switch_barrier_group_config_last_sample.network_addrs.getD 21 0) ∈ d1.writes) := by
  have hcount : ∀ mc, mc ≤ 128 → switch_barrier_addr_count mc = mc := by
    intro mc h
    have h1 : mc < 2 ^ 31 := by omega
    simp only [switch_barrier_addr_count, h1, if_true, SWITCH_BARRIER_MAX_MEMBERS]
    omega
  have hspill : ∀ (d : switch_barrier_device_t) (c : switch_barrier_group_config_t),
      ¬ (NULL = d.base_addr ∨ d.base_addr = MAP_FAILED) →
      c.group_id < uint32_of_int d.num_groups → c.group_id < 256 →
      22 ≤ c.member_count → c.member_count ≤ 128 →
      ∃ d1, switch_barrier_configure_group (some d) (some c) = (OMPI_SUCCESS, some d1) ∧
        ((c.group_id + 1) * 0x100, c.network_addrs.getD 21 0) ∈ d1.writes := by
    intro d c hm hg hg256 h22 h128
    refine ⟨_, switch_barrier_configure_group_ok d c (by omega) hg hm, ?_⟩
    have hmem := switch_barrier_configure_group_sequence_addr_mem c hg256 21
      (by rw [hcount _ h128]; omega)
    have e : (c.group_id + 1) * 0x100 = c.group_id * 256 + 88 + 8 * 21 := by omega
    rw [e]
    exact List.mem_append_right _ hmem
  refine ⟨?_, hspill, ?_, ?_⟩
  · intro c hg hmc w hw
    rcases switch_barrier_configure_group_sequence_mem c hg w hw with h | ⟨i, hi, h⟩
    · omega
    · rw [hcount _ (by omega)] at hi
      rw [h]
      show c.group_id * 0x100 ≤ c.group_id * 256 + 88 + 8 * i ∧
        c.group_id * 256 + 88 + 8 * i + 8 ≤ (c.group_id + 1) * 0x100
      omega
  · intro d c hm hg hg256 h27 h128
    have hA : switch_barrier_calc_reg_addr (c.group_id + 1) SWITCH_BARRIER_REG_CONTROL =
        c.group_id * 256 + 88 + 8 * 26 := by
      simp only [switch_barrier_calc_reg_addr, SWITCH_BARRIER_GROUP_REG_STRIDE,
        SWITCH_BARRIER_REG_CONTROL]
      omega
    have hmem := switch_barrier_configure_group_sequence_addr_mem c hg256 26
      (by rw [hcount _ h128]; omega)
    refine ⟨_, switch_barrier_configure_group_ok d c (by omega) hg hm, ?_, ?_⟩
    · rw [hA]
      exact List.mem_append_right _ hmem
    · have hregs : (d.after_writes (switch_barrier_configure_group_sequence c)).regs =
          replay d.regs (switch_barrier_configure_group_sequence c) := by
        simp only [switch_barrier_device_t.after_writes]
      rw [hA, hregs]
      refine load64_replay_only (c.group_id * 256 + 88 + 8 * 26)
        (c.network_addrs.getD 26 0) (switch_barrier_configure_group_sequence c) d.regs ?_
        (Or.inl hmem)
      intro w hw
      rcases switch_barrier_configure_group_sequence_mem c hg256 w hw with h | ⟨i, hi, h⟩
      · right; right; omega
      · by_cases h26 : i = 26
        · left; rw [h, h26]
        · right
          rw [h]
          show c.group_id * 256 + 88 + 8 * 26 + 8 ≤ c.group_id * 256 + 88 + 8 * i ∨
            c.group_id * 256 + 88 + 8 * i + 8 ≤ c.group_id * 256 + 88 + 8 * 26
          omega
  · exact hspill switch_barrier_device_sample switch_barrier_group_config_last_sample
      (by decide) (by decide) (by decide) (by decide) (by decide)

/-- Witness for C33: configuring group 0 of the sample device for 27 members
stores the network address of member 26, `0x101b`, in the CONTROL register of
group 1, whose low bit (ENABLE) is thereby set. -/
theorem switch_configure_group_window_witness :
    ∃ d1, switch_barrier_configure_group (some switch_barrier_device_sample)
        (some switch_barrier_group_config_wide_sample) = (OMPI_SUCCESS, some d1) ∧
      (switch_barrier_calc_reg_addr (switch_barrier_group_config_wide_sample.group_id + 1)
          SWITCH_BARRIER_REG_CONTROL,
        switch_barrier_group_config_wide_sample.network_addrs.getD 26 0) ∈ d1.writes ∧
      load64 d1.regs
          (switch_barrier_calc_reg_addr (switch_barrier_group_config_wide_sample.group_id + 1)
            SWITCH_BARRIER_REG_CONTROL) =
        switch_barrier_group_config_wide_sample.network_addrs.getD 26 0 % 2 ^ 64 :=
  switch_configure_group_window.2.2.1 switch_barrier_device_sample
    switch_barrier_group_config_wide_sample (by decide) (by decide) (by decide) (by decide)
    (by decide)

/-! ## The switch destructor, repeated -/

theorem mca_coll_switch_barrier_module_destruct_offload (shl_ub : Nat → Nat)
    (w : switch_barrier_world) :
    (mca_coll_switch_barrier_module_destruct shl_ub w).module.offload_enabled =
        w.module.offload_enabled ∧
      (mca_coll_switch_barrier_module_destruct shl_ub w).module.device = w.module.device ∧
      (mca_coll_switch_barrier_module_destruct shl_ub w).module.group_config =
        w.module.group_config := by
  simp only [mca_coll_switch_barrier_module_destruct]
  split_ifs <;> exact ⟨rfl, rfl, rfl⟩

theorem mca_coll_switch_barrier_module_destruct_device (shl_ub : Nat → Nat)
    (w : switch_barrier_world) (he : w.module.offload_enabled = true)
    (hd : w.module.device = true)
    (hg : w.module.group_config.group_id < uint32_of_int w.device.num_groups) :
    (mca_coll_switch_barrier_module_destruct shl_ub w).device.group_allocation_mask =
        w.device.group_allocation_mask &&&
          ((2 ^ 64 - 1) ^^^ shl_1ULL shl_ub w.module.group_config.group_id) ∧
      (mca_coll_switch_barrier_module_destruct shl_ub w).device.num_groups =
        w.device.num_groups ∧
      (mca_coll_switch_barrier_module_destruct shl_ub w).device.writes = w.device.writes ++
        (if NULL = w.device.base_addr ∨ w.device.base_addr = MAP_FAILED then []
          else [(switch_barrier_calc_reg_addr w.module.group_config.group_id
            SWITCH_BARRIER_REG_CONTROL, 0)]) := by
  have h1 : ¬ w.module.group_config.group_id ≥ uint32_of_int w.device.num_groups := by omega
  by_cases hm : NULL = w.device.base_addr ∨ w.device.base_addr = MAP_FAILED
  · simp only [mca_coll_switch_barrier_module_destruct, he, hd, and_self, if_true,
      switch_barrier_free_group, switch_barrier_reg_write, h1, hm, if_false,
      Option.getD_some, List.append_nil]
  · simp only [mca_coll_switch_barrier_module_destruct, he, hd, and_self, if_true,
      switch_barrier_free_group, switch_barrier_reg_write, h1, hm, if_false,
      Option.getD_some]

/-- C38. What a second run of `mca_coll_switch_barrier_module_destruct` does.
The destructor does not clear `offload_enabled`, so after one run on an
offload-enabled module the flag is still true, and a second run calls
`switch_barrier_free_group` again: whatever the device state is by then, the
bit of the module's group id is clear in the allocation mask afterwards and the
device has received one more reset store.  On the enabled sample module
(group 1): after the first run group 1 is free, the next allocation gives
group 1 to another owner, and the second run clears its bit. -/
theorem switch_destruct_frees_twice :
    (∀ (shl_ub : Nat → Nat) (w : switch_barrier_world) (d2 : switch_barrier_device_t),
      w.module.offload_enabled = true → w.module.device = true →
      w.module.group_config.group_id < uint32_of_int d2.num_groups →
      w.module.group_config.group_id < 64 →
      (mca_coll_switch_barrier_module_destruct shl_ub w).module.offload_enabled = true ∧
      (mca_coll_switch_barrier_module_destruct shl_ub
        { mca_coll_switch_barrier_module_destruct shl_ub w with
          device := d2 }).device.group_allocation_mask.testBit
            w.module.group_config.group_id = false ∧
      (mca_coll_switch_barrier_module_destruct shl_ub
        { mca_coll_switch_barrier_module_destruct shl_ub w with
          device := d2 }).device.writes = d2.writes ++
        (if NULL = d2.base_addr ∨ d2.base_addr = MAP_FAILED then []
          else [(switch_barrier_calc_reg_addr w.module.group_config.group_id
            SWITCH_BARRIER_REG_CONTROL, 0)])) ∧
    (switch_barrier_world_enabled_sample.module.group_config.group_id = 1 ∧
      (switch_barrier_allocate_group shl_ub_mod64
        (some (mca_coll_switch_barrier_module_destruct shl_ub_mod64
          switch_barrier_world_enabled_sample).device) (some 0)).2.2 = some 1 ∧
      (((switch_barrier_allocate_group shl_ub_mod64
        (some (mca_coll_switch_barrier_module_destruct shl_ub_mod64
          switch_barrier_world_enabled_sample).device) (some 0)).2.1).map
            (fun d => d.group_allocation_mask.testBit 1)) = some true ∧
      (mca_coll_switch_barrier_module_destruct shl_ub_mod64
        { mca_coll_switch_barrier_module_destruct shl_ub_mod64
            switch_barrier_world_enabled_sample with
          device := ((switch_barrier_allocate_group shl_ub_mod64
            (some (mca_coll_switch_barrier_module_destruct shl_ub_mod64
              switch_barrier_world_enabled_sample).device) (some 0)).2.1).getD
                switch_barrier_device_sample }).device.group_allocation_mask.testBit 1
        = false) := by
  refine ⟨?_, by decide, by decide, by decide, by decide⟩
  intro shl_ub w d2 he hd hg hg64
  obtain ⟨k1, k2, k3⟩ := mca_coll_switch_barrier_module_destruct_offload shl_ub w
  obtain ⟨h1, _, h3⟩ := mca_coll_switch_barrier_module_destruct_device shl_ub
    { mca_coll_switch_barrier_module_destruct shl_ub w with device := d2 }
    (by rw [← he]; exact k1) (by rw [← hd]; exact k2)
    (by
      show (mca_coll_switch_barrier_module_destruct shl_ub w).module.group_config.group_id <
        uint32_of_int d2.num_groups
      rw [k3]; exact hg)
  have e : ({ mca_coll_switch_barrier_module_destruct shl_ub w with
      device := d2 } : switch_barrier_world).module.group_config =
      w.module.group_config := k3
  rw [e] at h1 h3
  refine ⟨by rw [k1]; exact he, ?_, h3⟩
  rw [h1]
  exact testBit_and_not_shl_1ULL shl_ub _ _ hg64

/-- Witness for C38: on the enabled sample module, with the device left by the
first run, the second run issues a second reset store for group 1. -/
theorem switch_destruct_frees_twice_witness :
    switch_barrier_world_enabled_sample.module.offload_enabled = true ∧
    (mca_coll_switch_barrier_module_destruct shl_ub_mod64
      switch_barrier_world_enabled_sample).module.offload_enabled = true ∧
    (mca_coll_switch_barrier_module_destruct shl_ub_mod64
      { mca_coll_switch_barrier_module_destruct shl_ub_mod64
          switch_barrier_world_enabled_sample with
        device := (mca_coll_switch_barrier_module_destruct shl_ub_mod64
          switch_barrier_world_enabled_sample).device }).device.group_allocation_mask.testBit
        switch_barrier_world_enabled_sample.module.group_config.group_id = false :=
  ⟨by decide,
    (switch_destruct_frees_twice.1 shl_ub_mod64 switch_barrier_world_enabled_sample
      (mca_coll_switch_barrier_module_destruct shl_ub_mod64
        switch_barrier_world_enabled_sample).device
      (by decide) (by decide) (by decide) (by decide)).1,
    (switch_destruct_frees_twice.1 shl_ub_mod64 switch_barrier_world_enabled_sample
      (mca_coll_switch_barrier_module_destruct shl_ub_mod64
        switch_barrier_world_enabled_sample).device
      (by decide) (by decide) (by decide) (by decide)).2.1⟩

/-! ## Runs of the IOMMU table -/

theorem switch_barrier_iommu_entry_set (c : switch_barrier_iommu_context_t) (k : Nat)
    (e : switch_barrier_iommu_mapping_t) (hk : k < c.mappings.length) (j : Nat) :
    (c.mappings.set k e).getD j ⟨0, 0, 0, 0, 0⟩ = if j = k then e else c.entry j := by
  rw [List.getD_eq_getElem?_getD]
  by_cases hj : j = k
  · subst hj
    rw [List.getElem?_set_self hk]
    simp
  · rw [List.getElem?_set_ne (Ne.symm hj)]
    simp [hj, switch_barrier_iommu_context_t.entry, List.getD_eq_getElem?_getD]

theorem switch_barrier_iommu_unmap_scan_some (ctx : switch_barrier_iommu_context_t)
    (iova n i g : Nat) :
    switch_barrier_iommu_unmap_scan ctx iova n i = some g ↔
      i ≤ g ∧ g < i + n ∧ ((ctx.entry g).valid ≠ 0 ∧ (ctx.entry g).iova = iova) ∧
        ∀ j, i ≤ j → j < g → ¬ ((ctx.entry j).valid ≠ 0 ∧ (ctx.entry j).iova = iova) := by
  induction n generalizing i with
  | zero => simp [switch_barrier_iommu_unmap_scan]; omega
  | succ n ih =>
    unfold switch_barrier_iommu_unmap_scan
    by_cases hb : (ctx.entry i).valid ≠ 0 ∧ (ctx.entry i).iova = iova
    · rw [if_pos hb]
      constructor
      · intro h
        have hg : i = g := by simpa using h
        subst hg
        exact ⟨le_refl _, by omega, hb, fun j h1 h2 => by omega⟩
      · rintro ⟨h1, _, _, h4⟩
        rcases Nat.eq_or_lt_of_le h1 with h | h
        · simp [h]
        · exact absurd hb (h4 i (le_refl _) h)
    · rw [if_neg hb, ih]
      constructor
      · rintro ⟨h1, h2, h3, h4⟩
        refine ⟨by omega, by omega, h3, fun j hj1 hj2 => ?_⟩
        rcases Nat.eq_or_lt_of_le hj1 with h | h
        · rw [← h]; exact hb
        · exact h4 j h hj2
      · rintro ⟨h1, h2, h3, h4⟩
        have hne : i ≠ g := by
          intro h; rw [h] at hb; exact hb h3
        exact ⟨by omega, by omega, h3, fun j hj1 hj2 => h4 j (by omega) hj2⟩

theorem switch_barrier_iommu_unmap_scan_none (ctx : switch_barrier_iommu_context_t)
    (iova n i : Nat) :
    switch_barrier_iommu_unmap_scan ctx iova n i = none ↔
      ∀ j, i ≤ j → j < i + n →
        ¬ ((ctx.entry j).valid ≠ 0 ∧ (ctx.entry j).iova = iova) := by
  induction n generalizing i with
  | zero => simp [switch_barrier_iommu_unmap_scan]; intro j h1 h2; omega
  | succ n ih =>
    unfold switch_barrier_iommu_unmap_scan
    by_cases hb : (ctx.entry i).valid ≠ 0 ∧ (ctx.entry i).iova = iova
    · rw [if_pos hb]
      simp only [reduceCtorEq, false_iff]
      intro h
      exact h i (le_refl _) (by omega) hb
    · rw [if_neg hb, ih]
      constructor
      · intro h j hj1 hj2
        rcases Nat.eq_or_lt_of_le hj1 with h' | h'
        · rw [← h']; exact hb
        · exact h j h' (by omega)
      · intro h j hj1 hj2
        exact h j (by omega) (by omega)

theorem switch_barrier_iommu_map_outcome (c : switch_barrier_iommu_context_t)
    (vaddr size : Nat) (iova : Option Nat)
    (hlen : c.mappings.length = c.max_mappings.toNat) :
    ((switch_barrier_iommu_map (some c) vaddr size iova).1 ≠ OMPI_SUCCESS ∧
      (switch_barrier_iommu_map (some c) vaddr size iova).2.1 = some c) ∨
    ∃ slot, slot < c.mappings.length ∧ (c.entry slot).valid = 0 ∧
      (∀ j, j < slot → (c.entry j).valid ≠ 0) ∧ vaddr ≠ NULL ∧ size ≠ 0 ∧
      switch_barrier_iommu_map (some c) vaddr size iova =
        (OMPI_SUCCESS,
          some ⟨c.iommu_fd, c.domain_id, c.iommu_handle,
            c.mappings.set slot ⟨vaddr, vaddr, size, PROT_READ_WRITE, 1⟩,
            max c.num_mappings (slot + 1), c.max_mappings⟩,
          some vaddr) := by
  have hne1 : OMPI_ERR_BAD_PARAM ≠ OMPI_SUCCESS := by decide
  have hne2 : OMPI_ERR_OUT_OF_RESOURCE ≠ OMPI_SUCCESS := by decide
  cases iova with
  | none => left; exact ⟨hne1, rfl⟩
  | some out0 =>
    by_cases hb : vaddr = NULL ∨ size = 0
    · left
      simp only [switch_barrier_iommu_map, hb, if_true]
      exact ⟨hne1, trivial⟩
    · have hv : vaddr ≠ NULL := fun h => hb (Or.inl h)
      have hs : size ≠ 0 := fun h => hb (Or.inr h)
      cases hsc : switch_barrier_iommu_map_scan c c.max_mappings.toNat 0 with
      | none =>
        left
        rw [switch_barrier_iommu_map_full c vaddr size out0 hv hs hsc]
        exact ⟨hne2, rfl⟩
      | some slot =>
        right
        have hsc2 := hsc
        rw [switch_barrier_iommu_map_scan_some] at hsc2
        obtain ⟨_, h2, h3, h4⟩ := hsc2
        refine ⟨slot, by omega, h3, fun j hj => h4 j (Nat.zero_le _) hj, hv, hs, ?_⟩
        rw [switch_barrier_iommu_map_slot c vaddr size out0 slot hv hs hsc]
        by_cases hn : (slot : Int) ≥ c.num_mappings
        · rw [if_pos hn]
          have : max c.num_mappings ((slot : Int) + 1) = slot + 1 := by omega
          rw [this]
        · rw [if_neg hn]
          have : max c.num_mappings ((slot : Int) + 1) = c.num_mappings := by omega
          rw [this]

theorem switch_barrier_iommu_unmap_outcome (c : switch_barrier_iommu_context_t)
    (iova : Nat) :
    (switch_barrier_iommu_unmap_scan c iova c.num_mappings.toNat 0 = none ∧
      switch_barrier_iommu_unmap (some c) iova = (OMPI_ERR_NOT_FOUND, some c)) ∨
    ∃ i, switch_barrier_iommu_unmap_scan c iova c.num_mappings.toNat 0 = some i ∧
      switch_barrier_iommu_unmap (some c) iova =
        (OMPI_SUCCESS,
          some ⟨c.iommu_fd, c.domain_id, c.iommu_handle,
            c.mappings.set i ⟨NULL, 0, 0, (c.entry i).prot, 0⟩,
            c.num_mappings, c.max_mappings⟩) := by
  cases hsc : switch_barrier_iommu_unmap_scan c iova c.num_mappings.toNat 0 with
  | none =>
    left
    refine ⟨rfl, ?_⟩
    simp only [switch_barrier_iommu_unmap, hsc]
  | some i =>
    right
    refine ⟨i, rfl, ?_⟩
    simp only [switch_barrier_iommu_unmap, hsc]

theorem switch_barrier_iommu_map_bounds (c : switch_barrier_iommu_context_t)
    (vaddr size : Nat) (iova : Option Nat) (hb : switch_barrier_iommu_table_bounds c) :
    switch_barrier_iommu_table_bounds
        (((switch_barrier_iommu_map (some c) vaddr size iova).2.1).getD c) ∧
      (((switch_barrier_iommu_map (some c) vaddr size iova).2.1).getD c).max_mappings =
        c.max_mappings := by
  obtain ⟨hlen, h0, hle, hval⟩ := hb
  rcases switch_barrier_iommu_map_outcome c vaddr size iova hlen with ⟨_, h⟩ | ⟨slot, h1, h2, h3, _, _, h⟩
  · rw [h]
    exact ⟨⟨hlen, h0, hle, hval⟩, rfl⟩
  · rw [h]
    refine ⟨⟨?_, ?_, ?_, ?_⟩, rfl⟩
    · simp only [Option.getD_some, List.length_set]
      exact hlen
    · simp only [Option.getD_some]
      omega
    · simp only [Option.getD_some]
      have : (slot : Int) < c.max_mappings := by omega
      omega
    · intro i hi
      simp only [Option.getD_some, switch_barrier_iommu_context_t.entry] at hi ⊢
      rw [switch_barrier_iommu_entry_set c slot _ h1 i] at hi
      by_cases his : i = slot
      · subst his
        omega
      · rw [if_neg his] at hi
        have := hval i hi
        omega

theorem switch_barrier_iommu_unmap_bounds (c : switch_barrier_iommu_context_t)
    (iova : Nat) (hb : switch_barrier_iommu_table_bounds c) :
    switch_barrier_iommu_table_bounds
        (((switch_barrier_iommu_unmap (some c) iova).2).getD c) ∧
      (((switch_barrier_iommu_unmap (some c) iova).2).getD c).max_mappings =
        c.max_mappings := by
  obtain ⟨hlen, h0, hle, hval⟩ := hb
  rcases switch_barrier_iommu_unmap_outcome c iova with ⟨_, h⟩ | ⟨i, hsc, h⟩
  · rw [h]
    exact ⟨⟨hlen, h0, hle, hval⟩, rfl⟩
  · rw [h]
    rw [switch_barrier_iommu_unmap_scan_some] at hsc
    obtain ⟨_, hi1, ⟨hv, _⟩, _⟩ := hsc
    have hil : i < c.mappings.length := by
      have := hval i hv
      omega
    refine ⟨⟨?_, h0, hle, ?_⟩, rfl⟩
    · simp only [Option.getD_some, List.length_set]
      exact hlen
    · intro j hj
      simp only [Option.getD_some, switch_barrier_iommu_context_t.entry] at hj ⊢
      rw [switch_barrier_iommu_entry_set c i _ hil j] at hj
      by_cases hji : j = i
      · rw [if_pos hji] at hj
        exact absurd rfl hj
      · rw [if_neg hji] at hj
        exact hval j hj

theorem switch_barrier_iommu_calls_bounds (cs : List switch_barrier_iommu_call) :
    ∀ c : switch_barrier_iommu_context_t, switch_barrier_iommu_table_bounds c →
      switch_barrier_iommu_table_bounds (switch_barrier_iommu_calls c cs) ∧
        (switch_barrier_iommu_calls c cs).max_mappings = c.max_mappings := by
  induction cs with
  | nil => intro c hb; exact ⟨hb, rfl⟩
  | cons op cs ih =>
    intro c hb
    cases op with
    | map vaddr size iova =>
      obtain ⟨h1, h2⟩ := switch_barrier_iommu_map_bounds c vaddr size iova hb
      obtain ⟨h3, h4⟩ := ih _ h1
      exact ⟨h3, by rw [← h2, ← h4]; rfl⟩
    | unmap iova =>
      obtain ⟨h1, h2⟩ := switch_barrier_iommu_unmap_bounds c iova hb
      obtain ⟨h3, h4⟩ := ih _ h1
      exact ⟨h3, by rw [← h2, ← h4]; rfl⟩

theorem switch_barrier_iommu_init_bounds (ctx0 c0 : switch_barrier_iommu_context_t)
    (device : Option switch_barrier_device_t) (calloc_ok : Bool)
    (hinit : switch_barrier_iommu_init (some ctx0) device calloc_ok =
      (OMPI_SUCCESS, some c0)) :
    switch_barrier_iommu_table_bounds c0 ∧ c0.max_mappings = 64 ∧ c0.num_mappings = 0 ∧
      ∀ i, (c0.entry i).valid = 0 := by
  cases calloc_ok with
  | false =>
    simp only [switch_barrier_iommu_init] at hinit
    have hne : OMPI_ERR_OUT_OF_RESOURCE ≠ OMPI_SUCCESS := by decide
    exact absurd (congrArg Prod.fst hinit) hne
  | true =>
    simp only [switch_barrier_iommu_init, if_true, Prod.mk.injEq, Option.some.injEq,
      true_and] at hinit
    subst hinit
    have hz : ∀ i, (switch_barrier_iommu_context_t.entry
        ⟨-1, -1, NULL, List.replicate (IOMMU_DEFAULT_MAX_MAPPINGS : Int).toNat ⟨0, 0, 0, 0, 0⟩,
          0, IOMMU_DEFAULT_MAX_MAPPINGS⟩ i).valid = 0 := by
      intro i
      simp only [switch_barrier_iommu_context_t.entry, List.getD_eq_getElem?_getD,
        List.getElem?_replicate]
      split_ifs <;> rfl
    refine ⟨⟨?_, ?_, ?_, ?_⟩, rfl, rfl, hz⟩
    · simp
    · exact le_refl _
    · decide
    · intro i hi
      exact absurd (hz i) hi

theorem switch_barrier_iommu_unmap_not_found_iff (c : switch_barrier_iommu_context_t)
    (iova : Nat) (hb : switch_barrier_iommu_table_bounds c) :
    ((switch_barrier_iommu_unmap (some c) iova).1 = OMPI_ERR_NOT_FOUND ↔
      ∀ i, (c.entry i).valid ≠ 0 → (c.entry i).iova ≠ iova) ∧
    ((switch_barrier_iommu_unmap (some c) iova).1 = OMPI_SUCCESS ↔
      ∃ i, (c.entry i).valid ≠ 0 ∧ (c.entry i).iova = iova) := by
  obtain ⟨hlen, h0, hle, hval⟩ := hb
  have hne : OMPI_SUCCESS ≠ OMPI_ERR_NOT_FOUND := by decide
  rcases switch_barrier_iommu_unmap_outcome c iova with ⟨hsc, h⟩ | ⟨i, hsc, h⟩
  · rw [h]
    rw [switch_barrier_iommu_unmap_scan_none] at hsc
    have hall : ∀ i, (c.entry i).valid ≠ 0 → (c.entry i).iova ≠ iova := by
      intro i hv he
      have := hval i hv
      exact hsc i (Nat.zero_le _) (by omega) ⟨hv, he⟩
    refine ⟨⟨fun _ => hall, fun _ => rfl⟩, ⟨fun h' => absurd h'.symm hne, ?_⟩⟩
    rintro ⟨i, hv, he⟩
    exact absurd he (hall i hv)
  · rw [h]
    rw [switch_barrier_iommu_unmap_scan_some] at hsc
    obtain ⟨_, _, ⟨hv, he⟩, _⟩ := hsc
    refine ⟨⟨fun h' => absurd h' hne, fun hall => absurd he (hall i hv)⟩,
      ⟨fun _ => ⟨i, hv, he⟩, fun _ => rfl⟩⟩

/-- C40. IOMMU table invariant.  In every context reached from a successful
`switch_barrier_iommu_init` by any sequence of `switch_barrier_iommu_map` and
`switch_barrier_iommu_unmap` calls, `0 ≤ num_mappings ≤ max_mappings = 64` and
every valid slot has an index below `num_mappings`.  Hence the bounded scan of
`switch_barrier_iommu_unmap` finds every valid mapping: unmapping the IOVA of a
valid slot returns `OMPI_SUCCESS`, and the call returns `OMPI_ERR_NOT_FOUND`
exactly when no valid slot holds the IOVA. -/
theorem switch_barrier_iommu_table_invariant
    (ctx0 c0 : switch_barrier_iommu_context_t) (device : Option switch_barrier_device_t)
    (calloc_ok : Bool) (cs : List switch_barrier_iommu_call)
    (hinit : switch_barrier_iommu_init (some ctx0) device calloc_ok =
      (OMPI_SUCCESS, some c0)) :
    0 ≤ (switch_barrier_iommu_calls c0 cs).num_mappings ∧
    (switch_barrier_iommu_calls c0 cs).num_mappings ≤
      (switch_barrier_iommu_calls c0 cs).max_mappings ∧
    (switch_barrier_iommu_calls c0 cs).max_mappings = 64 ∧
    (∀ i, ((switch_barrier_iommu_calls c0 cs).entry i).valid ≠ 0 →
      (i : Int) < (switch_barrier_iommu_calls c0 cs).num_mappings) ∧
    (∀ i, ((switch_barrier_iommu_calls c0 cs).entry i).valid ≠ 0 →
      (switch_barrier_iommu_unmap (some (switch_barrier_iommu_calls c0 cs))
        ((switch_barrier_iommu_calls c0 cs).entry i).iova).1 = OMPI_SUCCESS) ∧
    (∀ iova,
      (switch_barrier_iommu_unmap (some (switch_barrier_iommu_calls c0 cs)) iova).1 =
          OMPI_ERR_NOT_FOUND ↔
        ∀ i, ((switch_barrier_iommu_calls c0 cs).entry i).valid ≠ 0 →
          ((switch_barrier_iommu_calls c0 cs).entry i).iova ≠ iova) := by
  obtain ⟨hb0, hmax0, _, _⟩ := switch_barrier_iommu_init_bounds ctx0 c0 device calloc_ok hinit
  obtain ⟨hb, hmax⟩ := switch_barrier_iommu_calls_bounds cs c0 hb0
  refine ⟨hb.2.1, hb.2.2.1, by rw [hmax, hmax0], hb.2.2.2, ?_, ?_⟩
  · intro i hv
    exact (switch_barrier_iommu_unmap_not_found_iff _ _ hb).2.2 ⟨i, hv, rfl⟩
  · intro iova
    exact (switch_barrier_iommu_unmap_not_found_iff _ iova hb).1

/-- Witness for C40: after initialisation, two mappings and the unmapping of
the first, the table has `num_mappings = 2`, slot 1 alone is valid, and
unmapping `0x8000` is found while unmapping `0x7000` again is not. -/
theorem switch_barrier_iommu_table_invariant_witness :
    switch_barrier_iommu_init (some switch_barrier_iommu_context_used_sample) none true =
      (OMPI_SUCCESS, some switch_barrier_iommu_context_sample) ∧
    (switch_barrier_iommu_calls switch_barrier_iommu_context_sample
      [switch_barrier_iommu_call.map 0x7000 4096 (some 0),
       switch_barrier_iommu_call.map 0x8000 4096 (some 0),
       switch_barrier_iommu_call.unmap 0x7000]).num_mappings = 2 ∧
    (switch_barrier_iommu_unmap (some (switch_barrier_iommu_calls
      switch_barrier_iommu_context_sample
      [switch_barrier_iommu_call.map 0x7000 4096 (some 0),
       switch_barrier_iommu_call.map 0x8000 4096 (some 0),
       switch_barrier_iommu_call.unmap 0x7000])) 0x7000).1 = OMPI_ERR_NOT_FOUND ∧
    (0 : Int) ≤ (switch_barrier_iommu_calls switch_barrier_iommu_context_sample
      [switch_barrier_iommu_call.map 0x7000 4096 (some 0),
       switch_barrier_iommu_call.map 0x8000 4096 (some 0),
       switch_barrier_iommu_call.unmap 0x7000]).num_mappings :=
  ⟨by decide, by decide, by decide,
    (switch_barrier_iommu_table_invariant switch_barrier_iommu_context_used_sample
      switch_barrier_iommu_context_sample none true
      [switch_barrier_iommu_call.map 0x7000 4096 (some 0),
       switch_barrier_iommu_call.map 0x8000 4096 (some 0),
       switch_barrier_iommu_call.unmap 0x7000] (by decide)).1⟩

/-! ## IOMMU map and unmap round trip -/

theorem filter_set_of_rejected {α : Type} (p : α → Bool) (e : α) (he : p e = false) :
    ∀ (l : List α) (k : Nat), (∀ x, l[k]? = some x → p x = false) →
      (l.set k e).filter p = l.filter p := by
  intro l
  induction l with
  | nil => intro k _; rfl
  | cons a l ih =>
    intro k hk
    cases k with
    | zero =>
      have ha : p a = false := hk a (by simp)
      simp [List.filter_cons, he, ha]
    | succ k =>
      have := ih k (fun x hx => hk x (by simpa using hx))
      simp [List.filter_cons, this]

/-- C31 (amended). IOMMU map and unmap round trip.  For a table whose array has
`max_mappings` entries and a `(vaddr, size)` for which
`switch_barrier_iommu_map` succeeds returning `iova`, provided no valid mapping
of the table already holds that IOVA, the following
`switch_barrier_iommu_unmap` of `iova` returns `OMPI_SUCCESS` and the valid
mappings `(vaddr, iova, size)` are exactly what they were before the map: the
list of valid mappings is the same and every slot that was valid is unchanged,
every slot that was not valid is not valid. -/
theorem switch_barrier_iommu_map_unmap_roundtrip (c : switch_barrier_iommu_context_t)
    (vaddr size out0 : Nat) (hlen : c.mappings.length = c.max_mappings.toNat)
    (hsucc : (switch_barrier_iommu_map (some c) vaddr size (some out0)).1 = OMPI_SUCCESS)
    (hfresh : ∀ j, (c.entry j).valid ≠ 0 → (c.entry j).iova ≠ vaddr) :
    ∃ c1 iova c2,
      switch_barrier_iommu_map (some c) vaddr size (some out0) =
        (OMPI_SUCCESS, some c1, some iova) ∧
      switch_barrier_iommu_unmap (some c1) iova = (OMPI_SUCCESS, some c2) ∧
      switch_barrier_iommu_valid_mappings c2 = switch_barrier_iommu_valid_mappings c ∧
      (∀ j, (c2.entry j).valid ≠ 0 ↔ (c.entry j).valid ≠ 0) ∧
      (∀ j, (c.entry j).valid ≠ 0 → c2.entry j = c.entry j) := by
  rcases switch_barrier_iommu_map_outcome c vaddr size (some out0) hlen with
    ⟨h, _⟩ | ⟨slot, h1, h2, h3, _, _, h⟩
  · exact absurd hsucc h
  · have hent : ∀ j, (switch_barrier_iommu_context_t.entry
        ⟨c.iommu_fd, c.domain_id, c.iommu_handle,
          c.mappings.set slot ⟨vaddr, vaddr, size, PROT_READ_WRITE, 1⟩,
          max c.num_mappings (slot + 1), c.max_mappings⟩ j) =
        if j = slot then ⟨vaddr, vaddr, size, PROT_READ_WRITE, 1⟩ else c.entry j := by
      intro j
      exact switch_barrier_iommu_entry_set c slot _ h1 j
    have hscan : switch_barrier_iommu_unmap_scan
        ⟨c.iommu_fd, c.domain_id, c.iommu_handle,
          c.mappings.set slot ⟨vaddr, vaddr, size, PROT_READ_WRITE, 1⟩,
          max c.num_mappings (slot + 1), c.max_mappings⟩ vaddr
        (max c.num_mappings ((slot : Int) + 1)).toNat 0 = some slot := by
      rw [switch_barrier_iommu_unmap_scan_some]
      refine ⟨Nat.zero_le _, by omega, ?_, ?_⟩
      · rw [hent slot, if_pos rfl]
        exact ⟨by simp, rfl⟩
      · intro j _ hj
        rw [hent j, if_neg (by omega)]
        intro hx
        exact hfresh j hx.1 hx.2
    rcases switch_barrier_iommu_unmap_outcome
        ⟨c.iommu_fd, c.domain_id, c.iommu_handle,
          c.mappings.set slot ⟨vaddr, vaddr, size, PROT_READ_WRITE, 1⟩,
          max c.num_mappings (slot + 1), c.max_mappings⟩ vaddr with
      ⟨hn, _⟩ | ⟨i, hi, hu⟩
    · rw [hscan] at hn
      exact absurd hn (by simp)
    · rw [hscan] at hi
      have hi2 : slot = i := by simpa using hi
      subst hi2
      refine ⟨_, _, _, h, hu, ?_, ?_, ?_⟩
      · simp only [switch_barrier_iommu_valid_mappings, List.set_set]
        rw [filter_set_of_rejected _ _ (by simp) c.mappings slot]
        intro x hx
        have : c.entry slot = x := by
          simp [switch_barrier_iommu_context_t.entry, List.getD_eq_getElem?_getD, hx]
        rw [← this]
        simp [h2]
      · intro j
        simp only [switch_barrier_iommu_context_t.entry, List.set_set]
        rw [switch_barrier_iommu_entry_set c slot _ h1 j]
        by_cases hj : j = slot
        · rw [hj, if_pos rfl]
          have h2c := h2
          simp only [switch_barrier_iommu_context_t.entry,
            List.getD_eq_getElem?_getD] at h2c
          simp [h2c]
        · rw [if_neg hj]
          rfl
      · intro j hv
        simp only [switch_barrier_iommu_context_t.entry, List.set_set]
        rw [switch_barrier_iommu_entry_set c slot _ h1 j]
        have hj : j ≠ slot := by
          intro hj; rw [hj] at hv; exact hv h2
        rw [if_neg hj]
        rfl

/-- Witness for C31: on the table whose slots 0 and 1 hold the pages at 4096
and 8192, mapping the page at `0x7000` and unmapping the returned IOVA leaves
the two valid mappings as they were. -/
theorem switch_barrier_iommu_map_unmap_roundtrip_witness :
    (switch_barrier_iommu_map (some switch_barrier_iommu_context_used_sample)
      0x7000 4096 (some 0)).1 = OMPI_SUCCESS ∧
    ∃ c1 iova c2,
      switch_barrier_iommu_map (some switch_barrier_iommu_context_used_sample)
        0x7000 4096 (some 0) = (OMPI_SUCCESS, some c1, some iova) ∧
      switch_barrier_iommu_unmap (some c1) iova = (OMPI_SUCCESS, some c2) ∧
      switch_barrier_iommu_valid_mappings c2 =
        switch_barrier_iommu_valid_mappings switch_barrier_iommu_context_used_sample ∧
      (∀ j, (c2.entry j).valid ≠ 0 ↔
        (switch_barrier_iommu_context_used_sample.entry j).valid ≠ 0) ∧
      (∀ j, (switch_barrier_iommu_context_used_sample.entry j).valid ≠ 0 →
        c2.entry j = switch_barrier_iommu_context_used_sample.entry j) :=
  ⟨by decide,
    switch_barrier_iommu_map_unmap_roundtrip switch_barrier_iommu_context_used_sample
      0x7000 4096 0 (by decide) (by decide)
      (by
        intro j hv
        have hj : j < 2 := by
          by_contra hge
          have h2 : 2 ≤ j := by omega
          apply hv
          simp only [switch_barrier_iommu_context_t.entry,
            switch_barrier_iommu_context_used_sample, List.getD_eq_getElem?_getD]
          obtain ⟨k, rfl⟩ := Nat.exists_eq_add_of_le h2
          rw [show 2 + k = k + 1 + 1 by omega]
          simp only [List.getElem?_cons_succ, List.getElem?_replicate]
          split_ifs <;> rfl
        interval_cases j <;> decide)⟩

/-- Counterexample to C31 as stated: the table holds the valid mapping
`(4096, 4096, 4096)` in slot 0; mapping 8192 bytes at 4096 succeeds with IOVA
4096 in slot 2; the following unmap of IOVA 4096 returns `OMPI_SUCCESS` but
clears slot 0, so the valid mapping `(4096, 4096, 4096)` of before is gone and
`(4096, 4096, 8192)` has taken its place. -/
theorem switch_barrier_iommu_map_unmap_roundtrip_counterexample :
    switch_barrier_iommu_map (some switch_barrier_iommu_context_used_sample)
      4096 8192 (some 0) =
      (OMPI_SUCCESS,
        some { switch_barrier_iommu_context_used_sample with
          mappings := switch_barrier_iommu_context_used_sample.mappings.set 2
            ⟨4096, 4096, 8192, PROT_READ_WRITE, 1⟩,
          num_mappings := 3 },
        some 4096) ∧
    (switch_barrier_iommu_unmap
      (some { switch_barrier_iommu_context_used_sample with
        mappings := switch_barrier_iommu_context_used_sample.mappings.set 2
          ⟨4096, 4096, 8192, PROT_READ_WRITE, 1⟩,
        num_mappings := 3 }) 4096).1 = OMPI_SUCCESS ∧
    switch_barrier_iommu_valid_mappings switch_barrier_iommu_context_used_sample =
      [(4096, 4096, 4096), (8192, 8192, 4096)] ∧
    (((switch_barrier_iommu_unmap
      (some { switch_barrier_iommu_context_used_sample with
        mappings := switch_barrier_iommu_context_used_sample.mappings.set 2
          ⟨4096, 4096, 8192, PROT_READ_WRITE, 1⟩,
        num_mappings := 3 }) 4096).2).map switch_barrier_iommu_valid_mappings) =
      some [(8192, 8192, 4096), (4096, 4096, 8192)] := by
  refine ⟨by decide, by decide, by decide, by decide⟩

/-! ## Failure of the communicator-domain setup -/

theorem or_and_not_one_shiftLeft (mask g : Nat) (hm : mask < 2 ^ 32) (hg : g < 32)
    (hb : mask.testBit g = false) :
    (mask ||| (1 <<< g)) &&& ((2 ^ 32 - 1) ^^^ (1 <<< g)) = mask := by
  apply Nat.eq_of_testBit_eq
  intro j
  by_cases hj : j < 32
  · rw [testBit_and_not_one_shiftLeft _ _ _ hj, testBit_or_one_shiftLeft]
    by_cases hjg : j = g
    · subst hjg; simp [hb]
    · simp [hjg]
  · have h1 : mask.testBit j = false := by
      apply Nat.testBit_lt_two_pow
      calc mask < 2 ^ 32 := hm
        _ ≤ 2 ^ j := Nat.pow_le_pow_right (by decide) (by omega)
    have h2 : ((2 ^ 32 - 1) ^^^ (1 <<< g)).testBit j = false := by
      rw [Nat.one_shiftLeft, Nat.testBit_xor, Nat.testBit_two_pow_sub_one,
        Nat.testBit_two_pow]
      have : g ≠ j := by omega
      simp [hj, this]
    rw [Nat.testBit_and, h1, h2]
    simp

theorem or_one_shiftLeft_lt (mask g : Nat) (hm : mask < 2 ^ 32) (hg : g < 32) :
    mask ||| (1 <<< g) < 2 ^ 32 := by
  apply Nat.or_lt_two_pow hm
  rw [Nat.one_shiftLeft]
  exact Nat.pow_lt_pow_right (by decide) hg

theorem gba_allocate_group_outcome (d : gba_device_t) (g0 : Nat) :
    ((gba_allocate_group (some d) (some g0)).1 ≠ OMPI_SUCCESS ∧
      (gba_allocate_group (some d) (some g0)).2.1 = some d) ∨
    ∃ g, g < 32 ∧ d.group_alloc_mask.testBit g = false ∧
      gba_allocate_group (some d) (some g0) =
        (OMPI_SUCCESS, some { d with group_alloc_mask := d.group_alloc_mask ||| (1 <<< g) },
          some g) := by
  cases hs : gba_allocate_group_scan d.group_alloc_mask GBA_MAX_GROUPS 0 with
  | none =>
    left
    rw [gba_allocate_group_of_scan_none d g0 hs]
    have hne : OMPI_ERR_OUT_OF_RESOURCE ≠ OMPI_SUCCESS := by decide
    exact ⟨hne, rfl⟩
  | some i =>
    right
    have hs2 := hs
    rw [gba_allocate_group_scan_some] at hs2
    obtain ⟨_, h2, h3, _⟩ := hs2
    refine ⟨i, ?_, h3, by simp only [gba_allocate_group, hs]⟩
    simpa [GBA_MAX_GROUPS] using h2

theorem host_mmap_mapped (host : host_t) (n : Nat) :
    (host.mmap n).2.mapped =
      if (host.mmap n).1 = MAP_FAILED then host.mapped
      else host.mapped ++ [((host.mmap n).1, n)] := by
  unfold host_t.mmap
  cases host.mmap_results with
  | nil => simp
  | cons a rest =>
    by_cases ha : a = MAP_FAILED
    · simp [ha]
    · simp [ha]

theorem append_singleton_erase_perm {α : Type} [BEq α] [LawfulBEq α] (l : List α) (x : α) :
    ((l ++ [x]).erase x).Perm l := by
  induction l with
  | nil => simp
  | cons a l ih =>
    rw [List.cons_append, List.erase_cons]
    by_cases hax : (a == x) = true
    · rw [if_pos hax]
      have : a = x := by simpa using hax
      rw [this]
      exact List.perm_append_singleton x l
    · rw [if_neg hax]
      exact List.Perm.cons a ih

theorem gba_local_state_init_failure (s0 : gba_local_state_t) (c : gba_dma_context_t)
    (host : host_t)
    (h : (gba_local_state_init (some s0) (some c) host).1 ≠ OMPI_SUCCESS) :
    ∃ s1, (gba_local_state_init (some s0) (some c) host).2.1 = some s1 ∧
      (s1.flag_memory = NULL ∨ s1.flag_memory = MAP_FAILED) ∧
      ((gba_local_state_init (some s0) (some c) host).2.2.mapped).Perm host.mapped := by
  have hmm := host_mmap_mapped host host.page_size
  by_cases hf : (host.mmap host.page_size).1 = MAP_FAILED
  · rw [if_pos hf] at hmm
    refine ⟨⟨0, 0, MAP_FAILED, host.page_size, 0⟩,
      by simp only [gba_local_state_init, hf, if_true], Or.inr rfl, ?_⟩
    simp only [gba_local_state_init, hf, if_true]
    rw [hmm]
  · rw [if_neg hf] at hmm
    by_cases hb : (host.mmap host.page_size).1 = NULL ∨ host.page_size = 0
    · have hne : OMPI_ERR_BAD_PARAM ≠ OMPI_SUCCESS := by decide
      refine ⟨⟨(host.mmap host.page_size).1, 1, NULL, host.page_size, 0⟩,
        by simp only [gba_local_state_init, gba_dma_map, hf, hb, if_false, if_true,
          ne_eq, hne, not_false_eq_true, Option.getD_some], Or.inl rfl, ?_⟩
      simp only [gba_local_state_init, gba_dma_map, hf, hb, if_false, if_true,
        ne_eq, hne, not_false_eq_true, host_t.munmap, host_t.memset_zero]
      rw [hmm]
      exact append_singleton_erase_perm host.mapped
        ((host.mmap host.page_size).1, host.page_size)
    · exfalso
      apply h
      simp only [gba_local_state_init, gba_dma_map, hf, hb, if_false, ne_eq,
        not_true_eq_false]

theorem gba_local_state_init_success_nonnull (s0 : gba_local_state_t)
    (c : gba_dma_context_t) (host : host_t)
    (h : (gba_local_state_init (some s0) (some c) host).1 = OMPI_SUCCESS) :
    (host.mmap host.page_size).1 ≠ NULL := by
  intro hn
  have hf : ¬ NULL = MAP_FAILED := by decide
  simp [gba_local_state_init, gba_dma_map, hf, hn, OMPI_ERR_BAD_PARAM, OMPI_SUCCESS] at h

theorem gba_configure_group_frame (d : gba_device_t) (c : gba_group_config_t) :
    ∃ d1, (gba_configure_group (some d) (some c)).2 = some d1 ∧
      d1.group_alloc_mask = d.group_alloc_mask ∧ d1.base_addr = d.base_addr := by
  by_cases h : c.group_id < 32 ∧ ¬ (d.base_addr = NULL ∨ d.base_addr = MAP_FAILED)
  · rw [gba_configure_group_ok d c h.1 h.2]
    exact ⟨_, rfl, rfl, rfl⟩
  · rw [(gba_configure_group_fails d c h).1]
    exact ⟨_, rfl, rfl, rfl⟩

theorem gba_configure_comm_domain_outcome (module : mca_coll_gba_module_t)
    (comm : ompi_communicator_t) (device : gba_device_t) (dma_ctx : gba_dma_context_t)
    (host : host_t) (hmask : device.group_alloc_mask < 2 ^ 32) :
    ((gba_configure_comm_domain module comm device dma_ctx host).1 ≠ OMPI_SUCCESS ∧
      (gba_configure_comm_domain module comm device dma_ctx host).2.2.1.group_alloc_mask =
        device.group_alloc_mask ∧
      (gba_configure_comm_domain module comm device dma_ctx host).2.1.offload_enabled =
        module.offload_enabled ∧
      ((gba_configure_comm_domain module comm device dma_ctx host).2.2.2.2.mapped).Perm
        host.mapped ∧
      ((gba_configure_comm_domain module comm device dma_ctx host).2.1.local_state.flag_memory
          = module.local_state.flag_memory ∨
        (gba_configure_comm_domain module comm device dma_ctx host).2.1.local_state.flag_memory
          = NULL ∨
        (gba_configure_comm_domain module comm device dma_ctx host).2.1.local_state.flag_memory
          = MAP_FAILED)) ∨
    ((gba_configure_comm_domain module comm device dma_ctx host).1 = OMPI_SUCCESS ∧
      ∃ g, g < 32 ∧ device.group_alloc_mask.testBit g = false ∧
        (gba_configure_comm_domain module comm device dma_ctx host).2.2.1.group_alloc_mask =
          device.group_alloc_mask ||| (1 <<< g) ∧
        (gba_configure_comm_domain module comm device dma_ctx host).2.1.config.group_id = g ∧
        (gba_configure_comm_domain module comm device dma_ctx host).2.1.config.member_count =
          uint32_of_int comm.size ∧
        comm.size ≤ 708 ∧
        (gba_configure_comm_domain module comm device dma_ctx host).2.1.offload_enabled =
          true) := by
  have hneN : OMPI_ERR_NOT_SUPPORTED ≠ OMPI_SUCCESS := by decide
  have hneB : OMPI_ERR_BAD_PARAM ≠ OMPI_SUCCESS := by decide
  generalize hR : gba_configure_comm_domain module comm device dma_ctx host = R
  by_cases hsz : comm.size > GBA_MAX_MEMBERS
  · left
    simp only [gba_configure_comm_domain, hsz, if_true] at hR
    subst hR
    exact ⟨hneN, rfl, rfl, List.Perm.refl _, Or.inl rfl⟩
  have hsz708 : comm.size ≤ 708 := by
    have : (GBA_MAX_MEMBERS : Int) = 708 := rfl
    omega
  cases hdev : module.device with
  | false =>
    left
    simp only [gba_configure_comm_domain, hsz, if_false, hdev, gba_allocate_group,
      Bool.false_eq_true, ne_eq, hneB, not_false_eq_true, if_true, Option.getD_none] at hR
    subst hR
    exact ⟨hneB, rfl, rfl, List.Perm.refl _, Or.inl rfl⟩
  | true =>
    rcases gba_allocate_group_outcome device 0 with ⟨hne, hd⟩ | ⟨g, hg, hbit, hag⟩
    · left
      simp only [gba_configure_comm_domain, hsz, if_false, hdev, if_true, ne_eq, hne,
        not_false_eq_true, hd, Option.getD_some] at hR
      subst hR
      exact ⟨hne, rfl, rfl, List.Perm.refl _, Or.inl rfl⟩
    · obtain ⟨df, hfree, _, hfm⟩ := gba_free_group_mask
        { device with group_alloc_mask := device.group_alloc_mask ||| (1 <<< g) } g hg
      have hrest : df.group_alloc_mask = device.group_alloc_mask := by
        rw [hfm]
        exact or_and_not_one_shiftLeft _ _ hmask hg hbit
      simp only [gba_configure_comm_domain, hsz, if_false, hdev, if_true, hag, ne_eq,
        not_true_eq_false, Option.getD_some] at hR
      split_ifs at hR with h1 h2
      · right
        obtain ⟨d1, hc, hcm, _⟩ := gba_configure_group_frame
          { device with group_alloc_mask := device.group_alloc_mask ||| (1 <<< g) }
          ⟨g, uint32_of_int comm.size, uint32_of_int comm.rank,
            gba_configure_comm_domain_mask_loop comm.size.toNat 0
              (List.replicate GBA_MEMBER_MASK_WORDS 0)⟩
        rw [hc] at hR
        subst hR
        exact ⟨rfl, g, hg, hbit, hcm, rfl, rfl, hsz708, rfl⟩
      · left
        have hcf := gba_configure_group_fails
          { device with group_alloc_mask := device.group_alloc_mask ||| (1 <<< g) }
          ⟨g, uint32_of_int comm.size, uint32_of_int comm.rank,
            gba_configure_comm_domain_mask_loop comm.size.toNat 0
              (List.replicate GBA_MEMBER_MASK_WORDS 0)⟩
          (fun hh => h2 ((gba_configure_group_success_iff _ _).2 hh))
        obtain ⟨hinit0, hinit⟩ := gba_local_state_init_success module.local_state
          (some dma_ctx) host h1
        have hnn := gba_local_state_init_success_nonnull module.local_state dma_ctx host h1
        obtain ⟨s1, c1, hfini, hs1, _, _, _⟩ := gba_local_state_fini_effect
          ⟨(host.mmap host.page_size).1, 1, (host.mmap host.page_size).1, host.page_size,
            (host.mmap host.page_size).1⟩ dma_ctx
          ((host.mmap host.page_size).2.memset_zero (host.mmap host.page_size).1
            host.page_size) ⟨hnn, hinit0⟩
        rw [hcf.1, hinit] at hR
        simp only [Option.getD_some, hfini, hfree] at hR
        subst hR
        refine ⟨hcf.2, hrest, rfl, ?_, Or.inr (Or.inl hs1)⟩
        have hmm := host_mmap_mapped host host.page_size
        rw [if_neg hinit0] at hmm
        show (((host.mmap host.page_size).2.memset_zero (host.mmap host.page_size).1
          host.page_size).munmap (host.mmap host.page_size).1 host.page_size).mapped.Perm
            host.mapped
        simp only [host_t.munmap, host_t.memset_zero]
        rw [hmm]
        exact append_singleton_erase_perm host.mapped
          ((host.mmap host.page_size).1, host.page_size)
      · left
        obtain ⟨s1, hs1, hfl, hperm⟩ :=
          gba_local_state_init_failure module.local_state dma_ctx host h1
        rw [hfree] at hR
        subst hR
        refine ⟨h1, hrest, rfl, hperm, Or.inr ?_⟩
        show ((gba_local_state_init (some module.local_state) (some dma_ctx) host).2.1.getD
          module.local_state).flag_memory = NULL ∨ _
        rw [hs1]
        exact hfl

theorem or_and_not_of_and_eq_zero (mask x : Nat) (hm : mask < 2 ^ 64) (hx : x < 2 ^ 64)
    (hb : mask &&& x = 0) :
    (mask ||| x) &&& ((2 ^ 64 - 1) ^^^ x) = mask := by
  apply Nat.eq_of_testBit_eq
  intro j
  have hj0 : (mask.testBit j && x.testBit j) = false := by
    have := congrArg (fun y => Nat.testBit y j) hb
    simpa [Nat.testBit_and] using this
  rw [Nat.testBit_and, Nat.testBit_or, Nat.testBit_xor, Nat.testBit_two_pow_sub_one]
  by_cases hj : j < 64
  · cases hmj : mask.testBit j <;> cases hxj : x.testBit j <;> simp_all
  · have h1 : mask.testBit j = false := by
      apply Nat.testBit_lt_two_pow
      calc mask < 2 ^ 64 := hm
        _ ≤ 2 ^ j := Nat.pow_le_pow_right (by decide) (by omega)
    have h2 : x.testBit j = false := by
      apply Nat.testBit_lt_two_pow
      calc x < 2 ^ 64 := hx
        _ ≤ 2 ^ j := Nat.pow_le_pow_right (by decide) (by omega)
    simp [h1, h2, hj]

theorem uint32_of_int_of_nonneg (x : Int) (h0 : 0 ≤ x) (h1 : x < 2 ^ 32) :
    uint32_of_int x = x.toNat := by
  unfold uint32_of_int
  rw [Int.emod_eq_of_lt h0 h1]

theorem uint32_of_int_lt (x : Int) : uint32_of_int x < 2 ^ 32 := by
  unfold uint32_of_int
  have h1 : x % 2 ^ 32 < 2 ^ 32 := Int.emod_lt_of_pos _ (by decide)
  have h2 : 0 ≤ x % 2 ^ 32 := Int.emod_nonneg _ (by decide)
  omega

theorem switch_barrier_allocate_group_outcome (shl_ub : Nat → Nat)
    (d : switch_barrier_device_t) (g0 : Nat) :
    ((switch_barrier_allocate_group shl_ub (some d) (some g0)).1 ≠ OMPI_SUCCESS ∧
      (switch_barrier_allocate_group shl_ub (some d) (some g0)).2.1 = some d) ∨
    ∃ g, g < d.num_groups.toNat ∧ d.group_allocation_mask &&& shl_1ULL shl_ub g = 0 ∧
      switch_barrier_allocate_group shl_ub (some d) (some g0) =
        (OMPI_SUCCESS,
          some { d with group_allocation_mask :=
            d.group_allocation_mask ||| shl_1ULL shl_ub g },
          some g) := by
  cases hs : switch_barrier_allocate_group_scan shl_ub d.group_allocation_mask
      d.num_groups.toNat 0 with
  | none =>
    left
    have : switch_barrier_allocate_group shl_ub (some d) (some g0) =
        (OMPI_ERR_OUT_OF_RESOURCE, some d, some g0) := by
      simp only [switch_barrier_allocate_group, hs]
    rw [this]
    have hne : OMPI_ERR_OUT_OF_RESOURCE ≠ OMPI_SUCCESS := by decide
    exact ⟨hne, rfl⟩
  | some i =>
    right
    have hs2 := hs
    rw [switch_barrier_allocate_group_scan_some] at hs2
    obtain ⟨_, h2, h3, _⟩ := hs2
    exact ⟨i, by omega, h3, by simp only [switch_barrier_allocate_group, hs]⟩

theorem switch_barrier_configure_group_frame (d : switch_barrier_device_t)
    (c : switch_barrier_group_config_t) (hmc : c.member_count < 2 ^ 32) :
    ∃ d1, (switch_barrier_configure_group (some d) (some c)).2 = some d1 ∧
      d1.group_allocation_mask = d.group_allocation_mask ∧ d1.base_addr = d.base_addr ∧
      d1.num_groups = d.num_groups := by
  by_cases h : c.group_id < uint32_of_int d.num_groups ∧
      ¬ (NULL = d.base_addr ∨ d.base_addr = MAP_FAILED)
  · rw [switch_barrier_configure_group_ok d c hmc h.1 h.2]
    exact ⟨_, rfl, rfl, rfl, rfl⟩
  · rw [(switch_barrier_configure_group_fails d c h).1]
    exact ⟨_, rfl, rfl, rfl, rfl⟩

theorem switch_barrier_init_local_state_failure (s0 : switch_barrier_local_state_t)
    (ctxp : Option switch_barrier_iommu_context_t) (host : host_t)
    (h : (switch_barrier_init_local_state (some s0) ctxp host).1 ≠ OMPI_SUCCESS) :
    ∃ s1, (switch_barrier_init_local_state (some s0) ctxp host).2.1 = some s1 ∧
      (s1.flag_memory = NULL ∨ s1.flag_memory = MAP_FAILED) ∧
      ((switch_barrier_init_local_state (some s0) ctxp host).2.2.2.mapped).Perm
        host.mapped := by
  have hmm := host_mmap_mapped host host.page_size
  by_cases hf : (host.mmap host.page_size).1 = MAP_FAILED
  · rw [if_pos hf] at hmm
    refine ⟨⟨0, 0, 0, MAP_FAILED, host.page_size, 0⟩,
      by simp only [switch_barrier_init_local_state, hf, if_true], Or.inr rfl, ?_⟩
    simp only [switch_barrier_init_local_state, hf, if_true]
    rw [hmm]
  · rw [if_neg hf] at hmm
    cases ctxp with
    | none =>
      exfalso
      apply h
      simp only [switch_barrier_init_local_state, hf, if_false]
    | some c =>
      simp only [switch_barrier_init_local_state, hf, if_false] at h ⊢
      split_ifs at h ⊢ with hr
      · refine ⟨_, rfl, Or.inl rfl, ?_⟩
        simp only [host_t.munmap, host_t.memset_zero]
        rw [hmm]
        exact append_singleton_erase_perm host.mapped
          ((host.mmap host.page_size).1, host.page_size)
      · exact absurd rfl h

theorem switch_barrier_configure_comm_domain_failure (shl_ub : Nat → Nat)
    (module : mca_coll_switch_barrier_module_t) (comm : ompi_communicator_t)
    (device : switch_barrier_device_t) (iommu_ctx : switch_barrier_iommu_context_t)
    (host : host_t) (hmask : device.group_allocation_mask < 2 ^ 64)
    (hng : device.num_groups < 2 ^ 31) (hnn : (host.mmap host.page_size).1 ≠ NULL)
    (h : (switch_barrier_configure_comm_domain shl_ub module comm device iommu_ctx host).1 ≠
      OMPI_SUCCESS) :
    (switch_barrier_configure_comm_domain shl_ub module comm device iommu_ctx
        host).2.2.1.group_allocation_mask = device.group_allocation_mask ∧
      (switch_barrier_configure_comm_domain shl_ub module comm device iommu_ctx
        host).2.1.offload_enabled = module.offload_enabled ∧
      ((switch_barrier_configure_comm_domain shl_ub module comm device iommu_ctx
        host).2.2.2.2.mapped).Perm host.mapped ∧
      ((switch_barrier_configure_comm_domain shl_ub module comm device iommu_ctx
          host).2.1.local_state.flag_memory = module.local_state.flag_memory ∨
        (switch_barrier_configure_comm_domain shl_ub module comm device iommu_ctx
          host).2.1.local_state.flag_memory = NULL ∨
        (switch_barrier_configure_comm_domain shl_ub module comm device iommu_ctx
          host).2.1.local_state.flag_memory = MAP_FAILED) := by
  have hneB : OMPI_ERR_BAD_PARAM ≠ OMPI_SUCCESS := by decide
  generalize hR : switch_barrier_configure_comm_domain shl_ub module comm device iommu_ctx
    host = R at h
  by_cases hsz : comm.size > SWITCH_BARRIER_MAX_MEMBERS
  · simp only [switch_barrier_configure_comm_domain, hsz, if_true] at hR
    subst hR
    exact ⟨rfl, rfl, List.Perm.refl _, Or.inl rfl⟩
  cases hdev : module.device with
  | false =>
    simp only [switch_barrier_configure_comm_domain, hsz, if_false, hdev,
      switch_barrier_allocate_group, Bool.false_eq_true, ne_eq, hneB, not_false_eq_true,
      if_true, Option.getD_none] at hR
    subst hR
    exact ⟨rfl, rfl, List.Perm.refl _, Or.inl rfl⟩
  | true =>
    rcases switch_barrier_allocate_group_outcome shl_ub device 0 with
      ⟨hne, hd⟩ | ⟨g, hg, hbit, hag⟩
    · simp only [switch_barrier_configure_comm_domain, hsz, if_false, hdev, if_true, ne_eq,
        hne, not_false_eq_true, hd, Option.getD_some] at hR
      subst hR
      exact ⟨rfl, rfl, List.Perm.refl _, Or.inl rfl⟩
    · have hgu : g < uint32_of_int device.num_groups := by
        rw [uint32_of_int_of_nonneg device.num_groups (by omega) (by omega)]
        exact hg
      obtain ⟨df, hfree, _, hfm, _⟩ := switch_barrier_free_group_writes shl_ub
        { device with group_allocation_mask :=
            device.group_allocation_mask ||| shl_1ULL shl_ub g } g hgu
      have hrest : df.group_allocation_mask = device.group_allocation_mask := by
        rw [hfm]
        exact or_and_not_of_and_eq_zero _ _ hmask (shl_1ULL_lt shl_ub g) hbit
      have hmm := host_mmap_mapped host host.page_size
      obtain ⟨ctxp, hctx⟩ : ∃ ctxp, ctxp =
          (if module.iommu_ctx = true then some iommu_ctx else none) := ⟨_, rfl⟩
      simp only [switch_barrier_configure_comm_domain, hsz, if_false, hdev, if_true, hag,
        ne_eq, not_true_eq_false, Option.getD_some, ← hctx] at hR
      split_ifs at hR with h0 h1 h2
      · rw [hfree] at hR
        subst hR
        exact ⟨hrest, rfl, List.Perm.refl _, Or.inl rfl⟩
      · subst hR
        exact absurd rfl h
      · have hcf := switch_barrier_configure_group_fails
          { device with group_allocation_mask :=
              device.group_allocation_mask ||| shl_1ULL shl_ub g }
          ⟨g, uint32_of_int comm.size,
            switch_barrier_configure_comm_domain_mask_loop comm.size.toNat 0 [0, 0],
            (switch_barrier_configure_comm_domain_peer_loop comm comm.size.toNat 0
              module.group_config.network_addrs).2, uint32_of_int comm.rank⟩
          (fun hh => h2 ((switch_barrier_configure_group_success_iff _ _
            (uint32_of_int_lt _)).2 hh))
        obtain ⟨hinit0, st, c1, hinit, _, _, _, hst, hsz2, _⟩ :=
          switch_barrier_init_local_state_success module.local_state ctxp host h1
        obtain ⟨s1, c2, hfini, hs1, _⟩ := switch_barrier_fini_local_state_effect st c1
          ((host.mmap host.page_size).2.memset_zero (host.mmap host.page_size).1
            host.page_size)
          ⟨by rw [hst]; exact hnn, by rw [hst]; exact hinit0⟩
        rw [hcf.1, hinit] at hR
        simp only [Option.getD_some, hfini, hfree] at hR
        subst hR
        refine ⟨hrest, rfl, ?_, Or.inr (Or.inl hs1)⟩
        rw [if_neg hinit0] at hmm
        show (((host.mmap host.page_size).2.memset_zero (host.mmap host.page_size).1
          host.page_size).munmap st.flag_memory st.flag_memory_size).mapped.Perm
            host.mapped
        rw [hst, hsz2]
        simp only [host_t.munmap, host_t.memset_zero]
        rw [hmm]
        exact append_singleton_erase_perm host.mapped
          ((host.mmap host.page_size).1, host.page_size)
      · obtain ⟨s1, hs1, hfl, hperm⟩ :=
          switch_barrier_init_local_state_failure module.local_state ctxp host h1
        rw [hfree] at hR
        subst hR
        refine ⟨hrest, rfl, hperm, Or.inr ?_⟩
        show ((switch_barrier_init_local_state (some module.local_state) ctxp
          host).2.1.getD module.local_state).flag_memory = NULL ∨ _
        rw [hs1]
        exact hfl

/-- C36. Communicator-domain setup is atomic on failure.  For a module with
`offload_enabled` false, whenever `gba_configure_comm_domain` or
`switch_barrier_configure_comm_domain` returns an error (size over the member
limit, no free group, peer lookup failure, local-state failure, configure
failure), the allocation mask of the device equals its value before the call,
no flag memory remains mapped (the live mappings of the host are those of
before the call, and the module's `flag_memory` is what it was, `NULL` or
`MAP_FAILED`), and `offload_enabled` is still false.  The masks are taken in
their C ranges (`uint32_t`, `uint64_t`), `num_groups` in the range of `int`,
and `mmap` does not return `NULL`. -/
theorem comm_domain_setup_atomic_on_failure :
    (∀ (module : mca_coll_gba_module_t) (comm : ompi_communicator_t)
      (device : gba_device_t) (dma_ctx : gba_dma_context_t) (host : host_t),
      module.offload_enabled = false → device.group_alloc_mask < 2 ^ 32 →
      (gba_configure_comm_domain module comm device dma_ctx host).1 ≠ OMPI_SUCCESS →
      (gba_configure_comm_domain module comm device dma_ctx host).2.2.1.group_alloc_mask =
        device.group_alloc_mask ∧
      ((gba_configure_comm_domain module comm device dma_ctx host).2.2.2.2.mapped).Perm
        host.mapped ∧
      ((gba_configure_comm_domain module comm device dma_ctx
          host).2.1.local_state.flag_memory = module.local_state.flag_memory ∨
        (gba_configure_comm_domain module comm device dma_ctx
          host).2.1.local_state.flag_memory = NULL ∨
        (gba_configure_comm_domain module comm device dma_ctx
          host).2.1.local_state.flag_memory = MAP_FAILED) ∧
      (gba_configure_comm_domain module comm device dma_ctx host).2.1.offload_enabled =
        false) ∧
    (∀ (shl_ub : Nat → Nat) (module : mca_coll_switch_barrier_module_t)
      (comm : ompi_communicator_t) (device : switch_barrier_device_t)
      (iommu_ctx : switch_barrier_iommu_context_t) (host : host_t),
      module.offload_enabled = false → device.group_allocation_mask < 2 ^ 64 →
      device.num_groups < 2 ^ 31 → (host.mmap host.page_size).1 ≠ NULL →
      (switch_barrier_configure_comm_domain shl_ub module comm device iommu_ctx host).1 ≠
        OMPI_SUCCESS →
      (switch_barrier_configure_comm_domain shl_ub module comm device iommu_ctx
        host).2.2.1.group_allocation_mask = device.group_allocation_mask ∧
      ((switch_barrier_configure_comm_domain shl_ub module comm device iommu_ctx
        host).2.2.2.2.mapped).Perm host.mapped ∧
      ((switch_barrier_configure_comm_domain shl_ub module comm device iommu_ctx
          host).2.1.local_state.flag_memory = module.local_state.flag_memory ∨
        (switch_barrier_configure_comm_domain shl_ub module comm device iommu_ctx
          host).2.1.local_state.flag_memory = NULL ∨
        (switch_barrier_configure_comm_domain shl_ub module comm device iommu_ctx
          host).2.1.local_state.flag_memory = MAP_FAILED) ∧
      (switch_barrier_configure_comm_domain shl_ub module comm device iommu_ctx
        host).2.1.offload_enabled = false) := by
  constructor
  · intro module comm device dma_ctx host hoff hmask hfail
    rcases gba_configure_comm_domain_outcome module comm device dma_ctx host hmask with
      ⟨_, h1, h2, h3, h4⟩ | ⟨hs, _⟩
    · exact ⟨h1, h3, h4, by rw [h2, hoff]⟩
    · exact absurd hs hfail
  · intro shl_ub module comm device iommu_ctx host hoff hmask hng hnn hfail
    obtain ⟨h1, h2, h3, h4⟩ := switch_barrier_configure_comm_domain_failure shl_ub module
      comm device iommu_ctx host hmask hng hnn hfail
    exact ⟨h1, h3, h4, by rw [h2, hoff]⟩

/-- Witness for C36: on the sample worlds whose device has no mapping, the
group is allocated and the flag page mapped, `gba_configure_group` and
`switch_barrier_configure_group` fail, and the setup returns with the mask and
the live mappings of before. -/
theorem comm_domain_setup_atomic_on_failure_witness :
    ((gba_configure_comm_domain gba_world_unmapped_sample.module
        gba_world_unmapped_sample.comm gba_world_unmapped_sample.device
        gba_world_unmapped_sample.dma_ctx gba_world_unmapped_sample.host).1 ≠ OMPI_SUCCESS ∧
      (gba_configure_comm_domain gba_world_unmapped_sample.module
        gba_world_unmapped_sample.comm gba_world_unmapped_sample.device
        gba_world_unmapped_sample.dma_ctx
        gba_world_unmapped_sample.host).2.2.1.group_alloc_mask =
          gba_world_unmapped_sample.device.group_alloc_mask) ∧
    ((switch_barrier_configure_comm_domain shl_ub_mod64
        switch_barrier_world_unmapped_sample.module
        switch_barrier_world_unmapped_sample.comm switch_barrier_world_unmapped_sample.device
        switch_barrier_world_unmapped_sample.iommu_ctx
        switch_barrier_world_unmapped_sample.host).1 ≠ OMPI_SUCCESS ∧
      (switch_barrier_configure_comm_domain shl_ub_mod64
        switch_barrier_world_unmapped_sample.module
        switch_barrier_world_unmapped_sample.comm switch_barrier_world_unmapped_sample.device
        switch_barrier_world_unmapped_sample.iommu_ctx
        switch_barrier_world_unmapped_sample.host).2.2.1.group_allocation_mask =
          switch_barrier_world_unmapped_sample.device.group_allocation_mask) :=
  ⟨⟨by decide,
      (comm_domain_setup_atomic_on_failure.1 gba_world_unmapped_sample.module
        gba_world_unmapped_sample.comm gba_world_unmapped_sample.device
        gba_world_unmapped_sample.dma_ctx gba_world_unmapped_sample.host
        (by decide) (by decide) (by decide)).1⟩,
    ⟨by decide,
      (comm_domain_setup_atomic_on_failure.2 shl_ub_mod64
        switch_barrier_world_unmapped_sample.module
        switch_barrier_world_unmapped_sample.comm switch_barrier_world_unmapped_sample.device
        switch_barrier_world_unmapped_sample.iommu_ctx
        switch_barrier_world_unmapped_sample.host
        (by decide) (by decide) (by decide) (by decide) (by decide)).1⟩⟩

/-! ## Group ownership in a GBA component -/

theorem get?_set_of_get? {α : Type} (l : List α) (i j : Nat) (a b : α)
    (hi : l.get? i = some b) :
    (l.set i a).get? j = if j = i then some a else l.get? j := by
  rw [List.get?_eq_getElem?] at hi ⊢
  have hlt : i < l.length := by
    by_contra h
    rw [List.getElem?_eq_none (Nat.le_of_not_lt h)] at hi
    cases hi
  by_cases hj : j = i
  · subst hj
    rw [if_pos rfl, List.getElem?_set_self hlt]
  · rw [if_neg hj, List.getElem?_set_ne (Ne.symm hj), List.get?_eq_getElem?]

theorem gba_group_ownership_put (s : gba_system) (i : Nat) (m : mca_coll_gba_module_t)
    (c : ompi_communicator_t) (w' : gba_world)
    (hmask : s.device.group_alloc_mask < 2 ^ 32) (hown : gba_group_ownership s)
    (hi : s.modules.get? i = some (m, c))
    (heff : (w'.device.group_alloc_mask = s.device.group_alloc_mask ∧
        (w'.module.offload_enabled = true →
          m.offload_enabled = true ∧ w'.module.config = m.config)) ∨
      (m.offload_enabled = true ∧ w'.module.offload_enabled = false ∧
        w'.device.group_alloc_mask =
          s.device.group_alloc_mask &&& ((2 ^ 32 - 1) ^^^ (1 <<< m.config.group_id))) ∨
      (∃ g, g < 32 ∧ s.device.group_alloc_mask.testBit g = false ∧
        w'.device.group_alloc_mask = s.device.group_alloc_mask ||| (1 <<< g) ∧
        w'.module.offload_enabled = true ∧ w'.module.config.group_id = g ∧
        w'.module.config.member_count ≤ 708)) :
    (s.put i w').device.group_alloc_mask < 2 ^ 32 ∧ gba_group_ownership (s.put i w') := by
  obtain ⟨hown1, hown2⟩ := hown
  have hget : ∀ j, (s.put i w').modules.get? j =
      if j = i then some (w'.module, w'.comm) else s.modules.get? j :=
    fun j => get?_set_of_get? s.modules i j _ _ hi
  have hdev : (s.put i w').device = w'.device := rfl
  rcases heff with ⟨hm, hk⟩ | ⟨he, hoff, hm⟩ | ⟨g, hg, hbit, hm, hon, hgid, hcnt⟩
  · refine ⟨by rw [hdev, hm]; exact hmask, ?_, ?_⟩
    · intro j mj cj hj hen
      rw [hget j] at hj
      rw [hdev, hm]
      by_cases hji : j = i
      · rw [if_pos hji] at hj
        obtain ⟨rfl, rfl⟩ := Prod.mk.inj (Option.some.inj hj)
        obtain ⟨h1, h2⟩ := hk hen
        rw [h2]
        exact hown1 i m c hi h1
      · rw [if_neg hji] at hj
        exact hown1 j mj cj hj hen
    · intro j k mj cj mk ck hjk hj hk' hej hek
      rw [hget j] at hj
      rw [hget k] at hk'
      by_cases hji : j = i
      · rw [if_pos hji] at hj
        obtain ⟨rfl, rfl⟩ := Prod.mk.inj (Option.some.inj hj)
        have hki : k ≠ i := fun h => hjk (hji.trans h.symm)
        rw [if_neg hki] at hk'
        obtain ⟨h1, h2⟩ := hk hej
        rw [h2]
        exact hown2 i k m c mk ck (Ne.symm hki) hi hk' h1 hek
      · rw [if_neg hji] at hj
        by_cases hki : k = i
        · rw [if_pos hki] at hk'
          obtain ⟨rfl, rfl⟩ := Prod.mk.inj (Option.some.inj hk')
          obtain ⟨h1, h2⟩ := hk hek
          rw [h2]
          exact hown2 j i mj cj m c hji hj hi hej h1
        · rw [if_neg hki] at hk'
          exact hown2 j k mj cj mk ck hjk hj hk' hej hek
  · obtain ⟨hgi, _, _⟩ := hown1 i m c hi he
    refine ⟨by rw [hdev, hm]; exact and_not_one_shiftLeft_lt _ _ hgi, ?_, ?_⟩
    · intro j mj cj hj hen
      rw [hget j] at hj
      rw [hdev, hm]
      by_cases hji : j = i
      · rw [if_pos hji] at hj
        obtain ⟨rfl, rfl⟩ := Prod.mk.inj (Option.some.inj hj)
        rw [hoff] at hen
        cases hen
      · rw [if_neg hji] at hj
        obtain ⟨h1, h2, h3⟩ := hown1 j mj cj hj hen
        have hne := hown2 j i mj cj m c hji hj hi hen he
        refine ⟨h1, ?_, h3⟩
        rw [testBit_and_not_one_shiftLeft _ _ _ h1, h2]
        simp [hne]
    · intro j k mj cj mk ck hjk hj hk' hej hek
      rw [hget j] at hj
      rw [hget k] at hk'
      by_cases hji : j = i
      · rw [if_pos hji] at hj
        obtain ⟨rfl, rfl⟩ := Prod.mk.inj (Option.some.inj hj)
        rw [hoff] at hej
        cases hej
      · rw [if_neg hji] at hj
        by_cases hki : k = i
        · rw [if_pos hki] at hk'
          obtain ⟨rfl, rfl⟩ := Prod.mk.inj (Option.some.inj hk')
          rw [hoff] at hek
          cases hek
        · rw [if_neg hki] at hk'
          exact hown2 j k mj cj mk ck hjk hj hk' hej hek
  · refine ⟨by rw [hdev, hm]; exact or_one_shiftLeft_lt _ _ hmask hg, ?_, ?_⟩
    · intro j mj cj hj hen
      rw [hget j] at hj
      rw [hdev, hm]
      by_cases hji : j = i
      · rw [if_pos hji] at hj
        obtain ⟨rfl, rfl⟩ := Prod.mk.inj (Option.some.inj hj)
        rw [hgid]
        refine ⟨hg, ?_, hcnt⟩
        rw [testBit_or_one_shiftLeft]
        simp
      · rw [if_neg hji] at hj
        obtain ⟨h1, h2, h3⟩ := hown1 j mj cj hj hen
        refine ⟨h1, ?_, h3⟩
        rw [testBit_or_one_shiftLeft, h2]
        simp
    · intro j k mj cj mk ck hjk hj hk' hej hek
      rw [hget j] at hj
      rw [hget k] at hk'
      by_cases hji : j = i
      · rw [if_pos hji] at hj
        obtain ⟨rfl, rfl⟩ := Prod.mk.inj (Option.some.inj hj)
        have hki : k ≠ i := fun h => hjk (hji.trans h.symm)
        rw [if_neg hki] at hk'
        obtain ⟨_, h2, _⟩ := hown1 k mk ck hk' hek
        rw [hgid]
        intro heq
        rw [← heq, hbit] at h2
        cases h2
      · rw [if_neg hji] at hj
        by_cases hki : k = i
        · rw [if_pos hki] at hk'
          obtain ⟨rfl, rfl⟩ := Prod.mk.inj (Option.some.inj hk')
          obtain ⟨_, h2, _⟩ := hown1 j mj cj hj hej
          rw [hgid]
          intro heq
          rw [heq, hbit] at h2
          cases h2
        · rw [if_neg hki] at hk'
          exact hown2 j k mj cj mk ck hjk hj hk' hej hek

theorem mca_coll_gba_barrier_frame (env : coll_env) (w : gba_world) (observed : List Nat) :
    (mca_coll_gba_barrier env w observed).world.module.offload_enabled =
        w.module.offload_enabled ∧
      (mca_coll_gba_barrier env w observed).world.module.config = w.module.config ∧
      (mca_coll_gba_barrier env w observed).world.device.group_alloc_mask =
        w.device.group_alloc_mask ∧
      (mca_coll_gba_barrier env w observed).world.comm = w.comm := by
  cases he : w.module.offload_enabled with
  | false =>
    rw [mca_coll_gba_barrier, mca_coll_gba_barrier_with_disabled _ _ _ _ he]
    exact ⟨he, rfl, rfl, rfl⟩
  | true =>
    cases hd : w.module.device with
    | false =>
      simp only [mca_coll_gba_barrier, mca_coll_gba_barrier_with, he, hd, not_true_eq_false,
        if_false, gba_send_arrival, Bool.false_eq_true]
      exact ⟨trivial, trivial, trivial, trivial⟩
    | true =>
      by_cases hm : w.device.base_addr = NULL ∨ w.device.base_addr = MAP_FAILED
      · simp only [mca_coll_gba_barrier, mca_coll_gba_barrier_with, he, hd,
          not_true_eq_false, if_false, if_true, gba_send_arrival, hm]
        exact ⟨trivial, trivial, trivial, trivial⟩
      · obtain ⟨w1, h1, h2, _, _, _, h6, _, hb⟩ :=
          mca_coll_gba_barrier_enabled env w observed he hd hm
        rw [hb]
        refine ⟨?_, ?_, h6, h2⟩
        · show w1.module.offload_enabled = true
          rw [h1]
          exact he
        · show w1.module.config = w.module.config
          rw [h1]

theorem gba_system_call_effect (env : coll_env) (fns : coll_entry_points) (addr : Nat)
    (w : gba_world) (call : gba_system_call)
    (hmask : w.device.group_alloc_mask < 2 ^ 32) (hsize : 0 ≤ w.comm.size)
    (hgid : w.module.offload_enabled = true → w.module.config.group_id < 32)
    (hfresh : ∀ i, call = gba_system_call.enable i → w.module.offload_enabled = false) :
    (call.run env fns addr w).comm.size = w.comm.size ∧
    (((call.run env fns addr w).device.group_alloc_mask = w.device.group_alloc_mask ∧
        ((call.run env fns addr w).module.offload_enabled = true →
          w.module.offload_enabled = true ∧
            (call.run env fns addr w).module.config = w.module.config)) ∨
      (w.module.offload_enabled = true ∧
        (call.run env fns addr w).module.offload_enabled = false ∧
        (call.run env fns addr w).device.group_alloc_mask =
          w.device.group_alloc_mask &&&
            ((2 ^ 32 - 1) ^^^ (1 <<< w.module.config.group_id))) ∨
      (∃ g, g < 32 ∧ w.device.group_alloc_mask.testBit g = false ∧
        (call.run env fns addr w).device.group_alloc_mask =
          w.device.group_alloc_mask ||| (1 <<< g) ∧
        (call.run env fns addr w).module.offload_enabled = true ∧
        (call.run env fns addr w).module.config.group_id = g ∧
        (call.run env fns addr w).module.config.member_count ≤ 708)) := by
  cases call with
  | enable i =>
    have hoff := hfresh i rfl
    refine ⟨rfl, ?_⟩
    rcases gba_configure_comm_domain_outcome
        { w.module with
          previous_barrier := (MCA_COLL_SAVE_API_barrier w.comm).1,
          previous_barrier_module := (MCA_COLL_SAVE_API_barrier w.comm).2,
          previous_ibarrier := (MCA_COLL_SAVE_API_ibarrier w.comm).1,
          previous_ibarrier_module := (MCA_COLL_SAVE_API_ibarrier w.comm).2 }
        w.comm w.device w.dma_ctx w.host hmask with
      ⟨_, h1, h2, _, _⟩ | ⟨_, g, hg, hbit, h3, h4, h5, h6, h7⟩
    · left
      refine ⟨h1, ?_⟩
      intro hen
      have h2' : (gba_system_call.run env fns addr w
          (gba_system_call.enable i)).module.offload_enabled = w.module.offload_enabled := h2
      rw [h2', hoff] at hen
      cases hen
    · right; right
      refine ⟨g, hg, hbit, h3, h7, h4, ?_⟩
      have h5' : (gba_system_call.run env fns addr w
          (gba_system_call.enable i)).module.config.member_count =
          uint32_of_int w.comm.size := h5
      rw [h5', uint32_of_int_of_nonneg _ hsize (by omega)]
      omega
  | barrier i observed =>
    obtain ⟨h1, h2, h3, h4⟩ := mca_coll_gba_barrier_frame env w observed
    refine ⟨congrArg ompi_communicator_t.size h4, Or.inl ⟨h3, fun hen => ⟨?_, h2⟩⟩⟩
    rw [← h1]
    exact hen
  | ibarrier i request =>
    exact ⟨rfl, Or.inl ⟨rfl, fun hen => ⟨hen, rfl⟩⟩⟩
  | disable i =>
    refine ⟨?_, Or.inl ⟨rfl, fun hen => ⟨hen, rfl⟩⟩⟩
    simp only [gba_system_call.run, mca_coll_gba_module_disable,
      MCA_COLL_INSTALL_API_barrier, MCA_COLL_INSTALL_API_ibarrier]
    split_ifs <;> rfl
  | destruct i =>
    by_cases hc : w.module.offload_enabled = true ∧ w.module.device = true
    · obtain ⟨d1, hf, _, hfm⟩ := gba_free_group_mask w.device w.module.config.group_id
        (hgid hc.1)
      refine ⟨?_, Or.inr (Or.inl ⟨hc.1, ?_, ?_⟩)⟩
      · simp only [gba_system_call.run, mca_coll_gba_module_destruct, hc, and_self, if_true]
      · simp only [gba_system_call.run, mca_coll_gba_module_destruct, hc, and_self, if_true]
      · simp only [gba_system_call.run, mca_coll_gba_module_destruct, hc, and_self, if_true,
          hf, Option.getD_some]
        exact hfm
    · refine ⟨?_, Or.inl ⟨?_, fun hen => ⟨?_, ?_⟩⟩⟩
      · simp only [gba_system_call.run, mca_coll_gba_module_destruct, hc, if_false]
      · simp only [gba_system_call.run, mca_coll_gba_module_destruct, hc, if_false]
      · simp only [gba_system_call.run, mca_coll_gba_module_destruct, hc, if_false] at hen
        exact hen
      · simp only [gba_system_call.run, mca_coll_gba_module_destruct, hc, if_false]

theorem gba_system_step_ownership (env : coll_env) (fns : coll_entry_points)
    (module_addr : Nat → Nat) (s : gba_system) (call : gba_system_call)
    (hmask : s.device.group_alloc_mask < 2 ^ 32)
    (hsz : ∀ j m c, s.modules.get? j = some (m, c) → 0 ≤ c.size)
    (hown : gba_group_ownership s) (hfresh : gba_system_enable_fresh s call = true) :
    (gba_system_step env fns module_addr s call).device.group_alloc_mask < 2 ^ 32 ∧
      (∀ j m c, (gba_system_step env fns module_addr s call).modules.get? j = some (m, c) →
        0 ≤ c.size) ∧
      gba_group_ownership (gba_system_step env fns module_addr s call) := by
  unfold gba_system_step
  cases hi : s.modules.get? call.index with
  | none => exact ⟨hmask, hsz, hown⟩
  | some mc =>
    obtain ⟨m, c⟩ := mc
    have hfr : ∀ i, call = gba_system_call.enable i →
        (s.world (m, c)).module.offload_enabled = false := by
      intro i hc
      subst hc
      have hi' : s.modules.get? i = some (m, c) := hi
      simp only [gba_system_enable_fresh, hi', Bool.not_eq_true'] at hfresh
      exact hfresh
    obtain ⟨hsize, heff⟩ := gba_system_call_effect env fns (module_addr call.index)
      (s.world (m, c)) call hmask (hsz _ m c hi)
      (fun hen => (hown.1 _ m c hi hen).1) hfr
    obtain ⟨h1, h2⟩ := gba_group_ownership_put s call.index m c
      (call.run env fns (module_addr call.index) (s.world (m, c))) hmask hown hi heff
    refine ⟨h1, ?_, h2⟩
    intro j mj cj hj
    have hget := get?_set_of_get? s.modules call.index j
      ((call.run env fns (module_addr call.index) (s.world (m, c))).module,
        (call.run env fns (module_addr call.index) (s.world (m, c))).comm) (m, c) hi
    have hj' : (s.modules.set call.index
        ((call.run env fns (module_addr call.index) (s.world (m, c))).module,
          (call.run env fns (module_addr call.index) (s.world (m, c))).comm)).get? j =
        some (mj, cj) := hj
    rw [hget] at hj'
    by_cases hji : j = call.index
    · rw [if_pos hji] at hj'
      obtain ⟨rfl, rfl⟩ := Prod.mk.inj (Option.some.inj hj')
      rw [hsize]
      exact hsz _ m c hi
    · rw [if_neg hji] at hj'
      exact hsz j mj cj hj'

theorem gba_system_calls_ownership (env : coll_env) (fns : coll_entry_points)
    (module_addr : Nat → Nat) (cs : List gba_system_call) :
    ∀ s : gba_system, s.device.group_alloc_mask < 2 ^ 32 →
      (∀ j m c, s.modules.get? j = some (m, c) → 0 ≤ c.size) →
      gba_group_ownership s →
      gba_system_calls_enable_fresh env fns module_addr s cs = true →
      gba_group_ownership (gba_system_calls env fns module_addr s cs) := by
  induction cs with
  | nil => intro s _ _ hown _; exact hown
  | cons call cs ih =>
    intro s hmask hsz hown hfresh
    simp only [gba_system_calls_enable_fresh, Bool.and_eq_true] at hfresh
    obtain ⟨h1, h2, h3⟩ := gba_system_step_ownership env fns module_addr s call hmask hsz
      hown hfresh.1
    exact ih _ h1 h2 h3 hfresh.2

theorem gba_device_init_success (d0 d : gba_device_t) (path : Nat) (open_result : Int)
    (mmap_result : Nat)
    (h : gba_device_init (some d0) (some path) open_result mmap_result =
      (OMPI_SUCCESS, some d)) :
    d.group_alloc_mask = 0 ∧ d.num_groups = 32 ∧ d.base_addr = mmap_result ∧
      d.base_addr ≠ MAP_FAILED := by
  have hne : OMPI_ERR_NOT_AVAILABLE ≠ OMPI_SUCCESS := by decide
  simp only [gba_device_init] at h
  split_ifs at h with h1 h2
  · exact absurd (congrArg Prod.fst h) hne
  · exact absurd (congrArg Prod.fst h) hne
  · have e := Option.some.inj (congrArg Prod.snd h)
    subst e
    exact ⟨rfl, rfl, rfl, h2⟩

/-- C37 (amended). Group ownership invariant (GBA).  Start from a device that
`gba_device_init` has just initialised and any number of modules, none
offload-enabled, on communicators of non-negative size.  In every state reached
by a sequence of module enable, barrier, ibarrier, disable and destruct calls
in which enable is made only on modules that are not offload-enabled at that
point, each offload-enabled module has a group id below 32 whose bit is set in
the allocation mask and a member count of at most 708, and no two
offload-enabled modules hold the same group id. -/
theorem gba_group_ownership_invariant (env : coll_env) (fns : coll_entry_points)
    (module_addr : Nat → Nat) (d0 : gba_device_t) (path : Nat) (open_result : Int)
    (mmap_result : Nat) (s : gba_system) (cs : List gba_system_call)
    (hinit : gba_device_init (some d0) (some path) open_result mmap_result =
      (OMPI_SUCCESS, some s.device))
    (hmods : ∀ j m c, s.modules.get? j = some (m, c) →
      m.offload_enabled = false ∧ 0 ≤ c.size)
    (hfresh : gba_system_calls_enable_fresh env fns module_addr s cs = true) :
    (∀ i m c, (gba_system_calls env fns module_addr s cs).modules.get? i = some (m, c) →
      m.offload_enabled = true →
      m.config.group_id < 32 ∧
      (gba_system_calls env fns module_addr s cs).device.group_alloc_mask.testBit
        m.config.group_id = true ∧
      m.config.member_count ≤ 708) ∧
    (∀ i j mi ci mj cj, i ≠ j →
      (gba_system_calls env fns module_addr s cs).modules.get? i = some (mi, ci) →
      (gba_system_calls env fns module_addr s cs).modules.get? j = some (mj, cj) →
      mi.offload_enabled = true → mj.offload_enabled = true →
      mi.config.group_id ≠ mj.config.group_id) := by
  obtain ⟨hm0, _, _, _⟩ := gba_device_init_success d0 s.device path open_result mmap_result
    hinit
  have hown0 : gba_group_ownership s := by
    constructor
    · intro i m c hi hen
      rw [(hmods i m c hi).1] at hen
      cases hen
    · intro i j mi ci mj cj _ hi _ hen
      rw [(hmods i mi ci hi).1] at hen
      cases hen
  exact gba_system_calls_ownership env fns module_addr cs s (by rw [hm0]; decide)
    (fun j m c hj => (hmods j m c hj).2) hown0 hfresh

/-- Witness for C37: two modules on a fresh device; both are enabled, the first
runs a barrier and is disabled and destructed.  The second module keeps group 1
with its bit set. -/
theorem gba_group_ownership_invariant_witness :
    gba_device_init (some gba_device_unmapped_sample) (some 1) 3 4096 =
      (OMPI_SUCCESS, some gba_system_pair_sample.device) ∧
    gba_system_calls_enable_fresh coll_env_sample coll_entry_points_sample
      (fun i => 500 + i) gba_system_pair_sample
      [gba_system_call.enable 0, gba_system_call.enable 1,
       gba_system_call.barrier 0 [1], gba_system_call.disable 0,
       gba_system_call.destruct 0] = true ∧
    ((gba_system_calls coll_env_sample coll_entry_points_sample (fun i => 500 + i)
      gba_system_pair_sample
      [gba_system_call.enable 0, gba_system_call.enable 1,
       gba_system_call.barrier 0 [1], gba_system_call.disable 0,
       gba_system_call.destruct 0]).modules.map
        (fun mc => (mc.1.offload_enabled, mc.1.config.group_id))) =
      [(false, 0), (true, 1)] ∧
    (∀ i m c, (gba_system_calls coll_env_sample coll_entry_points_sample (fun i => 500 + i)
      gba_system_pair_sample
      [gba_system_call.enable 0, gba_system_call.enable 1,
       gba_system_call.barrier 0 [1], gba_system_call.disable 0,
       gba_system_call.destruct 0]).modules.get? i = some (m, c) →
      m.offload_enabled = true →
      m.config.group_id < 32 ∧
      (gba_system_calls coll_env_sample coll_entry_points_sample (fun i => 500 + i)
        gba_system_pair_sample
        [gba_system_call.enable 0, gba_system_call.enable 1,
         gba_system_call.barrier 0 [1], gba_system_call.disable 0,
         gba_system_call.destruct 0]).device.group_alloc_mask.testBit
          m.config.group_id = true ∧
      m.config.member_count ≤ 708) :=
  ⟨rfl, by decide, by decide,
    (gba_group_ownership_invariant coll_env_sample coll_entry_points_sample
      (fun i => 500 + i) gba_device_unmapped_sample 1 3 4096 gba_system_pair_sample
      [gba_system_call.enable 0, gba_system_call.enable 1,
       gba_system_call.barrier 0 [1], gba_system_call.disable 0,
       gba_system_call.destruct 0] rfl
      (by
        intro j m c hj
        have hj' : [(mca_coll_gba_module_sample, ompi_communicator_sample),
            (mca_coll_gba_module_sample, ompi_communicator_sample)].get? j = some (m, c) := hj
        match j, hj' with
        | 0, h =>
          obtain ⟨rfl, rfl⟩ := Prod.mk.inj (Option.some.inj h)
          exact ⟨rfl, by decide⟩
        | 1, h =>
          obtain ⟨rfl, rfl⟩ := Prod.mk.inj (Option.some.inj h)
          exact ⟨rfl, by decide⟩
        | n + 2, h => cases h)
      (by decide)).1⟩

/-- Counterexample to C37 as stated: on a fresh device, one module is enabled
(group 0) and enabled again while the host has no page left.  The second
`gba_configure_comm_domain` allocates group 1, stores it in the module, fails in
`gba_local_state_init` and frees group 1; the module is still offload-enabled,
its group id is 1, and bit 1 of the allocation mask is clear. -/
theorem gba_group_ownership_invariant_counterexample :
    gba_device_init (some gba_device_unmapped_sample) (some 1) 3 4096 =
      (OMPI_SUCCESS, some gba_system_sample.device) ∧
    gba_system_sample.modules.map (fun mc => mc.1.offload_enabled) = [false] ∧
    ((gba_system_calls coll_env_sample coll_entry_points_sample (fun i => 500 + i)
      gba_system_sample
      [gba_system_call.enable 0, gba_system_call.enable 0]).modules.map
        (fun mc => (mc.1.offload_enabled, mc.1.config.group_id))) = [(true, 1)] ∧
    (gba_system_calls coll_env_sample coll_entry_points_sample (fun i => 500 + i)
      gba_system_sample
      [gba_system_call.enable 0, gba_system_call.enable 0]).device.group_alloc_mask.testBit
        1 = false := by
  refine ⟨rfl, by decide, by decide, by decide⟩

/-! ## Liveness with the device test double -/

theorem mca_coll_gba_barrier_poll_loop_flag (state : gba_local_state_t) (sequence : Nat) :
    ∀ (observed : List Nat) (host : host_t) (n : Nat),
      (mca_coll_gba_barrier_poll_loop state sequence observed host n).1 = some MPI_SUCCESS →
      sequence ≤ load64 (mca_coll_gba_barrier_poll_loop state sequence observed host n).2.1.mem
        state.release_flag := by
  intro observed
  induction observed with
  | nil =>
    intro host n h
    simp [mca_coll_gba_barrier_poll_loop] at h
  | cons x rest ih =>
    intro host n h
    by_cases hx : gba_poll_release state sequence
        { host with mem := store64 host.mem state.release_flag x } = true
    · simp only [mca_coll_gba_barrier_poll_loop, hx, if_true]
      simpa [gba_poll_release] using hx
    · simp only [mca_coll_gba_barrier_poll_loop, hx, if_false] at h ⊢
      exact ih _ _ h

theorem mca_coll_gba_barrier_released (env : coll_env) (w : gba_world)
    (observed : List Nat) (he : w.module.offload_enabled = true)
    (hd : w.module.device = true)
    (hm : ¬ (w.device.base_addr = NULL ∨ w.device.base_addr = MAP_FAILED))
    (hobs : ∃ v ∈ observed, (w.module.barrier_seq + 1) % 2 ^ 32 ≤ v % 2 ^ 64) :
    (mca_coll_gba_barrier env w observed).ret = some MPI_SUCCESS ∧
      (mca_coll_gba_barrier env w observed).sequence =
        some ((w.module.barrier_seq + 1) % 2 ^ 32) ∧
      (w.module.barrier_seq + 1) % 2 ^ 32 ≤
        load64 (mca_coll_gba_barrier env w observed).world.host.mem
          w.module.local_state.release_flag := by
  obtain ⟨w1, _, _, _, _, _, _, _, hb⟩ := mca_coll_gba_barrier_enabled env w observed he hd hm
  have hret := mca_coll_gba_barrier_poll_loop_returns w.module.local_state
    ((w.module.barrier_seq + 1) % 2 ^ 32) observed w.host 0 hobs
  rw [hb]
  exact ⟨hret, rfl, mca_coll_gba_barrier_poll_loop_flag _ _ _ _ _ hret⟩

theorem mca_coll_gba_barrier_arrival_trace (env : coll_env) (w : gba_world)
    (observed : List Nat) (he : w.module.offload_enabled = true)
    (hd : w.module.device = true)
    (hm : ¬ (w.device.base_addr = NULL ∨ w.device.base_addr = MAP_FAILED)) :
    (mca_coll_gba_barrier env w observed).world.device.writes = w.device.writes ++
        [(GBA_GROUP_REG_BASE w.module.config.group_id % 2 ^ 32 + GBA_REG_ARRIVAL_COUNT,
          ((((w.module.barrier_seq + 1) % 2 ^ 32) <<< 32) % 2 ^ 64) |||
            w.module.config.local_member_id)] ∧
      (mca_coll_gba_barrier env w observed).world.device.base_addr = w.device.base_addr := by
  obtain ⟨w1, _, _, _, _, h5, _, h7, hb⟩ :=
    mca_coll_gba_barrier_enabled env w observed he hd hm
  rw [hb]
  exact ⟨h7, h5⟩

/-- C32. Protocol liveness with a device test double.  Two participants share
one mapped device and one configured group, both offload-enabled with the same
sequence counter, so both issue their arrival for the same sequence `s`; the
simulated device writes `s` to each member's release flag once every member has
stored an arrival for `s`.  Then both `mca_coll_gba_barrier` calls return
`MPI_SUCCESS` for sequence `s`, both release flags end with a value `>= s`, and
the arrivals of both members are in the store trace of the device. -/
theorem gba_double_round_liveness (env : coll_env) (wa wb : gba_world) (k : Nat)
    (hea : wa.module.offload_enabled = true) (heb : wb.module.offload_enabled = true)
    (hda : wa.module.device = true) (hdb : wb.module.device = true)
    (hm : ¬ (wa.device.base_addr = NULL ∨ wa.device.base_addr = MAP_FAILED))
    (hgroup : wb.module.config.group_id = wa.module.config.group_id)
    (hseq : wb.module.barrier_seq = wa.module.barrier_seq) :
    (gba_double_round env wa wb k).1.ret = some MPI_SUCCESS ∧
    (gba_double_round env wa wb k).2.ret = some MPI_SUCCESS ∧
    (gba_double_round env wa wb k).1.sequence =
      some ((wa.module.barrier_seq + 1) % 2 ^ 32) ∧
    (gba_double_round env wa wb k).2.sequence =
      some ((wa.module.barrier_seq + 1) % 2 ^ 32) ∧
    (wa.module.barrier_seq + 1) % 2 ^ 32 ≤
      load64 (gba_double_round env wa wb k).1.world.host.mem
        wa.module.local_state.release_flag ∧
    (wa.module.barrier_seq + 1) % 2 ^ 32 ≤
      load64 (gba_double_round env wa wb k).2.world.host.mem
        wb.module.local_state.release_flag ∧
    gba_double_arrived (gba_double_round env wa wb k).2.world.device
      wa.module.config.group_id wa.module.config.local_member_id
      ((wa.module.barrier_seq + 1) % 2 ^ 32) = true ∧
    gba_double_arrived (gba_double_round env wa wb k).2.world.device
      wa.module.config.group_id wb.module.config.local_member_id
      ((wa.module.barrier_seq + 1) % 2 ^ 32) = true := by
  obtain ⟨hwa, hba⟩ := mca_coll_gba_barrier_arrival_trace env wa [] hea hda hm
  have hmb : ¬ (({ wb with device := (mca_coll_gba_barrier env wa []).world.device } :
      gba_world).device.base_addr = NULL ∨
      ({ wb with device := (mca_coll_gba_barrier env wa []).world.device } :
        gba_world).device.base_addr = MAP_FAILED) := by
    show ¬ ((mca_coll_gba_barrier env wa []).world.device.base_addr = NULL ∨
      (mca_coll_gba_barrier env wa []).world.device.base_addr = MAP_FAILED)
    rw [hba]
    exact hm
  have htrace : ∀ obs, (mca_coll_gba_barrier env
      { wb with device := (mca_coll_gba_barrier env wa []).world.device }
      obs).world.device.writes =
      (wa.device.writes ++
        [(GBA_GROUP_REG_BASE wa.module.config.group_id % 2 ^ 32 + GBA_REG_ARRIVAL_COUNT,
          ((((wa.module.barrier_seq + 1) % 2 ^ 32) <<< 32) % 2 ^ 64) |||
            wa.module.config.local_member_id)]) ++
        [(GBA_GROUP_REG_BASE wa.module.config.group_id % 2 ^ 32 + GBA_REG_ARRIVAL_COUNT,
          ((((wa.module.barrier_seq + 1) % 2 ^ 32) <<< 32) % 2 ^ 64) |||
            wb.module.config.local_member_id)] := by
    intro obs
    have h := (mca_coll_gba_barrier_arrival_trace env
      { wb with device := (mca_coll_gba_barrier env wa []).world.device } obs heb hdb hmb).1
    rw [h]
    show (mca_coll_gba_barrier env wa []).world.device.writes ++
      [(GBA_GROUP_REG_BASE wb.module.config.group_id % 2 ^ 32 + GBA_REG_ARRIVAL_COUNT,
        ((((wb.module.barrier_seq + 1) % 2 ^ 32) <<< 32) % 2 ^ 64) |||
          wb.module.config.local_member_id)] = _
    rw [hwa, hgroup, hseq]
  have harr : ∀ obs, gba_double_arrived (mca_coll_gba_barrier env
        { wb with device := (mca_coll_gba_barrier env wa []).world.device } obs).world.device
        wa.module.config.group_id wa.module.config.local_member_id
        ((wa.module.barrier_seq + 1) % 2 ^ 32) = true ∧
      gba_double_arrived (mca_coll_gba_barrier env
        { wb with device := (mca_coll_gba_barrier env wa []).world.device } obs).world.device
        wa.module.config.group_id wb.module.config.local_member_id
        ((wa.module.barrier_seq + 1) % 2 ^ 32) = true := by
    intro obs
    simp only [gba_double_arrived, htrace obs, decide_eq_true_eq]
    constructor
    · simp
    · simp
  have hrel : ∀ old, gba_double_release (mca_coll_gba_barrier env
        { wb with device := (mca_coll_gba_barrier env wa []).world.device } []).world.device
        wa.module.config.group_id
        [wa.module.config.local_member_id, wb.module.config.local_member_id]
        ((wa.module.barrier_seq + 1) % 2 ^ 32) old = (wa.module.barrier_seq + 1) % 2 ^ 32 := by
    intro old
    simp only [gba_double_release, List.all_cons, List.all_nil, (harr []).1, (harr []).2,
      Bool.and_self, if_true]
  have hs64 : (wa.module.barrier_seq + 1) % 2 ^ 32 ≤
      ((wa.module.barrier_seq + 1) % 2 ^ 32) % 2 ^ 64 := by
    have h32 : (wa.module.barrier_seq + 1) % 2 ^ 32 < 2 ^ 32 := Nat.mod_lt _ (by decide)
    have h64 : (wa.module.barrier_seq + 1) % 2 ^ 32 < 2 ^ 64 :=
      Nat.lt_of_lt_of_le h32 (by norm_num)
    rw [Nat.mod_eq_of_lt h64]
  obtain ⟨ha1, ha2, ha3⟩ := mca_coll_gba_barrier_released env wa
    (List.replicate k (gba_double_release (mca_coll_gba_barrier env wa []).world.device
        wa.module.config.group_id
        [wa.module.config.local_member_id, wb.module.config.local_member_id]
        ((wa.module.barrier_seq + 1) % 2 ^ 32)
        (load64 wa.host.mem wa.module.local_state.release_flag)) ++
      [gba_double_release (mca_coll_gba_barrier env
        { wb with device := (mca_coll_gba_barrier env wa []).world.device } []).world.device
        wa.module.config.group_id
        [wa.module.config.local_member_id, wb.module.config.local_member_id]
        ((wa.module.barrier_seq + 1) % 2 ^ 32)
        (load64 wa.host.mem wa.module.local_state.release_flag)])
    hea hda hm
    ⟨_, List.mem_append_right _ (List.mem_singleton.2 rfl), by rw [hrel]; exact hs64⟩
  obtain ⟨hb1, hb2, hb3⟩ := mca_coll_gba_barrier_released env
    { wb with device := (mca_coll_gba_barrier env wa []).world.device }
    [gba_double_release (mca_coll_gba_barrier env
        { wb with device := (mca_coll_gba_barrier env wa []).world.device } []).world.device
        wa.module.config.group_id
        [wa.module.config.local_member_id, wb.module.config.local_member_id]
        ((wa.module.barrier_seq + 1) % 2 ^ 32)
        (load64 wb.host.mem wb.module.local_state.release_flag)]
    heb hdb hmb
    ⟨_, List.mem_singleton.2 rfl, by
      rw [hrel]
      show (wb.module.barrier_seq + 1) % 2 ^ 32 ≤ _
      rw [hseq]
      exact hs64⟩
  have hb2' : (gba_double_round env wa wb k).2.sequence =
      some ((wb.module.barrier_seq + 1) % 2 ^ 32) := hb2
  have hb3' : (wb.module.barrier_seq + 1) % 2 ^ 32 ≤
      load64 (gba_double_round env wa wb k).2.world.host.mem
        wb.module.local_state.release_flag := hb3
  rw [hseq] at hb2' hb3'
  exact ⟨ha1, hb1, ha2, hb2', ha3, hb3', (harr _).1, (harr _).2⟩

/-- Witness for C32: the enabled sample module (group 1, member 1) and its
peer (member 2) on the sample device; the first participant polls three times
before the second arrives.  Both calls return `MPI_SUCCESS` for sequence 1. -/
theorem gba_double_round_liveness_witness :
    gba_world_enabled_sample.module.offload_enabled = true ∧
    gba_world_enabled_peer_sample.module.config.group_id =
      gba_world_enabled_sample.module.config.group_id ∧
    (gba_double_round coll_env_sample gba_world_enabled_sample
      gba_world_enabled_peer_sample 3).1.ret = some MPI_SUCCESS ∧
    (gba_double_round coll_env_sample gba_world_enabled_sample
      gba_world_enabled_peer_sample 3).2.ret = some MPI_SUCCESS ∧
    (gba_double_round coll_env_sample gba_world_enabled_sample
      gba_world_enabled_peer_sample 3).1.progress_calls = 3 :=
  ⟨by decide, by decide,
    (gba_double_round_liveness coll_env_sample gba_world_enabled_sample
      gba_world_enabled_peer_sample 3 (by decide) (by decide) (by decide) (by decide)
      (by decide) (by decide) (by decide)).1,
    (gba_double_round_liveness coll_env_sample gba_world_enabled_sample
      gba_world_enabled_peer_sample 3 (by decide) (by decide) (by decide) (by decide)
      (by decide) (by decide) (by decide)).2.1,
    by decide⟩
